import Mathlib

/-!
# Motorcycle graph tracer (CGAL `Polyline_tracing/Motorcycle_graph.h`)

Shallow embedding of the collision record, the motorcycle model and the driver
operations of `Motorcycle_graph.h`, followed by the properties proved about them.
The angle selection of `Algebraic_kernel_d/Rotated_algebraic_curve_kernel_2.h` is embedded in
the namespace `Rotated_algebraic_curve_kernel_2`, after the definitions of the tracer.

Conventions of the embedding:
* the number type `FT` is embedded as `ℚ`, and the operations on it are exact; the functions
  whose times and locations depend on the rounding of a floating number type are embedded a
  second time, with the operations of `double`, in the namespace `Double`;
* `std::numeric_limits<FT>::max()` and `std::numeric_limits<FT>::epsilon()` are constants of
  the number type: they are parameters (`FT_max`, `FT_eps`) of the definitions that use them;
* a dictionary iterator `DEC_it` is an index into the dictionary's entry container, the
  default-constructed iterator `DEC_it()` is `none`;
* a face descriptor is a natural number, `null_face()` is `none`;
* a failed `CGAL_precondition` / `CGAL_assertion` aborts the run: functions that can hit one
  return `Option`, and `none` is the abort.
-/

namespace Polyline_tracing

/-! ## Basic types -/

abbrev FT := ℚ

abbrev face_descriptor := Option Nat

abbrev DEC_it := Option Nat

/-- `Barycentric_coordinates` is `CGAL::cpp11::array<FT, 3>`. -/
abbrev Barycentric_coordinates := FT × FT × FT

/-- `Face_location` is `std::pair<face_descriptor, Barycentric_coordinates>`. -/
abbrev Face_location := face_descriptor × Barycentric_coordinates

/-- `boost::graph_traits<Triangle_mesh>::null_face()`. -/
def null_face : face_descriptor := none

/-- The value of `std::size_t(-1)`, which is what `fmc_id(-1)` stores. -/
def size_t_minus_one : Nat := 2 ^ 64 - 1

/-! ## `internal::Collision_information` -/

/-- The struct `internal::Collision_information` (Motorcycle_graph.h, l. 62-159). -/
structure Collision_information where
  maximum_time_at_collision : FT
  is_closest_collision_already_in_dictionary : Bool
  closest_collision : DEC_it
  closest_collision_location : Face_location
  time_at_closest_collision : FT
  fmc_id : Nat
  is_foreign_motorcycle_in_different_face : Bool
  foreign_motorcycle_face : face_descriptor
  foreign_time_at_closest_collision : FT
  add_intersection_without_moving_motorcycles : Bool
  deriving DecidableEq, Repr

namespace Collision_information

/-- The constructor `Collision_information(max_time_at_collision)` (l. 73-91). -/
def ctor (FT_max : FT) (max_time_at_collision : FT) : Collision_information where
  maximum_time_at_collision := max_time_at_collision
  is_closest_collision_already_in_dictionary := false
  closest_collision := none
  closest_collision_location := (null_face, (0, 0, 0))
  time_at_closest_collision := FT_max
  fmc_id := size_t_minus_one
  is_foreign_motorcycle_in_different_face := false
  foreign_motorcycle_face := null_face
  foreign_time_at_closest_collision := FT_max
  add_intersection_without_moving_motorcycles := false

/-- The method `found_collision()` (l. 94-99). -/
def found_collision (tc : Collision_information) : Bool :=
  tc.is_closest_collision_already_in_dictionary ||
    decide (tc.closest_collision_location.1 ≠ null_face)

/-- The method `is_collision_earlier_than_current_best` (l. 103-125); the printing to
`std::cout` is not part of the embedding. -/
def is_collision_earlier_than_current_best (tc : Collision_information)
    (time_at_collision foreign_time_at_collision : FT) : Bool :=
  if time_at_collision > tc.maximum_time_at_collision then
    false
  else
    let is_collision_earlier : Bool := decide (time_at_collision < tc.time_at_closest_collision)
    let is_equal_collision_time_with_earlier_foreign_collision : Bool :=
      decide (time_at_collision = tc.time_at_closest_collision) &&
        decide (foreign_time_at_collision < tc.foreign_time_at_closest_collision)
    let is_better : Bool :=
      is_collision_earlier || is_equal_collision_time_with_earlier_foreign_collision
    is_better

/-- A call of the `const` method `is_collision_earlier_than_current_best` on a record: the
returned Boolean together with the record as it is after the call. -/
def call_is_collision_earlier_than_current_best (tc : Collision_information)
    (time_at_collision foreign_time_at_collision : FT) : Bool × Collision_information :=
  (tc.is_collision_earlier_than_current_best time_at_collision foreign_time_at_collision, tc)

/-- The method `reset()` (l. 127-143): `maximum_time_at_collision` is `const` and is kept. -/
def reset (FT_max : FT) (tc : Collision_information) : Collision_information :=
  { tc with
    is_closest_collision_already_in_dictionary := false
    closest_collision := none
    closest_collision_location := (null_face, (0, 0, 0))
    time_at_closest_collision := FT_max
    fmc_id := size_t_minus_one
    is_foreign_motorcycle_in_different_face := false
    foreign_motorcycle_face := null_face
    foreign_time_at_closest_collision := FT_max
    add_intersection_without_moving_motorcycles := false }

end Collision_information

/-! ### Candidates and the tie-break rule -/

/-- A candidate collision as the collision detector offers it to the record: the two arrival
times, the id of the foreign motorcycle and the dictionary entry of the collision. -/
structure Candidate where
  time_at_collision : FT
  foreign_time_at_collision : FT
  fmc_id : Nat
  closest_collision : DEC_it
  deriving DecidableEq, Repr

/-- The pattern by which a candidate is offered to the record (as in
`find_collision_at_tentative_track_destination`, l. 1608-1617): if
`is_collision_earlier_than_current_best` holds then `reset()` and store the candidate. -/
def offer (FT_max : FT) (tc : Collision_information) (c : Candidate) : Collision_information :=
  if tc.is_collision_earlier_than_current_best c.time_at_collision c.foreign_time_at_collision
  then
    { tc.reset FT_max with
      is_closest_collision_already_in_dictionary := true
      closest_collision := c.closest_collision
      time_at_closest_collision := c.time_at_collision
      fmc_id := c.fmc_id
      foreign_time_at_closest_collision := c.foreign_time_at_collision }
  else tc

/-- The candidates that the loop over the live motorcycles in `find_collision` (l. 2693-2701)
offers when motorcycle `fmc_id` contributes the candidate `cand fmc_id` (if any): the loop
runs `fmc_id` from `0` to `number_of_motorcycles - 1` and a candidate carries the id of its
motorcycle. -/
def live_candidates (number_of_motorcycles : Nat) (cand : Nat → Option (FT × FT × DEC_it)) :
    List Candidate :=
  (List.range number_of_motorcycles).filterMap (fun fmc_id =>
    (cand fmc_id).map (fun x =>
      { time_at_collision := x.1, foreign_time_at_collision := x.2.1, fmc_id := fmc_id,
        closest_collision := x.2.2 }))

/-- The order of the tie-break rule on pairs (time, foreign time): strictly earlier time, or
equal times and strictly earlier foreign time. -/
def earlier (a b : FT × FT) : Prop := a.1 < b.1 ∨ (a.1 = b.1 ∧ a.2 < b.2)

instance (a b : FT × FT) : Decidable (earlier a b) := by unfold earlier; infer_instance

/-- The pair (time, foreign time) of a candidate. -/
def Candidate.times (c : Candidate) : FT × FT :=
  (c.time_at_collision, c.foreign_time_at_collision)

/-- The pair (time, foreign time) held by a record. -/
def Collision_information.times (tc : Collision_information) : FT × FT :=
  (tc.time_at_closest_collision, tc.foreign_time_at_closest_collision)

/-- The record that holds candidate `c`: the freshly reset record with the candidate
stored. -/
def stored (FT_max M : FT) (c : Candidate) : Collision_information :=
  { Collision_information.ctor FT_max M with
    is_closest_collision_already_in_dictionary := true
    closest_collision := c.closest_collision
    time_at_closest_collision := c.time_at_collision
    fmc_id := c.fmc_id
    foreign_time_at_closest_collision := c.foreign_time_at_collision }

/-- The record `r` holds the candidate of `cs` that carries the lexicographically least pair
among the candidates with a time `≤ M`, and among the candidates carrying that pair the one
applied first. -/
def holds_first_least (FT_max M : FT) (cs : List Candidate) (r : Collision_information) : Prop :=
  ∃ pre c post, cs = pre ++ c :: post ∧ c.time_at_collision ≤ M ∧
    (∀ c' ∈ cs, c'.time_at_collision ≤ M → ¬ earlier c'.times c.times) ∧
    (∀ c' ∈ pre, c'.time_at_collision ≤ M → c'.times ≠ c.times) ∧
    r = stored FT_max M c



/-! ## Geometric primitives on the barycentric plane

`Point_2`, `Vector_2`, `Segment_2` are the 2D kernel objects built from the first two
barycentric coordinates of a location. -/

abbrev Point_2 := FT × FT

abbrev Vector_2 := FT × FT

/-- `Segment_2`: source and target. -/
abbrev Segment_2 := Point_2 × Point_2

/-- `Vector_2(p, q)`, the vector `q - p`. -/
def Vector_2.of_points (p q : Point_2) : Vector_2 := (q.1 - p.1, q.2 - p.2)

/-- Modelled from the spec: the kernel's scalar product (`compute_scalar_product_2_object`,
also `Vector_2 * Vector_2`), one of the geometric primitives of spec section 6. -/
def scalar_product_2 (u v : Vector_2) : FT := u.1 * v.1 + u.2 * v.2

/-- Modelled from the spec: the kernel's degeneracy test of a segment
(`is_degenerate_2_object`): source and target coincide. -/
def is_degenerate_2 (s : Segment_2) : Bool := decide (s.1 = s.2)

/-- The result type `CGAL::Angle`. -/
inductive Angle where
  | OBTUSE
  | RIGHT
  | ACUTE
  deriving DecidableEq, Repr

/-- Modelled from the spec: the kernel's angle classification (`angle_2_object`) of the
vectors `q - p` and `s - r`, by the sign of their scalar product. -/
def angle_2 (p q r s : Point_2) : Angle :=
  let sp := scalar_product_2 (Vector_2.of_points p q) (Vector_2.of_points r s)
  if 0 < sp then Angle.ACUTE else if sp = 0 then Angle.RIGHT else Angle.OBTUSE

/-- Modelled from the spec: the kernel's collinearity test (`collinear_2_object`). -/
def collinear_2 (p q r : Point_2) : Bool :=
  decide ((q.1 - p.1) * (r.2 - p.2) - (q.2 - p.2) * (r.1 - p.1) = 0)

/-- Modelled from the spec: the kernel's strict-ordering-along-line test
(`collinear_are_strictly_ordered_along_line_2_object`): for collinear `p`, `q`, `r`, whether
`q` lies strictly between `p` and `r`. -/
def collinear_are_strictly_ordered_along_line_2 (p q r : Point_2) : Bool :=
  if p.1 < q.1 then decide (q.1 < r.1)
  else if q.1 < p.1 then decide (r.1 < q.1)
  else if p.2 < q.2 then decide (q.2 < r.2)
  else if q.2 < p.2 then decide (r.2 < q.2)
  else false

/-- The ambient point type `Point` (`Geom_traits::Point_d`), with three coordinates. -/
abbrev Point := FT × FT × FT

/-- Modelled from the spec: `CGAL::squared_distance` of two points. -/
def squared_distance (p q : Point) : FT :=
  (p.1 - q.1) ^ 2 + (p.2.1 - q.2.1) ^ 2 + (p.2.2 - q.2.2) ^ 2

/-- Modelled from the spec: the kernel's orientation of three points (`orientation_2_object`):
the sign of the determinant of `q - p` and `r - p`. -/
def orientation_2 (p q r : Point_2) : Int :=
  SignType.sign ((q.1 - p.1) * (r.2 - p.2) - (q.2 - p.2) * (r.1 - p.1))

/-- For collinear `p`, `q`, `r`: whether `q` lies on the closed segment from `p` to `r`
(`collinear_are_ordered_along_line_2_object`). -/
def collinear_are_ordered_along_line_2 (p q r : Point_2) : Bool :=
  decide (min p.1 r.1 ≤ q.1) && decide (q.1 ≤ max p.1 r.1) &&
    decide (min p.2 r.2 ≤ q.2) && decide (q.2 ≤ max p.2 r.2)

/-- Modelled from the spec: the kernel's intersection test of two closed segments
(`do_intersect_2_object`). -/
def do_intersect_2 (a b : Segment_2) : Bool :=
  let o1 := orientation_2 a.1 a.2 b.1
  let o2 := orientation_2 a.1 a.2 b.2
  let o3 := orientation_2 b.1 b.2 a.1
  let o4 := orientation_2 b.1 b.2 a.2
  (decide (o1 ≠ o2) && decide (o3 ≠ o4)) ||
    (decide (o1 = 0) && collinear_are_ordered_along_line_2 a.1 b.1 a.2) ||
    (decide (o2 = 0) && collinear_are_ordered_along_line_2 a.1 b.2 a.2) ||
    (decide (o3 = 0) && collinear_are_ordered_along_line_2 b.1 a.1 b.2) ||
    (decide (o4 = 0) && collinear_are_ordered_along_line_2 b.1 a.2 b.2)

/-- The intersection point of the supporting lines of two segments that are not parallel. -/
def line_intersection_2 (a b : Segment_2) : Point_2 :=
  let d := (a.2.1 - a.1.1) * (b.2.2 - b.1.2) - (a.2.2 - a.1.2) * (b.2.1 - b.1.1)
  let u := ((b.1.1 - a.1.1) * (b.2.2 - b.1.2) - (b.1.2 - a.1.2) * (b.2.1 - b.1.1)) / d
  (a.1.1 + u * (a.2.1 - a.1.1), a.1.2 + u * (a.2.2 - a.1.2))

/-- The variant `descriptor_variant` (`boost::variant<vertex_descriptor, halfedge_descriptor,
face_descriptor>`) that `get_descriptor_from_location` returns; vertex and halfedge descriptors
are natural numbers. -/
inductive descriptor_variant where
  | vertex (vd : Nat)
  | halfedge (hd : Nat)
  | face (fd : face_descriptor)
  deriving DecidableEq, Repr

/-- The member `which()` of the variant. -/
def descriptor_variant.which : descriptor_variant → Nat
  | .vertex _ => 0
  | .halfedge _ => 1
  | .face _ => 2

/-- The services that `Motorcycle_graph.h` takes from outside: the constants of the number
type, `CGAL::sqrt`, and the mesh queries of `Polygon_mesh_processing` (spec section 6). They
are parameters of the embedding. -/
structure Services where
  /-- `std::numeric_limits<FT>::max()` -/
  FT_max : FT
  /-- `std::numeric_limits<FT>::epsilon()` -/
  FT_eps : FT
  /-- `CGAL::sqrt` on `FT` -/
  sqrt : FT → FT
  /-- `Polygon_mesh_processing::location_to_point(location, mesh)` -/
  location_to_point : Face_location → Point
  /-- `Polygon_mesh_processing::internal::snap_location_to_border(location)` -/
  snap_location_to_border : Face_location → Face_location := fun l => l
  /-- `Polygon_mesh_processing::locate(point, tree, mesh, ...)` -/
  locate : Point → Face_location := fun _ => (none, (0, 0, 0))
  /-- `Polygon_mesh_processing::locate(face, point, mesh)` -/
  locate_in_face : face_descriptor → Point → Face_location := fun fd _ => (fd, (0, 0, 0))
  /-- `Polygon_mesh_processing::is_on_face_border(location, mesh)` -/
  is_on_face_border : Face_location → Bool := fun _ => false
  /-- `Polygon_mesh_processing::is_in_face(location, mesh)` -/
  is_in_face : Face_location → Bool := fun _ => true
  /-- `Polygon_mesh_processing::locate_in_common_face(point, source_location, destination_location,
  mesh)`: the source location after the call and the destination location -/
  locate_point_in_common_face : Point → Face_location → Face_location × Face_location :=
    fun _ l => (l, l)
  /-- `Polygon_mesh_processing::locate_in_common_face(source_location, destination_location,
  mesh)`: both locations after the call -/
  locate_in_common_face : Face_location → Face_location → Face_location × Face_location :=
    fun l m => (l, m)
  /-- the locations of the same point in the other faces incident to a location (mesh
  connectivity), used by the dictionary to build the siblings of an entry -/
  siblings_of : Face_location → List Face_location := fun _ => []
  /-- `Polygon_mesh_processing::internal::common_halfedge(face, face, mesh)`; a halfedge
  descriptor is a natural number -/
  common_halfedge : face_descriptor → face_descriptor → Option Nat := fun _ _ => none
  /-- `opposite(halfedge, mesh)` -/
  opposite : Nat → Nat := fun h => h
  /-- `Polygon_mesh_processing::is_on_halfedge(location, halfedge, mesh)` -/
  is_on_halfedge : Face_location → Nat → Bool := fun _ _ => false
  /-- `Polygon_mesh_processing::get_descriptor_from_location(location, mesh)` -/
  get_descriptor_from_location : Face_location → descriptor_variant := fun l => .face l.1
  /-- `CGAL::faces_around_target(halfedge(vertex, mesh), mesh)` -/
  faces_around_target : Nat → List face_descriptor := fun _ => []
  /-- `is_border(halfedge, mesh)` -/
  is_border : Nat → Bool := fun _ => true
  /-- `is_border(edge(halfedge, mesh), mesh)` -/
  is_border_edge : Nat → Bool := fun _ => true
  /-- `face(halfedge, mesh)` -/
  face : Nat → face_descriptor := fun _ => none
  /-- the halfedges `halfedge(face, mesh)`, `next(...)`, ... around a face, in this order -/
  halfedges_around_face : face_descriptor → List Nat := fun _ => []
  /-- `internal::are_logically_collinear_on_border(location, location, location)`
  (`robust_collinear.h`) -/
  are_logically_collinear_on_border : Face_location → Face_location → Face_location → Bool :=
    fun _ _ _ => false
  /-- `internal::robust_intersection(segment, segment, traits)` (`robust_intersections.h`) -/
  robust_intersection : Segment_2 → Segment_2 → Point_2 := line_intersection_2

/-! ## The point dictionary (`Dictionary.h`, not part of the sources) -/

/-- Modelled from the spec: a `Dictionary_entry` of `Dictionary.h` (spec section 3,
"Dictionary Entry"): the location (face and barycentric coordinates), the point,
the sibling locations (the same point in the other incident faces), the visiting motorcycles
with their visiting times, and the blocked flag. -/
structure Dictionary_entry where
  location : Face_location
  point : Point
  siblings : List Face_location
  motorcycles : List (Nat × FT)
  blocked : Bool
  deriving DecidableEq, Repr

namespace Dictionary_entry

/-- Modelled from the spec: `has_motorcycle(id, time)`: the entry records a visit of
motorcycle `id` at exactly `time`. -/
def has_motorcycle_at (e : Dictionary_entry) (id : Nat) (time : FT) : Bool :=
  e.motorcycles.any (fun v => decide (v.1 = id) && decide (v.2 = time))

/-- Modelled from the spec: `has_motorcycle(id, min_time, max_time, visiting_time)`: the first
recorded visit of motorcycle `id` with a time in `[min_time, max_time]`, if any (the C++
function returns the Boolean and fills `visiting_time`). -/
def has_motorcycle_between (e : Dictionary_entry) (id : Nat) (min_time max_time : FT) :
    Option FT :=
  (e.motorcycles.find? (fun v => decide (v.1 = id) && decide (min_time ≤ v.2) &&
    decide (v.2 ≤ max_time))).map Prod.snd

/-- Modelled from the spec: `add_motorcycle(id, time)` records a visit (spec section 3: the
entry is "mutated by adding agent-visit entries"). -/
def add_motorcycle (e : Dictionary_entry) (id : Nat) (time : FT) : Dictionary_entry :=
  { e with motorcycles := e.motorcycles ++ [(id, time)] }

/-- Modelled from the spec: `sibling(face)`: the location of the entry in the face `fd`, its
own location or one of its siblings. -/
def sibling (e : Dictionary_entry) (fd : face_descriptor) : Option Face_location :=
  if e.location.1 = fd then some e.location
  else e.siblings.find? (fun l => decide (l.1 = fd))

/-- Modelled from the spec: `block()` sets the blocked flag. -/
def block (e : Dictionary_entry) : Dictionary_entry := { e with blocked := true }

/-- Modelled from the spec: `has_motorcycle(id)`: the entry records a visit of motorcycle
`id`. -/
def has_motorcycle (e : Dictionary_entry) (id : Nat) : Bool :=
  e.motorcycles.any (fun v => decide (v.1 = id))

/-- Modelled from the spec: `is_sibling(location)`: the location is a location of the point of
the entry (its own location or one of its siblings). -/
def is_sibling (e : Dictionary_entry) (l : Face_location) : Bool :=
  decide (e.location = l) || e.siblings.any (fun m => decide (m = l))

/-- The time `earliest_motorcycle()->first` of the earliest recorded visit of the entry, as
`is_motorcycle_position_blocked` reads it (l. 2918); `none` for an entry without visit. -/
def earliest_motorcycle (e : Dictionary_entry) : Option FT :=
  match e.motorcycles with
  | [] => none
  | v :: rest => some (rest.foldl (fun t w => min t w.2) v.2)

end Dictionary_entry

/-- Modelled from the spec: the `Dictionary` of `Dictionary.h`: the entries in creation
order; an iterator `DEC_it` is the index of an entry. -/
abbrev Dictionary := List Dictionary_entry

namespace Dictionary

/-- Dereference of an iterator; `none` for `DEC_it()` or an index that is out of range. -/
def deref (points : Dictionary) (it : DEC_it) : Option Dictionary_entry :=
  it.bind (fun i => points.get? i)

/-- Index of the first entry satisfying `p`. -/
def index_of_first (p : Dictionary_entry → Bool) : List Dictionary_entry → Nat → Option Nat
  | [], _ => none
  | e :: rest, i => if p e then some i else index_of_first p rest (i + 1)

/-- Modelled from the spec: `find(location) -> (entry, found)`, a lookup without insertion;
the lookup is exact (an entry is found only for an identical location). -/
def find (points : Dictionary) (location : Face_location) : DEC_it :=
  index_of_first (fun e => decide (e.location = location)) points 0

/-- Modelled from the spec: `insert(location, point) -> (entry, was_new)`: "returns existing
entry ... if found, else creates one". A new entry is created last, followed by the entries of
its sibling locations that are not yet in the dictionary. Returns the dictionary after the
call, the entry and `was_new`. -/
def insert_with_point (S : Services) (points : Dictionary) (location : Face_location)
    (p : Point) : Dictionary × DEC_it × Bool :=
  match find points location with
  | some i => (points, some i, false)
  | none =>
    let sibling_locations := S.siblings_of location
    let entry : Dictionary_entry :=
      { location := location, point := p, siblings := sibling_locations,
        motorcycles := [], blocked := false }
    let sibling_entries : List Dictionary_entry :=
      (sibling_locations.filter (fun l => (find points l).isNone)).map (fun l =>
        { location := l, point := p,
          siblings := location :: sibling_locations.filter (fun m => decide (m ≠ l)),
          motorcycles := [], blocked := false })
    (points ++ entry :: sibling_entries, some points.length, true)

/-- Modelled from the spec: `insert(location) -> (entry, was_new)`: as `insert(location,
point)`, with the point of the location. -/
def insert (S : Services) (points : Dictionary) (location : Face_location) :
    Dictionary × DEC_it × Bool :=
  insert_with_point S points location (S.location_to_point location)

/-- Modelled from the spec: `get_sibling(entry, target_face) -> (sibling_entry, found)`: "the
representation of the same point in a different face". -/
def get_sibling (points : Dictionary) (it : DEC_it) (fd : face_descriptor) : DEC_it :=
  match deref points it with
  | none => none
  | some e =>
    match e.sibling fd with
    | none => none
    | some l => find points l

/-- Apply `f` to the entry an iterator points to (`it->f()`). -/
def modify (points : Dictionary) (it : DEC_it) (f : Dictionary_entry → Dictionary_entry) :
    Dictionary :=
  match it with
  | none => points
  | some i =>
    match List.get? points i with
    | none => points
    | some e => List.set points i (f e)

/-- Modelled from the spec: `insert(location, concrete_point, agent_id, time)`: "same, and
additionally records that `agent_id` visits the entry at `time`. Fails (precondition
violation) if the agent already has a different recorded time for that entry". -/
def insert_with_motorcycle (S : Services) (points : Dictionary) (location : Face_location)
    (p : Point) (id : Nat) (time : FT) : Option (Dictionary × DEC_it × Bool) :=
  let r := insert_with_point S points location p
  match deref r.1 r.2.1 with
  | none => none
  | some e =>
    if e.motorcycles.any (fun v => decide (v.1 = id) && decide (v.2 ≠ time)) then none
    else if e.has_motorcycle_at id time then some r
    else some (modify r.1 r.2.1 (fun e => e.add_motorcycle id time), r.2.1, r.2.2)

end Dictionary

/-! ## The motorcycle (`Motorcycle.h`, not part of the sources) -/

/-- The variant `Point_or_location` (`boost::variant<Point, Face_location>`). -/
inductive Point_or_location where
  | point (p : Point)
  | location (l : Face_location)
  deriving DecidableEq, Repr

/-- Modelled from the spec: the state of a `Motorcycle_impl_base` of `Motorcycle.h` (spec
section 3, "Agent (Motorcycle)"): id, crashed flag, speed, input source and destination,
source and destination entries with the time at the source, finality of the destination,
current position and time, the target queue ordered by time, and the confirmed track. -/
structure Motorcycle where
  id : Nat
  crashed : Bool
  speed : FT
  input_source : Point_or_location
  input_destination : Option Point_or_location
  source : DEC_it
  time_at_source : FT
  destination : DEC_it
  is_destination_final : Bool
  current_position : DEC_it
  current_time : FT
  targets : List (DEC_it × FT)
  track : List (DEC_it × FT)
  deriving DecidableEq, Repr

namespace Motorcycle

/-- Modelled from the spec: insertion into the target container, which is ordered by time:
"no-op if an entry at the exact same time already exists". -/
def insert_target (e : DEC_it) (t : FT) : List (DEC_it × FT) → List (DEC_it × FT)
  | [] => [(e, t)]
  | x :: rest =>
    if t < x.2 then (e, t) :: x :: rest
    else if t = x.2 then x :: rest
    else x :: insert_target e t rest

/-- Modelled from the spec: `add_target(entry, time)`: "inserts into the ordered target queue;
no-op if an entry at the exact same time already exists; fails if `time` is earlier than
`current_time`". -/
def add_target (mc : Motorcycle) (e : DEC_it) (t : FT) : Option Motorcycle :=
  if t < mc.current_time then none
  else some { mc with targets := insert_target e t mc.targets }

/-- Modelled from the spec: `closest_target()` and `time_at_closest_target()` "peek earliest
queued target; undefined if queue is empty" (`none` here). -/
def closest_target (mc : Motorcycle) : Option (DEC_it × FT) := mc.targets.head?

/-- Modelled from the spec: `remove_closest_target_from_targets()` pops the earliest
target. -/
def remove_closest_target_from_targets (mc : Motorcycle) : Motorcycle :=
  { mc with targets := mc.targets.tail }

/-- Modelled from the spec: `clear_targets()` "clears the target queue". -/
def clear_targets (mc : Motorcycle) : Motorcycle := { mc with targets := [] }

/-- Modelled from the spec: `crash()` "sets the crashed flag". -/
def crash (mc : Motorcycle) : Motorcycle := { mc with crashed := true }

/-- Modelled from the spec: `track().insert(entry, time)` "appends to the confirmed track". -/
def track_insert (mc : Motorcycle) (e : DEC_it) (t : FT) : Motorcycle :=
  { mc with track := mc.track ++ [(e, t)] }

/-- Modelled from the spec: `has_target_at_time(t) -> (entry, found)`. -/
def has_target_at_time (mc : Motorcycle) (t : FT) : Option (DEC_it × FT) :=
  mc.targets.find? (fun x => decide (x.2 = t))

/-- Modelled from the spec: `has_target_at_time(entry, t)`: the queue holds `entry` at time
`t`. -/
def has_target_at (mc : Motorcycle) (e : DEC_it) (t : FT) : Bool :=
  mc.targets.any (fun x => decide (x.1 = e) && decide (x.2 = t))

/-- Modelled from the spec: `has_target(entry) -> (target, found)`. -/
def has_target (mc : Motorcycle) (e : DEC_it) : Option (DEC_it × FT) :=
  mc.targets.find? (fun x => decide (x.1 = e))

/-- Modelled from the spec: the overload `has_target_at_time(t_lo, t_hi) -> (entry, found)`. -/
def has_target_at_time_between (mc : Motorcycle) (min_time max_time : FT) :
    Option (DEC_it × FT) :=
  mc.targets.find? (fun x => decide (min_time ≤ x.2) && decide (x.2 ≤ max_time))

/-- Modelled from the spec: `time_at_destination()`, the time of the last queued target
(the destination is the farthest target of a motorcycle). -/
def time_at_destination (mc : Motorcycle) : Option FT := mc.targets.getLast?.map Prod.snd

/-- The function `drive_to_closest_target` (l. 893-916), which acts on the motorcycle only.
The two `CGAL_assertion`s abort on a crashed motorcycle or an empty queue. -/
def drive_to_closest_target (mc : Motorcycle) : Option Motorcycle :=
  if mc.crashed then none
  else
    match mc.targets with
    | [] => none
    | (closest_target, time_at_closest_target) :: _ =>
      let mc1 := { mc with current_position := closest_target }
      let mc2 := { mc1 with current_time := time_at_closest_target }
      let mc3 := mc2.track_insert closest_target mc2.current_time
      some mc3.remove_closest_target_from_targets

end Motorcycle

/-! ### The operations of the driver on one motorcycle -/

/-- The operations by which `trace_graph` and the functions it calls mutate one motorcycle:
* `drive`: `drive_to_closest_target` (l. 2979);
* `add_target`: `mc.add_target` in `compute_motorcycle_next_path` (l. 777, 783), `trace_graph`
  (l. 3062, 3069), `treat_collision` (l. 3229, 3230, 3250, 3286, 3287) and `visit_point`
  (l. 3417, 3426, 3442, 3451);
* `clear_targets`: `mc.clear_targets()` (l. 801, 3007);
* `crash`: `mc.crash()` (l. 802);
* `set_path`: the assignments of `compute_motorcycle_next_path` (l. 767-772);
* `track_insert`: `fmc.track().insert` in `treat_collision` (l. 3308). -/
inductive Motorcycle_op where
  | drive
  | add_target (e : DEC_it) (t : FT)
  | clear_targets
  | crash
  | set_path (next_source next_destination : DEC_it) (is_destination_final : Bool)
  | track_insert (e : DEC_it) (t : FT)
  deriving DecidableEq, Repr

namespace Motorcycle

/-- The effect of one operation on a motorcycle; `none` is a failed assertion. -/
def apply_op (mc : Motorcycle) : Motorcycle_op → Option Motorcycle
  | .drive => mc.drive_to_closest_target
  | .add_target e t => mc.add_target e t
  | .clear_targets => some mc.clear_targets
  | .crash => some mc.crash
  | .set_path next_source next_destination is_destination_final =>
    some { mc with source := next_source, time_at_source := mc.current_time,
                   current_position := next_source, destination := next_destination,
                   is_destination_final := is_destination_final }
  | .track_insert e t => some (mc.track_insert e t)

/-- The states of a motorcycle after each operation of a sequence of operations. -/
def run_ops : Motorcycle → List Motorcycle_op → Option (List Motorcycle)
  | _, [] => some []
  | mc, op :: rest => do
    let mc1 ← mc.apply_op op
    let states ← run_ops mc1 rest
    some (mc1 :: states)

/-- The entries that the `drive` operations of a run append to the confirmed track, in the
order appended: the position and time of the state after each `drive`. -/
def driven_entries (ops : List Motorcycle_op) (states : List Motorcycle) : List (DEC_it × FT) :=
  (ops.zip states).filterMap (fun x =>
    if x.1 = Motorcycle_op.drive then some (x.2.current_position, x.2.current_time) else none)

/-- The condition that `add_target` enforces: no queued target is earlier than the current
time. -/
def targets_not_before_current_time (mc : Motorcycle) : Prop :=
  ∀ x ∈ mc.targets, mc.current_time ≤ x.2

/-- The invariant of the target container: it is ordered by time, without equal times. -/
def targets_ordered (mc : Motorcycle) : Prop :=
  mc.targets.Pairwise (fun a b => a.2 < b.2)

end Motorcycle

/-! ## The graph state -/

/-- `Track_segment`: the tuple (motorcycle id, source, time at source, destination, time at
destination). -/
structure Track_segment where
  id : Nat
  source : DEC_it
  time_at_source : FT
  destination : DEC_it
  time_at_destination : FT
  deriving DecidableEq, Repr

/-- `Track_face_map`: the container mapping a face to the list of its track segments. -/
abbrev Track_face_map := List (face_descriptor × List Track_segment)

/-- The data members of `Motorcycle_graph` (l. 431-443) that the algorithm mutates. The
priority queue (`Motorcycle_priority_queue.h`, not part of the sources) is modelled from the
spec (section 4.4): it holds the ids of the motorcycles that are in the queue, their keys
being read from the motorcycles. -/
structure Motorcycle_graph where
  points : Dictionary
  motorcycles : List Motorcycle
  motorcycle_pq : List Nat
  track_face_map : Track_face_map
  deriving DecidableEq, Repr

namespace Motorcycle_graph

/-- `motorcycle(id)` (l. 248-257); the precondition `id < motorcycles.size()` aborts. -/
def motorcycle (g : Motorcycle_graph) (id : Nat) : Option Motorcycle := g.motorcycles.get? id

/-- Write back a motorcycle held by reference. -/
def set_motorcycle (g : Motorcycle_graph) (id : Nat) (mc : Motorcycle) : Motorcycle_graph :=
  { g with motorcycles := g.motorcycles.set id mc }

/-- `current_location()` of a motorcycle: the location of its current position. -/
def current_location (g : Motorcycle_graph) (mc : Motorcycle) : Option Face_location :=
  (Dictionary.deref g.points mc.current_position).map (fun e => e.location)

/-- Modelled from the spec: `motorcycle_pq.erase(mc)` "removes a crashed agent". -/
def pq_erase (g : Motorcycle_graph) (id : Nat) : Motorcycle_graph :=
  { g with motorcycle_pq := g.motorcycle_pq.filter (fun i => decide (i ≠ id)) }

/-- Modelled from the spec: `motorcycle_pq.update(mc)` "re-heapify after the agent's target
queue changed": the members of the queue do not change. -/
def pq_update (g : Motorcycle_graph) (_id : Nat) : Motorcycle_graph := g

/-- The function `crash_motorcycle` (l. 788-804), on the motorcycle with index `mc_id`. -/
def crash_motorcycle (g : Motorcycle_graph) (mc_id : Nat) : Motorcycle_graph :=
  match g.motorcycle mc_id with
  | none => g
  | some mc =>
    if mc.crashed then g
    else (g.set_motorcycle mc_id mc.clear_targets.crash).pq_erase mc_id

/-- The body of the inner loop of `crash_motorcycles_with_same_source_and_direction`
(l. 829-889, with `CGAL_MOTORCYCLE_GRAPH_ROBUSTNESS_CODE` defined), over the remaining foreign
ids. -/
def crash_same_source_inner (g : Motorcycle_graph) (mc_id : Nat) :
    List Nat → Option Motorcycle_graph
  | [] => some g
  | fmc_id :: rest => do
    let mc ← g.motorcycle mc_id
    let fmc ← g.motorcycle fmc_id
    if fmc.id = mc.id || fmc.source = fmc.destination || mc.source ≠ fmc.source then
      crash_same_source_inner g mc_id rest
    else
      let mc_loc ← g.current_location mc
      let fmc_loc ← g.current_location fmc
      if mc_loc.1 ≠ fmc_loc.1 then none
      else
        let mc_s ← Dictionary.deref g.points mc.source
        let mc_d ← Dictionary.deref g.points mc.destination
        let fmc_d ← Dictionary.deref g.points fmc.destination
        let fmc_s ← Dictionary.deref g.points fmc.source
        let bcs_mc_s : Point_2 := (mc_s.location.2.1, mc_s.location.2.2.1)
        let bcs_mc_d : Point_2 := (mc_d.location.2.1, mc_d.location.2.2.1)
        let bcs_fmc_d : Point_2 := (fmc_d.location.2.1, fmc_d.location.2.2.1)
        let bcs_fmc_s : Point_2 := (fmc_s.location.2.1, fmc_s.location.2.2.1)
        let bcs_mc_v := Vector_2.of_points bcs_mc_s bcs_mc_d
        let bcs_fmc_v := Vector_2.of_points bcs_fmc_s bcs_fmc_d
        let mc_v_n := scalar_product_2 bcs_mc_v bcs_mc_v
        let fmc_v_n := scalar_product_2 bcs_fmc_v bcs_fmc_v
        let sp := scalar_product_2 bcs_mc_v bcs_fmc_v
        if |1 - sp * sp / (fmc_v_n * mc_v_n)| < 1 / 10 ^ 15 then
          some ((g.crash_motorcycle mc_id).crash_motorcycle fmc_id)
        else
          crash_same_source_inner g mc_id rest

/-- The outer loop of `crash_motorcycles_with_same_source_and_direction` (l. 822-890), over
the remaining ids; `n` is `motorcycles.size()`. -/
def crash_same_source_outer (n : Nat) (g : Motorcycle_graph) :
    List Nat → Option Motorcycle_graph
  | [] => some g
  | mc_id :: rest => do
    let mc ← g.motorcycle mc_id
    if mc.source = mc.destination || mc.crashed then
      crash_same_source_outer n g rest
    else
      let g1 ← crash_same_source_inner g mc_id (List.range n)
      crash_same_source_outer n g1 rest

/-- The function `crash_motorcycles_with_same_source_and_direction` (l. 806-891). -/
def crash_motorcycles_with_same_source_and_direction (g : Motorcycle_graph) :
    Option Motorcycle_graph :=
  crash_same_source_outer g.motorcycles.length g (List.range g.motorcycles.length)


/-- The external direction/geometry strategy behind `Motorcycle::compute_next_destination(points,
mesh)` (spec section 4.3): it returns the dictionary after the call and the tuple
`(found, source, destination, time_at_destination, is_final)`. It is a parameter of the
embedding. -/
abbrev Tracer := Dictionary → Motorcycle → Dictionary × (Bool × DEC_it × DEC_it × FT × Bool)

/-- The branch of `compute_destination` for a destination that was not provided (l. 557-594):
the dictionary and the motorcycle after the call, the destination and the time at the
destination. -/
def compute_destination_from_tracer (tracer : Tracer) (points : Dictionary) (mc : Motorcycle) :
    Option (Dictionary × Motorcycle × DEC_it × FT) :=
  let time_at_source := mc.current_time
  let traced := tracer points mc
  let points1 := traced.1
  let res := traced.2
  if !res.1 then
    -- couldn't find an initial destination ==> the motorcycle instantly crashes
    some (points1, { mc with is_destination_final := true }, mc.source, time_at_source)
  else
    -- the location algorithm might change the source
    let mc1 : Option Motorcycle :=
      if mc.source ≠ res.2.1 then
        match Dictionary.deref points1 mc.source, Dictionary.deref points1 res.2.1 with
        | some old_source, some new_source =>
          if old_source.point ≠ new_source.point then none
          else if !new_source.has_motorcycle_at mc.id time_at_source then none
          else some { mc with source := res.2.1, current_position := res.2.1 }
        | _, _ => none
      else some mc
    match mc1, Dictionary.deref points1 res.2.2.1 with
    | some mc1, some destination_entry =>
      some (Dictionary.modify points1 res.2.2.1 (fun e => e.add_motorcycle mc.id res.2.2.2.1),
        { mc1 with is_destination_final := res.2.2.2.2
                   input_destination := some (.point destination_entry.point) },
        res.2.2.1, res.2.2.2.1)
    | _, _ => none

/-- In `compute_destination`, the search of a common face for the source and the known
destination (l. 597-668): the source location after the search and the destination
location. -/
def locate_destination (S : Services) (source_location : Face_location) :
    Point_or_location → Face_location × Face_location
  | .point input_destination_point =>
    -- if the source is on the border of the mesh, we must find a common face
    if S.is_on_face_border source_location then
      S.locate_point_in_common_face input_destination_point source_location
    else (source_location, S.locate_in_face source_location.1 input_destination_point)
  | .location destination_location =>
    -- source and destination must live in a common face
    if source_location.1 ≠ destination_location.1 then
      S.locate_in_common_face source_location destination_location
    else (source_location, destination_location)

/-- In `compute_destination`, the replacement of the source when its location has changed
to find a common face (l. 613-626, 654-666). -/
def relocate_source (S : Services) (points : Dictionary) (mc : Motorcycle)
    (source_entry : Dictionary_entry) (source_location : Face_location) :
    Option (Dictionary × Motorcycle) :=
  if source_location ≠ source_entry.location then
    match Dictionary.insert_with_motorcycle S points source_location source_entry.point
        mc.id mc.current_time with
    | none => none
    | some new_source =>
      some (new_source.1, { mc with source := new_source.2.1, current_position := new_source.2.1 })
  else some (points, mc)

/-- The branch of `compute_destination` for a known destination (l. 595-682). -/
def compute_destination_from_input (S : Services) (points : Dictionary) (mc : Motorcycle)
    (input : Point_or_location) : Option (Dictionary × Motorcycle × DEC_it × FT) :=
  let time_at_source := mc.current_time
  match Dictionary.deref points mc.source with
  | none => none
  | some source_entry =>
    let located := locate_destination S source_entry.location input
    match relocate_source S points mc source_entry located.1 with
    | none => none
    | some relocated =>
      let destination_entry := Dictionary.insert S relocated.1 located.2
      let destination := destination_entry.2.1
      match Dictionary.deref destination_entry.1 relocated.2.source,
            Dictionary.deref destination_entry.1 destination with
      | some source_entry1, some destination_entry1 =>
        let time_at_destination := time_at_source +
          S.sqrt (squared_distance source_entry1.point destination_entry1.point) / mc.speed
        some (Dictionary.modify destination_entry.1 destination
            (fun e => e.add_motorcycle mc.id time_at_destination),
          relocated.2, destination, time_at_destination)
      | _, _ => none

/-- The function `compute_destination` (l. 544-685). It returns the graph after the call
(the dictionary and the motorcycle `mc_id` are mutated) and the pair (destination, time at
destination). -/
def compute_destination (S : Services) (tracer : Tracer) (g : Motorcycle_graph) (mc_id : Nat)
    (input_destination : Option Point_or_location) :
    Option (Motorcycle_graph × DEC_it × FT) :=
  match g.motorcycle mc_id with
  | none => none
  | some mc =>
    -- at the start of this function, mc.source() is already initialized
    if mc.source = none then none
    else
      let result :=
        match input_destination with
        | none => compute_destination_from_tracer tracer g.points mc
        | some input => compute_destination_from_input S g.points mc input
      match result with
      | none => none
      | some r => some (({ g with points := r.1 }).set_motorcycle mc_id r.2.1, r.2.2.1, r.2.2.2)

/-- The end of an iteration of the loop of `initialize_motorcycles` (l. 2856-2864): the
targets queue and the track of the motorcycle. -/
def initialize_targets_and_track (mc : Motorcycle) (time_at_source time_at_destination : FT) :
    Motorcycle :=
  -- initialize the motorcycle targets queue
  let mc1 := { mc with targets := Motorcycle.insert_target mc.source time_at_source mc.targets }
  let mc2 :=
    if mc1.source ≠ mc1.destination then
      { mc1 with
        targets := Motorcycle.insert_target mc1.destination time_at_destination mc1.targets }
    else mc1
  -- this is useful to not get an empty track when sour=dest
  mc2.track_insert mc2.source mc2.current_time

/-- The insertion of the source of a motorcycle in the dictionary at the start of an iteration
of the loop of `initialize_motorcycles` (l. 2814-2843). -/
def initialize_source (S : Services) (g : Motorcycle_graph) (mc_id : Nat) (mc : Motorcycle) :
    Motorcycle_graph :=
  let source :=
    match mc.input_source with
    | .point input_source_point =>
      Dictionary.insert_with_point S g.points
        (S.snap_location_to_border (S.locate input_source_point)) input_source_point
    | .location input_source_location => Dictionary.insert S g.points input_source_location
  let time_at_source := mc.current_time
  let points1 := Dictionary.modify source.1 source.2.1
    (fun e => e.add_motorcycle mc_id time_at_source)
  ({ g with points := points1 }).set_motorcycle mc_id
    { mc with source := source.2.1, current_position := source.2.1 }

/-- One iteration of the loop of `initialize_motorcycles` (l. 2801-2885), for the motorcycle
`mc_id`. The direction and the check of the ray (which only prints) are not embedded. -/
def initialize_motorcycle (S : Services) (tracer : Tracer) (g : Motorcycle_graph)
    (mc_id : Nat) : Option Motorcycle_graph :=
  match g.motorcycle mc_id with
  | none => none
  | some mc =>
    let time_at_source := mc.current_time
    -- add the source to the dictionary
    let g1 := initialize_source S g mc_id mc
    -- compute if needed, and add the destination to the dictionary
    match compute_destination S tracer g1 mc_id mc.input_destination with
    | none => none
    | some destination =>
      let g2 := destination.1
      match g2.motorcycle mc_id with
      | none => none
      | some mc2 =>
        let mc3 := { mc2 with destination := destination.2.1 }
        -- sanity checks: source and destination must be on the same face
        match Dictionary.deref g2.points mc3.source, Dictionary.deref g2.points mc3.destination with
        | some source_entry, some destination_entry =>
          if source_entry.location.1 ≠ destination_entry.location.1 then none
          else if !S.is_in_face source_entry.location then none
          else if !S.is_in_face destination_entry.location then none
          else
            some (g2.set_motorcycle mc_id
              (initialize_targets_and_track mc3 time_at_source destination.2.2))
        | _, _ => none

/-- The loop of `initialize_motorcycles` (l. 2777-2886) over the remaining ids. -/
def initialize_motorcycles_loop (S : Services) (tracer : Tracer) (g : Motorcycle_graph) :
    List Nat → Option Motorcycle_graph
  | [] => some g
  | mc_id :: rest => do
    let g1 ← initialize_motorcycle S tracer g mc_id
    initialize_motorcycles_loop S tracer g1 rest

/-- The function `initialize_motorcycles` (l. 2777-2886). -/
def initialize_motorcycles (S : Services) (tracer : Tracer) (g : Motorcycle_graph) :
    Option Motorcycle_graph :=
  initialize_motorcycles_loop S tracer g (List.range g.motorcycles.length)


/-! ### Collision detection between two tracks of one supporting line -/

/-- The function `find_collision_at_tentative_track_destination` (l. 1594-1618). -/
def find_collision_at_tentative_track_destination (S : Services) (mc fmc : Motorcycle)
    (fmc_visiting_time : FT) (tc : Collision_information) : Option Collision_information := do
  let closest_target ← mc.closest_target
  let time_at_collision := closest_target.2
  if tc.is_collision_earlier_than_current_best time_at_collision fmc_visiting_time then
    some { tc.reset S.FT_max with
      is_closest_collision_already_in_dictionary := true
      closest_collision := closest_target.1
      time_at_closest_collision := time_at_collision
      fmc_id := fmc.id
      foreign_time_at_closest_collision := fmc_visiting_time }
  else some tc

/-- The function `find_collision_at_tentative_track_source` (l. 1620-1645). -/
def find_collision_at_tentative_track_source (S : Services) (mc fmc : Motorcycle)
    (fmc_visiting_time : FT) (tc : Collision_information) : Collision_information :=
  let time_at_collision := mc.current_time
  if tc.is_collision_earlier_than_current_best time_at_collision fmc_visiting_time then
    { tc.reset S.FT_max with
      is_closest_collision_already_in_dictionary := true
      closest_collision := mc.current_position
      time_at_closest_collision := time_at_collision
      fmc_id := fmc.id
      foreign_time_at_closest_collision := fmc_visiting_time }
  else tc

/-- The function `try_to_snap_location_to_existing_point` (l. 3323-3352): the loop over the
entries of the dictionary, `i` being the index of the first entry of the list. -/
def try_to_snap_loop (fd : face_descriptor) (p : Point) (tolerance : FT) :
    List Dictionary_entry → Nat → DEC_it × Bool
  | [], _ => (none, false)
  | e :: rest, i =>
    if e.location.1 ≠ fd then try_to_snap_loop fd p tolerance rest (i + 1)
    else if squared_distance e.point p ≤ tolerance then (some i, true)
    else try_to_snap_loop fd p tolerance rest (i + 1)

/-- The function `try_to_snap_location_to_existing_point` (l. 3323-3352). -/
def try_to_snap_location_to_existing_point (g : Motorcycle_graph) (location : Face_location)
    (p : Point) (tolerance : FT) : DEC_it × Bool :=
  try_to_snap_loop location.1 p tolerance g.points 0

/-- The meeting time of the opposite-direction, both-moving branch of
`find_collision_between_collinear_tracks` as computed at l. 1871-1874, before any snapping;
`sqd` is the squared distance of `mc`'s current position to the source of the foreign track. -/
def collinear_meeting_time (S : Services) (mc fmc : Motorcycle) (sqd time_at_fmc_track_source : FT) :
    FT :=
  mc.current_time +
    (S.sqrt sqd - fmc.speed * (mc.current_time - time_at_fmc_track_source)) /
      (mc.speed + fmc.speed)

/-- The snapping of the meeting time at l. 1884-1903 (`CGAL_MOTORCYCLE_GRAPH_ROBUSTNESS_CODE`):
a time below one of the two times at the sources is moved up to it; the pre- and
postconditions abort. -/
def collinear_snap_meeting_time (S : Services) (mc : Motorcycle)
    (time_at_collision time_at_fmc_track_source : FT) : Option FT :=
  let tolerance := S.FT_eps
  if time_at_collision < mc.current_time then
    if ¬ (time_at_collision + tolerance ≥ mc.current_time) then none
    else if ¬ (mc.current_time ≥ time_at_fmc_track_source) then none
    else some mc.current_time
  else if time_at_collision < time_at_fmc_track_source then
    if ¬ (time_at_collision + tolerance ≥ time_at_fmc_track_source) then none
    else if ¬ (time_at_fmc_track_source ≥ mc.current_time) then none
    else some time_at_fmc_track_source
  else some time_at_collision

/-- The part of the both-moving branch of `find_collision_between_collinear_tracks` that
follows a successful `is_collision_earlier_than_current_best(time_at_collision,
time_at_collision)` (l. 1907-2079). -/
def collinear_moving_store (S : Services) (g : Motorcycle_graph) (mc : Motorcycle)
    (mcs : Segment_2) (fmc : Motorcycle) (fmc_track_source_entry : Dictionary_entry)
    (are_motorcycles_on_the_same_face : Bool) (time_at_collision : FT)
    (tc : Collision_information) : Option Collision_information := do
  let ffd := fmc_track_source_entry.location.1
  -- both values are used later when we snap times/points
  let time_at_closest_collision_memory := tc.time_at_closest_collision
  let foreign_time_at_closest_collision_memory := tc.foreign_time_at_closest_collision
  let tc1 : Collision_information :=
    { tc.reset S.FT_max with
      time_at_closest_collision := time_at_collision
      fmc_id := fmc.id
      is_foreign_motorcycle_in_different_face := !are_motorcycles_on_the_same_face
      foreign_motorcycle_face := ffd
      foreign_time_at_closest_collision := time_at_collision }
  -- temporal snapping, with the targets of 'mc'
  let (tc2, used_temporal_snapping) :=
    match mc.has_target_at_time time_at_collision with
    | some target_point =>
      ({ tc1 with is_closest_collision_already_in_dictionary := true
                  closest_collision := target_point.1 }, true)
    | none => (tc1, false)
  -- same check with the foreign time at collision
  let (tc3, used_temporal_snapping1) ←
    match fmc.has_target_at_time time_at_collision with
    | some target_point => do
      let alternate_foreign_collision ← Dictionary.deref g.points target_point.1
      let fmc_loc ← g.current_location fmc
      if alternate_foreign_collision.location.1 ≠ fmc_loc.1 then none
      else if used_temporal_snapping then do
        let snapped_entry ← Dictionary.deref g.points tc2.closest_collision
        if some alternate_foreign_collision.location ≠ snapped_entry.sibling fmc_loc.1 then none
        else some (tc2, true)
      else
        some ({ tc2 with is_closest_collision_already_in_dictionary := true
                         closest_collision := target_point.1 }, true)
    | none => some (tc2, used_temporal_snapping)
  if used_temporal_snapping1 then some tc3
  else
    -- no choice but to construct the collision location
    let closest_target ← mc.closest_target
    let mcv : Vector_2 := Vector_2.of_points mcs.1 mcs.2
    let ratio := (time_at_collision - mc.current_time) / (closest_target.2 - mc.current_time)
    let collision : Point_2 := (mcs.1.1 + ratio * mcv.1, mcs.1.2 + ratio * mcv.2)
    let collision_location : Face_location := S.snap_location_to_border
      (ffd, (collision.1, collision.2, 1 - collision.1 - collision.2))
    match Dictionary.find g.points collision_location with
    | some i => do
      -- the point already existed
      let entry ← Dictionary.deref g.points (some i)
      let tc4 := { tc3 with is_closest_collision_already_in_dictionary := true
                            closest_collision := some i }
      let tolerance := S.FT_eps
      match entry.has_motorcycle_between mc.id (time_at_collision - tolerance)
          (time_at_collision + tolerance) with
      | some visiting_time =>
        if ¬ (visiting_time < time_at_closest_collision_memory) then none
        else some { tc4 with time_at_closest_collision := visiting_time
                             foreign_time_at_closest_collision := visiting_time }
      | none =>
        match entry.has_motorcycle_between fmc.id (time_at_collision - tolerance)
            (time_at_collision + tolerance) with
        | some foreign_visiting_time =>
          if tc4.time_at_closest_collision = time_at_closest_collision_memory ∧
              ¬ (foreign_visiting_time < foreign_time_at_closest_collision_memory) then none
          else some { tc4 with foreign_time_at_closest_collision := foreign_visiting_time
                               time_at_closest_collision := foreign_visiting_time }
        | none => some tc4
    | none =>
      -- a new location at an unknown time; maybe there exists another point that is very close
      let collision_point := S.location_to_point collision_location
      let tolerance := 2 * S.FT_eps
      let snapped := try_to_snap_location_to_existing_point g collision_location collision_point
        tolerance
      if snapped.2 then do
        let snapped_entry ← Dictionary.deref g.points snapped.1
        let min_visiting_time := time_at_collision - tolerance
        let max_visiting_time := time_at_collision + tolerance
        let visiting_time :=
          match snapped_entry.has_motorcycle_between mc.id min_visiting_time max_visiting_time with
          | some t => t
          | none =>
            match snapped_entry.has_motorcycle_between fmc.id min_visiting_time
                max_visiting_time with
            | some t => t
            | none => time_at_collision
        if ¬ (visiting_time ≤ time_at_closest_collision_memory) then none
        else if ¬ (visiting_time < time_at_closest_collision_memory ∨
            visiting_time < foreign_time_at_closest_collision_memory) then none
        else
          some { tc3 with add_intersection_without_moving_motorcycles := true
                          is_closest_collision_already_in_dictionary := true
                          closest_collision := snapped.1
                          time_at_closest_collision := visiting_time
                          foreign_time_at_closest_collision := visiting_time }
      else
        -- couldn't snap to anything, 'collision_location' is definitely a new point
        some { tc3 with is_closest_collision_already_in_dictionary := false
                        closest_collision_location := collision_location }

/-- The offer of a collision at an end of the foreign track in
`find_collision_between_collinear_tracks` (l. 1766-1779 for the source of the track,
l. 1848-1861 for its destination): `foreign_track_end` is the entry of that end and
`time_at_foreign_track_end` the time of the track there. -/
def offer_at_foreign_track_end (S : Services) (tc : Collision_information) (fmc : Motorcycle)
    (foreign_track_end : DEC_it) (time_at_foreign_track_end : FT) (ffd : face_descriptor)
    (are_motorcycles_on_the_same_face : Bool) (time_at_collision : FT) :
    Collision_information :=
  if tc.is_collision_earlier_than_current_best time_at_collision time_at_foreign_track_end then
    { tc.reset S.FT_max with
      is_closest_collision_already_in_dictionary := true
      closest_collision := foreign_track_end
      time_at_closest_collision := time_at_collision
      fmc_id := fmc.id
      is_foreign_motorcycle_in_different_face := !are_motorcycles_on_the_same_face
      foreign_motorcycle_face := ffd
      foreign_time_at_closest_collision := time_at_foreign_track_end }
  else tc

/-- The sanity checks of `find_collision_between_collinear_tracks` for tracks on different
faces (l. 1712-1728): all track points are on the common halfedge. -/
def collinear_tracks_on_common_halfedge (S : Services) (g : Motorcycle_graph) (mc : Motorcycle)
    (mc_loc : Face_location) (fmc_track_source_entry fmc_track_destination_entry : Dictionary_entry) :
    Bool :=
  match S.common_halfedge fmc_track_source_entry.location.1 mc_loc.1 with
  | none => false
  | some hd =>
    let opp_hd := S.opposite hd
    S.is_on_halfedge fmc_track_source_entry.location hd &&
    S.is_on_halfedge fmc_track_destination_entry.location hd &&
    S.is_on_halfedge mc_loc opp_hd &&
    (match mc.closest_target with
     | none => false
     | some ct =>
       match Dictionary.deref g.points ct.1 with
       | none => false
       | some e => S.is_on_halfedge e.location opp_hd)

/-- The function `find_collision_between_collinear_tracks` (l. 1647-2083), with
`CGAL_MOTORCYCLE_GRAPH_ROBUSTNESS_CODE` defined and without the rigorous preconditions. -/
def find_collision_between_collinear_tracks (S : Services) (g : Motorcycle_graph)
    (mc : Motorcycle) (mcs : Segment_2) (fmc : Motorcycle) (fmc_track : Track_segment)
    (fmcs : Segment_2) (is_fmc_moving_on_track : Bool) (tc : Collision_information) :
    Option Collision_information :=
  if mcs.1 = fmcs.1 then some tc
  else
    let is_fmcs_degenerate := is_degenerate_2 fmcs
    -- compute the respective direction of the two motorcycles
    if mcs.1 = mcs.2 then none
    else
      let are_motorcycles_moving_in_the_same_direction : Bool :=
        is_fmcs_degenerate || decide (angle_2 mcs.1 mcs.2 fmcs.1 fmcs.2 = Angle.ACUTE)
      let fmc_track_source := fmc_track.source
      let time_at_fmc_track_source := fmc_track.time_at_source
      let fmc_track_destination := fmc_track.destination
      let time_at_fmc_track_destination := fmc_track.time_at_destination
      match Dictionary.deref g.points fmc_track_source,
            Dictionary.deref g.points fmc_track_destination,
            Dictionary.deref g.points mc.current_position with
      | some fmc_track_source_entry, some fmc_track_destination_entry, some mc_position_entry =>
        let ffd := fmc_track_source_entry.location.1
        if ffd ≠ fmc_track_destination_entry.location.1 then none
        else
          let are_motorcycles_on_the_same_face : Bool :=
            decide (mc_position_entry.location.1 = fmc_track_source_entry.location.1)
          -- some sanity checks
          if ¬ (time_at_fmc_track_source ≤ time_at_fmc_track_destination) then none
          else if !are_motorcycles_on_the_same_face &&
              !collinear_tracks_on_common_halfedge S g mc mc_position_entry.location
                fmc_track_source_entry fmc_track_destination_entry then none
          else if are_motorcycles_moving_in_the_same_direction then
            -- the motorcycles move in the same direction:
            -- if there's an intersection, 'mc' will impact fmcs' source
            let time_at_collision : Option (Option FT) :=
              if mcs.2 = fmcs.1 then
                match mc.closest_target with
                | none => none
                | some ct => some (some ct.2)
              else if collinear_are_strictly_ordered_along_line_2 mcs.1 fmcs.1 mcs.2 then
                some (some (mc.current_time +
                  S.sqrt (squared_distance mc_position_entry.point fmc_track_source_entry.point) /
                    mc.speed))
              else some none
            match time_at_collision with
            | none => none
            | some none => some tc
            | some (some time_at_collision) =>
              some (offer_at_foreign_track_end S tc fmc fmc_track_source time_at_fmc_track_source
                ffd are_motorcycles_on_the_same_face time_at_collision)
          else
            -- motorcycles are moving in opposite directions
            -- if the foreign source is 'before' mc's source, then there is no intersection
            if collinear_are_strictly_ordered_along_line_2 fmcs.1 mcs.1 mcs.2 then some tc
            -- if mc's target is in [mcs, fmcs], then there is no intersection
            else if mcs.2 ≠ fmcs.2 &&
                collinear_are_strictly_ordered_along_line_2 mcs.2 fmcs.2 fmcs.1 then some tc
            else if !is_fmc_moving_on_track then
              -- stationary 'fmc': 'mc' crashes into the final position of the foreign track
              let time_at_collision : Option (Option FT) :=
                if mcs.2 = fmcs.2 then
                  match mc.closest_target with
                  | none => none
                  | some ct => some (some ct.2)
                else if mcs.1 = fmcs.2 then some (some mc.current_time)
                else if collinear_are_strictly_ordered_along_line_2 mcs.1 fmcs.2 mcs.2 then
                  let t := mc.current_time +
                    S.sqrt (squared_distance mc_position_entry.point
                      fmc_track_destination_entry.point) / mc.speed
                  if (mc.has_target_at_time t).isSome then none else some (some t)
                else some none
              match time_at_collision with
              | none => none
              | some none => some tc
              | some (some time_at_collision) =>
                some (offer_at_foreign_track_end S tc fmc fmc_track_destination
                  time_at_fmc_track_destination ffd are_motorcycles_on_the_same_face
                  time_at_collision)
            else
              -- the foreign motorcycle is (also) moving
              let sqd := squared_distance mc_position_entry.point fmc_track_source_entry.point
              match collinear_snap_meeting_time S mc
                  (collinear_meeting_time S mc fmc sqd time_at_fmc_track_source)
                  time_at_fmc_track_source with
              | none => none
              | some time_at_collision =>
                if tc.is_collision_earlier_than_current_best time_at_collision time_at_collision
                then
                  collinear_moving_store S g mc mcs fmc fmc_track_source_entry
                    are_motorcycles_on_the_same_face time_at_collision tc
                else some tc
      | _, _, _ => none


/-! ### Halving points and the treatment of a collision -/

/-- The function `compute_middle_point` (l. 710-744): the graph after the call (the middle
location is inserted in the dictionary), the entry and the time at the entry. -/
def compute_middle_point (S : Services) (g : Motorcycle_graph) (p : DEC_it) (p_time : FT)
    (q : DEC_it) (q_time : FT) : Option (Motorcycle_graph × DEC_it × FT) := do
  let p_entry ← Dictionary.deref g.points p
  let q_entry ← Dictionary.deref g.points q
  if p_entry.location.1 ≠ q_entry.location.1 then none
  else
    let p_coords := p_entry.location.2
    let q_coords := q_entry.location.2
    let middle_coords : Barycentric_coordinates :=
      (1 / 2 * (p_coords.1 + q_coords.1), 1 / 2 * (p_coords.2.1 + q_coords.2.1),
        1 / 2 * (p_coords.2.2 + q_coords.2.2))
    let middle_loc : Face_location := (p_entry.location.1, middle_coords)
    let time_at_r := 1 / 2 * (p_time + q_time)
    let entry := Dictionary.insert S g.points middle_loc
    some ({ g with points := entry.1 }, entry.2.1, time_at_r)

/-- The function `compute_halving_point` (l. 687-708), without
`CGAL_MOTORCYCLE_GRAPH_USE_ADVANCED_HALVING`. -/
def compute_halving_point (S : Services) (g : Motorcycle_graph) (p : DEC_it) (p_time : FT)
    (q : DEC_it) (q_time : FT) : Option (Motorcycle_graph × DEC_it × FT) := do
  if p = q then none
  else
    let p_entry ← Dictionary.deref g.points p
    let q_entry ← Dictionary.deref g.points q
    if p_entry.location.1 ≠ q_entry.location.1 then none
    else compute_middle_point S g p p_time q q_time

/-- The first half of the body of `treat_collision` (l. 3210-3251): the targets of `mc`. -/
def treat_collision_mc (S : Services) (g : Motorcycle_graph) (mc_id : Nat)
    (collision_point : DEC_it) (time_at_collision_point : FT) : Option Motorcycle_graph := do
  let mc ← g.motorcycle mc_id
  let collision_entry ← Dictionary.deref g.points collision_point
  if !collision_entry.has_motorcycle_at mc.id time_at_collision_point then
    -- call the halving structure to create a new point
    let (g1, halving_point, time_at_halving_point) ←
      compute_halving_point S g mc.current_position mc.current_time
        collision_point time_at_collision_point
    -- degeneracies should have been caught before
    if halving_point = mc.current_position || halving_point = collision_point then none
    else
      let mc1 ← mc.add_target collision_point time_at_collision_point
      let mc2 ← mc1.add_target halving_point time_at_halving_point
      let points1 := Dictionary.modify g1.points halving_point
        (fun e => e.add_motorcycle mc.id time_at_halving_point)
      let points2 := Dictionary.modify points1 collision_point
        (fun e => e.add_motorcycle mc.id time_at_collision_point)
      if !mc2.has_target_at collision_point time_at_collision_point then none
      else some (({ g1 with points := points2 }).set_motorcycle mc_id mc2)
  else if collision_point = mc.current_position then
    let mc1 ← mc.add_target collision_point time_at_collision_point
    some (g.set_motorcycle mc_id mc1)
  else some g

/-- The second half of the body of `treat_collision` (l. 3253-3310): the foreign
motorcycle. -/
def treat_collision_fmc (S : Services) (g : Motorcycle_graph) (fmc_id : Nat)
    (foreign_collision_point : DEC_it) (foreign_time_at_collision_point : FT) :
    Option Motorcycle_graph := do
  let fmc ← g.motorcycle fmc_id
  let foreign_collision_entry ← Dictionary.deref g.points foreign_collision_point
  if foreign_collision_entry.has_motorcycle_at fmc.id foreign_time_at_collision_point then
    some g
  else
    -- ignore points that are farther than the current closest point
    let is_not_farther : Bool ←
      if fmc.crashed then some true
      else (fmc.closest_target).map (fun ct => decide (foreign_time_at_collision_point ≤ ct.2))
    if !is_not_farther then some g
    else
      let points1 := Dictionary.modify g.points foreign_collision_point
        (fun e => e.add_motorcycle fmc.id foreign_time_at_collision_point)
      let g1 := { g with points := points1 }
      if foreign_time_at_collision_point > fmc.current_time then
        -- the collision point is not on the confirmed track for the foreign mc
        let (g2, foreign_halving_point, foreign_time_at_halving_point) ←
          compute_halving_point S g1 fmc.current_position fmc.current_time
            foreign_collision_point foreign_time_at_collision_point
        if foreign_halving_point = fmc.current_position ||
            foreign_halving_point = foreign_collision_point then none
        else
          let fmc1 ← fmc.add_target foreign_collision_point foreign_time_at_collision_point
          let fmc2 ← fmc1.add_target foreign_halving_point foreign_time_at_halving_point
          let points2 := Dictionary.modify g2.points foreign_halving_point
            (fun e => e.add_motorcycle fmc.id foreign_time_at_halving_point)
          let g3 := (({ g2 with points := points2 }).set_motorcycle fmc_id fmc2).pq_update fmc_id
          if !fmc2.has_target_at foreign_collision_point foreign_time_at_collision_point then none
          else some g3
      else
        -- new point for the foreign motorcycle, but it belongs to its confirmed track
        let points2 := Dictionary.modify g1.points foreign_collision_point (fun e => e.block)
        let fmc1 := fmc.track_insert foreign_collision_point foreign_time_at_collision_point
        some (({ g1 with points := points2 }).set_motorcycle fmc_id fmc1)

/-- The function `treat_collision(mc, collision_point, time_at_collision_point, fmc,
foreign_collision_point, foreign_time_at_collision_point)` (l. 3170-3321), the motorcycles
being given by their indices. -/
def treat_collision (S : Services) (g : Motorcycle_graph) (mc_id : Nat)
    (collision_point : DEC_it) (time_at_collision_point : FT) (fmc_id : Nat)
    (foreign_collision_point : DEC_it) (foreign_time_at_collision_point : FT) :
    Option Motorcycle_graph := do
  let mc ← g.motorcycle mc_id
  let fmc ← g.motorcycle fmc_id
  -- some sanity checks
  if mc.id = size_t_minus_one || fmc.id = size_t_minus_one then none
  else
    let collision_entry ← Dictionary.deref g.points collision_point
    let foreign_collision_entry ← Dictionary.deref g.points foreign_collision_point
    let mc_loc ← g.current_location mc
    if collision_entry.point ≠ foreign_collision_entry.point then none
    else if collision_entry.location.1 ≠ mc_loc.1 then none
    else if ¬ (time_at_collision_point ≥ mc.current_time) then none
    else
      let closest_target ← mc.closest_target
      if decide (time_at_collision_point ≤ closest_target.2) &&
          (decide (collision_point ≠ closest_target.1) ||
            !collision_entry.has_motorcycle_at fmc.id foreign_time_at_collision_point) then
        let g1 ← treat_collision_mc S g mc_id collision_point time_at_collision_point
        treat_collision_fmc S g1 fmc_id foreign_collision_point foreign_time_at_collision_point
      else some g

/-! ### Collision detection between two tracks -/

/-- The store of a candidate at an entry of the dictionary, as `find_collision_between_tracks`
writes it (l. 2183-2192, 2216-2225, 2250-2259, 2409-2418). -/
def offer_known_point (S : Services) (tc : Collision_information) (fmc : Motorcycle)
    (collision_point : DEC_it) (time_at_collision foreign_time_at_collision : FT) :
    Collision_information :=
  if tc.is_collision_earlier_than_current_best time_at_collision foreign_time_at_collision then
    { tc.reset S.FT_max with
      is_closest_collision_already_in_dictionary := true
      closest_collision := collision_point
      time_at_closest_collision := time_at_collision
      fmc_id := fmc.id
      foreign_time_at_closest_collision := foreign_time_at_collision }
  else tc

/-- The branch of `find_collision_between_tracks` for an intersection at a location that is
already in the dictionary (l. 2340-2420). -/
def find_collision_at_known_point (S : Services) (mc : Motorcycle) (fmc : Motorcycle)
    (fmc_track : Track_segment) (pos fts : Dictionary_entry) (closest_target : DEC_it × FT)
    (collision_point : DEC_it) (collision_entry : Dictionary_entry)
    (tc : Collision_information) : Option Collision_information :=
  -- check if 'mc' already visits the known collision point
  let time_at_collision : Option FT :=
    if collision_point = closest_target.1 then some closest_target.2
    else if collision_point = mc.current_position then some mc.current_time
    else if (collision_entry.has_motorcycle_between mc.id mc.current_time
        closest_target.2).isSome then none
    else
      -- no choice but to compute the visiting time
      let t := mc.current_time +
        S.sqrt (squared_distance pos.point collision_entry.point) / mc.speed
      if t = mc.current_time then none
      else if t = closest_target.2 then none
      else some t
  match time_at_collision with
  | none => none
  | some time_at_collision =>
    -- partial test of "is_collision_earlier..." to branch out early
    if time_at_collision ≤ tc.time_at_closest_collision then
      -- check if 'fmc' already visits the known collision point
      let foreign_time_at_collision : Option FT :=
        match collision_entry.has_motorcycle_between fmc.id fmc_track.time_at_source
            fmc_track.time_at_destination with
        | some t => some t
        | none =>
          if (fmc.has_target_at_time tc.foreign_time_at_closest_collision).isSome then none
          else some (fmc_track.time_at_source +
            S.sqrt (squared_distance fts.point collision_entry.point) / fmc.speed)
      match foreign_time_at_collision with
      | none => none
      | some foreign_time_at_collision =>
        some (offer_known_point S tc fmc collision_point time_at_collision
          foreign_time_at_collision)
    else some tc

/-- The temporal snapping of a new collision location in `find_collision_between_tracks`
(l. 2449-2496): the record and `used_temporal_snapping`. -/
def temporal_snapping (S : Services) (g : Motorcycle_graph) (mc fmc : Motorcycle)
    (collision_point : Point) (time_at_collision foreign_time_at_collision : FT)
    (tc1 : Collision_information) : Option (Collision_information × Bool) := do
  let (tc2, used_temporal_snapping) ←
    match mc.has_target_at_time time_at_collision with
    | some target_point => do
      let alternate_collision ← Dictionary.deref g.points target_point.1
      -- if the times are equal, the points should be very close
      if ¬ (squared_distance alternate_collision.point collision_point < S.FT_eps) then none
      else
        some ({ tc1 with is_closest_collision_already_in_dictionary := true
                         closest_collision := target_point.1 }, true)
    | none => some (tc1, false)
  match fmc.has_target_at_time foreign_time_at_collision with
  | some target_point => do
    let alternate_foreign_collision ← Dictionary.deref g.points target_point.1
    let fmc_loc ← g.current_location fmc
    if alternate_foreign_collision.location.1 ≠ fmc_loc.1 then none
    else if used_temporal_snapping then do
      let snapped_entry ← Dictionary.deref g.points tc2.closest_collision
      if some alternate_foreign_collision.location ≠ snapped_entry.sibling fmc_loc.1 then none
      else some (tc2, true)
    else
      some ({ tc2 with is_closest_collision_already_in_dictionary := true
                       closest_collision := target_point.1 }, true)
  | none => some (tc2, used_temporal_snapping)

/-- The branch of `find_collision_between_tracks` for an intersection at a location that has
never been seen before (l. 2421-2566). -/
def find_collision_at_new_point (S : Services) (g : Motorcycle_graph) (mc : Motorcycle)
    (fmc : Motorcycle) (fmc_track : Track_segment) (pos fts : Dictionary_entry)
    (closest_target : DEC_it × FT) (collision_location : Face_location)
    (tc : Collision_information) : Option Collision_information :=
  let collision_point := S.location_to_point collision_location
  let time_at_collision := mc.current_time +
    S.sqrt (squared_distance pos.point collision_point) / mc.speed
  let foreign_time_at_collision := fmc_track.time_at_source +
    S.sqrt (squared_distance fts.point collision_point) / fmc.speed
  if ¬ (time_at_collision ≥ mc.current_time) then none
  else if ¬ (time_at_collision ≤ closest_target.2) then none
  else if ¬ (foreign_time_at_collision ≥ fmc_track.time_at_source) then none
  else if ¬ (foreign_time_at_collision ≤ fmc_track.time_at_destination) then none
  else if tc.is_collision_earlier_than_current_best time_at_collision
      foreign_time_at_collision then
    -- both values are used later when we snap times/points
    let time_at_closest_collision_memory := tc.time_at_closest_collision
    let foreign_time_at_closest_collision_memory := tc.foreign_time_at_closest_collision
    let tc1 : Collision_information :=
      { tc.reset S.FT_max with
        time_at_closest_collision := time_at_collision
        fmc_id := fmc.id
        foreign_time_at_closest_collision := foreign_time_at_collision }
    match temporal_snapping S g mc fmc collision_point time_at_collision
        foreign_time_at_collision tc1 with
    | none => none
    | some (tc3, true) => some tc3
    | some (tc3, false) =>
      -- at this point, we have a new location at an unknown time...
      let tolerance := 2 * S.FT_eps
      let snapped := try_to_snap_location_to_existing_point g collision_location collision_point
        tolerance
      match (if snapped.2 then Dictionary.deref g.points snapped.1 else none), snapped.2 with
      | none, true => none
      | some snapped_entry, true =>
        let visiting_time :=
          (snapped_entry.has_motorcycle_between mc.id (time_at_collision - tolerance)
            (time_at_collision + tolerance)).getD time_at_collision
        if visiting_time ≤ tc3.time_at_closest_collision then
          let foreign_visiting_time :=
            (snapped_entry.has_motorcycle_between fmc.id (foreign_time_at_collision - tolerance)
              (foreign_time_at_collision + tolerance)).getD foreign_time_at_collision
          if ¬ (visiting_time ≤ time_at_closest_collision_memory) then none
          else if ¬ (visiting_time < time_at_closest_collision_memory ∨
              foreign_visiting_time < foreign_time_at_closest_collision_memory) then none
          else
            some { tc3 with add_intersection_without_moving_motorcycles := true
                            is_closest_collision_already_in_dictionary := true
                            closest_collision := snapped.1
                            time_at_closest_collision := visiting_time
                            foreign_time_at_closest_collision := foreign_visiting_time }
        else
          some { tc3 with is_closest_collision_already_in_dictionary := false
                          closest_collision_location := collision_location }
      | _, false =>
        -- couldn't snap to anything, 'collision_location' is definitely a new point
        some { tc3 with is_closest_collision_already_in_dictionary := false
                        closest_collision_location := collision_location }
  else some tc

/-- The general case of `find_collision_between_tracks`, in which the intersection must be
computed (l. 2299-2566). -/
def find_collision_by_intersection (S : Services) (g : Motorcycle_graph) (mc : Motorcycle)
    (mcs : Segment_2) (fmc : Motorcycle) (fmc_track : Track_segment) (fmcs : Segment_2)
    (pos fts : Dictionary_entry) (closest_target : DEC_it × FT) (tc : Collision_information) :
    Option Collision_information :=
  if is_degenerate_2 fmcs then
    if do_intersect_2 mcs fmcs then none else some tc
  else if !do_intersect_2 mcs fmcs then
    -- no intersection, move to the next motorcycle
    some tc
  else
    -- below computes the intersection in the barycentric coordinates system
    let collision := S.robust_intersection mcs fmcs
    let coords : Barycentric_coordinates := (collision.1, collision.2, 1 - collision.1 - collision.2)
    let collision_location : Face_location := S.snap_location_to_border (pos.location.1, coords)
    match Dictionary.find g.points collision_location with
    | some i =>
      match Dictionary.deref g.points (some i) with
      | none => none
      | some collision_entry =>
        find_collision_at_known_point S mc fmc fmc_track pos fts closest_target (some i)
          collision_entry tc
    | none =>
      find_collision_at_new_point S g mc fmc fmc_track pos fts closest_target collision_location
        tc

/-- The checks #1 to #4bis of `find_collision_between_tracks` for tracks that are not collinear
(l. 2146-2297), followed by the general case. -/
def find_collision_between_non_collinear_tracks (S : Services) (g : Motorcycle_graph)
    (mc : Motorcycle) (mcs : Segment_2) (fmc : Motorcycle) (fmc_track : Track_segment)
    (fmcs : Segment_2) (pos ct fts ftd : Dictionary_entry) (closest_target : DEC_it × FT)
    (tc : Collision_information) : Option Collision_information :=
  -- check #1: known collision at current_position
  if (pos.has_motorcycle_between fmc.id fmc_track.time_at_source
      fmc_track.time_at_destination).isSome then some tc
  else
    -- check #2: known collision at closest_target
    match ct.has_motorcycle_between fmc.id fmc_track.time_at_source
        fmc_track.time_at_destination with
    | some foreign_visiting_time =>
      find_collision_at_tentative_track_destination S mc fmc foreign_visiting_time tc
    | none =>
      -- check #3: collision at destination, with foreign track on an edge
      if fmc_track.source = closest_target.1 then none
      else if fmc_track.destination = closest_target.1 then none
      else if S.are_logically_collinear_on_border fts.location ct.location ftd.location then
        if collinear_are_strictly_ordered_along_line_2 fmcs.1 mcs.2 fmcs.2 then
          some (offer_known_point S tc fmc closest_target.1 closest_target.2
            (fmc_track.time_at_source +
              S.sqrt (squared_distance fts.point ct.point) / fmc.speed))
        else some tc
      -- check #4: collision at foreign destination
      else if fmc_track.destination = mc.current_position then none
      else if S.are_logically_collinear_on_border ftd.location ct.location pos.location then
        if collinear_are_strictly_ordered_along_line_2 mcs.1 fmcs.2 mcs.2 then
          some (offer_known_point S tc fmc fmc_track.destination
            (mc.current_time + S.sqrt (squared_distance pos.point ftd.point) / mc.speed)
            fmc_track.time_at_destination)
        else some tc
      -- check #4bis: collision at foreign source
      else if fmc_track.source = mc.current_position then none
      else if S.are_logically_collinear_on_border fts.location ct.location pos.location then
        if collinear_are_strictly_ordered_along_line_2 mcs.1 fmcs.1 mcs.2 then
          some (offer_known_point S tc fmc fmc_track.source
            (mc.current_time + S.sqrt (squared_distance pos.point fts.point) / mc.speed)
            fmc_track.time_at_source)
        else some tc
      else
        find_collision_by_intersection S g mc mcs fmc fmc_track fmcs pos fts closest_target tc

/-- The function `find_collision_between_tracks` (l. 2085-2568), with
`CGAL_MOTORCYCLE_GRAPH_ROBUSTNESS_CODE` defined. -/
def find_collision_between_tracks (S : Services) (g : Motorcycle_graph) (mc : Motorcycle)
    (mcs : Segment_2) (fmc : Motorcycle) (fmc_track : Track_segment)
    (is_fmc_moving_on_track : Bool) (tc : Collision_information) :
    Option Collision_information :=
  match mc.closest_target, Dictionary.deref g.points mc.current_position,
        Dictionary.deref g.points fmc_track.source,
        Dictionary.deref g.points fmc_track.destination with
  | some closest_target, some pos, some fts, some ftd =>
    match Dictionary.deref g.points closest_target.1 with
    | none => none
    | some ct =>
      -- non degenerate mc segment
      if mc.current_position = closest_target.1 then none
      else if mcs.1 = mcs.2 then none
      -- both tracks must be on the same face
      else if fts.location.1 ≠ ftd.location.1 then none
      else
        let s : Point_2 := (fts.location.2.1, fts.location.2.2.1)
        let t : Point_2 := (ftd.location.2.1, ftd.location.2.2.1)
        let fmcs : Segment_2 := (s, t)
        -- ignore the case of a degenerate fmc track starting at the same source as mc's
        let is_fmcs_degenerate := is_degenerate_2 fmcs
        if is_fmcs_degenerate && decide (mcs.1 = fmcs.1) then some tc
        else if is_fmcs_degenerate &&
            S.are_logically_collinear_on_border pos.location fts.location ct.location then
          find_collision_between_collinear_tracks S g mc mcs fmc fmc_track fmcs
            is_fmc_moving_on_track tc
        -- detect whether the motorcycles share the same supporting line
        else if collinear_2 mcs.1 mcs.2 fmcs.1 && collinear_2 mcs.1 mcs.2 fmcs.2 then
          find_collision_between_collinear_tracks S g mc mcs fmc fmc_track fmcs
            is_fmc_moving_on_track tc
        else
          find_collision_between_non_collinear_tracks S g mc mcs fmc fmc_track fmcs pos ct fts
            ftd closest_target tc
  | _, _, _, _ => none

/-- The function `find_collision_with_complete_track` (l. 2568-2585). -/
def find_collision_with_complete_track (S : Services) (g : Motorcycle_graph) (mc : Motorcycle)
    (mcs : Segment_2) (fmc_track : Track_segment) (tc : Collision_information) :
    Option Collision_information :=
  match g.motorcycle fmc_track.id with
  | none => none
  | some fmc =>
    -- 'false' because the motorcycle is not moving on that track
    find_collision_between_tracks S g mc mcs fmc fmc_track false tc

/-- The function `find_collision_with_live_motorcycle` (l. 2587-2618). -/
def find_collision_with_live_motorcycle (S : Services) (g : Motorcycle_graph) (mc : Motorcycle)
    (mcs : Segment_2) (fmc : Motorcycle) (tc : Collision_information) :
    Option Collision_information :=
  if mc.id = fmc.id then some tc
  else
    match g.current_location mc, g.current_location fmc with
    | some mc_loc, some fmc_loc =>
      if mc_loc.1 ≠ fmc_loc.1 || fmc.crashed then some tc
      else
        match fmc.closest_target with
        | none => none
        | some fct =>
          let fmc_track : Track_segment :=
            { id := fmc.id, source := fmc.source, time_at_source := fmc.time_at_source,
              destination := fct.1, time_at_destination := fct.2 }
          -- 'true' because fmc is currently moving on that track
          find_collision_between_tracks S g mc mcs fmc fmc_track true tc
    | _, _ => none

/-! ### Collision detection with the tracks of the adjacent faces -/

/-- Whether two locations lie on one halfedge of the face `fd`: the loop over the halfedges of
the face (l. 961-976, 1204-1218); the halfedge found, if any. -/
def common_halfedge_of_face (S : Services) (fd : face_descriptor) (l m : Face_location) :
    Option Nat :=
  (S.halfedges_around_face fd).find? (fun hd => S.is_on_halfedge l hd && S.is_on_halfedge m hd)

/-- The store of a candidate on a foreign face (l. 1164-1175, 1262-1273, 1555-1566,
1585-1596). -/
def offer_on_foreign_face (S : Services) (tc : Collision_information) (fmc_id : Nat)
    (collision_point : DEC_it) (ffd : face_descriptor)
    (time_at_collision foreign_time_at_collision : FT) : Collision_information :=
  if tc.is_collision_earlier_than_current_best time_at_collision foreign_time_at_collision then
    { tc.reset S.FT_max with
      is_closest_collision_already_in_dictionary := true
      closest_collision := collision_point
      time_at_closest_collision := time_at_collision
      fmc_id := fmc_id
      is_foreign_motorcycle_in_different_face := true
      foreign_motorcycle_face := ffd
      foreign_time_at_closest_collision := foreign_time_at_collision }
  else tc

/-- The function `find_collision_with_track_on_foreign_face(mc, ct_dv, fmc_track, tc)`
(l. 1122-1283): only the closest target of `mc` is on the border. -/
def find_collision_with_track_on_foreign_face_at_target (S : Services) (g : Motorcycle_graph)
    (mc : Motorcycle) (ct_dv : descriptor_variant) (fmc_track : Track_segment)
    (tc : Collision_information) : Option Collision_information :=
  match g.motorcycle fmc_track.id, Dictionary.deref g.points fmc_track.source,
        Dictionary.deref g.points fmc_track.destination, mc.closest_target with
  | some fmc, some fts, some ftd, some closest_target =>
    match Dictionary.deref g.points closest_target.1 with
    | none => none
    | some ct =>
      let ffd := fts.location.1
      if ffd ≠ ftd.location.1 then none
      else
        match ct.sibling ffd with
        | none => none
        | some ct_in_ffd =>
          let time_at_collision := closest_target.2
          match ct.has_motorcycle_between fmc.id fmc_track.time_at_source
              fmc_track.time_at_destination with
          | some foreign_visiting_time =>
            some (offer_on_foreign_face S tc fmc.id closest_target.1 ffd time_at_collision
              foreign_visiting_time)
          | none =>
            match ct_dv with
            | .vertex _ => some tc
            | .face _ => none
            | .halfedge hd =>
              -- check if source and targets lie on the same halfedge
              match common_halfedge_of_face S ffd fts.location ftd.location with
              | none => some tc
              | some cfhd =>
                -- 'hd' is in the non-foreign face, and we want the halfedge in the foreign face
                if cfhd ≠ S.opposite hd then some tc
                else
                  let s : Point_2 := (fts.location.2.1, fts.location.2.2.1)
                  let t : Point_2 := (ftd.location.2.1, ftd.location.2.2.1)
                  let ct2 : Point_2 := (ct_in_ffd.2.1, ct_in_ffd.2.2.1)
                  if s = ct2 || t = ct2 then none
                  -- check if the closest target is in between the source and the destination
                  else if !collinear_are_strictly_ordered_along_line_2 s ct2 t then some tc
                  else
                    -- no choice but to compute the foreign time
                    some (offer_on_foreign_face S tc fmc_track.id closest_target.1 ffd
                      time_at_collision
                      (fmc_track.time_at_source +
                        S.sqrt (squared_distance fts.point ct.point) / fmc.speed))
  | _, _, _, _ => none

/-- The function `find_collision_with_live_motorcycle_on_foreign_face(mc, dv, ffd, fmc, tc)`
(l. 1086-1120). -/
def find_collision_with_live_motorcycle_on_foreign_face_at_target (S : Services)
    (g : Motorcycle_graph) (mc : Motorcycle) (dv : descriptor_variant) (ffd : face_descriptor)
    (fmc : Motorcycle) (tc : Collision_information) : Option Collision_information :=
  match g.current_location mc, g.current_location fmc with
  | some mc_loc, some fmc_loc =>
    if ffd = null_face then none
    else if mc_loc.1 = ffd then none
    else if fmc_loc.1 ≠ ffd || fmc.crashed then some tc
    else if fmc.id = mc.id then none
    else
      match fmc.closest_target with
      | none => none
      | some fct =>
        find_collision_with_track_on_foreign_face_at_target S g mc dv
          { id := fmc.id, source := fmc.source, time_at_source := fmc.time_at_source,
            destination := fct.1, time_at_destination := fct.2 } tc
  | _, _ => none

/-- A loop that offers the elements of a list to the collision record and stops as soon as
`add_intersection_without_moving_motorcycles` is set after a call (l. 1063-1073, 1076-1084,
2676-2684, 2690-2698). The flag is tested only after a call: on an empty list the record is
returned as it is, whatever its flag. -/
def search_loop {α : Type} (f : α → Collision_information → Option Collision_information) :
    List α → Collision_information → Option Collision_information
  | [], tc => some tc
  | x :: rest, tc =>
    match f x tc with
    | none => none
    | some tc1 =>
      if tc1.add_intersection_without_moving_motorcycles then some tc1
      else search_loop f rest tc1

/-- The tracks stored for a face in the track map (`track_face_map.find(fd)`). -/
def tracks_of_face (g : Motorcycle_graph) (fd : face_descriptor) : List Track_segment :=
  match g.track_face_map.find? (fun x => decide (x.1 = fd)) with
  | none => []
  | some x => x.2

/-- The function `find_collision_with_tentative_track_target_on_border(mc, dv, ffd, tc)`
(l. 1045-1084). -/
def find_collision_with_tentative_track_target_on_border_in_face (S : Services)
    (g : Motorcycle_graph) (mc : Motorcycle) (dv : descriptor_variant) (ffd : face_descriptor)
    (tc : Collision_information) : Option Collision_information :=
  match g.current_location mc with
  | none => none
  | some mc_loc =>
    if ffd = null_face then none
    else if mc_loc.1 = ffd then none
    else
      -- step 1: check complete tracks
      match search_loop (fun track tc =>
          find_collision_with_track_on_foreign_face_at_target S g mc dv track tc)
          (g.tracks_of_face ffd) tc with
      | none => none
      | some tc1 =>
        -- the loop has returned from the function if it ran and the flag is set
        if !(g.tracks_of_face ffd).isEmpty &&
            tc1.add_intersection_without_moving_motorcycles then some tc1
        else
          -- step 2: check incomplete tracks
          search_loop (fun fmc tc =>
            find_collision_with_live_motorcycle_on_foreign_face_at_target S g mc dv ffd fmc tc)
            g.motorcycles tc1

/-- The loop of `find_collision_with_tentative_track_target_on_border(mc, dv, tc)` over the
faces around a vertex (l. 1017-1024). -/
def search_faces_around_target (S : Services) (g : Motorcycle_graph) (mc : Motorcycle)
    (dv : descriptor_variant) (fd : face_descriptor) :
    List face_descriptor → Collision_information → Option Collision_information
  | [], tc => some tc
  | ffd :: rest, tc =>
    if ffd = fd || ffd = null_face then search_faces_around_target S g mc dv fd rest tc
    else
      match find_collision_with_tentative_track_target_on_border_in_face S g mc dv ffd tc with
      | none => none
      | some tc1 => search_faces_around_target S g mc dv fd rest tc1

/-- The function `find_collision_with_tentative_track_target_on_border(mc, dv, tc)`
(l. 1002-1043). -/
def find_collision_with_tentative_track_target_on_border (S : Services) (g : Motorcycle_graph)
    (mc : Motorcycle) (dv : descriptor_variant) (tc : Collision_information) :
    Option Collision_information :=
  match mc.closest_target, g.current_location mc with
  | some closest_target, some mc_loc =>
    match Dictionary.deref g.points closest_target.1 with
    | none => none
    | some ct =>
      if dv ≠ S.get_descriptor_from_location ct.location then none
      else
        match dv with
        | .vertex vd =>
          -- check all incident faces at 'vd' and intersections at vd
          search_faces_around_target S g mc dv mc_loc.1 (S.faces_around_target vd) tc
        | .halfedge hd =>
          if S.is_border_edge hd then some tc
          else
            -- check opposite face for intersection at the mc.closest_target()
            find_collision_with_tentative_track_target_on_border_in_face S g mc dv
              (S.face (S.opposite hd)) tc
        | .face _ => none
  | _, _ => none

/-- The function `find_collision_with_foreign_track_extremity` (l. 1485-1592). -/
def find_collision_with_foreign_track_extremity (S : Services) (g : Motorcycle_graph)
    (mc : Motorcycle) (hd : Nat) (fmc : Motorcycle) (foreign_extremity : DEC_it)
    (foreign_time_at_collision : FT) (tc : Collision_information) :
    Option Collision_information :=
  match mc.closest_target, Dictionary.deref g.points mc.current_position,
        Dictionary.deref g.points foreign_extremity with
  | some closest_target, some pos, some extremity =>
    match Dictionary.deref g.points closest_target.1 with
    | none => none
    | some ct =>
      -- mc's track is non-degenerate
      if mc.current_position = closest_target.1 then none
      -- mc's track in on the halfedge
      else if !S.is_on_halfedge pos.location hd then none
      else if !S.is_on_halfedge ct.location hd then none
      -- the foreign extremity is on a halfedge
      else if (S.get_descriptor_from_location extremity.location).which = 2 then none
      else
        let opp_hd := S.opposite hd
        if S.is_border opp_hd then none
        else
          let ffd := S.face opp_hd
          if extremity.location.1 ≠ ffd then none
          else
            match pos.sibling ffd, ct.sibling ffd with
            | some cp_in_ffd, some ct_in_ffd =>
              let s : Point_2 := (cp_in_ffd.2.1, cp_in_ffd.2.2.1)
              let t : Point_2 := (ct_in_ffd.2.1, ct_in_ffd.2.2.1)
              let e : Point_2 := (extremity.location.2.1, extremity.location.2.2.1)
              if s = e then
                -- intersection at mc's current_position: ignore it
                some tc
              else if t = e then
                -- intersection at mc's closest target
                some (offer_on_foreign_face S tc fmc.id closest_target.1 ffd closest_target.2
                  foreign_time_at_collision)
              else if !collinear_are_strictly_ordered_along_line_2 s e t then some tc
              else
                -- from here on, e is on ]s;t[
                some (offer_on_foreign_face S tc fmc.id foreign_extremity ffd
                  (mc.current_time +
                    S.sqrt (squared_distance pos.point extremity.point) / mc.speed)
                  foreign_time_at_collision)
            | _, _ => none
  | _, _, _ => none

/-- The function `find_collision_with_collinear_tracks_on_different_faces` (l. 1436-1483). -/
def find_collision_with_collinear_tracks_on_different_faces (S : Services)
    (g : Motorcycle_graph) (mc : Motorcycle) (hd : Nat) (fmc_track : Track_segment)
    (is_fmc_moving_on_track : Bool) (tc : Collision_information) :
    Option Collision_information :=
  match g.motorcycle fmc_track.id, mc.closest_target,
        Dictionary.deref g.points mc.current_position,
        Dictionary.deref g.points fmc_track.source,
        Dictionary.deref g.points fmc_track.destination with
  | some fmc, some closest_target, some pos, some fts, some ftd =>
    match Dictionary.deref g.points closest_target.1 with
    | none => none
    | some ct =>
      if !S.is_on_halfedge pos.location hd then none
      else if !S.is_on_halfedge ct.location hd then none
      else
        let opp_hd := S.opposite hd
        if S.is_border opp_hd then none
        else
          let ffd := S.face opp_hd
          match pos.sibling ffd, ct.sibling ffd with
          | some cp_in_ffd, some ct_in_ffd =>
            let s : Point_2 := (cp_in_ffd.2.1, cp_in_ffd.2.2.1)
            let t : Point_2 := (ct_in_ffd.2.1, ct_in_ffd.2.2.1)
            let fs : Point_2 := (fts.location.2.1, fts.location.2.2.1)
            let ft : Point_2 := (ftd.location.2.1, ftd.location.2.2.1)
            find_collision_between_collinear_tracks S g mc (s, t) fmc fmc_track (fs, ft)
              is_fmc_moving_on_track tc
          | _, _ => none
  | _, _, _, _, _ => none

/-- The function `find_collision_with_track_on_foreign_face(mc, hd, fmc_track,
is_fmc_moving_on_track, tc)` (l. 1380-1434): the tentative track of `mc` is on the
halfedge `hd`. -/
def find_collision_with_track_on_foreign_face (S : Services) (g : Motorcycle_graph)
    (mc : Motorcycle) (hd : Nat) (fmc_track : Track_segment) (is_fmc_moving_on_track : Bool)
    (tc : Collision_information) : Option Collision_information :=
  if S.is_border_edge hd then none
  else
    match g.motorcycle fmc_track.id, Dictionary.deref g.points fmc_track.source,
          Dictionary.deref g.points fmc_track.destination with
    | some fmc, some fts, some ftd =>
      let opp_hd := S.opposite hd
      let is_fts_on_opp_hd := S.is_on_halfedge fts.location opp_hd
      let is_ftd_on_opp_hd := S.is_on_halfedge ftd.location opp_hd
      if is_fts_on_opp_hd then
        if is_ftd_on_opp_hd then
          -- foreign track is a subset (or the whole) of 'opp_hd'
          find_collision_with_collinear_tracks_on_different_faces S g mc hd fmc_track
            is_fmc_moving_on_track tc
        else
          -- only possible intersection is at the source
          find_collision_with_foreign_track_extremity S g mc hd fmc fmc_track.source
            fmc_track.time_at_source tc
      else if is_ftd_on_opp_hd then
        -- only possible intersection is at the destination
        find_collision_with_foreign_track_extremity S g mc hd fmc fmc_track.destination
          fmc_track.time_at_destination tc
      else some tc
    | _, _, _ => none

/-- The function `find_collision_with_live_motorcycle_on_foreign_face(mc, hd, fmc, tc)`
(l. 1338-1378). -/
def find_collision_with_live_motorcycle_on_foreign_face (S : Services) (g : Motorcycle_graph)
    (mc : Motorcycle) (hd : Nat) (fmc : Motorcycle) (tc : Collision_information) :
    Option Collision_information :=
  let ffd := S.face (S.opposite hd)
  match g.current_location mc, g.current_location fmc with
  | some mc_loc, some fmc_loc =>
    if S.is_border_edge hd then none
    else if mc_loc.1 = ffd then none
    else if fmc_loc.1 ≠ ffd || fmc.crashed then some tc
    else if fmc.id = mc.id then none
    else
      match fmc.closest_target with
      | none => none
      | some fct =>
        find_collision_with_track_on_foreign_face S g mc hd
          { id := fmc.id, source := fmc.source, time_at_source := fmc.time_at_source,
            destination := fct.1, time_at_destination := fct.2 } true tc
  | _, _ => none

/-- The function `find_foreign_collision_with_tentative_track_on_border` (l. 1286-1336). -/
def find_foreign_collision_with_tentative_track_on_border (S : Services) (g : Motorcycle_graph)
    (mc : Motorcycle) (hd : Nat) (tc : Collision_information) : Option Collision_information :=
  let opp_hd := S.opposite hd
  if S.is_border opp_hd then some tc
  else
    let ffd := S.face opp_hd
    -- step 1: check complete tracks
    match search_loop (fun track tc =>
        find_collision_with_track_on_foreign_face S g mc hd track false tc)
        (g.tracks_of_face ffd) tc with
    | none => none
    | some tc1 =>
      -- the loop has returned from the function if it ran and the flag is set
      if !(g.tracks_of_face ffd).isEmpty &&
          tc1.add_intersection_without_moving_motorcycles then some tc1
      else
        -- step 2: check incomplete tracks
        search_loop (fun fmc tc =>
          find_collision_with_live_motorcycle_on_foreign_face S g mc hd fmc tc)
          g.motorcycles tc1

/-- The function `find_collision_with_foreign_motorcycles` (l. 918-998). -/
def find_collision_with_foreign_motorcycles (S : Services) (g : Motorcycle_graph)
    (mc : Motorcycle) (tc : Collision_information) : Option Collision_information :=
  match mc.closest_target, Dictionary.deref g.points mc.current_position with
  | some closest_target, some pos =>
    match Dictionary.deref g.points closest_target.1 with
    | none => none
    | some ct =>
      let target_dv := S.get_descriptor_from_location ct.location
      -- if the target is not on the border, there's simply nothing to do
      if target_dv.which = 2 then some tc
      else
        let source_dv := S.get_descriptor_from_location pos.location
        if source_dv.which = 2 then
          -- tentative track's source is not on a border
          if tc.time_at_closest_collision < closest_target.2 then some tc
          else find_collision_with_tentative_track_target_on_border S g mc target_dv tc
        else
          -- check if source and targets lie on the same halfedge
          match common_halfedge_of_face S pos.location.1 pos.location ct.location with
          | some hd =>
            match find_foreign_collision_with_tentative_track_on_border S g mc hd tc with
            | none => none
            | some tc1 =>
              if target_dv.which = 0 then
                -- need to also check the incident faces at 'vd'
                find_collision_with_tentative_track_target_on_border S g mc target_dv tc1
              else some tc1
          | none =>
            -- not on the same halfedge, only look at the destination
            find_collision_with_tentative_track_target_on_border S g mc target_dv tc
  | _, _ => none

/-! ### The search of the earliest collision of a motorcycle -/

/-- The function `find_collision` (l. 2622-2720). -/
def find_collision (S : Services) (g : Motorcycle_graph) (mc : Motorcycle) :
    Option Collision_information :=
  if mc.crashed then none
  else
    match mc.closest_target, Dictionary.deref g.points mc.current_position with
    | some closest_target, some pos =>
      match Dictionary.deref g.points closest_target.1 with
      | none => none
      | some ct =>
        let tc := Collision_information.ctor S.FT_max closest_target.2
        -- the motorcycles must be on the same face
        if pos.location.1 ≠ ct.location.1 then none
        else
          let s : Point_2 := (pos.location.2.1, pos.location.2.2.1)
          let t : Point_2 := (ct.location.2.1, ct.location.2.2.1)
          let mc_tentative_track : Segment_2 := (s, t)
          -- a degenerate tentative track has no interesting collisions
          if is_degenerate_2 mc_tentative_track then some tc
          else
            -- step 1: check complete tracks
            match search_loop (fun track tc =>
                find_collision_with_complete_track S g mc mc_tentative_track track tc)
                (g.tracks_of_face pos.location.1) tc with
            | none => none
            | some tc1 =>
              if tc1.add_intersection_without_moving_motorcycles then some tc1
              else
                -- step 2: check incomplete tracks
                match search_loop (fun fmc tc =>
                    find_collision_with_live_motorcycle S g mc mc_tentative_track fmc tc)
                    g.motorcycles tc1 with
                | none => none
                | some tc2 =>
                  if tc2.add_intersection_without_moving_motorcycles then some tc2
                  else
                    -- step 3: check adjacent faces
                    find_collision_with_foreign_motorcycles S g mc tc2
    | _, _ => none

/-! ### The driver loop -/

/-- The function `add_track_segment_to_map` (l. 519-542). -/
def add_track_segment_to_map (g : Motorcycle_graph) (fd : face_descriptor) (id : Nat)
    (s : DEC_it) (time_at_s : FT) (t : DEC_it) (time_at_t : FT) : Option Motorcycle_graph :=
  match Dictionary.deref g.points s, Dictionary.deref g.points t with
  | some s_entry, some t_entry =>
    if s_entry.location.1 ≠ fd then none
    else if t_entry.location.1 ≠ fd then none
    else if ¬ (id < g.motorcycles.length) then none
    else if ¬ (time_at_s ≤ time_at_t) then none
    else
      let tr : Track_segment :=
        { id := id, source := s, time_at_source := time_at_s, destination := t,
          time_at_destination := time_at_t }
      if g.track_face_map.any (fun x => decide (x.1 = fd)) then
        some { g with track_face_map :=
          g.track_face_map.map (fun x => if x.1 = fd then (x.1, x.2 ++ [tr]) else x) }
      else
        some { g with track_face_map := g.track_face_map ++ [(fd, [tr])] }
  | _, _ => none

/-- The function `compute_motorcycle_next_path` (l. 746-786): the graph after the call and
the returned Boolean. -/
def compute_motorcycle_next_path (tracer : Tracer) (g : Motorcycle_graph) (mc_id : Nat) :
    Option (Motorcycle_graph × Bool) :=
  match g.motorcycle mc_id with
  | none => none
  | some mc =>
    let traced := tracer g.points mc
    let points1 := traced.1
    let next_path := traced.2
    if !next_path.1 then some ({ g with points := points1 }, false)
    else
      let next_source := next_path.2.1
      let next_destination := next_path.2.2.1
      let time_at_next_destination := next_path.2.2.2.1
      let is_destination_final := next_path.2.2.2.2
      match Dictionary.deref points1 mc.current_position, Dictionary.deref points1 next_source
        with
      | some pos, some next_source_entry =>
        if next_source ≠ mc.current_position && !pos.is_sibling next_source_entry.location then
          none
        else
          let mc1 : Motorcycle :=
            { mc with source := next_source, time_at_source := mc.current_time,
                      current_position := next_source, destination := next_destination,
                      is_destination_final := is_destination_final }
          let added : Option (Motorcycle × Dictionary) :=
            if next_source ≠ next_destination then
              let points2 := Dictionary.modify points1 next_destination
                (fun e => e.add_motorcycle mc.id time_at_next_destination)
              (mc1.add_target next_destination time_at_next_destination).map (fun m =>
                (m, points2))
            else some (mc1, points1)
          match added with
          | none => none
          | some (mc2, points2) =>
            -- add the next source as target, even if it is equal to the current position
            match mc2.add_target next_source mc2.current_time with
            | none => none
            | some mc3 => some (({ g with points := points2 }).set_motorcycle mc_id mc3, true)
      | _, _ => none

/-- Modelled from the spec: `Motorcycle::has_reached_simultaneous_collision_point()`: "two
agents converging on the same point at the same time": the current position records a visit
of another motorcycle at the current time of `mc`. -/
def has_reached_simultaneous_collision_point (g : Motorcycle_graph) (mc : Motorcycle) :
    Option Bool :=
  (Dictionary.deref g.points mc.current_position).map (fun e =>
    e.motorcycles.any (fun v => decide (v.1 ≠ mc.id) && decide (v.2 = mc.current_time)))

/-- The function `is_motorcycle_position_blocked` (l. 2906-2923);
`Motorcycle::has_reached_blocked_point()` reads the blocked flag of the current position. -/
def is_motorcycle_position_blocked (g : Motorcycle_graph) (mc : Motorcycle) : Option Bool :=
  match Dictionary.deref g.points mc.current_position with
  | none => none
  | some position =>
    if position.blocked then some true
    else
      -- to avoid self blocking while crossing mesh edges
      match position.earliest_motorcycle with
      | none => none
      | some t => some (decide (t < mc.current_time))

/-- The function `has_motorcycle_reached_crashing_point` (l. 2758-2767). -/
def has_motorcycle_reached_crashing_point (g : Motorcycle_graph) (mc : Motorcycle) :
    Option Bool :=
  match g.has_reached_simultaneous_collision_point mc with
  | none => none
  | some true => some true
  | some false => g.is_motorcycle_position_blocked mc

/-- The function `has_motorcycle_reached_final_destination` (l. 2769-2775). -/
def has_motorcycle_reached_final_destination (mc : Motorcycle) : Bool :=
  mc.is_destination_final

/-- The function `treat_collision(mc, collision_info)` (l. 3096-3168). -/
def treat_collision_info (S : Services) (g : Motorcycle_graph) (mc_id : Nat)
    (collision_info : Collision_information) : Option Motorcycle_graph :=
  let foreign_motorcycle_id := collision_info.fmc_id
  match g.motorcycle mc_id, g.motorcycle foreign_motorcycle_id with
  | some mc, some _ =>
    match g.current_location mc with
    | none => none
    | some mc_loc =>
      let fd := mc_loc.1
      let ffd :=
        if collision_info.is_foreign_motorcycle_in_different_face then
          collision_info.foreign_motorcycle_face
        else fd
      if ffd = null_face then none
      else if ¬ ((collision_info.is_foreign_motorcycle_in_different_face = true ∧ fd ≠ ffd) ∨
          fd = ffd) then none
      else
        let time_at_collision := collision_info.time_at_closest_collision
        let time_at_foreign_collision := collision_info.foreign_time_at_closest_collision
        -- insert the collision point in the dictionary, if needed
        let inserted : Motorcycle_graph × DEC_it :=
          if !collision_info.is_closest_collision_already_in_dictionary then
            let entry := Dictionary.insert S g.points collision_info.closest_collision_location
            ({ g with points := entry.1 }, entry.2.1)
          else (g, collision_info.closest_collision)
        let g1 := inserted.1
        let collision := inserted.2
        match Dictionary.deref g1.points collision with
        | none => none
        | some collision_entry =>
          -- get the collision that is in 'fd'
          let collision_in_fd : DEC_it :=
            if collision_entry.location.1 ≠ fd then Dictionary.get_sibling g1.points collision fd
            else collision
          -- get the collision that is in 'ffd'
          let collision_in_ffd : DEC_it :=
            if collision_entry.location.1 ≠ ffd then
              (collision_entry.sibling ffd).bind (fun l => Dictionary.find g1.points l)
            else collision
          match Dictionary.deref g1.points collision_in_fd,
                Dictionary.deref g1.points collision_in_ffd with
          | some in_fd, some in_ffd =>
            -- some sanity tests
            if in_fd.location.1 ≠ fd then none
            else if in_ffd.location.1 ≠ ffd then none
            else if fd ≠ ffd && !(in_ffd.is_sibling in_fd.location &&
                in_fd.is_sibling in_ffd.location) then none
            else
              treat_collision S g1 mc_id collision_in_fd time_at_collision
                foreign_motorcycle_id collision_in_ffd time_at_foreign_collision
          | _, _ => none
  | _, _ => none

/-- The targets of `mc` in `visit_point` (l. 3399-3423). -/
def visit_point_mc (g : Motorcycle_graph) (mc_id : Nat) (collision_in_mc_face : DEC_it)
    (is_visited_by_mc : Option FT) (time_at_collision min_visiting_time max_visiting_time : FT) :
    Option Motorcycle_graph :=
  match g.motorcycle mc_id with
  | none => none
  | some mc =>
    match is_visited_by_mc with
    | some visiting_time =>
      -- consistency: there can't be a target that is ever so slightly before the current point
      if ¬ (visiting_time ≥ mc.current_time) then none
      else if visiting_time = mc.current_time ∧ collision_in_mc_face ≠ mc.current_position then
        none
      else if (match mc.closest_target with
          | none => true
          | some ct => decide (visiting_time = ct.2) && decide (collision_in_mc_face ≠ ct.1)) then
        none
      else if (mc.has_target collision_in_mc_face).isNone then
        (mc.add_target collision_in_mc_face visiting_time).map (fun m => g.set_motorcycle mc_id m)
      else some g
    | none =>
      -- the snapping collision point is not yet visited by 'mc'
      if (mc.has_target_at_time_between min_visiting_time max_visiting_time).isSome then none
      else if ¬ (time_at_collision > mc.current_time) then none
      else if (match mc.closest_target with
          | none => true
          | some ct => decide ¬ (time_at_collision < ct.2)) then none
      else
        let points1 := Dictionary.modify g.points collision_in_mc_face
          (fun e => e.add_motorcycle mc.id time_at_collision)
        (mc.add_target collision_in_mc_face time_at_collision).map (fun m =>
          ({ g with points := points1 }).set_motorcycle mc_id m)

/-- The targets of the foreign motorcycle in `visit_point` (l. 3425-3458). -/
def visit_point_fmc (g : Motorcycle_graph) (fmc_id : Nat) (collision_in_fmc_face : DEC_it)
    (is_visited_by_fmc : Option FT)
    (foreign_time_at_collision min_foreign_visiting_time max_foreign_visiting_time : FT) :
    Option Motorcycle_graph :=
  match g.motorcycle fmc_id with
  | none => none
  | some fmc =>
    match is_visited_by_fmc with
    | some foreign_visiting_time =>
      if !fmc.crashed && (fmc.has_target collision_in_fmc_face).isNone &&
          decide (foreign_visiting_time ≥ fmc.current_time) then
        (fmc.add_target collision_in_fmc_face foreign_visiting_time).map
          (fun m => g.set_motorcycle fmc_id m)
      else some g
    | none =>
      -- the snapping collision point is not yet visited by 'fmc'
      if (fmc.has_target_at_time_between min_foreign_visiting_time
          max_foreign_visiting_time).isSome then none
      else if (match fmc.time_at_destination with
          | none => true
          | some td => decide ¬ (foreign_time_at_collision ≤ td)) then none
      else
        let fmc1 : Option Motorcycle :=
          if !fmc.crashed && decide (foreign_time_at_collision ≥ fmc.current_time) then
            fmc.add_target collision_in_fmc_face foreign_time_at_collision
          else some fmc
        match fmc1 with
        | none => none
        | some fmc1 =>
          let points1 := Dictionary.modify g.points collision_in_fmc_face
            (fun e => e.add_motorcycle fmc.id foreign_time_at_collision)
          -- check if the point is on the confirmed part of the foreign motorcycle's track
          let points2 :=
            if foreign_time_at_collision ≤ fmc.current_time then
              Dictionary.modify points1 collision_in_fmc_face (fun e => e.block)
            else points1
          some (({ g with points := points2 }).set_motorcycle fmc_id fmc1)

/-- The function `visit_point` (l. 3354-3470). -/
def visit_point (g : Motorcycle_graph) (mc_id fmc_id : Nat) (collision : DEC_it)
    (time_at_collision foreign_time_at_collision tolerance : FT) : Option Motorcycle_graph :=
  match g.motorcycle mc_id, g.motorcycle fmc_id, Dictionary.deref g.points collision with
  | some mc, some fmc, some collision_entry =>
    let are_times_equal : Bool :=
      decide (|foreign_time_at_collision - time_at_collision| ≤ tolerance)
    -- first, check if 'mc' is known at the collision point
    let min_visiting_time := time_at_collision - tolerance
    let max_visiting_time := time_at_collision + tolerance
    let is_visited_by_mc :=
      collision_entry.has_motorcycle_between mc.id min_visiting_time max_visiting_time
    let min_foreign_visiting_time := foreign_time_at_collision - tolerance
    let max_foreign_visiting_time := foreign_time_at_collision + tolerance
    let is_visited_by_fmc :=
      collision_entry.has_motorcycle_between fmc.id min_foreign_visiting_time
        max_foreign_visiting_time
    -- make sure that even if we snap, the times stay equal
    let time_at_collision1 : FT :=
      match is_visited_by_fmc, is_visited_by_mc with
      | some foreign_visiting_time, none =>
        if are_times_equal then foreign_visiting_time else time_at_collision
      | _, _ => time_at_collision
    let foreign_time_at_collision1 : FT :=
      match is_visited_by_fmc, is_visited_by_mc with
      | none, some visiting_time =>
        if are_times_equal then visiting_time else foreign_time_at_collision
      | _, _ => foreign_time_at_collision
    -- need to get the representants in the correct faces
    match g.current_location mc, g.current_location fmc with
    | some mc_loc, some fmc_loc =>
      match Dictionary.get_sibling g.points collision mc_loc.1,
            Dictionary.get_sibling g.points collision fmc_loc.1 with
      | some i, some j =>
        let collision_in_mc_face : DEC_it := some i
        let collision_in_fmc_face : DEC_it := some j
        match visit_point_mc g mc_id collision_in_mc_face is_visited_by_mc time_at_collision1
            min_visiting_time max_visiting_time with
        | none => none
        | some g1 =>
          match visit_point_fmc g1 fmc_id collision_in_fmc_face is_visited_by_fmc
              foreign_time_at_collision1 min_foreign_visiting_time max_foreign_visiting_time with
          | none => none
          | some g2 =>
            match g2.motorcycle mc_id, g2.motorcycle fmc_id,
                  Dictionary.deref g2.points collision with
            | some mc2, some fmc2, some collision_entry2 =>
              if (mc2.has_target collision_in_mc_face).isNone then none
              else if ¬ (fmc2.crashed = true ∨ foreign_time_at_collision1 < fmc2.current_time ∨
                  (fmc2.has_target collision_in_fmc_face).isSome = true) then none
              else if !collision_entry2.has_motorcycle mc2.id then none
              else if !collision_entry2.has_motorcycle fmc2.id then none
              else some g2
            | _, _, _ => none
      | _, _ => none
    | _, _ => none
  | _, _, _ => none

/-- Modelled from the spec: the better of two members of the priority queue: the queue is
"keyed by `time_at_closest_target()` (ties broken by agent id for determinism)". -/
def pq_better (g : Motorcycle_graph) (best : Option (Nat × FT)) (id : Nat) :
    Option (Option (Nat × FT)) :=
  match g.motorcycle id with
  | none => none
  | some mc =>
    match mc.closest_target with
    | none => none
    | some ct =>
      match best with
      | none => some (some (id, ct.2))
      | some b =>
        if ct.2 < b.2 ∨ (ct.2 = b.2 ∧ id < b.1) then some (some (id, ct.2)) else some (some b)

/-- Modelled from the spec: `motorcycle_pq.top()`, the "earliest-event agent; queue must be
non-empty". -/
def pq_top (g : Motorcycle_graph) : Option Nat :=
  match g.motorcycle_pq.foldl (fun acc id => acc.bind (fun best => pq_better g best id))
      (some none) with
  | some (some b) => some b.1
  | _ => none

/-- The branch of the loop of `trace_graph` for a motorcycle that has reached its destination
(l. 2981-3023). -/
def trace_graph_at_destination (tracer : Tracer) (g : Motorcycle_graph) (mc_id : Nat)
    (mc : Motorcycle) : Option Motorcycle_graph :=
  match g.current_location mc with
  | none => none
  | some loc =>
    -- add the track source -- destination to the track map
    match g.add_track_segment_to_map loc.1 mc.id mc.source mc.time_at_source mc.destination
        mc.current_time with
    | none => none
    | some g1 =>
      let is_crashing : Option Bool :=
        if has_motorcycle_reached_final_destination mc then some true
        else g1.has_motorcycle_reached_crashing_point mc
      match is_crashing with
      | none => none
      | some true => some (g1.crash_motorcycle mc_id)
      | some false =>
        -- clear any unnecessary targets that might have been built
        let g2 := g1.set_motorcycle mc_id mc.clear_targets
        match compute_motorcycle_next_path tracer g2 mc_id with
        | none => none
        | some (g3, true) =>
          -- a new path was found and set up, update the queue and continue
          some (g3.pq_update mc_id)
        | some (g3, false) =>
          -- couldn't find a next destination, crash the motorcycle
          some (g3.crash_motorcycle mc_id)

/-- The branch of the loop of `trace_graph` for a collision record with
`add_intersection_without_moving_motorcycles` (l. 3056-3080). -/
def trace_graph_add_intersection (S : Services) (g : Motorcycle_graph) (mc_id : Nat)
    (res : Collision_information) : Option Motorcycle_graph :=
  let tolerance := 2 * S.FT_eps
  match visit_point g mc_id res.fmc_id res.closest_collision res.time_at_closest_collision
      res.foreign_time_at_closest_collision tolerance with
  | none => none
  | some g1 =>
    match g1.motorcycle mc_id with
    | none => none
    | some mc =>
      -- re-add the current positions of the motorcycles
      let mc1 : Option Motorcycle :=
        if res.closest_collision ≠ mc.current_position then
          mc.add_target mc.current_position mc.current_time
        else some mc
      match mc1 with
      | none => none
      | some mc1 =>
        let g2 := (g1.set_motorcycle mc_id mc1).pq_update mc_id
        match g2.motorcycle res.fmc_id with
        | none => none
        | some fmc =>
          if !fmc.crashed then
            let fmc1 : Option Motorcycle :=
              if (fmc.has_target res.closest_collision).isSome &&
                  decide (res.closest_collision ≠ fmc.current_position) then
                fmc.add_target fmc.current_position fmc.current_time
              else some fmc
            fmc1.map (fun m => (g2.set_motorcycle res.fmc_id m).pq_update res.fmc_id)
          else some g2

/-- The branch of the loop of `trace_graph` for a motorcycle that can continue towards its
destination (l. 3050-3092). -/
def trace_graph_continue (S : Services) (g : Motorcycle_graph) (mc_id : Nat)
    (mc : Motorcycle) : Option Motorcycle_graph :=
  -- check for potential collisions within the face for the next move of 'mc'
  match find_collision S g mc with
  | none => none
  | some res =>
    if res.add_intersection_without_moving_motorcycles then
      trace_graph_add_intersection S g mc_id res
    else
      let treated : Option Motorcycle_graph :=
        if res.found_collision then treat_collision_info S g mc_id res else some g
      match treated with
      | none => none
      | some g1 =>
        match g1.motorcycle mc_id with
        | none => none
        | some mc1 =>
          if mc1.crashed then none
          else
            let g2 := g1.pq_update mc_id
            -- block the current position
            let points1 := Dictionary.modify g2.points mc1.current_position (fun e => e.block)
            some { g2 with points := points1 }

/-- One iteration of the loop of `trace_graph` (l. 2970-3093). -/
def trace_graph_step (S : Services) (tracer : Tracer) (g : Motorcycle_graph) :
    Option Motorcycle_graph :=
  -- get the earliest available event
  match g.pq_top with
  | none => none
  | some mc_id =>
    match g.motorcycle mc_id with
    | none => none
    | some mc0 =>
      -- move the motorcycle to the target (which becomes the confirmed position)
      match mc0.drive_to_closest_target with
      | none => none
      | some mc =>
        let g1 := g.set_motorcycle mc_id mc
        if mc.current_position = mc.destination then
          trace_graph_at_destination tracer g1 mc_id mc
        else
          match g1.has_motorcycle_reached_crashing_point mc, g1.current_location mc with
          | some is_crashing, some loc =>
            if is_crashing && decide (mc.current_time ≠ 0) then
              -- add the track source -- crash position to the track map
              (g1.add_track_segment_to_map loc.1 mc.id mc.source mc.time_at_source
                mc.current_position mc.current_time).map (fun g2 => g2.crash_motorcycle mc_id)
            else trace_graph_continue S g1 mc_id mc
          | _, _ => none

/-- The loop `while(!motorcycle_pq.empty())` of `trace_graph`, for at most `fuel` iterations;
`none` is an abort or a loop that has not ended after `fuel` iterations. -/
def trace_graph_loop (S : Services) (tracer : Tracer) : Nat → Motorcycle_graph →
    Option Motorcycle_graph
  | 0, g => if g.motorcycle_pq = [] then some g else none
  | fuel + 1, g =>
    if g.motorcycle_pq = [] then some g
    else
      match trace_graph_step S tracer g with
      | none => none
      | some g1 => trace_graph_loop S tracer fuel g1

/-- The function `trace_graph` (l. 2948-3094) on a graph to which the motorcycles have been
added (`add_motorcycles`): `motorcycle_pq.initialize(motorcycles)` puts all motorcycles in the
queue. -/
def trace_graph (S : Services) (tracer : Tracer) (fuel : Nat) (g : Motorcycle_graph) :
    Option Motorcycle_graph :=
  match initialize_motorcycles S tracer g with
  | none => none
  | some g1 =>
    let g2 := { g1 with motorcycle_pq := List.range g1.motorcycles.length }
    -- this can only happen at the beginning, simpler to get it out the way immediately
    match crash_motorcycles_with_same_source_and_direction g2 with
    | none => none
    | some g3 => trace_graph_loop S tracer fuel g3

end Motorcycle_graph

/-! ## Predicates used in the statements -/

/-- The value of `std::numeric_limits<double>::max()`. -/
def double_max : FT := (2 ^ 53 - 1) * 2 ^ 971

/-- The value of `std::numeric_limits<double>::epsilon()`. -/
def double_epsilon : FT := 1 / 2 ^ 52

/-! ## Two motorcycles whose paths cross -/

/-- The data of two motorcycles `0` and `1` on the face `fd` whose paths cross. In the first
two barycentric coordinates, `x` is the crossing, `u0` and `u1` are the vectors from the sources
of the motorcycles to the crossing, and the destinations are `x + k0 * u0` and `x + k1 * u1`;
`zS0`, ..., `zD1` are the third barycentric coordinates of the sources and destinations. The
other fields are the points of the sources and destinations (with the sibling locations of
their entries), the speeds and inputs of the motorcycles, the times at their destinations and
the times at which they reach the crossing. -/
structure Crossing where
  fd : Nat
  x : Point_2
  u0 : Vector_2
  u1 : Vector_2
  k0 : FT
  k1 : FT
  zS0 : FT
  zD0 : FT
  zS1 : FT
  zD1 : FT
  pS0 : Point
  pD0 : Point
  pS1 : Point
  pD1 : Point
  sibS0 : List Face_location
  sibD0 : List Face_location
  sibS1 : List Face_location
  sibD1 : List Face_location
  v0 : FT
  v1 : FT
  in_s0 : Point_or_location
  in_s1 : Point_or_location
  in_d0 : Option Point_or_location
  in_d1 : Option Point_or_location
  tD0 : FT
  tD1 : FT
  t0X : FT
  t1X : FT

namespace Crossing

/-- The barycentric coordinates of the sources and destinations. -/
def S0 (c : Crossing) : Barycentric_coordinates := (c.x.1 - c.u0.1, c.x.2 - c.u0.2, c.zS0)

def D0 (c : Crossing) : Barycentric_coordinates :=
  (c.x.1 + c.k0 * c.u0.1, c.x.2 + c.k0 * c.u0.2, c.zD0)

def S1 (c : Crossing) : Barycentric_coordinates := (c.x.1 - c.u1.1, c.x.2 - c.u1.2, c.zS1)

def D1 (c : Crossing) : Barycentric_coordinates :=
  (c.x.1 + c.k1 * c.u1.1, c.x.2 + c.k1 * c.u1.2, c.zD1)

/-- The source of motorcycle `0` in the first two barycentric coordinates. -/
def s0 (c : Crossing) : Point_2 := (c.S0.1, c.S0.2.1)

def d0 (c : Crossing) : Point_2 := (c.D0.1, c.D0.2.1)

def s1 (c : Crossing) : Point_2 := (c.S1.1, c.S1.2.1)

def d1 (c : Crossing) : Point_2 := (c.D1.1, c.D1.2.1)

/-- The barycentric coordinates of the crossing, as `find_collision_between_tracks` builds
them (l. 2318-2320). -/
def X (c : Crossing) : Barycentric_coordinates := (c.x.1, c.x.2, 1 - c.x.1 - c.x.2)

/-- The halving point of motorcycle `0`, between its source and the crossing
(`compute_middle_point`). -/
def H0 (c : Crossing) : Barycentric_coordinates :=
  (1 / 2 * (c.S0.1 + c.X.1), 1 / 2 * (c.S0.2.1 + c.X.2.1), 1 / 2 * (c.S0.2.2 + c.X.2.2))

def H1 (c : Crossing) : Barycentric_coordinates :=
  (1 / 2 * (c.S1.1 + c.X.1), 1 / 2 * (c.S1.2.1 + c.X.2.1), 1 / 2 * (c.S1.2.2 + c.X.2.2))

/-- The times at the halving points. -/
def h0 (c : Crossing) : FT := 1 / 2 * (0 + c.t0X)

def h1 (c : Crossing) : FT := 1 / 2 * (0 + c.t1X)

/-- How far a motorcycle has got: not yet driven (`initial`), driven to its source
(`source`), to its halving point (`halving`), to the crossing without crashing (`crossing`),
crashed at the crossing (`crashed`), arrived at its destination (`arrived`). -/
inductive Stage where
  | initial
  | source
  | halving
  | crossing
  | crashed
  | arrived
  deriving DecidableEq, Repr

/-- Whether the crossing has been driven to. -/
def Stage.reached_crossing : Stage → Bool
  | .crossing => true
  | .crashed => true
  | .arrived => true
  | _ => false

/-- Whether the halving point has been driven to. -/
def Stage.reached_halving : Stage → Bool
  | .initial => false
  | .source => false
  | _ => true

/-- Whether the motorcycle is crashed. -/
def Stage.is_crashed : Stage → Bool
  | .crashed => true
  | .arrived => true
  | _ => false

/-- Motorcycle `0` at a stage; `found` tells whether the crossing has been found. -/
def motorcycle0 (c : Crossing) (found : Bool) (st : Stage) : Motorcycle :=
  { id := 0, crashed := st.is_crashed, speed := c.v0, input_source := c.in_s0,
    input_destination := c.in_d0, source := some 0, time_at_source := 0, destination := some 1,
    is_destination_final := true,
    current_position :=
      match st with
      | .initial => some 0
      | .source => some 0
      | .halving => some 6
      | .crossing => some 4
      | .crashed => some 4
      | .arrived => some 1,
    current_time :=
      match st with
      | .initial => 0
      | .source => 0
      | .halving => c.h0
      | .crossing => c.t0X
      | .crashed => c.t0X
      | .arrived => c.tD0,
    targets :=
      match st with
      | .initial => [(some 0, 0), (some 1, c.tD0)]
      | .source =>
        if found then [(some 6, c.h0), (some 4, c.t0X), (some 1, c.tD0)] else [(some 1, c.tD0)]
      | .halving => [(some 4, c.t0X), (some 1, c.tD0)]
      | .crossing => [(some 1, c.tD0)]
      | .crashed => []
      | .arrived => [],
    track :=
      match st with
      | .initial => [(some 0, 0)]
      | .source => [(some 0, 0), (some 0, 0)]
      | .halving => [(some 0, 0), (some 0, 0), (some 6, c.h0)]
      | .crossing => [(some 0, 0), (some 0, 0), (some 6, c.h0), (some 4, c.t0X)]
      | .crashed => [(some 0, 0), (some 0, 0), (some 6, c.h0), (some 4, c.t0X)]
      | .arrived =>
        [(some 0, 0), (some 0, 0), (some 6, c.h0), (some 4, c.t0X), (some 1, c.tD0)] }

/-- Motorcycle `1` at a stage. -/
def motorcycle1 (c : Crossing) (found : Bool) (st : Stage) : Motorcycle :=
  { id := 1, crashed := st.is_crashed, speed := c.v1, input_source := c.in_s1,
    input_destination := c.in_d1, source := some 2, time_at_source := 0, destination := some 3,
    is_destination_final := true,
    current_position :=
      match st with
      | .initial => some 2
      | .source => some 2
      | .halving => some 5
      | .crossing => some 4
      | .crashed => some 4
      | .arrived => some 3,
    current_time :=
      match st with
      | .initial => 0
      | .source => 0
      | .halving => c.h1
      | .crossing => c.t1X
      | .crashed => c.t1X
      | .arrived => c.tD1,
    targets :=
      match st with
      | .initial => [(some 2, 0), (some 3, c.tD1)]
      | .source =>
        if found then [(some 5, c.h1), (some 4, c.t1X), (some 3, c.tD1)] else [(some 3, c.tD1)]
      | .halving => [(some 4, c.t1X), (some 3, c.tD1)]
      | .crossing => [(some 3, c.tD1)]
      | .crashed => []
      | .arrived => [],
    track :=
      match st with
      | .initial => [(some 2, 0)]
      | .source => [(some 2, 0), (some 2, 0)]
      | .halving => [(some 2, 0), (some 2, 0), (some 5, c.h1)]
      | .crossing => [(some 2, 0), (some 2, 0), (some 5, c.h1), (some 4, c.t1X)]
      | .crashed => [(some 2, 0), (some 2, 0), (some 5, c.h1), (some 4, c.t1X)]
      | .arrived =>
        [(some 2, 0), (some 2, 0), (some 5, c.h1), (some 4, c.t1X), (some 3, c.tD1)] }

/-- The entry of the source of motorcycle `0`, which is blocked once the motorcycle has been
driven to it. -/
def eS0 (c : Crossing) (p0 : Stage) : Dictionary_entry :=
  { location := (some c.fd, c.S0), point := c.pS0, siblings := c.sibS0,
    motorcycles := [(0, 0)], blocked := decide (p0 ≠ Stage.initial) }

def eD0 (c : Crossing) : Dictionary_entry :=
  { location := (some c.fd, c.D0), point := c.pD0, siblings := c.sibD0,
    motorcycles := [(0, c.tD0)], blocked := false }

def eS1 (c : Crossing) (p1 : Stage) : Dictionary_entry :=
  { location := (some c.fd, c.S1), point := c.pS1, siblings := c.sibS1,
    motorcycles := [(1, 0)], blocked := decide (p1 ≠ Stage.initial) }

def eD1 (c : Crossing) : Dictionary_entry :=
  { location := (some c.fd, c.D1), point := c.pD1, siblings := c.sibD1,
    motorcycles := [(1, c.tD1)], blocked := false }

/-- The entry of the crossing, which motorcycle `1` creates when it finds the crossing. -/
def eX (S : Services) (c : Crossing) (blocked : Bool) : Dictionary_entry :=
  { location := (some c.fd, c.X), point := S.location_to_point (some c.fd, c.X), siblings := [],
    motorcycles := [(1, c.t1X), (0, c.t0X)], blocked := blocked }

/-- The entries of the two halving points. -/
def eH1 (S : Services) (c : Crossing) (blocked : Bool) : Dictionary_entry :=
  { location := (some c.fd, c.H1), point := S.location_to_point (some c.fd, c.H1),
    siblings := [], motorcycles := [(1, c.h1)], blocked := blocked }

def eH0 (S : Services) (c : Crossing) (blocked : Bool) : Dictionary_entry :=
  { location := (some c.fd, c.H0), point := S.location_to_point (some c.fd, c.H0),
    siblings := [], motorcycles := [(0, c.h0)], blocked := blocked }

/-- The ids of the motorcycles that are in the priority queue. -/
def queue (m0 m1 : Stage) : List Nat :=
  (if m0.is_crashed then [] else [0]) ++ (if m1.is_crashed then [] else [1])

/-- The state of the graph before the crossing is found: the entries are as after the stages
`p0` and `p1`, the motorcycles are at the stages `m0` and `m1`. -/
def state_before (c : Crossing) (p0 p1 m0 m1 : Stage) : Motorcycle_graph :=
  { points := [c.eS0 p0, c.eD0, c.eS1 p1, c.eD1],
    motorcycles := [c.motorcycle0 false m0, c.motorcycle1 false m1],
    motorcycle_pq := [0, 1], track_face_map := [] }

/-- The state of the graph once the crossing is found: the entries are as after the stages
`p0` and `p1` (an entry is blocked after the step in which a motorcycle is driven to it), the
motorcycles are at the stages `m0` and `m1`, and the track map is `tracks`. -/
def state (S : Services) (c : Crossing) (p0 p1 m0 m1 : Stage) (tracks : Track_face_map) :
    Motorcycle_graph :=
  { points := [c.eS0 p0, c.eD0, c.eS1 p1, c.eD1,
      c.eX S (p0.reached_crossing || p1.reached_crossing), c.eH1 S p1.reached_halving,
      c.eH0 S p0.reached_halving],
    motorcycles := [c.motorcycle0 true m0, c.motorcycle1 true m1],
    motorcycle_pq := queue m0 m1, track_face_map := tracks }

/-- The track segment that motorcycle `0` confirms when it arrives at its destination. -/
def arrived0 (c : Crossing) : Track_segment :=
  { id := 0, source := some 0, time_at_source := 0, destination := some 1,
    time_at_destination := c.tD0 }

def arrived1 (c : Crossing) : Track_segment :=
  { id := 1, source := some 2, time_at_source := 0, destination := some 3,
    time_at_destination := c.tD1 }

/-- The track segment that motorcycle `0` confirms when it crashes at the crossing. -/
def crashed0 (c : Crossing) : Track_segment :=
  { id := 0, source := some 0, time_at_source := 0, destination := some 4,
    time_at_destination := c.t0X }

def crashed1 (c : Crossing) : Track_segment :=
  { id := 1, source := some 2, time_at_source := 0, destination := some 4,
    time_at_destination := c.t1X }

/-- The first two barycentric coordinates of a location. -/
def bc (l : Face_location) : Point_2 := (l.2.1, l.2.2.1)

/-- The conditions on the services and on the data of two crossing motorcycles. -/
structure valid (S : Services) (c : Crossing) : Prop where
  /-- the destinations are beyond the crossing -/
  k0_pos : 0 < c.k0
  k1_pos : 0 < c.k1
  /-- the paths are not parallel -/
  not_parallel : c.u0.1 * c.u1.2 - c.u0.2 * c.u1.1 ≠ 0
  /-- the times at which the motorcycles reach the crossing, as the code computes them -/
  time_0 : S.sqrt (squared_distance c.pS0 (S.location_to_point (some c.fd, c.X))) / c.v0 = c.t0X
  time_1 : S.sqrt (squared_distance c.pS1 (S.location_to_point (some c.fd, c.X))) / c.v1 = c.t1X
  t0X_pos : 0 < c.t0X
  t0X_lt : c.t0X < c.tD0
  t1X_pos : 0 < c.t1X
  t1X_lt : c.t1X < c.tD1
  tD0_lt : c.tD0 < S.FT_max
  tD1_lt : c.tD1 < S.FT_max
  /-- the intersection of the paths, as the service computes it -/
  intersection : S.robust_intersection (c.s1, c.d1) (c.s0, c.d0) = c.x
  /-- the crossing is strictly inside the face -/
  snap_X : S.snap_location_to_border (some c.fd, c.X) = (some c.fd, c.X)
  siblings_X : S.siblings_of (some c.fd, c.X) = []
  siblings_H0 : S.siblings_of (some c.fd, c.H0) = []
  siblings_H1 : S.siblings_of (some c.fd, c.H1) = []
  which_X : (S.get_descriptor_from_location (some c.fd, c.X)).which = 2
  which_H0 : (S.get_descriptor_from_location (some c.fd, c.H0)).which = 2
  which_H1 : (S.get_descriptor_from_location (some c.fd, c.H1)).which = 2
  /-- three locations that are logically collinear on the border are on the border, and
  collinear -/
  logically_collinear : ∀ l m n, S.are_logically_collinear_on_border l m n = true →
    (S.get_descriptor_from_location l).which ≠ 2 ∧
    (S.get_descriptor_from_location m).which ≠ 2 ∧
    (S.get_descriptor_from_location n).which ≠ 2 ∧ collinear_2 (bc l) (bc m) (bc n) = true
  /-- an edge that is not on the border of the mesh has another face on its other side -/
  inner_edge : ∀ hd, S.is_border_edge hd = false →
    S.face (S.opposite hd) ≠ null_face ∧ S.face (S.opposite hd) ≠ some c.fd
  inner_halfedge : ∀ hd, S.is_border (S.opposite hd) = false →
    S.is_border_edge hd = false ∧ S.face (S.opposite hd) ≠ some c.fd
  /-- no entry of the dictionary is within the snapping tolerance of the crossing -/
  far_S0 : 2 * S.FT_eps < squared_distance c.pS0 (S.location_to_point (some c.fd, c.X))
  far_D0 : 2 * S.FT_eps < squared_distance c.pD0 (S.location_to_point (some c.fd, c.X))
  far_S1 : 2 * S.FT_eps < squared_distance c.pS1 (S.location_to_point (some c.fd, c.X))
  far_D1 : 2 * S.FT_eps < squared_distance c.pD1 (S.location_to_point (some c.fd, c.X))

/-- The point `x + a * u0 + b * u1` of the barycentric plane. -/
def pt (c : Crossing) (a b : FT) : Point_2 :=
  (c.x.1 + a * c.u0.1 + b * c.u1.1, c.x.2 + a * c.u0.2 + b * c.u1.2)

/-- The determinant of the directions of the two paths. -/
def det (c : Crossing) : FT := c.u0.1 * c.u1.2 - c.u0.2 * c.u1.1

/-- The loop ends, after `n` iterations at most, in the state in which motorcycle `0` has
arrived and motorcycle `1` has crashed at the crossing. -/
def ends_0 (S : Services) (c : Crossing) (tracer : Motorcycle_graph.Tracer) (n : Nat)
    (g : Motorcycle_graph) : Prop :=
  ∃ tr, Motorcycle_graph.trace_graph_loop S tracer n g =
      some (c.state S .arrived .crashed .arrived .crashed tr) ∧
    (tr = [(some c.fd, [c.crashed1, c.arrived0])] ∨
      tr = [(some c.fd, [c.arrived0, c.crashed1])])

/-- The loop ends, after `n` iterations at most, in the state in which motorcycle `1` has
arrived and motorcycle `0` has crashed at the crossing. -/
def ends_1 (S : Services) (c : Crossing) (tracer : Motorcycle_graph.Tracer) (n : Nat)
    (g : Motorcycle_graph) : Prop :=
  ∃ tr, Motorcycle_graph.trace_graph_loop S tracer n g =
      some (c.state S .crashed .arrived .crashed .arrived tr) ∧
    (tr = [(some c.fd, [c.crashed0, c.arrived1])] ∨
      tr = [(some c.fd, [c.arrived1, c.crashed0])])

end Crossing

/-- The record of a collision at the closest target of a motorcycle. -/
def record_at_target (ct : DEC_it × FT) (fmc_id : Nat) (foreign_time : FT) :
    Collision_information :=
  { maximum_time_at_collision := ct.2
    is_closest_collision_already_in_dictionary := true
    closest_collision := ct.1
    closest_collision_location := (null_face, (0, 0, 0))
    time_at_closest_collision := ct.2
    fmc_id := fmc_id
    is_foreign_motorcycle_in_different_face := false
    foreign_motorcycle_face := null_face
    foreign_time_at_closest_collision := foreign_time
    add_intersection_without_moving_motorcycles := false }

/-- The record of a collision at a location that is not in the dictionary. -/
def record_at_new_point (max_time t : FT) (fmc_id : Nat) (foreign_time : FT)
    (location : Face_location) : Collision_information :=
  { maximum_time_at_collision := max_time
    is_closest_collision_already_in_dictionary := false
    closest_collision := none
    closest_collision_location := location
    time_at_closest_collision := t
    fmc_id := fmc_id
    is_foreign_motorcycle_in_different_face := false
    foreign_motorcycle_face := null_face
    foreign_time_at_closest_collision := foreign_time
    add_intersection_without_moving_motorcycles := false }

/-- All motorcycles and all confirmed tracks of the graph are in the face `fd`. -/
structure in_one_face (g : Motorcycle_graph) (fd : Nat) : Prop where
  motorcycles : ∀ m ∈ g.motorcycles, ∃ e,
    Dictionary.deref g.points m.current_position = some e ∧ e.location.1 = some fd
  tracks : ∀ x ∈ g.track_face_map, x.1 = some fd

/-- The outcome for a motorcycle `a` that is the first at the point `x`, at the time `ta`, and
a motorcycle `b` that reaches `x` later, at the time `tb`: `b` is crashed, the confirmed
track of `b` ends at `x`, the confirmed track of `a` ends at the destination of `a`, and `x` is
on both tracks with `ta < tb`. -/
def crossed (g : Motorcycle_graph) (x : DEC_it) (a b : Nat) (ta tb : FT) : Prop :=
  ∃ A B, g.motorcycle a = some A ∧ g.motorcycle b = some B ∧
    B.crashed = true ∧ B.track.getLast? = some (x, tb) ∧
    (∃ t, A.track.getLast? = some (A.destination, t)) ∧
    (x, ta) ∈ A.track ∧ (x, tb) ∈ B.track ∧ ta < tb

/-! ## Concrete services and states used to instantiate the statements -/

/-- Newton iteration for the integer square root of `n`, from an upper bound `x`. -/
def integer_sqrt_iter (n : Nat) : Nat → Nat → Nat
  | 0, x => x
  | fuel + 1, x =>
    let y := (x + n / x) / 2
    if y < x then integer_sqrt_iter n fuel y else x

/-- The integer square root, rounded down. -/
def integer_sqrt (n : Nat) : Nat := integer_sqrt_iter n n n

/-- A square root on `FT` that is exact on the squares of rational numbers. -/
def rational_sqrt (x : FT) : FT := (integer_sqrt x.num.toNat : FT) / (integer_sqrt x.den : FT)

/-- The point of a location of a mesh made of the single triangle `(0,0,0)`, `(1,0,0)`,
`(0,1,0)`. -/
def unit_triangle_point (l : Face_location) : Point := (l.2.2.1, l.2.2.2, 0)

/-- Services over the double constants, the exact square root and the one-triangle mesh. -/
def exact_services : Services :=
  { FT_max := double_max, FT_eps := double_epsilon, sqrt := rational_sqrt,
    location_to_point := unit_triangle_point }

/-- A tracer that finds no destination. -/
def no_tracer : Motorcycle_graph.Tracer := fun points _ => (points, (false, none, none, 0, false))

/-- A motorcycle as it is before `initialize_motorcycles`, with a source and a final
destination given as locations, starting at time `0`. -/
def new_motorcycle (id : Nat) (speed : FT) (src dst : Face_location) : Motorcycle :=
  { id := id, crashed := false, speed := speed, input_source := .location src,
    input_destination := some (.location dst), source := none, time_at_source := 0,
    destination := none, is_destination_final := true, current_position := none,
    current_time := 0, targets := [], track := [] }

/-- An entry of the one-triangle mesh. -/
def entry_at (bc : Barycentric_coordinates) (motorcycles : List (Nat × FT)) : Dictionary_entry :=
  { location := (some 0, bc), point := unit_triangle_point (some 0, bc), siblings := [],
    motorcycles := motorcycles, blocked := false }

/-- The motorcycles of `same_direction_input` after their initialization. -/
def same_direction_mc0 : Motorcycle :=
  { new_motorcycle 0 1 (some 0, (1/3, 1/3, 1/3)) (some 0, (2/3, 1/3, 0)) with
    source := some 0, destination := some 1, current_position := some 0,
    targets := [(some 0, 0), (some 1, 1/3)], track := [(some 0, 0)] }

def same_direction_mc1 : Motorcycle :=
  { new_motorcycle 1 1 (some 0, (1/3, 1/3, 1/3)) (some 0, (1/2, 1/3, 1/6)) with
    source := some 0, destination := some 2, current_position := some 0,
    targets := [(some 0, 0), (some 2, 1/6)], track := [(some 0, 0)] }

/-- The state `same_direction_input` after `initialize_motorcycles`. -/
def same_direction_initialized : Motorcycle_graph :=
  { points := [entry_at (1/3, 1/3, 1/3) [(0, 0), (1, 0)], entry_at (2/3, 1/3, 0) [(0, 1/3)],
               entry_at (1/2, 1/3, 1/6) [(1, 1/6)]],
    motorcycles := [same_direction_mc0, same_direction_mc1],
    motorcycle_pq := [0, 1], track_face_map := [] }

/-- Two motorcycles with the same source and exactly opposite directions, before their
initialization. -/
def opposite_directions_input : Motorcycle_graph :=
  { points := [],
    motorcycles := [new_motorcycle 0 1 (some 0, (1/3, 1/3, 1/3)) (some 0, (2/3, 1/3, 0)),
                    new_motorcycle 1 1 (some 0, (1/3, 1/3, 1/3)) (some 0, (0, 1/3, 2/3))],
    motorcycle_pq := [0, 1], track_face_map := [] }

/-- Two motorcycles of speed `1` on the one-triangle mesh, at the two ends of the edge from
`(1,0,0)` to `(0,1,0)` at time `0`, each heading for the position of the other. -/
def head_on_mc0 : Motorcycle :=
  { new_motorcycle 0 1 (some 0, (1, 0, 0)) (some 0, (0, 1, 0)) with
    source := some 0, destination := some 1, current_position := some 0,
    targets := [(some 1, 1)], track := [(some 0, 0), (some 0, 0)] }

def head_on_mc1 : Motorcycle :=
  { new_motorcycle 1 1 (some 0, (0, 1, 0)) (some 0, (1, 0, 0)) with
    source := some 1, destination := some 0, current_position := some 1,
    targets := [(some 0, 1)], track := [(some 1, 0), (some 1, 0)] }

def head_on_state : Motorcycle_graph :=
  { points := [entry_at (1, 0, 0) [(0, 0), (1, 1)], entry_at (0, 1, 0) [(0, 1), (1, 0)]],
    motorcycles := [head_on_mc0, head_on_mc1],
    motorcycle_pq := [0, 1], track_face_map := [] }

/-- A foreign motorcycle (id `0`, speed `2/5`) that has left `(1/2,1/2,0)` at time `0` for
`(0,1,0)`, and a motorcycle (id `1`, speed `1`) at `(1,0,0)` at time `0` whose closest target
is `(1/2,1/2,0)`, the source of the foreign track. -/
def chase_fmc : Motorcycle :=
  { new_motorcycle 0 (2/5) (some 0, (1/2, 1/2, 0)) (some 0, (0, 1, 0)) with
    source := some 1, destination := some 2, current_position := some 1,
    targets := [(some 2, 5/4)], track := [(some 1, 0), (some 1, 0)] }

def chase_mc : Motorcycle :=
  { new_motorcycle 1 1 (some 0, (1, 0, 0)) (some 0, (1/2, 1/2, 0)) with
    source := some 0, destination := some 1, current_position := some 0,
    targets := [(some 1, 1/2)], track := [(some 0, 0), (some 0, 0)] }

def chase_state : Motorcycle_graph :=
  { points := [entry_at (1, 0, 0) [(1, 0)], entry_at (1/2, 1/2, 0) [(0, 0), (1, 1/2)],
               entry_at (0, 1, 0) [(0, 5/4)]],
    motorcycles := [chase_fmc, chase_mc],
    motorcycle_pq := [1, 0], track_face_map := [] }

/-- The tentative track of `chase_fmc`. -/
def chase_track : Track_segment :=
  { id := 0, source := some 1, time_at_source := 0, destination := some 2,
    time_at_destination := 5/4 }

/-- As `chase_mc`, with the closest target `(0,1,0)`, beyond the source of the foreign
track. -/
def long_chase_mc : Motorcycle :=
  { new_motorcycle 1 1 (some 0, (1, 0, 0)) (some 0, (0, 1, 0)) with
    source := some 0, destination := some 2, current_position := some 0,
    targets := [(some 2, 1)], track := [(some 0, 0), (some 0, 0)] }

def long_chase_state : Motorcycle_graph :=
  { points := [entry_at (1, 0, 0) [(1, 0)], entry_at (1/2, 1/2, 0) [(0, 0)],
               entry_at (0, 1, 0) [(0, 5/4), (1, 1)]],
    motorcycles := [chase_fmc, long_chase_mc],
    motorcycle_pq := [1, 0], track_face_map := [] }

/-- Two motorcycles of speed `1` whose paths cross, before their initialization: the first
from `(3/4,1/4,0)` to `(0,1/4,3/4)`, the second from `(1/2,0,1/2)` to `(1/4,3/4,0)`. -/
def crossing_input : Motorcycle_graph :=
  { points := [],
    motorcycles := [new_motorcycle 0 1 (some 0, (3/4, 1/4, 0)) (some 0, (0, 1/4, 3/4)),
                    new_motorcycle 1 1 (some 0, (1/2, 0, 1/2)) (some 0, (1/4, 3/4, 0))],
    motorcycle_pq := [], track_face_map := [] }

/-- Two motorcycles whose paths cross at `(1/4,1/4,1/2)`: the first, of speed `1`, from
`(3/4,1/4,0)` to `(0,1/4,3/4)`, reaches the crossing at time `1/2`; the second, of speed
`2^-40`, from `(1/4 + 2^-30, 1/4 - 2^-30, 1/2)` to `(0,1/2,1/2)`, starts at the distance
`2^-30` of the crossing and reaches it at time `1024`. -/
def near_source_crossing_input : Motorcycle_graph :=
  { points := [],
    motorcycles := [new_motorcycle 0 1 (some 0, (3/4, 1/4, 0)) (some 0, (0, 1/4, 3/4)),
                    new_motorcycle 1 (1 / 2 ^ 40) (some 0, (1/4 + 1 / 2 ^ 30, 1/4 - 1 / 2 ^ 30, 1/2))
                      (some 0, (0, 1/2, 1/2))],
    motorcycle_pq := [], track_face_map := [] }

/-- A candidate at the sentinel times of a fresh record. -/
def sentinel_candidate : Candidate :=
  { time_at_collision := double_max, foreign_time_at_collision := double_max,
    fmc_id := 7, closest_collision := some 0 }

/-- Four candidates: the least pair of times `(2, 4)` is carried by the second and the third. -/
def four_candidates : List Candidate :=
  [{ time_at_collision := 3, foreign_time_at_collision := 1, fmc_id := 5,
     closest_collision := some 0 },
   { time_at_collision := 2, foreign_time_at_collision := 4, fmc_id := 2,
     closest_collision := some 1 },
   { time_at_collision := 2, foreign_time_at_collision := 4, fmc_id := 9,
     closest_collision := some 2 },
   { time_at_collision := 2, foreign_time_at_collision := 5, fmc_id := 1,
     closest_collision := some 3 }]

/-- The opposite directions of `opposite_directions_input` after `initialize_motorcycles`. -/
def opposite_directions_mc0 : Motorcycle :=
  { new_motorcycle 0 1 (some 0, (1/3, 1/3, 1/3)) (some 0, (2/3, 1/3, 0)) with
    source := some 0, destination := some 1, current_position := some 0,
    targets := [(some 0, 0), (some 1, 1/3)], track := [(some 0, 0)] }

def opposite_directions_mc1 : Motorcycle :=
  { new_motorcycle 1 1 (some 0, (1/3, 1/3, 1/3)) (some 0, (0, 1/3, 2/3)) with
    source := some 0, destination := some 2, current_position := some 0,
    targets := [(some 0, 0), (some 2, 1/3)], track := [(some 0, 0)] }

def opposite_directions_initialized : Motorcycle_graph :=
  { points := [entry_at (1/3, 1/3, 1/3) [(0, 0), (1, 0)], entry_at (2/3, 1/3, 0) [(0, 1/3)],
               entry_at (0, 1/3, 2/3) [(1, 1/3)]],
    motorcycles := [opposite_directions_mc0, opposite_directions_mc1],
    motorcycle_pq := [0, 1], track_face_map := [] }

/-- A live motorcycle heading from `(1,0,0)` to `(0,1,0)` and a foreign motorcycle that has
crashed at `(0,0,1)` at time `2`; the entry `(1/2,1/2,0)` is visited by none of them. -/
def crashed_foreign_state : Motorcycle_graph :=
  { points := [entry_at (1, 0, 0) [(0, 0)], entry_at (0, 1, 0) [(0, 10)],
               entry_at (0, 0, 1) [(1, 2)], entry_at (1/2, 1/2, 0) []],
    motorcycles :=
      [{ new_motorcycle 0 (1/10) (some 0, (1, 0, 0)) (some 0, (0, 1, 0)) with
          source := some 0, destination := some 1, current_position := some 0,
          targets := [(some 1, 10)], track := [(some 0, 0), (some 0, 0)] },
       { new_motorcycle 1 1 (some 0, (0, 0, 1)) (some 0, (0, 0, 1)) with
          crashed := true, source := some 2, time_at_source := 2, destination := some 2,
          current_position := some 2, current_time := 2, targets := [],
          track := [(some 2, 2), (some 2, 2)] }],
    motorcycle_pq := [0], track_face_map := [(some 0, [⟨1, some 2, 2, some 2, 2⟩])] }

/-- The data of the two motorcycles of `crossing_input`, whose paths cross at
`(5/12, 1/4, 1/3)`. -/
def crossing_example : Crossing :=
  { fd := 0, x := (5/12, 1/4), u0 := (-1/3, 0), u1 := (-1/12, 1/4), k0 := 5/4, k1 := 2,
    zS0 := 0, zD0 := 3/4, zS1 := 1/2, zD1 := 0,
    pS0 := (1/4, 0, 0), pD0 := (1/4, 3/4, 0), pS1 := (0, 1/2, 0), pD1 := (3/4, 0, 0),
    sibS0 := [], sibD0 := [], sibS1 := [], sibD1 := [], v0 := 1, v1 := 1,
    in_s0 := .location (some 0, (3/4, 1/4, 0)),
    in_s1 := .location (some 0, (1/2, 0, 1/2)),
    in_d0 := some (.location (some 0, (0, 1/4, 3/4))),
    in_d1 := some (.location (some 0, (1/4, 3/4, 0))),
    tD0 := 3/4, tD1 := 3/4, t0X := 1/3, t1X := 1/4 }

/-- A motorcycle (id `0`, speed `1`) at `(1,0,0)` at time `0`, heading for `(0,1,0)` with the
intermediate target `(1/2,1/2,0)` at time `1/2`, and a foreign motorcycle that has crashed at
`(1/2,1/2,0)` at time `1/4`. -/
def blocked_midway_state : Motorcycle_graph :=
  { points := [entry_at (1, 0, 0) [(0, 0)], entry_at (0, 1, 0) [(0, 1)],
               entry_at (1/2, 1/2, 0) [(1, 1/4), (0, 1/2)]],
    motorcycles :=
      [{ new_motorcycle 0 1 (some 0, (1, 0, 0)) (some 0, (0, 1, 0)) with
          source := some 0, destination := some 1, current_position := some 0,
          targets := [(some 2, 1/2), (some 1, 1)], track := [(some 0, 0), (some 0, 0)] },
       { new_motorcycle 1 1 (some 0, (1/2, 1/2, 0)) (some 0, (1/2, 1/2, 0)) with
          crashed := true, source := some 2, time_at_source := 1/4, destination := some 2,
          current_position := some 2, current_time := 1/4, targets := [],
          track := [(some 2, 1/4), (some 2, 1/4)] }],
    motorcycle_pq := [0], track_face_map := [] }

/-- The first motorcycle of `blocked_midway_state` after it has driven to `(1/2,1/2,0)`. -/
def blocked_midway_mc : Motorcycle :=
  { new_motorcycle 0 1 (some 0, (1, 0, 0)) (some 0, (0, 1, 0)) with
    source := some 0, destination := some 1, current_position := some 2, current_time := 1/2,
    targets := [(some 1, 1)], track := [(some 0, 0), (some 0, 0), (some 2, 1/2)] }

/-- The crashed flags of the motorcycles of two states are the same. -/
def same_crashed (g g' : Motorcycle_graph) : Prop :=
  ∀ i, (g'.motorcycle i).map (fun m => m.crashed) = (g.motorcycle i).map (fun m => m.crashed)

end Polyline_tracing

/-! # Rotations by fixed angles (CGAL `Rotated_algebraic_curve_kernel_2.h`)

Shallow embedding of the angle selection of `Rotated_algebraic_curve_kernel_2.h`. The type
`int` is embedded as `ℤ` (no operation of the embedded code leaves the range of `int` on an
argument in that range), `%` is the truncating remainder `Int.tmod`, `Rational` is `ℚ`, and
`CGAL_error_msg`, which does not return, is the error of `Except`. -/

namespace Rotated_algebraic_curve_kernel_2

/-- The struct `_Packed` (l. 52-63), "a bunch of rationals for convenience". -/
structure _Packed where
  a1_sine : ℚ
  a2_sine : ℚ
  b1_sine : ℚ
  b2_sine : ℚ
  a1_cosine : ℚ
  a2_cosine : ℚ
  b1_cosine : ℚ
  b2_cosine : ℚ
  a3_sine : ℚ
  a3_cosine : ℚ
  deriving DecidableEq, Repr

/-- The constructor `_Packed()` (l. 55-58): every coefficient is `0`. -/
def _Packed.ctor : _Packed :=
  { a1_sine := 0, a2_sine := 0, b1_sine := 0, b2_sine := 0, a1_cosine := 0, a2_cosine := 0,
    b1_cosine := 0, b2_cosine := 0, a3_sine := 0, a3_cosine := 0 }

/-- The function `_15_degree_selector` (l. 66-167), "a lengthy switch-case to select
appropriate angle coefficients". -/
def _15_degree_selector (t : _Packed) (angle : Int) : Except String _Packed :=
  if angle = 0 then .ok { t with a1_cosine := 1 }
  else if angle = 15 then
    .ok { t with b1_sine := -1/4, b2_sine := 1/4, b1_cosine := 1/4, b2_cosine := 1/4 }
  else if angle = 30 then .ok { t with a1_sine := 1/2, a2_cosine := 1/2 }
  else if angle = 45 then .ok { t with b1_sine := 1/2, b1_cosine := 1/2 }
  else if angle = 60 then .ok { t with a2_sine := 1/2, a1_cosine := 1/2 }
  else if angle = 75 then
    .ok { t with b1_sine := 1/4, b2_sine := 1/4, b1_cosine := -1/4, b2_cosine := 1/4 }
  else if angle = 90 then .ok { t with a1_sine := 1 }
  else if angle = 105 then
    .ok { t with b1_sine := 1/4, b2_sine := 1/4, b1_cosine := 1/4, b2_cosine := -1/4 }
  else if angle = 120 then .ok { t with a2_sine := 1/2, a1_cosine := -1/2 }
  else if angle = 135 then .ok { t with b1_sine := 1/2, b1_cosine := -1/2 }
  else if angle = 150 then .ok { t with a1_sine := 1/2, a2_cosine := -1/2 }
  else if angle = 165 then
    .ok { t with b1_sine := -1/4, b2_sine := 1/4, b1_cosine := -1/4, b2_cosine := -1/4 }
  else .error "The angle must be multiple of 15 degrees !!\n"

/-- The function `_18_degree_selector` (l. 170-256), "the same for 18 degree". -/
def _18_degree_selector (t : _Packed) (angle : Int) : Except String _Packed :=
  if angle = 0 then .ok { t with a1_cosine := 1 }
  else if angle = 18 then .ok { t with a1_sine := -1/4, b1_sine := 1/4, a2_cosine := 1/4 }
  else if angle = 36 then
    .ok { t with a2_sine := -1/8, b2_sine := 1/8, a1_cosine := 1/4, b1_cosine := 1/4 }
  else if angle = 54 then
    .ok { t with a1_sine := 1/4, b1_sine := 1/4, a2_cosine := -1/8, b2_cosine := 1/8 }
  else if angle = 72 then .ok { t with a2_sine := 1/4, a1_cosine := -1/4, b1_cosine := 1/4 }
  else if angle = 90 then .ok { t with a1_sine := 1 }
  else if angle = 108 then .ok { t with a2_sine := 1/4, a1_cosine := 1/4, b1_cosine := -1/4 }
  else if angle = 126 then
    .ok { t with a1_sine := 1/4, b1_sine := 1/4, a2_cosine := 1/8, b2_cosine := -1/8 }
  else if angle = 144 then
    .ok { t with a2_sine := -1/8, b2_sine := 1/8, a1_cosine := -1/4, b1_cosine := -1/4 }
  else if angle = 162 then .ok { t with a1_sine := -1/4, b1_sine := 1/4, a2_cosine := -1/4 }
  else .error "The angle must be multiple of 18 degrees !!\n"

/-- The enumerator `Normalized_angle<BaseAngle>::angle` (l. 262-273), which "maps `BaseAngle`
to the one of supported base angles or -1 otherwise". -/
def Normalized_angle (BaseAngle : Int) : Int :=
  -- wrap around the base angle to [0..360) range
  let tmp := BaseAngle.tmod 360
  let modulo := tmp + (if tmp < 0 then 360 else 0)
  if modulo.tmod 45 = 0 then 45
  else if modulo.tmod 30 = 0 then 30
  else if modulo.tmod 15 = 0 then 15
  else if modulo.tmod 18 = 0 then 18
  else if modulo.tmod 3 = 0 then 3
  else -1

/-- The number type `CGAL::Sqrt_extension<NT, ROOT>` as the code uses it: the value built by
`Sqrt_extension(a0, a1, root)` stands for `a0 + a1 * sqrt(root)`. -/
structure Sqrt_extension (NT ROOT : Type) where
  a0 : NT
  a1 : NT
  root : ROOT
  deriving DecidableEq, Repr

/-- The unary minus of `Sqrt_extension`: both coefficients change their sign. -/
instance Sqrt_extension.instNeg {NT ROOT : Type} [Neg NT] : Neg (Sqrt_extension NT ROOT) :=
  ⟨fun x => { a0 := -x.a0, a1 := -x.a1, root := x.root }⟩

/-- The engine `Rotation_traits_base<AlgebraicCurveKernel_2, 15>::operator()` (l. 542-574):
the extended rationals `esine`, `ecosine`, `ezero` over `sqrt(2)` and `sqrt(3)`, and the angle,
which is passed by reference. -/
def Rotation_traits_base_15 (angle : Int) :
    Except String (Sqrt_extension (Sqrt_extension ℚ ℤ) ℤ × Sqrt_extension (Sqrt_extension ℚ ℤ) ℤ ×
      Sqrt_extension (Sqrt_extension ℚ ℤ) ℤ × Int) :=
  if angle.tmod 15 ≠ 0 then .error "angle is not a multiple of 15"
  else
    let sign : Int := if angle ≥ 180 then -1 else 1
    let angle_help := if angle ≥ 180 then angle - 180 else angle
    match _15_degree_selector _Packed.ctor angle_help with
    | .error e => .error e
    | .ok t =>
      -- now, coefficients are set in the esine and ecosine
      -- if rot_angle >= 180 => multiply by -1 (-> reflection)
      let esine : Sqrt_extension (Sqrt_extension ℚ ℤ) ℤ :=
        ⟨⟨t.a1_sine, t.b1_sine, 2⟩, ⟨t.a2_sine, t.b2_sine, 2⟩, 3⟩
      let ecosine : Sqrt_extension (Sqrt_extension ℚ ℤ) ℤ :=
        ⟨⟨t.a1_cosine, t.b1_cosine, 2⟩, ⟨t.a2_cosine, t.b2_cosine, 2⟩, 3⟩
      let ezero : Sqrt_extension (Sqrt_extension ℚ ℤ) ℤ := ⟨⟨0, 0, 2⟩, ⟨0, 0, 2⟩, 3⟩
      .ok (if sign = -1 then -esine else esine, if sign = -1 then -ecosine else ecosine,
        ezero, angle)

/-- The engine `Rotation_traits_base<AlgebraicCurveKernel_2, 45>::operator()` (l. 754-779),
over `sqrt(2)`. -/
def Rotation_traits_base_45 (angle : Int) :
    Except String (Sqrt_extension ℚ ℤ × Sqrt_extension ℚ ℤ × Sqrt_extension ℚ ℤ × Int) :=
  if angle.tmod 45 ≠ 0 then .error "angle is not a multiple of 45"
  else
    let sign : Int := if angle ≥ 180 then -1 else 1
    let angle_help := if angle ≥ 180 then angle - 180 else angle
    match _15_degree_selector _Packed.ctor angle_help with
    | .error e => .error e
    | .ok t =>
      let esine : Sqrt_extension ℚ ℤ := ⟨t.a1_sine, t.b1_sine, 2⟩
      let ecosine : Sqrt_extension ℚ ℤ := ⟨t.a1_cosine, t.b1_cosine, 2⟩
      let ezero : Sqrt_extension ℚ ℤ := ⟨0, 0, 2⟩
      .ok (if sign = -1 then -esine else esine, if sign = -1 then -ecosine else ecosine,
        ezero, angle)

/-- The head of `Rotation_traits<AlgebraicCurveKernel_2, BaseAngle>::operator()(poly_int,
angle)` (l. 859-867): the angle is reduced and handed to the engine of the base angle, whose
results the substitution into the polynomial then uses. -/
def Rotation_traits {E : Type} (engine : Int → Except String (E × E × E × Int)) (angle : Int) :
    Except String (E × E × E × Int) :=
  let angle := angle.tmod 360
  let angle := if angle < 0 then angle + 360 else angle
  engine angle

/-- The head of `Approximately_rotated_algebraic_curve_kernel_base::Construct_curve_2::
operator()(f, angle, delta)` (l. 972-992): the flags `greater_180` and `between_90_and_270` and
the reduced angle, whose sine the Euclidean algorithm then approximates. -/
def reduce_angle (angle : Int) : Bool × Bool × Int :=
  let greater_180 := decide (angle > 180)
  let between_90_and_270 := decide (angle ≥ 90) && decide (angle ≤ 270)
  let angle := angle.tmod 360
  let angle := if between_90_and_270 then 180 - angle else angle
  let angle := if angle < 0 then -angle else angle
  let angle := if angle ≥ 270 then 360 - angle else angle
  (greater_180, between_90_and_270, angle)

/-- The tail of the same operator (l. 1012-1029): the rational sine and cosine used in the
substitution, from the rational `t` that the Euclidean algorithm stopped at (`CGAL::abs` of
`2/(t+1/t)` and of `(t-1/t)/(t+1/t)`) and the two flags. -/
def signed_sine_cosine (t : ℚ) (greater_180 between_90_and_270 : Bool) : ℚ × ℚ :=
  let sine := |2 / (t + 1 / t)|
  let cosine := |(t - 1 / t) / (t + 1 / t)|
  (if greater_180 then -sine else sine, if between_90_and_270 then -cosine else cosine)

/-- The linear map that `Approximately_rotated_algebraic_curve_kernel_base::Construct_curve_2::
operator()` substitutes (l. 1030-1034): `sub_x = cosine * x + sine * y` and
`sub_y = -sine * x + cosine * y`, on a point `(x, y)`; the argument `sc` is the pair
`(sine, cosine)`. -/
def substituted_map (sc : ℚ × ℚ) (p : ℚ × ℚ) : ℚ × ℚ :=
  (sc.2 * p.1 + sc.1 * p.2, -sc.1 * p.1 + sc.2 * p.2)

/-! ## The engine of the base angle 3 -/

namespace Rotation_traits_base_3

/-- The number types of `Rotation_traits_base<AlgebraicCurveKernel_2, 3>` (l. 296-305):
`EXT2` over `sqrt(2)`, `EXT3` over `sqrt(3)`, `EXT4` over `sqrt(5)`, their integer
counterparts, and `EXT5` over `sqrt(5 + sqrt(5))`. -/
abbrev EXT2 := Sqrt_extension ℚ ℤ

abbrev EXT2_int := Sqrt_extension ℤ ℤ

abbrev EXT3 := Sqrt_extension EXT2 ℤ

abbrev EXT4 := Sqrt_extension EXT3 ℤ

abbrev EXT3_int := Sqrt_extension EXT2_int ℤ

abbrev EXT4_int := Sqrt_extension EXT3_int ℤ

abbrev EXT5 := Sqrt_extension EXT4 EXT4_int

/-- The value of an `EXT2`, `a0 + a1 * sqrt(root)`, in a field with a square root function. -/
def value_EXT2 {R : Type} [Field R] (sqrt : R → R) (x : EXT2) : R :=
  (x.a0 : R) + (x.a1 : R) * sqrt (x.root : R)

def value_EXT2_int {R : Type} [Field R] (sqrt : R → R) (x : EXT2_int) : R :=
  (x.a0 : R) + (x.a1 : R) * sqrt (x.root : R)

def value_EXT3 {R : Type} [Field R] (sqrt : R → R) (x : EXT3) : R :=
  value_EXT2 sqrt x.a0 + value_EXT2 sqrt x.a1 * sqrt (x.root : R)

def value_EXT3_int {R : Type} [Field R] (sqrt : R → R) (x : EXT3_int) : R :=
  value_EXT2_int sqrt x.a0 + value_EXT2_int sqrt x.a1 * sqrt (x.root : R)

def value_EXT4 {R : Type} [Field R] (sqrt : R → R) (x : EXT4) : R :=
  value_EXT3 sqrt x.a0 + value_EXT3 sqrt x.a1 * sqrt (x.root : R)

def value_EXT4_int {R : Type} [Field R] (sqrt : R → R) (x : EXT4_int) : R :=
  value_EXT3_int sqrt x.a0 + value_EXT3_int sqrt x.a1 * sqrt (x.root : R)

/-- The value of an `EXT5`: the root is itself an extended integer. -/
def value_EXT5 {R : Type} [Field R] (sqrt : R → R) (x : EXT5) : R :=
  value_EXT4 sqrt x.a0 + value_EXT4 sqrt x.a1 * sqrt (value_EXT4_int sqrt x.root)

/-- The root `5 + sqrt(5)` of `EXT5` as the operator writes it (l. 371-377). -/
def root_5_plus_sqrt_5 : EXT4_int :=
  ⟨⟨⟨5, 0, 2⟩, ⟨0, 0, 2⟩, 3⟩, ⟨⟨1, 0, 2⟩, ⟨0, 0, 2⟩, 3⟩, 5⟩

/-- The constant `esine3` (l. 359-377). -/
def esine3 : EXT5 :=
  ⟨⟨⟨⟨0, -1/16, 2⟩, ⟨0, -1/16, 2⟩, 3⟩, ⟨⟨0, 1/16, 2⟩, ⟨0, 1/16, 2⟩, 3⟩, 5⟩,
   ⟨⟨⟨1/8, 0, 2⟩, ⟨-1/8, 0, 2⟩, 3⟩, ⟨⟨0, 0, 2⟩, ⟨0, 0, 2⟩, 3⟩, 5⟩,
   root_5_plus_sqrt_5⟩

/-- The constant `ecosine3` (l. 378-396). -/
def ecosine3 : EXT5 :=
  ⟨⟨⟨⟨0, 1/16, 2⟩, ⟨0, -1/16, 2⟩, 3⟩, ⟨⟨0, -1/16, 2⟩, ⟨0, 1/16, 2⟩, 3⟩, 5⟩,
   ⟨⟨⟨1/8, 0, 2⟩, ⟨1/8, 0, 2⟩, 3⟩, ⟨⟨0, 0, 2⟩, ⟨0, 0, 2⟩, 3⟩, 5⟩,
   root_5_plus_sqrt_5⟩

/-- The body of the addition loop (l. 467-474) on the pair `(esine, ecosine)`:
`sin(x+y) = sin(x)*cos(y) + sin(y)*cos(x)` and `cos(x+y) = cos(x)*cos(y) - sin(x)*sin(y)`, the
arithmetic of the number type being that of `E`. -/
def addition_step {E : Type} [Mul E] [Add E] [Sub E] (esine3 ecosine3 : E) (s : E × E) : E × E :=
  (s.1 * ecosine3 + esine3 * s.2, s.2 * ecosine3 - s.1 * esine3)

end Rotation_traits_base_3

namespace Rotation_traits_base_3

/-- The zero of `EXT3` and of `EXT4` as the operator writes them. -/
def zero_EXT3 : EXT3 := ⟨⟨0, 0, 2⟩, ⟨0, 0, 2⟩, 3⟩

def zero_EXT4 : EXT4 := ⟨zero_EXT3, zero_EXT3, 5⟩

/-- The extended rational that the operator builds from four coefficients of the `_Packed`
(l. 398-433): they fill the part over `sqrt(2)` and `sqrt(3)`, the rest is zero. -/
def extended (a1 b1 a2 b2 : ℚ) : EXT5 :=
  ⟨⟨⟨⟨a1, b1, 2⟩, ⟨a2, b2, 2⟩, 3⟩, zero_EXT3, 5⟩, zero_EXT4, root_5_plus_sqrt_5⟩

/-- The value `ezero` (l. 479-497). -/
def ezero : EXT5 := ⟨zero_EXT4, zero_EXT4, root_5_plus_sqrt_5⟩

/-- The local variables `angle_help`, `use_addition`, `new_start_point` and `angle_360_deg` of
the operator. -/
structure Start_point where
  angle_help : Int
  use_addition : Bool
  new_start_point : Bool
  angle_360_deg : Bool
  deriving DecidableEq, Repr

/-- The choice of "the nearest rotation-angle which is multiple of 15 degrees" (l. 326-349). -/
def nearest_multiple_of_15 (angle : Int) : Start_point :=
  if angle.tmod 15 ≠ 0 then
    let angle_help := (angle.tdiv 15) * 15
    let new_start_point := decide (angle - angle_help > 7)
    let angle_help := if angle - angle_help > 7 then angle_help + 15 else angle_help
    let angle_360_deg := decide (angle_help = 360)
    let angle_help := if angle_help = 360 then 0 else angle_help
    { angle_help := angle_help, use_addition := true, new_start_point := new_start_point,
      angle_360_deg := angle_360_deg }
  else
    { angle_help := angle, use_addition := false, new_start_point := false,
      angle_360_deg := false }

/-- The variable `sign` (l. 351-354). -/
def sign (s : Start_point) : Int := if s.angle_help ≥ 180 then -1 else 1

/-- The value of `angle_help` that `_15_degree_selector` is called with (l. 351-357). -/
def selector_angle (s : Start_point) : Int :=
  if s.angle_help ≥ 180 then s.angle_help - 180 else s.angle_help

/-- The value of `angle_help` with which the addition loop is entered (l. 453-457). -/
def loop_start (s : Start_point) : Int :=
  let angle_help := if sign s = -1 then selector_angle s + 180 else selector_angle s
  if s.angle_360_deg then 360 else angle_help

/-- The variable `inc` (l. 459-463). -/
def inc (s : Start_point) : Int := if s.new_start_point then -3 else 3

/-- The loop `while((angle - angle_help) != 0)` (l. 464-476) on the state `((esine, ecosine),
angle_help)`; `none` if the loop has not stopped after `fuel` runs of its body. -/
def addition_loop {E : Type} [Mul E] [Add E] [Sub E] (angle inc : Int) (esine3 ecosine3 : E) :
    Nat → (E × E) × Int → Option ((E × E) × Int)
  | 0, s => if angle - s.2 ≠ 0 then none else some s
  | fuel + 1, s =>
    if angle - s.2 ≠ 0 then
      addition_loop angle inc esine3 ecosine3 fuel
        (addition_step esine3 ecosine3 s.1, s.2 + inc)
    else some s

end Rotation_traits_base_3

open Rotation_traits_base_3 in
/-- The engine `Rotation_traits_base<AlgebraicCurveKernel_2, 3>::operator()` (l. 322-499):
`esine`, `ecosine`, `ezero` and the angle, which is passed by reference. The arithmetic of
`CGAL::Sqrt_extension` is that of a type `E` into which the extended rationals are taken by
`of_EXT5`; `none` if the addition loop has not stopped after `fuel` runs of its body. -/
def Rotation_traits_base_3 {E : Type} [Mul E] [Add E] [Sub E] [Neg E] (of_EXT5 : EXT5 → E)
    (fuel : Nat) (angle : Int) : Option (Except String (E × E × E × Int)) :=
  if angle.tmod 3 ≠ 0 then some (.error "angle is not a multiple of 3")
  else
    let s := nearest_multiple_of_15 angle
    match _15_degree_selector _Packed.ctor (selector_angle s) with
    | .error e => some (.error e)
    | .ok t =>
      let esine := of_EXT5 (extended t.a1_sine t.b1_sine t.a2_sine t.b2_sine)
      let ecosine := of_EXT5 (extended t.a1_cosine t.b1_cosine t.a2_cosine t.b2_cosine)
      let esine := if sign s = -1 then -esine else esine
      let ecosine := if sign s = -1 then -ecosine else ecosine
      if s.use_addition then
        let esine3 := if s.new_start_point then -of_EXT5 esine3 else of_EXT5 esine3
        match addition_loop angle (inc s) esine3 (of_EXT5 ecosine3) fuel
            ((esine, ecosine), loop_start s) with
        | none => none
        | some r => some (.ok (r.1.1, r.1.2, of_EXT5 ezero, angle))
      else some (.ok (esine, ecosine, of_EXT5 ezero, angle))

end Rotated_algebraic_curve_kernel_2

namespace Polyline_tracing

/-! ## The validity check of the traced graph -/

namespace Motorcycle_graph

/-- A `for` loop whose body can fail an assertion. -/
def for_each {α : Type} (body : α → Option Unit) : List α → Option Unit
  | [] => some ()
  | x :: rest =>
    match body x with
    | none => none
    | some _ => for_each body rest

/-- The condition of the assertions "Check that the only possible intersection is an
extremity" of `is_valid` (l. 3591-3602), and of the assertion "Xor" (l. 3546-3547) when
`fcurrent = fnext`. -/
def is_valid_extremity (current next fcurrent fnext : DEC_it) : Bool :=
  if fcurrent = fnext then -- degenerate fmc track
    (decide (current = fcurrent) && decide (next ≠ fcurrent)) ||
    (decide (current ≠ fcurrent) && decide (next = fcurrent))
  else
    (decide (current = fcurrent) && decide (current ≠ fnext) && decide (next ≠ fcurrent) &&
      decide (next ≠ fnext)) ||
    (decide (current ≠ fcurrent) && decide (current = fnext) && decide (next ≠ fcurrent) &&
      decide (next ≠ fnext)) ||
    (decide (current ≠ fcurrent) && decide (current ≠ fnext) && decide (next = fcurrent) &&
      decide (next ≠ fnext)) ||
    (decide (current ≠ fcurrent) && decide (current ≠ fnext) && decide (next ≠ fcurrent) &&
      decide (next = fnext))

/-- The body of the loop `while(++ftit != fend)` of `is_valid` (l. 3551-3636), for the segment
`s` from `current` (of entry `ce`) to `next` of the track of `mc`, where `tit` is the track item
of `next` and `after` the items that follow it; `ftitb` is the item before `ftit` in the
foreign track. Every path through the body ends with `fcurrent = fnext`. -/
def is_valid_foreign_step (S : Services) (g : Motorcycle_graph) (current next : DEC_it)
    (ce : Dictionary_entry) (s : Segment_2) (tit : DEC_it × FT) (after : List (DEC_it × FT))
    (fcurrent : DEC_it) (ftitb ftit : DEC_it × FT) : Option Unit :=
  let fnext := ftit.1
  match Dictionary.deref g.points fcurrent with
  | none => none
  | some fce =>
    -- different face locations
    if ce.location.1 ≠ fce.location.1 then some ()
    else
      match Dictionary.deref g.points fnext with
      | none => none
      | some fne =>
        if fce.location.1 ≠ fne.location.1 then
          if squared_distance fce.point fne.point < S.FT_eps then some () else none
        else
          let fts : Point_2 := (fce.location.2.1, fce.location.2.2.1)
          let ftt : Point_2 := (fne.location.2.1, fne.location.2.2.1)
          let fs : Segment_2 := (fts, ftt)
          if do_intersect_2 s fs then
            -- Check that the only possible intersection is an extremity
            if !(is_valid_extremity current next fcurrent fnext) then none
            else
              -- '->second' is the visiting time
              if (next = fcurrent ∧ tit.2 ≥ ftitb.2) ∨ (next = fnext ∧ tit.2 ≥ ftit.2) then
                -- should be the last item of the track
                match after with
                | [] => some ()
                | titb :: after_titb =>
                  -- check for an end doublon created by snapping
                  if tit ≠ titb ∨ after_titb = [] then none else some ()
              else some ()
          else some ()

/-- The loop `while(++ftit != fend)` of `is_valid` over the items of the foreign track. -/
def is_valid_foreign_loop (S : Services) (g : Motorcycle_graph) (current next : DEC_it)
    (ce : Dictionary_entry) (s : Segment_2) (tit : DEC_it × FT) (after : List (DEC_it × FT)) :
    DEC_it → DEC_it × FT → List (DEC_it × FT) → Option Unit
  | _, _, [] => some ()
  | fcurrent, ftitb, ftit :: rest =>
    match is_valid_foreign_step S g current next ce s tit after fcurrent ftitb ftit with
    | none => none
    | some _ => is_valid_foreign_loop S g current next ce s tit after ftit.1 ftit rest

/-- The body of the loop of `is_valid` over the foreign motorcycles (l. 3520-3637). -/
def is_valid_foreign_motorcycle (S : Services) (g : Motorcycle_graph) (mc_id : Nat)
    (current next : DEC_it) (ce : Dictionary_entry) (s : Segment_2) (tit : DEC_it × FT)
    (after : List (DEC_it × FT)) (fmc_id : Nat) : Option Unit :=
  if fmc_id = mc_id then some ()
  else
    match g.motorcycle fmc_id with
    | none => none
    | some fmc =>
      match fmc.track with
      | [] => none
      | ftit :: rest =>
        let fcurrent := ftit.1
        let fnext := fcurrent
        -- degenerate fmc track
        let degenerate : Option Unit :=
          if fmc.track.length = 1 then
            match Dictionary.deref g.points fcurrent with
            | none => none
            | some fce =>
              let fts : Point_2 := (fce.location.2.1, fce.location.2.2.1)
              let fs : Segment_2 := (fts, fts)
              if do_intersect_2 s fs then
                -- Xor
                if is_valid_extremity current next fcurrent fnext then some () else none
              else some ()
          else some ()
        match degenerate with
        | none => none
        | some _ => is_valid_foreign_loop S g current next ce s tit after fcurrent ftit rest

/-- The body of the loop `while(++tit != end)` of `is_valid` over the items of the track of
`mc` (l. 3494-3639); the result is the value of `current` after the body. -/
def is_valid_step (S : Services) (g : Motorcycle_graph) (mc_id : Nat) (current : DEC_it)
    (tit : DEC_it × FT) (after : List (DEC_it × FT)) : Option DEC_it :=
  let next := tit.1
  match Dictionary.deref g.points current, Dictionary.deref g.points next with
  | some ce, some ne =>
    if ce.location.1 ≠ ne.location.1 then
      if squared_distance ce.point ne.point < S.FT_eps then some next else none
    else if current = next then some current
    else
      let ts : Point_2 := (ce.location.2.1, ce.location.2.2.1)
      let tt : Point_2 := (ne.location.2.1, ne.location.2.2.1)
      let s : Segment_2 := (ts, tt)
      match for_each (is_valid_foreign_motorcycle S g mc_id current next ce s tit after)
          (List.range g.motorcycles.length) with
      | none => none
      | some _ => some next
  | _, _ => none

/-- The loop `while(++tit != end)` of `is_valid`. -/
def is_valid_track_loop (S : Services) (g : Motorcycle_graph) (mc_id : Nat) :
    DEC_it → List (DEC_it × FT) → Option Unit
  | _, [] => some ()
  | current, tit :: after =>
    match is_valid_step S g mc_id current tit after with
    | none => none
    | some current1 => is_valid_track_loop S g mc_id current1 after

/-- The body of the outer loop of `is_valid` (l. 3484-3640). -/
def is_valid_motorcycle (S : Services) (g : Motorcycle_graph) (mc_id : Nat) : Option Unit :=
  match g.motorcycle mc_id with
  | none => none
  | some mc =>
    match mc.track with
    | [] => none
    | tit :: rest =>
      if mc.track.length ≤ 2 then some () -- ignore degenerate tracks
      else is_valid_track_loop S g mc_id tit.1 rest

/-- The function `is_valid` (l. 3474-3643), the "mega brute force validity check"; `none` is
a failed assertion. -/
def is_valid (S : Services) (g : Motorcycle_graph) : Option Bool :=
  match for_each (is_valid_motorcycle S g) (List.range g.motorcycles.length) with
  | none => none
  | some _ => some true

end Motorcycle_graph

/-- The graph that `trace_graph` leaves for `crossing_input`, with the confirmed track of
motorcycle `0` as a parameter: motorcycle `1` has driven through the crossing `(5/12,1/4,1/3)`
(entry `4`) at time `1/4` to its destination, motorcycle `0` has crashed at the crossing at
time `1/3`; the entries `5` and `6` are the two halving points. -/
def crossing_traced_with (track : List (DEC_it × FT)) : Motorcycle_graph :=
  { points :=
      [{ entry_at (3/4, 1/4, 0) [(0, 0)] with blocked := true },
       entry_at (0, 1/4, 3/4) [(0, 3/4)],
       { entry_at (1/2, 0, 1/2) [(1, 0)] with blocked := true },
       entry_at (1/4, 3/4, 0) [(1, 3/4)],
       { entry_at (5/12, 1/4, 1/3) [(1, 1/4), (0, 1/3)] with blocked := true },
       { entry_at (11/24, 1/8, 5/12) [(1, 1/8)] with blocked := true },
       { entry_at (7/12, 1/4, 1/6) [(0, 1/6)] with blocked := true }],
    motorcycles :=
      [{ new_motorcycle 0 1 (some 0, (3/4, 1/4, 0)) (some 0, (0, 1/4, 3/4)) with
          crashed := true, source := some 0, destination := some 1,
          current_position := some 4, current_time := 1/3, track := track },
       { new_motorcycle 1 1 (some 0, (1/2, 0, 1/2)) (some 0, (1/4, 3/4, 0)) with
          crashed := true, source := some 2, destination := some 3,
          current_position := some 3, current_time := 3/4,
          track := [(some 2, 0), (some 2, 0), (some 5, 1/8), (some 4, 1/4), (some 3, 3/4)] }],
    motorcycle_pq := [],
    track_face_map := [(some 0, [⟨0, some 0, 0, some 4, 1/3⟩, ⟨1, some 2, 0, some 3, 3/4⟩])] }

/-- The graph that `trace_graph` leaves for `crossing_input`. -/
def crossing_traced_state : Motorcycle_graph :=
  crossing_traced_with [(some 0, 0), (some 0, 0), (some 6, 1/6), (some 4, 1/3)]

/-- The state `crossing_traced_state` with the last item of the track of motorcycle `0`, the
crossing at which it crashed, entered twice: an end doublon. -/
def end_doublon_state : Motorcycle_graph :=
  crossing_traced_with [(some 0, 0), (some 0, 0), (some 6, 1/6), (some 4, 1/3), (some 4, 1/3)]

/-- The state `crossing_traced_state` with a track of motorcycle `0` that enters the crossing
twice and then continues to the destination `(0,1/4,3/4)`, beyond the point that motorcycle `1`
has reached earlier. -/
def passed_doublon_state : Motorcycle_graph :=
  crossing_traced_with
    [(some 0, 0), (some 0, 0), (some 6, 1/6), (some 4, 1/3), (some 4, 1/3), (some 1, 3/4)]

/-- The state `passed_doublon_state` with the crossing entered once. -/
def passed_crossing_state : Motorcycle_graph :=
  crossing_traced_with [(some 0, 0), (some 0, 0), (some 6, 1/6), (some 4, 1/3), (some 1, 3/4)]

/-- The state `crashed_foreign_state` with a destination of the live motorcycle that is not
final. -/
def missing_path_mc0 : Motorcycle :=
  { new_motorcycle 0 (1/10) (some 0, (1, 0, 0)) (some 0, (0, 1, 0)) with
    source := some 0, destination := some 1, is_destination_final := false,
    current_position := some 0, targets := [(some 1, 10)],
    track := [(some 0, 0), (some 0, 0)] }

/-- The motorcycle `missing_path_mc0` after it has driven to its destination. -/
def missing_path_mc : Motorcycle :=
  { missing_path_mc0 with
    current_position := some 1, current_time := 10, targets := [],
    track := [(some 0, 0), (some 0, 0), (some 1, 10)] }

def missing_path_state : Motorcycle_graph :=
  { crashed_foreign_state with
    motorcycles :=
      [missing_path_mc0,
       { new_motorcycle 1 1 (some 0, (0, 0, 1)) (some 0, (0, 0, 1)) with
          crashed := true, source := some 2, time_at_source := 2, destination := some 2,
          current_position := some 2, current_time := 2, targets := [],
          track := [(some 2, 2), (some 2, 2)] }] }

/-- A single motorcycle as `initialize_motorcycles` leaves it: at its source (the entry `s`)
at time `0`, with the final destination `d`, the targets source and destination, and the
source in its track. -/
def lone_motorcycle (speed : FT) (input_source : Point_or_location)
    (input_destination : Option Point_or_location) (s d : Nat) (tD : FT) : Motorcycle :=
  { id := 0, crashed := false, speed := speed, input_source := input_source,
    input_destination := input_destination, source := some s, time_at_source := 0,
    destination := some d, is_destination_final := true, current_position := some s,
    current_time := 0, targets := [(some s, 0), (some d, tD)], track := [(some s, 0)] }

/-- A single motorcycle of speed `1` from `(1,0,0)` to `(0,1,0)`, before its
initialization. -/
def lone_input : Motorcycle_graph :=
  { points := [],
    motorcycles := [new_motorcycle 0 1 (some 0, (1, 0, 0)) (some 0, (0, 1, 0))],
    motorcycle_pq := [], track_face_map := [] }

/-- The state `lone_input` after `initialize_motorcycles`. -/
def lone_initialized : Motorcycle_graph :=
  { points := [entry_at (1, 0, 0) [(0, 0)], entry_at (0, 1, 0) [(0, 1)]],
    motorcycles := [lone_motorcycle 1 (.location (some 0, (1, 0, 0)))
      (some (.location (some 0, (0, 1, 0)))) 0 1 1],
    motorcycle_pq := [], track_face_map := [] }

/-- The times of a motorcycle are consistent: the time at the source is not later than the
current time, no queued target is earlier than the current time, and the queue is ordered. -/
def Motorcycle.well_timed (mc : Motorcycle) : Prop :=
  mc.time_at_source ≤ mc.current_time ∧ mc.targets_not_before_current_time ∧ mc.targets_ordered

/-- The times of every motorcycle of the graph are consistent. -/
def well_timed (g : Motorcycle_graph) : Prop := ∀ m ∈ g.motorcycles, m.well_timed

/-- Every track segment of the track store has a time at its source that is not later than the
time at its destination. -/
def segments_ordered (g : Motorcycle_graph) : Prop :=
  ∀ x ∈ g.track_face_map, ∀ tr ∈ x.2, tr.time_at_source ≤ tr.time_at_destination

/-- A foreign motorcycle (id `0`, speed `1`) that has stopped at `(1/2,1/2,0)` at time `1/2`,
coming from `(0,1,0)`, and a motorcycle (id `1`, speed `1`) at `(1,0,0)` at time `0` whose
closest target is `(1/2,1/2,0)`, the destination of the confirmed foreign track. -/
def stopped_ahead_fmc : Motorcycle :=
  { new_motorcycle 0 1 (some 0, (0, 1, 0)) (some 0, (1/2, 1/2, 0)) with
    crashed := true, source := some 2, destination := some 1, current_position := some 1,
    current_time := 1/2, targets := [], track := [(some 2, 0), (some 2, 0), (some 1, 1/2)] }

def stopped_ahead_mc : Motorcycle :=
  { new_motorcycle 1 1 (some 0, (1, 0, 0)) (some 0, (1/2, 1/2, 0)) with
    source := some 0, destination := some 1, current_position := some 0,
    targets := [(some 1, 1/2)], track := [(some 0, 0), (some 0, 0)] }

/-- The confirmed track of `stopped_ahead_fmc`. -/
def stopped_ahead_track : Track_segment :=
  { id := 0, source := some 2, time_at_source := 0, destination := some 1,
    time_at_destination := 1/2 }

def stopped_ahead_state : Motorcycle_graph :=
  { points := [entry_at (1, 0, 0) [(1, 0)], entry_at (1/2, 1/2, 0) [(0, 1/2), (1, 1/2)],
               entry_at (0, 1, 0) [(0, 0)]],
    motorcycles := [stopped_ahead_fmc, stopped_ahead_mc],
    motorcycle_pq := [1], track_face_map := [(some 0, [stopped_ahead_track])] }

/-- As `stopped_ahead_mc`, with the closest target `(0,1,0)`, beyond the destination of the
foreign track. -/
def stopped_inside_mc : Motorcycle :=
  { new_motorcycle 1 1 (some 0, (1, 0, 0)) (some 0, (0, 1, 0)) with
    source := some 0, destination := some 2, current_position := some 0,
    targets := [(some 2, 1)], track := [(some 0, 0), (some 0, 0)] }

def stopped_inside_state : Motorcycle_graph :=
  { points := [entry_at (1, 0, 0) [(1, 0)], entry_at (1/2, 1/2, 0) [(0, 1/2)],
               entry_at (0, 1, 0) [(0, 0), (1, 1)]],
    motorcycles := [stopped_ahead_fmc, stopped_inside_mc],
    motorcycle_pq := [1], track_face_map := [(some 0, [stopped_ahead_track])] }

/-- A foreign motorcycle (id `0`, speed `1`) that left `(3/4,0,1/4)` at time `0` for
`(0,3/4,1/4)` and is at `(3/8,3/8,1/4)` at time `3/8`, and a motorcycle (id `1`, speed `1`) at
`(7/8,1/8,0)` at time `0` whose closest target is `(3/8,1/8,1/2)`: its tentative segment
crosses the part of the foreign track that the foreign motorcycle has already driven, at
`(5/8,1/8,1/4)`, and does not meet the part that is still ahead of it. -/
def passed_fmc : Motorcycle :=
  { new_motorcycle 0 1 (some 0, (3/4, 0, 1/4)) (some 0, (0, 3/4, 1/4)) with
    source := some 0, destination := some 1, current_position := some 2, current_time := 3/8,
    targets := [(some 1, 3/4)], track := [(some 0, 0), (some 0, 0), (some 2, 3/8)] }

def passed_mc : Motorcycle :=
  { new_motorcycle 1 1 (some 0, (7/8, 1/8, 0)) (some 0, (3/8, 1/8, 1/2)) with
    source := some 3, destination := some 4, current_position := some 3,
    targets := [(some 4, 1/2)], track := [(some 3, 0), (some 3, 0)] }

def passed_state : Motorcycle_graph :=
  { points := [entry_at (3/4, 0, 1/4) [(0, 0)], entry_at (0, 3/4, 1/4) [(0, 3/4)],
               entry_at (3/8, 3/8, 1/4) [(0, 3/8)], entry_at (7/8, 1/8, 0) [(1, 0)],
               entry_at (3/8, 1/8, 1/2) [(1, 1/2)]],
    motorcycles := [passed_fmc, passed_mc],
    motorcycle_pq := [1, 0], track_face_map := [] }

/-! ## A mesh of two triangles -/

/-- The descriptor of a location of a triangle whose vertices are `v0`, `v1`, `v2` and whose
halfedges are `h0` (from `v0` to `v1`), `h1` (from `v1` to `v2`) and `h2` (from `v2` to `v0`):
a vertex if a coordinate is `1`, else the halfedge opposite to a vertex whose coordinate is `0`,
else the face. -/
def triangle_descriptor (fd : face_descriptor) (v0 v1 v2 h0 h1 h2 : Nat)
    (bc : Barycentric_coordinates) : descriptor_variant :=
  if bc.1 = 1 then .vertex v0
  else if bc.2.1 = 1 then .vertex v1
  else if bc.2.2 = 1 then .vertex v2
  else if bc.1 = 0 then .halfedge h1
  else if bc.2.1 = 0 then .halfedge h2
  else if bc.2.2 = 0 then .halfedge h0
  else .face fd

/-- The mesh of the two triangles `0 = (v0, v1, v2)` and `1 = (v1, v0, v3)` with
`v0 = (0,0,0)`, `v1 = (1,0,0)`, `v2 = (0,1,0)`, `v3 = (0,-1,0)`. The halfedges of the face
`0` are `0` (`v0` to `v1`), `1`, `2`; those of the face `1` are `3` (`v1` to `v0`), `4`, `5`;
the halfedges `0` and `3` are opposite, the halfedges `6` to `9` are border halfedges. -/
def two_face_point (l : Face_location) : Point :=
  if l.1 = some 1 then (l.2.1, -l.2.2.2, 0) else (l.2.2.1, l.2.2.2, 0)

def two_face_siblings (l : Face_location) : List Face_location :=
  if l.2.2.2 = 0 then
    if l.1 = some 0 then [(some 1, (l.2.2.1, l.2.1, 0))]
    else if l.1 = some 1 then [(some 0, (l.2.2.1, l.2.1, 0))]
    else []
  else []

def two_face_opposite (hd : Nat) : Nat :=
  match hd with
  | 0 => 3 | 3 => 0
  | 1 => 6 | 6 => 1
  | 2 => 7 | 7 => 2
  | 4 => 8 | 8 => 4
  | 5 => 9 | 9 => 5
  | h => h

def two_face_face (hd : Nat) : face_descriptor :=
  if hd < 3 then some 0 else if hd < 6 then some 1 else null_face

def two_face_is_on_halfedge (l : Face_location) (hd : Nat) : Bool :=
  decide (l.1 = two_face_face hd) && decide (hd < 6) &&
    (match hd % 3 with
     | 0 => decide (l.2.2.2 = 0)
     | 1 => decide (l.2.1 = 0)
     | _ => decide (l.2.2.1 = 0))

def two_face_descriptor (l : Face_location) : descriptor_variant :=
  if l.1 = some 0 then triangle_descriptor l.1 0 1 2 0 1 2 l.2
  else if l.1 = some 1 then triangle_descriptor l.1 1 0 3 3 4 5 l.2
  else .face l.1

def two_face_services : Services :=
  { FT_max := double_max, FT_eps := double_epsilon, sqrt := rational_sqrt,
    location_to_point := two_face_point,
    siblings_of := two_face_siblings,
    opposite := two_face_opposite,
    is_on_halfedge := two_face_is_on_halfedge,
    get_descriptor_from_location := two_face_descriptor,
    faces_around_target := fun vd =>
      if vd = 0 ∨ vd = 1 then [some 0, some 1, null_face]
      else if vd = 2 then [some 0, null_face] else [some 1, null_face],
    is_border := fun hd => decide (6 ≤ hd),
    is_border_edge := fun hd => !(hd == 0 || hd == 3),
    face := two_face_face,
    halfedges_around_face := fun fd =>
      if fd = some 0 then [0, 1, 2] else if fd = some 1 then [3, 4, 5] else [] }

/-- An entry of the two-triangle mesh. -/
def two_face_entry (l : Face_location) (motorcycles : List (Nat × FT)) : Dictionary_entry :=
  { location := l, point := two_face_point l, siblings := two_face_siblings l,
    motorcycles := motorcycles, blocked := false }

/-! ## A motorcycle that leaves a halfedge for the inside of its face -/

/-- On the two-triangle mesh: the motorcycle `0` (speed `1`) is at `(1/2,0,0)` on the halfedge
`0` of the face `0` at time `0`, and its closest target `(1/5,2/5,0)` is strictly inside the
face `0`. In the face `1`, across the halfedge `0`, the motorcycle `1` is live, on its way from
`(1/2,-2/5,0)` to `(4/5,0,0)` on the shared edge, and the motorcycle `2` has left the confirmed
track from `(1/5,-2/5,0)` to `(1/5,0,0)` on the shared edge, where it is crashed. -/
def leaving_border_mc : Motorcycle :=
  { new_motorcycle 0 1 (some 0, (1/2, 1/2, 0)) (some 0, (2/5, 1/5, 2/5)) with
    source := some 0, destination := some 1, current_position := some 0,
    targets := [(some 1, 1/2)], track := [(some 0, 0), (some 0, 0)] }

def leaving_border_live_fmc : Motorcycle :=
  { new_motorcycle 1 1 (some 1, (1/2, 1/10, 2/5)) (some 1, (4/5, 1/5, 0)) with
    source := some 2, destination := some 3, current_position := some 2,
    targets := [(some 3, 1/2)], track := [(some 2, 0), (some 2, 0)] }

def leaving_border_crashed_fmc : Motorcycle :=
  { new_motorcycle 2 1 (some 1, (1/5, 2/5, 2/5)) (some 1, (1/5, 4/5, 0)) with
    crashed := true, source := some 4, destination := some 5, current_position := some 5,
    current_time := 2/5, targets := [],
    track := [(some 4, 0), (some 4, 0), (some 5, 2/5)] }

def leaving_border_state : Motorcycle_graph :=
  { points := [two_face_entry (some 0, (1/2, 1/2, 0)) [(0, 0)],
               two_face_entry (some 0, (2/5, 1/5, 2/5)) [(0, 1/2)],
               two_face_entry (some 1, (1/2, 1/10, 2/5)) [(1, 0)],
               two_face_entry (some 1, (4/5, 1/5, 0)) [(1, 1/2)],
               two_face_entry (some 1, (1/5, 2/5, 2/5)) [(2, 0)],
               two_face_entry (some 1, (1/5, 4/5, 0)) [(2, 2/5)]],
    motorcycles := [leaving_border_mc, leaving_border_live_fmc, leaving_border_crashed_fmc],
    motorcycle_pq := [0, 1],
    track_face_map := [(some 1, [{ id := 2, source := some 4, time_at_source := 0,
                                   destination := some 5, time_at_destination := 2/5 }])] }





namespace Motorcycle_graph

/-- The function `find_collision_with_foreign_motorcycles` as it would be without the "small
skip" of l. 951-955: with the current position strictly inside the face,
`find_collision_with_tentative_track_target_on_border` is always run. This second definition
is what `find_collision_with_foreign_motorcycles` is compared with. -/
def find_collision_with_foreign_motorcycles_without_skip (S : Services) (g : Motorcycle_graph)
    (mc : Motorcycle) (tc : Collision_information) : Option Collision_information :=
  match mc.closest_target, Dictionary.deref g.points mc.current_position with
  | some closest_target, some pos =>
    match Dictionary.deref g.points closest_target.1 with
    | none => none
    | some ct =>
      let target_dv := S.get_descriptor_from_location ct.location
      if target_dv.which = 2 then some tc
      else
        let source_dv := S.get_descriptor_from_location pos.location
        if source_dv.which = 2 then
          find_collision_with_tentative_track_target_on_border S g mc target_dv tc
        else
          match common_halfedge_of_face S pos.location.1 pos.location ct.location with
          | some hd =>
            match find_foreign_collision_with_tentative_track_on_border S g mc hd tc with
            | none => none
            | some tc1 =>
              if target_dv.which = 0 then
                find_collision_with_tentative_track_target_on_border S g mc target_dv tc1
              else some tc1
          | none =>
            find_collision_with_tentative_track_target_on_border S g mc target_dv tc
  | _, _ => none

end Motorcycle_graph

/-! ## A motorcycle whose closest target is on the edge shared by two faces -/

/-- On the two-triangle mesh: the motorcycle `0` (speed `1`) is at `(1/5,2/5,0)`, strictly
inside the face `0`, at time `0`, and its closest target is `(1/2,0,0)` on the shared edge, at
time `1/2`. The motorcycle `1` (speed `1`) is in the face `1` on the shared edge, at its
source `(9/10,0,0)` at time `0`, on its way to `(1/10,0,0)`; the entry of `(1/2,0,0)` records
its visit at time `2/5`. -/
def shared_edge_mc : Motorcycle :=
  { new_motorcycle 0 1 (some 0, (2/5, 1/5, 2/5)) (some 0, (1/2, 1/2, 0)) with
    source := some 0, destination := some 1, current_position := some 0,
    targets := [(some 1, 1/2)], track := [(some 0, 0), (some 0, 0)] }

def shared_edge_fmc : Motorcycle :=
  { new_motorcycle 1 1 (some 1, (9/10, 1/10, 0)) (some 1, (1/10, 9/10, 0)) with
    source := some 2, destination := some 3, current_position := some 2,
    targets := [(some 3, 4/5)], track := [(some 2, 0), (some 2, 0)] }

def shared_edge_state : Motorcycle_graph :=
  { points := [two_face_entry (some 0, (2/5, 1/5, 2/5)) [(0, 0)],
               two_face_entry (some 0, (1/2, 1/2, 0)) [(0, 1/2), (1, 2/5)],
               two_face_entry (some 1, (9/10, 1/10, 0)) [(1, 0)],
               two_face_entry (some 1, (1/10, 9/10, 0)) [(1, 4/5)]],
    motorcycles := [shared_edge_mc, shared_edge_fmc],
    motorcycle_pq := [0, 1], track_face_map := [] }

/-- A record that already holds a collision of the motorcycle `0` with the motorcycle `1` at
time `1/4`, earlier than the time `1/2` at the closest target. -/
def earlier_collision_record : Collision_information :=
  { Collision_information.ctor double_max (1/2) with
    closest_collision_location := (some 0, (3/10, 3/10, 2/5)),
    time_at_closest_collision := 1/4, fmc_id := 1,
    foreign_time_at_closest_collision := 1/8 }

/-- The state `shared_edge_state` with a third motorcycle: the motorcycle `2` (speed `1`) is
in the face `1` on the shared edge too, at its source `(3/10,0,0)` at time `0`, on its way to
`(7/10,0,0)`, and the entry of `(1/2,0,0)` records its visit at time `1/5`. -/
def shared_edge_second_fmc : Motorcycle :=
  { new_motorcycle 2 1 (some 1, (3/10, 7/10, 0)) (some 1, (7/10, 3/10, 0)) with
    source := some 4, destination := some 5, current_position := some 4,
    targets := [(some 5, 2/5)], track := [(some 4, 0), (some 4, 0)] }

def crowded_edge_state : Motorcycle_graph :=
  { points := [two_face_entry (some 0, (2/5, 1/5, 2/5)) [(0, 0)],
               two_face_entry (some 0, (1/2, 1/2, 0)) [(0, 1/2), (1, 2/5), (2, 1/5)],
               two_face_entry (some 1, (9/10, 1/10, 0)) [(1, 0)],
               two_face_entry (some 1, (1/10, 9/10, 0)) [(1, 4/5)],
               two_face_entry (some 1, (3/10, 7/10, 0)) [(2, 0)],
               two_face_entry (some 1, (7/10, 3/10, 0)) [(2, 2/5)]],
    motorcycles := [shared_edge_mc, shared_edge_fmc, shared_edge_second_fmc],
    motorcycle_pq := [0, 1, 2], track_face_map := [] }

/-! ## The operations of the number type `double`

The number type `FT` of the traits is a floating type: the result of each arithmetic operation
is rounded to the nearest number of the format, a tie going to the number with the even
significand (IEEE 754, binary64: 53 binary digits, least exponent `-1074`). A value of the type
is a rational number; overflow is not embedded. -/

/-- Rounding of a rational to the nearest integer, a tie going to the even one. -/
def round_half_even (u : FT) : ℤ :=
  if u - ⌊u⌋ < 1 / 2 then ⌊u⌋
  else if 1 / 2 < u - ⌊u⌋ then ⌊u⌋ + 1
  else if ⌊u⌋ % 2 = 0 then ⌊u⌋ else ⌊u⌋ + 1

/-- The search, upwards from `e`, of the exponent `e` with `2^e <= x < 2^(e+1)`. -/
def binade_up (x : FT) : Nat → ℤ → ℤ
  | 0, e => e
  | fuel + 1, e => if x < 2 ^ (e + 1) then e else binade_up x fuel (e + 1)

/-- The search, downwards from `e`, of the exponent `e` with `2^e <= x < 2^(e+1)`. -/
def binade_down (x : FT) : Nat → ℤ → ℤ
  | 0, e => e
  | fuel + 1, e => if 2 ^ e ≤ x then e else binade_down x fuel (e - 1)

/-- The exponent `e` with `2^e <= x < 2^(e+1)` of a positive `x`. -/
def binade (x : FT) : ℤ :=
  if 1 ≤ x then binade_up x x.num.natAbs 0 else binade_down x x.den (-1)

/-- The exponent of the last binary digit that the format keeps for a positive `x`. -/
def double_last_place (x : FT) : ℤ := max (binade x - 52) (-1074)

/-- The number of the format nearest to `x >= 0`. -/
def double_round_magnitude (x : FT) : FT :=
  round_half_even (x / 2 ^ double_last_place x) * 2 ^ double_last_place x

/-- The number of the format nearest to `x`. -/
def double_round (x : FT) : FT :=
  if x < 0 then - double_round_magnitude (- x) else double_round_magnitude x

/-- The operator `+` of `double`. -/
def double_add (a b : FT) : FT := double_round (a + b)

/-- The operator `-` of `double`. -/
def double_sub (a b : FT) : FT := double_round (a - b)

/-- The operator `*` of `double`. -/
def double_mul (a b : FT) : FT := double_round (a * b)

/-- The operator `/` of `double`. -/
def double_div (a b : FT) : FT := double_round (a / b)

/-- A number of the format: rounding leaves it as it is. -/
def is_double (a : FT) : Prop := double_round a = a

instance (a : FT) : Decidable (is_double a) := inferInstanceAs (Decidable (double_round a = a))

/-- The function `CGAL::sqrt` on `double` (`std::sqrt`): the square root, correctly rounded. -/
def double_sqrt (x : FT) : FT :=
  if x ≤ 0 then 0
  else
    let q : ℤ := binade x / 2 - 52
    let y : FT := x / 2 ^ (2 * q)
    let m : Nat := integer_sqrt ⌊y⌋.toNat
    if y < (m + 1 / 2) ^ 2 then m * 2 ^ q
    else if (m + 1 / 2 : FT) ^ 2 < y then (m + 1) * 2 ^ q
    else if m % 2 = 0 then m * 2 ^ q else (m + 1) * 2 ^ q

/-- The services `exact_services` with the square root of `double`. -/
def double_services : Services := { exact_services with sqrt := double_sqrt }

/-! ## The functions that compute times and locations, with the operations of `double`

The definitions of this section are the definitions of the same names of the namespace
`Motorcycle_graph`, with each arithmetic operation of the C++ expression replaced by the
operation of `double`. The comparisons and the predicates of the kernel are exact. -/

namespace Double

open Motorcycle_graph

/-- Modelled from the spec: `CGAL::squared_distance` of two points, the sum of the squares of
the differences of the coordinates. -/
def squared_distance (p q : Point) : FT :=
  double_add
    (double_add (double_mul (double_sub p.1 q.1) (double_sub p.1 q.1))
      (double_mul (double_sub p.2.1 q.2.1) (double_sub p.2.1 q.2.1)))
    (double_mul (double_sub p.2.2 q.2.2) (double_sub p.2.2 q.2.2))

/-- The loop of `try_to_snap_location_to_existing_point` (l. 3323-3352). -/
def try_to_snap_loop (fd : face_descriptor) (p : Point) (tolerance : FT) :
    List Dictionary_entry → Nat → DEC_it × Bool
  | [], _ => (none, false)
  | e :: rest, i =>
    if e.location.1 ≠ fd then try_to_snap_loop fd p tolerance rest (i + 1)
    else if squared_distance e.point p ≤ tolerance then (some i, true)
    else try_to_snap_loop fd p tolerance rest (i + 1)

/-- The function `try_to_snap_location_to_existing_point` (l. 3323-3352). -/
def try_to_snap_location_to_existing_point (g : Motorcycle_graph) (location : Face_location)
    (p : Point) (tolerance : FT) : DEC_it × Bool :=
  try_to_snap_loop location.1 p tolerance g.points 0

/-- The meeting time of the opposite-direction, both-moving branch of
`find_collision_between_collinear_tracks` as computed at l. 1871-1874, before any snapping:
`mc.current_time() + (CGAL::sqrt(sqd) - fmc.speed() * (mc.current_time() -
time_at_fmc_track_source)) / (mc.speed() + fmc.speed())`. -/
def collinear_meeting_time (S : Services) (mc fmc : Motorcycle)
    (sqd time_at_fmc_track_source : FT) : FT :=
  double_add mc.current_time
    (double_div
      (double_sub (S.sqrt sqd)
        (double_mul fmc.speed (double_sub mc.current_time time_at_fmc_track_source)))
      (double_add mc.speed fmc.speed))

/-- The snapping of the meeting time at l. 1884-1903. -/
def collinear_snap_meeting_time (S : Services) (mc : Motorcycle)
    (time_at_collision time_at_fmc_track_source : FT) : Option FT :=
  let tolerance := S.FT_eps
  if time_at_collision < mc.current_time then
    if ¬ (double_add time_at_collision tolerance ≥ mc.current_time) then none
    else if ¬ (mc.current_time ≥ time_at_fmc_track_source) then none
    else some mc.current_time
  else if time_at_collision < time_at_fmc_track_source then
    if ¬ (double_add time_at_collision tolerance ≥ time_at_fmc_track_source) then none
    else if ¬ (time_at_fmc_track_source ≥ mc.current_time) then none
    else some time_at_fmc_track_source
  else some time_at_collision

/-- The location that the both-moving branch constructs for the collision (l. 1969-1976):
`mcs.source() + ratio * Vector_2(mcs)` with `ratio = (time_at_collision - mc.current_time()) /
(mc.time_at_closest_target() - mc.current_time())`, and `1. - collision[0] - collision[1]` as
third coordinate. -/
def collinear_collision_location (ffd : face_descriptor) (mcs : Segment_2)
    (current_time time_at_closest_target time_at_collision : FT) : Face_location :=
  let mcv : Vector_2 := (double_sub mcs.2.1 mcs.1.1, double_sub mcs.2.2 mcs.1.2)
  let ratio := double_div (double_sub time_at_collision current_time)
    (double_sub time_at_closest_target current_time)
  let collision : Point_2 :=
    (double_add mcs.1.1 (double_mul ratio mcv.1), double_add mcs.1.2 (double_mul ratio mcv.2))
  (ffd, (collision.1, collision.2, double_sub (double_sub 1 collision.1) collision.2))

/-- The part of the both-moving branch of `find_collision_between_collinear_tracks` that
follows a successful `is_collision_earlier_than_current_best(time_at_collision,
time_at_collision)` (l. 1907-2079). -/
def collinear_moving_store (S : Services) (g : Motorcycle_graph) (mc : Motorcycle)
    (mcs : Segment_2) (fmc : Motorcycle) (fmc_track_source_entry : Dictionary_entry)
    (are_motorcycles_on_the_same_face : Bool) (time_at_collision : FT)
    (tc : Collision_information) : Option Collision_information := do
  let ffd := fmc_track_source_entry.location.1
  -- both values are used later when we snap times/points
  let time_at_closest_collision_memory := tc.time_at_closest_collision
  let foreign_time_at_closest_collision_memory := tc.foreign_time_at_closest_collision
  let tc1 : Collision_information :=
    { tc.reset S.FT_max with
      time_at_closest_collision := time_at_collision
      fmc_id := fmc.id
      is_foreign_motorcycle_in_different_face := !are_motorcycles_on_the_same_face
      foreign_motorcycle_face := ffd
      foreign_time_at_closest_collision := time_at_collision }
  -- temporal snapping, with the targets of 'mc'
  let (tc2, used_temporal_snapping) :=
    match mc.has_target_at_time time_at_collision with
    | some target_point =>
      ({ tc1 with is_closest_collision_already_in_dictionary := true
                  closest_collision := target_point.1 }, true)
    | none => (tc1, false)
  -- same check with the foreign time at collision
  let (tc3, used_temporal_snapping1) ←
    match fmc.has_target_at_time time_at_collision with
    | some target_point => do
      let alternate_foreign_collision ← Dictionary.deref g.points target_point.1
      let fmc_loc ← g.current_location fmc
      if alternate_foreign_collision.location.1 ≠ fmc_loc.1 then none
      else if used_temporal_snapping then do
        let snapped_entry ← Dictionary.deref g.points tc2.closest_collision
        if some alternate_foreign_collision.location ≠ snapped_entry.sibling fmc_loc.1 then none
        else some (tc2, true)
      else
        some ({ tc2 with is_closest_collision_already_in_dictionary := true
                         closest_collision := target_point.1 }, true)
    | none => some (tc2, used_temporal_snapping)
  if used_temporal_snapping1 then some tc3
  else
    -- no choice but to construct the collision location
    let closest_target ← mc.closest_target
    let collision_location : Face_location := S.snap_location_to_border
      (collinear_collision_location ffd mcs mc.current_time closest_target.2 time_at_collision)
    match Dictionary.find g.points collision_location with
    | some i => do
      -- the point already existed
      let entry ← Dictionary.deref g.points (some i)
      let tc4 := { tc3 with is_closest_collision_already_in_dictionary := true
                            closest_collision := some i }
      let tolerance := S.FT_eps
      match entry.has_motorcycle_between mc.id (double_sub time_at_collision tolerance)
          (double_add time_at_collision tolerance) with
      | some visiting_time =>
        if ¬ (visiting_time < time_at_closest_collision_memory) then none
        else some { tc4 with time_at_closest_collision := visiting_time
                             foreign_time_at_closest_collision := visiting_time }
      | none =>
        match entry.has_motorcycle_between fmc.id (double_sub time_at_collision tolerance)
            (double_add time_at_collision tolerance) with
        | some foreign_visiting_time =>
          if tc4.time_at_closest_collision = time_at_closest_collision_memory ∧
              ¬ (foreign_visiting_time < foreign_time_at_closest_collision_memory) then none
          else some { tc4 with foreign_time_at_closest_collision := foreign_visiting_time
                               time_at_closest_collision := foreign_visiting_time }
        | none => some tc4
    | none =>
      -- a new location at an unknown time; maybe there exists another point that is very close
      let collision_point := S.location_to_point collision_location
      let tolerance := double_mul 2 S.FT_eps
      let snapped := try_to_snap_location_to_existing_point g collision_location collision_point
        tolerance
      if snapped.2 then do
        let snapped_entry ← Dictionary.deref g.points snapped.1
        let min_visiting_time := double_sub time_at_collision tolerance
        let max_visiting_time := double_add time_at_collision tolerance
        let visiting_time :=
          match snapped_entry.has_motorcycle_between mc.id min_visiting_time max_visiting_time with
          | some t => t
          | none =>
            match snapped_entry.has_motorcycle_between fmc.id min_visiting_time
                max_visiting_time with
            | some t => t
            | none => time_at_collision
        if ¬ (visiting_time ≤ time_at_closest_collision_memory) then none
        else if ¬ (visiting_time < time_at_closest_collision_memory ∨
            visiting_time < foreign_time_at_closest_collision_memory) then none
        else
          some { tc3 with add_intersection_without_moving_motorcycles := true
                          is_closest_collision_already_in_dictionary := true
                          closest_collision := snapped.1
                          time_at_closest_collision := visiting_time
                          foreign_time_at_closest_collision := visiting_time }
      else
        -- couldn't snap to anything, 'collision_location' is definitely a new point
        some { tc3 with is_closest_collision_already_in_dictionary := false
                        closest_collision_location := collision_location }

/-- The function `find_collision_between_collinear_tracks` (l. 1647-2083), with
`CGAL_MOTORCYCLE_GRAPH_ROBUSTNESS_CODE` defined and without the rigorous preconditions. -/
def find_collision_between_collinear_tracks (S : Services) (g : Motorcycle_graph)
    (mc : Motorcycle) (mcs : Segment_2) (fmc : Motorcycle) (fmc_track : Track_segment)
    (fmcs : Segment_2) (is_fmc_moving_on_track : Bool) (tc : Collision_information) :
    Option Collision_information :=
  if mcs.1 = fmcs.1 then some tc
  else
    let is_fmcs_degenerate := is_degenerate_2 fmcs
    -- compute the respective direction of the two motorcycles
    if mcs.1 = mcs.2 then none
    else
      let are_motorcycles_moving_in_the_same_direction : Bool :=
        is_fmcs_degenerate || decide (angle_2 mcs.1 mcs.2 fmcs.1 fmcs.2 = Angle.ACUTE)
      let fmc_track_source := fmc_track.source
      let time_at_fmc_track_source := fmc_track.time_at_source
      let fmc_track_destination := fmc_track.destination
      let time_at_fmc_track_destination := fmc_track.time_at_destination
      match Dictionary.deref g.points fmc_track_source,
            Dictionary.deref g.points fmc_track_destination,
            Dictionary.deref g.points mc.current_position with
      | some fmc_track_source_entry, some fmc_track_destination_entry, some mc_position_entry =>
        let ffd := fmc_track_source_entry.location.1
        if ffd ≠ fmc_track_destination_entry.location.1 then none
        else
          let are_motorcycles_on_the_same_face : Bool :=
            decide (mc_position_entry.location.1 = fmc_track_source_entry.location.1)
          -- some sanity checks
          if ¬ (time_at_fmc_track_source ≤ time_at_fmc_track_destination) then none
          else if !are_motorcycles_on_the_same_face &&
              !collinear_tracks_on_common_halfedge S g mc mc_position_entry.location
                fmc_track_source_entry fmc_track_destination_entry then none
          else if are_motorcycles_moving_in_the_same_direction then
            -- the motorcycles move in the same direction:
            -- if there's an intersection, 'mc' will impact fmcs' source
            let time_at_collision : Option (Option FT) :=
              if mcs.2 = fmcs.1 then
                match mc.closest_target with
                | none => none
                | some ct => some (some ct.2)
              else if collinear_are_strictly_ordered_along_line_2 mcs.1 fmcs.1 mcs.2 then
                some (some (double_add mc.current_time
                  (double_div
                    (S.sqrt (squared_distance mc_position_entry.point
                      fmc_track_source_entry.point))
                    mc.speed)))
              else some none
            match time_at_collision with
            | none => none
            | some none => some tc
            | some (some time_at_collision) =>
              some (offer_at_foreign_track_end S tc fmc fmc_track_source time_at_fmc_track_source
                ffd are_motorcycles_on_the_same_face time_at_collision)
          else
            -- motorcycles are moving in opposite directions
            -- if the foreign source is 'before' mc's source, then there is no intersection
            if collinear_are_strictly_ordered_along_line_2 fmcs.1 mcs.1 mcs.2 then some tc
            -- if mc's target is in [mcs, fmcs], then there is no intersection
            else if mcs.2 ≠ fmcs.2 &&
                collinear_are_strictly_ordered_along_line_2 mcs.2 fmcs.2 fmcs.1 then some tc
            else if !is_fmc_moving_on_track then
              -- stationary 'fmc': 'mc' crashes into the final position of the foreign track
              let time_at_collision : Option (Option FT) :=
                if mcs.2 = fmcs.2 then
                  match mc.closest_target with
                  | none => none
                  | some ct => some (some ct.2)
                else if mcs.1 = fmcs.2 then some (some mc.current_time)
                else if collinear_are_strictly_ordered_along_line_2 mcs.1 fmcs.2 mcs.2 then
                  let t := double_add mc.current_time
                    (double_div
                      (S.sqrt (squared_distance mc_position_entry.point
                        fmc_track_destination_entry.point))
                      mc.speed)
                  if (mc.has_target_at_time t).isSome then none else some (some t)
                else some none
              match time_at_collision with
              | none => none
              | some none => some tc
              | some (some time_at_collision) =>
                some (offer_at_foreign_track_end S tc fmc fmc_track_destination
                  time_at_fmc_track_destination ffd are_motorcycles_on_the_same_face
                  time_at_collision)
            else
              -- the foreign motorcycle is (also) moving
              let sqd := squared_distance mc_position_entry.point fmc_track_source_entry.point
              match collinear_snap_meeting_time S mc
                  (collinear_meeting_time S mc fmc sqd time_at_fmc_track_source)
                  time_at_fmc_track_source with
              | none => none
              | some time_at_collision =>
                if tc.is_collision_earlier_than_current_best time_at_collision time_at_collision
                then
                  collinear_moving_store S g mc mcs fmc fmc_track_source_entry
                    are_motorcycles_on_the_same_face time_at_collision tc
                else some tc
      | _, _, _ => none

/-- The coordinates of the middle location of `compute_middle_point` (l. 727-729):
`0.5 * (p_coords[i] + q_coords[i])`. -/
def middle_coords (p_coords q_coords : Barycentric_coordinates) : Barycentric_coordinates :=
  (double_mul (1 / 2) (double_add p_coords.1 q_coords.1),
    double_mul (1 / 2) (double_add p_coords.2.1 q_coords.2.1),
    double_mul (1 / 2) (double_add p_coords.2.2 q_coords.2.2))

/-- The function `compute_middle_point` (l. 710-744): the graph after the call (the middle
location is inserted in the dictionary), the entry and the time at the entry. -/
def compute_middle_point (S : Services) (g : Motorcycle_graph) (p : DEC_it) (p_time : FT)
    (q : DEC_it) (q_time : FT) : Option (Motorcycle_graph × DEC_it × FT) := do
  let p_entry ← Dictionary.deref g.points p
  let q_entry ← Dictionary.deref g.points q
  if p_entry.location.1 ≠ q_entry.location.1 then none
  else
    let p_coords := p_entry.location.2
    let q_coords := q_entry.location.2
    let middle_loc : Face_location := (p_entry.location.1, middle_coords p_coords q_coords)
    let time_at_r := double_mul (1 / 2) (double_add p_time q_time)
    let entry := Dictionary.insert S g.points middle_loc
    some ({ g with points := entry.1 }, entry.2.1, time_at_r)

/-- The function `compute_halving_point` (l. 687-708), without
`CGAL_MOTORCYCLE_GRAPH_USE_ADVANCED_HALVING`. -/
def compute_halving_point (S : Services) (g : Motorcycle_graph) (p : DEC_it) (p_time : FT)
    (q : DEC_it) (q_time : FT) : Option (Motorcycle_graph × DEC_it × FT) := do
  if p = q then none
  else
    let p_entry ← Dictionary.deref g.points p
    let q_entry ← Dictionary.deref g.points q
    if p_entry.location.1 ≠ q_entry.location.1 then none
    else compute_middle_point S g p p_time q q_time

/-- The first half of the body of `treat_collision` (l. 3210-3251): the targets of `mc`. -/
def treat_collision_mc (S : Services) (g : Motorcycle_graph) (mc_id : Nat)
    (collision_point : DEC_it) (time_at_collision_point : FT) : Option Motorcycle_graph := do
  let mc ← g.motorcycle mc_id
  let collision_entry ← Dictionary.deref g.points collision_point
  if !collision_entry.has_motorcycle_at mc.id time_at_collision_point then
    -- call the halving structure to create a new point
    let (g1, halving_point, time_at_halving_point) ←
      compute_halving_point S g mc.current_position mc.current_time
        collision_point time_at_collision_point
    -- degeneracies should have been caught before
    if halving_point = mc.current_position || halving_point = collision_point then none
    else
      let mc1 ← mc.add_target collision_point time_at_collision_point
      let mc2 ← mc1.add_target halving_point time_at_halving_point
      let points1 := Dictionary.modify g1.points halving_point
        (fun e => e.add_motorcycle mc.id time_at_halving_point)
      let points2 := Dictionary.modify points1 collision_point
        (fun e => e.add_motorcycle mc.id time_at_collision_point)
      if !mc2.has_target_at collision_point time_at_collision_point then none
      else some (({ g1 with points := points2 }).set_motorcycle mc_id mc2)
  else if collision_point = mc.current_position then
    let mc1 ← mc.add_target collision_point time_at_collision_point
    some (g.set_motorcycle mc_id mc1)
  else some g

end Double

/-- A motorcycle of speed `2^51` at `(1,0,0)` at the time `ct`, on its way to `(0,1,0)`, at
the distance `1`, which it reaches at the time `t_dest`. -/
def adjacent_times_mc (ct t_dest : FT) : Motorcycle :=
  { new_motorcycle 0 (2 ^ 51) (some 0, (1, 0, 0)) (some 0, (0, 1, 0)) with
    source := some 0, destination := some 1, current_position := some 0,
    current_time := ct, targets := [(some 1, t_dest)],
    track := [(some 0, ct), (some 0, ct)] }

/-- The motorcycle `adjacent_times_mc` and a second motorcycle that waits at `(1/2,1/2,0)`,
half way. -/
def adjacent_times_state (ct t_dest : FT) : Motorcycle_graph :=
  { points := [entry_at (1, 0, 0) [(0, ct)], entry_at (0, 1, 0) [(0, t_dest)],
               entry_at (1/2, 1/2, 0) [(1, 0)]],
    motorcycles :=
      [adjacent_times_mc ct t_dest,
       { new_motorcycle 1 1 (some 0, (1/2, 1/2, 0)) (some 0, (1/2, 1/2, 0)) with
          source := some 2, destination := some 2, current_position := some 2,
          targets := [], track := [(some 2, 0), (some 2, 0)] }],
    motorcycle_pq := [0], track_face_map := [] }

/-- Two motorcycles of speed `1` whose sources `(1/2, 1/4, 1/4)` and
`(1/2 - 2^-54, 1/4 + 2^-54, 1/4)` are two distinct locations of the face `0`, at the distance
`2^-54`; the first one heads for `(1/4, 1/2, 1/4)`, through the source of the second one. -/
def adjacent_points_state : Motorcycle_graph :=
  { points := [entry_at (1/2, 1/4, 1/4) [(0, 0)],
               entry_at (1/2 - 1 / 2 ^ 54, 1/4 + 1 / 2 ^ 54, 1/4) [(1, 0)],
               entry_at (1/4, 1/2, 1/4) [(0, 1/4)]],
    motorcycles :=
      [{ new_motorcycle 0 1 (some 0, (1/2, 1/4, 1/4)) (some 0, (1/4, 1/2, 1/4)) with
          source := some 0, destination := some 2, current_position := some 0,
          targets := [(some 2, 1/4)], track := [(some 0, 0), (some 0, 0)] },
       { new_motorcycle 1 1 (some 0, (1/2 - 1 / 2 ^ 54, 1/4 + 1 / 2 ^ 54, 1/4))
            (some 0, (1/2 - 1 / 2 ^ 54, 1/4 + 1 / 2 ^ 54, 1/4)) with
          source := some 1, destination := some 1, current_position := some 1,
          targets := [(some 1, 0)], track := [(some 1, 0)] }],
    motorcycle_pq := [0, 1], track_face_map := [] }


/-! # Properties -/

open Motorcycle_graph

/-! ## The tie-break rule of the collision record -/

/-- C1: `is_collision_earlier_than_current_best(t, ft)` returns true if and only if
`t <= maximum_time_at_collision` and either `t < time_at_closest_collision`, or
`t = time_at_closest_collision` and `ft < foreign_time_at_closest_collision`; the call changes
no field of the record. -/
theorem Collision_information.is_collision_earlier_than_current_best_iff (tc : Collision_information) (t ft : FT) :
    ((tc.call_is_collision_earlier_than_current_best t ft).1 = true ↔
      (t ≤ tc.maximum_time_at_collision ∧
        (t < tc.time_at_closest_collision ∨
          (t = tc.time_at_closest_collision ∧ ft < tc.foreign_time_at_closest_collision)))) ∧
    (tc.call_is_collision_earlier_than_current_best t ft).2 = tc := by
  refine ⟨?_, rfl⟩
  unfold Collision_information.call_is_collision_earlier_than_current_best
    Collision_information.is_collision_earlier_than_current_best
  by_cases h : t > tc.maximum_time_at_collision
  · simp [h, not_le.mpr h]
  · simp [h, not_lt.mp h]


theorem earlier_irrefl (a : FT × FT) : ¬ earlier a a := by
  unfold earlier; intro h; rcases h with h | ⟨_, h⟩ <;> exact lt_irrefl _ h

theorem earlier_trans {a b c : FT × FT} (h1 : earlier a b) (h2 : earlier b c) : earlier a c := by
  unfold earlier at *
  rcases h1 with h1 | ⟨h1, h1'⟩ <;> rcases h2 with h2 | ⟨h2, h2'⟩
  · exact Or.inl (lt_trans h1 h2)
  · exact Or.inl (h2 ▸ h1)
  · exact Or.inl (h1 ▸ h2)
  · exact Or.inr ⟨h1.trans h2, lt_trans h1' h2'⟩

theorem is_earlier_iff (tc : Collision_information) (t ft : FT) :
    tc.is_collision_earlier_than_current_best t ft = true ↔
      (t ≤ tc.maximum_time_at_collision ∧
        earlier (t, ft) (tc.time_at_closest_collision, tc.foreign_time_at_closest_collision)) := by
  unfold Collision_information.is_collision_earlier_than_current_best earlier
  by_cases h : t > tc.maximum_time_at_collision
  · simp [h, not_le.mpr h]
  · simp [h, not_lt.mp h]

theorem offer_accept (FT_max M : FT) (tc : Collision_information) (c : Candidate)
    (hM : tc.maximum_time_at_collision = M)
    (h : tc.is_collision_earlier_than_current_best c.time_at_collision
      c.foreign_time_at_collision = true) :
    offer FT_max tc c = stored FT_max M c := by
  subst hM
  simp [offer, h, stored, Collision_information.reset,
    Collision_information.ctor]

theorem offer_reject (FT_max : FT) (tc : Collision_information) (c : Candidate)
    (h : ¬ tc.is_collision_earlier_than_current_best c.time_at_collision
      c.foreign_time_at_collision = true) :
    offer FT_max tc c = tc := by
  simp [offer, h]

theorem offer_fold_cases (FT_max M : FT) (cs : List Candidate) :
    (cs.foldl (offer FT_max) (Collision_information.ctor FT_max M) =
        Collision_information.ctor FT_max M ∧
      ∀ c ∈ cs, c.time_at_collision ≤ M → ¬ earlier c.times (FT_max, FT_max)) ∨
    (holds_first_least FT_max M cs
        (cs.foldl (offer FT_max) (Collision_information.ctor FT_max M)) ∧
      earlier (cs.foldl (offer FT_max)
          (Collision_information.ctor FT_max M)).times (FT_max, FT_max)) := by
  induction cs using List.reverseRecOn with
  | nil => left; simp
  | append_singleton cs a ih =>
    rw [List.foldl_append, List.foldl_cons, List.foldl_nil]
    set r := cs.foldl (offer FT_max) (Collision_information.ctor FT_max M)
      with hr
    rcases ih with ⟨hfresh, hnone⟩ | ⟨⟨pre, c, post, hcs, hcM, hleast, hfirst, hstored⟩, hbelow⟩
    · -- the record is still fresh
      by_cases hacc : r.is_collision_earlier_than_current_best a.time_at_collision
          a.foreign_time_at_collision = true
      · right
        have hacc' := (is_earlier_iff r _ _).mp hacc
        rw [hfresh] at hacc'
        have haM : a.time_at_collision ≤ M := hacc'.1
        have habelow : earlier a.times (FT_max, FT_max) := hacc'.2
        have hoff : offer FT_max r a = stored FT_max M a :=
          offer_accept FT_max M r a (by rw [hfresh]; rfl) hacc
        refine ⟨⟨cs, a, [], rfl, haM, ?_, ?_, hoff⟩, ?_⟩
        · intro c' hc' hc'M hlt
          rcases List.mem_append.mp hc' with h | h
          · exact hnone c' h hc'M (earlier_trans hlt habelow)
          · rw [List.mem_singleton.mp h] at hlt
            exact earlier_irrefl _ hlt
        · intro c' hc' hc'M heq
          exact hnone c' hc' hc'M (heq ▸ habelow)
        · rw [hoff]; exact habelow
      · left
        rw [offer_reject FT_max r a hacc]
        refine ⟨hfresh, ?_⟩
        intro c' hc' hc'M hlt
        rcases List.mem_append.mp hc' with h | h
        · exact hnone c' h hc'M hlt
        · rw [List.mem_singleton.mp h] at hlt hc'M
          apply hacc
          rw [is_earlier_iff, hfresh]
          exact ⟨hc'M, hlt⟩
    · -- the record holds the candidate `c`
      right
      have hrM : r.maximum_time_at_collision = M := by rw [hstored]; rfl
      have hrt : (r.time_at_closest_collision, r.foreign_time_at_closest_collision) = c.times := by
        rw [hstored]; rfl
      by_cases hacc : r.is_collision_earlier_than_current_best a.time_at_collision
          a.foreign_time_at_collision = true
      · have hacc' := (is_earlier_iff r _ _).mp hacc
        rw [hrM, hrt] at hacc'
        have haM : a.time_at_collision ≤ M := hacc'.1
        have hac : earlier a.times c.times := hacc'.2
        have hoff : offer FT_max r a = stored FT_max M a :=
          offer_accept FT_max M r a hrM hacc
        have hcbelow : earlier c.times (FT_max, FT_max) := by
          have := hbelow; rw [Collision_information.times, hrt] at this; exact this
        refine ⟨⟨cs, a, [], rfl, haM, ?_, ?_, hoff⟩, ?_⟩
        · intro c' hc' hc'M hlt
          rcases List.mem_append.mp hc' with h | h
          · exact hleast c' h hc'M (earlier_trans hlt hac)
          · rw [List.mem_singleton.mp h] at hlt
            exact earlier_irrefl _ hlt
        · intro c' hc' hc'M heq
          exact hleast c' hc' hc'M (heq ▸ hac)
        · rw [hoff]; exact earlier_trans hac hcbelow
      · rw [offer_reject FT_max r a hacc]
        refine ⟨⟨pre, c, post ++ [a], by rw [hcs]; simp, hcM, ?_, hfirst, hstored⟩, hbelow⟩
        intro c' hc' hc'M hlt
        rcases List.mem_append.mp hc' with h | h
        · exact hleast c' h hc'M hlt
        · rw [List.mem_singleton.mp h] at hlt hc'M
          apply hacc
          rw [is_earlier_iff, hrM, hrt]
          exact ⟨hc'M, hlt⟩

theorem live_candidates_pairwise (n : Nat) (cand : Nat → Option (FT × FT × DEC_it)) :
    (live_candidates n cand).Pairwise (fun a b => a.fmc_id < b.fmc_id) := by
  unfold live_candidates
  rw [List.pairwise_filterMap]
  refine (List.pairwise_lt_range n).imp ?_
  intro a b hab x hx y hy
  rcases ha : cand a with _ | va <;> rw [ha] at hx <;> simp at hx
  rcases hb : cand b with _ | vb <;> rw [hb] at hy <;> simp at hy
  rw [← hx, ← hy]
  exact hab

theorem mem_live_candidates (n : Nat) (cand : Nat → Option (FT × FT × DEC_it)) (i : Nat)
    (hi : i < n) (t ft : FT) (e : DEC_it) (h : cand i = some (t, ft, e)) :
    ({ time_at_collision := t, foreign_time_at_collision := ft, fmc_id := i,
       closest_collision := e } : Candidate) ∈ live_candidates n cand := by
  unfold live_candidates
  rw [List.mem_filterMap]
  exact ⟨i, List.mem_range.mpr hi, by rw [h]; rfl⟩

/-- C2 (amended): for every finite sequence `cs` of candidates offered in order to a freshly
constructed record by `if is_collision_earlier_than_current_best then reset and store`: if no
candidate with a time `≤ maximum_time_at_collision` carries a pair of times lexicographically
below the sentinel pair `(FT_max, FT_max)`, the record stays as constructed; otherwise it holds
the lexicographically least pair among the candidates with a time `≤
maximum_time_at_collision`, from the candidate that carries that pair and was applied first.
When the candidates are those of the live motorcycles, offered in increasing id as in
`find_collision`, the id kept on an exact tie is the smaller one. -/
theorem offer_fold_holds_first_least (FT_max M : FT) :
    (∀ cs : List Candidate,
      ((∀ c ∈ cs, c.time_at_collision ≤ M → ¬ earlier c.times (FT_max, FT_max)) →
        cs.foldl (offer FT_max) (Collision_information.ctor FT_max M) =
          Collision_information.ctor FT_max M) ∧
      ((∃ c ∈ cs, c.time_at_collision ≤ M ∧ earlier c.times (FT_max, FT_max)) →
        holds_first_least FT_max M cs
          (cs.foldl (offer FT_max) (Collision_information.ctor FT_max M)))) ∧
    (∀ (n : Nat) (cand : Nat → Option (FT × FT × DEC_it)) (i : Nat) (t ft : FT) (e : DEC_it),
      i < n → cand i = some (t, ft, e) → t ≤ M → earlier (t, ft) (FT_max, FT_max) →
      (t, ft) = ((live_candidates n cand).foldl (offer FT_max)
        (Collision_information.ctor FT_max M)).times →
      ((live_candidates n cand).foldl (offer FT_max)
        (Collision_information.ctor FT_max M)).fmc_id ≤ i) := by
  refine ⟨fun cs => ⟨?_, ?_⟩, ?_⟩
  · intro hnone
    rcases offer_fold_cases FT_max M cs with ⟨h, _⟩ | ⟨⟨pre, c, post, hcs, hcM, _, _, hst⟩, hb⟩
    · exact h
    · exfalso
      have hc : c ∈ cs := by rw [hcs]; simp
      apply hnone c hc hcM
      rw [hst] at hb
      exact hb
  · rintro ⟨c, hc, hcM, hb⟩
    rcases offer_fold_cases FT_max M cs with ⟨_, h⟩ | ⟨h, _⟩
    · exact absurd hb (h c hc hcM)
    · exact h
  · intro n cand i t ft e hi hcand htM hbelow htimes
    set cs := live_candidates n cand with hcsdef
    have hmem := mem_live_candidates n cand i hi t ft e hcand
    rw [← hcsdef] at hmem
    rcases offer_fold_cases FT_max M cs with ⟨hfresh, hnone⟩ |
        ⟨⟨pre, c, post, hcs, hcM, hleast, hfirst, hst⟩, _⟩
    · exact absurd hbelow (hnone _ hmem htM)
    · rw [hst] at htimes ⊢
      have hpw := live_candidates_pairwise n cand
      rw [← hcsdef, hcs] at hpw
      rw [hcs] at hmem
      rcases List.mem_append.mp hmem with h | h
      · exact absurd htimes (hfirst _ h htM)
      · rcases List.mem_cons.mp h with h | h
        · rw [← h]; exact le_refl _
        · have := (List.pairwise_cons.mp (List.pairwise_append.mp hpw).2.1).1 _ h
          exact le_of_lt this

/-- C2, counterexample: a candidate at the sentinel times `(FT_max, FT_max)` of a fresh record
whose maximum time is `FT_max` is eligible (its time is `≤ maximum_time_at_collision`) and is
the only candidate, but it is never stored: the record stays as constructed, with
`fmc_id = std::size_t(-1)`, and holds no candidate. -/
theorem offer_fold_sentinel_counterexample :
    sentinel_candidate.time_at_collision ≤ double_max ∧
    [sentinel_candidate].foldl (offer double_max)
        (Collision_information.ctor double_max double_max) =
      Collision_information.ctor double_max double_max ∧
    ¬ holds_first_least double_max double_max [sentinel_candidate]
        ([sentinel_candidate].foldl (offer double_max)
          (Collision_information.ctor double_max double_max)) := by
  have hfold : [sentinel_candidate].foldl (offer double_max)
      (Collision_information.ctor double_max double_max)
      = Collision_information.ctor double_max double_max := by
    simp [offer, Collision_information.is_collision_earlier_than_current_best,
      Collision_information.ctor, sentinel_candidate]
  refine ⟨le_refl _, hfold, ?_⟩
  rintro ⟨pre, c', post, hcs, _, _, _, hst⟩
  have hc' : c' = sentinel_candidate := by
    have : c' ∈ [sentinel_candidate] := by rw [hcs]; simp
    simpa using this
  subst hc'
  rw [hfold] at hst
  have := congrArg Collision_information.fmc_id hst
  simp [Collision_information.ctor, stored, size_t_minus_one, sentinel_candidate] at this

/-- C2, witness of the amended claim on `four_candidates` with maximum time `10`: the pair
`(2, 4)` is below the sentinel pair, so the record holds the first candidate that carries the
least pair, the one with `fmc_id = 2`. -/
theorem offer_fold_holds_first_least_witness :
    holds_first_least double_max 10 four_candidates
      (four_candidates.foldl (offer double_max) (Collision_information.ctor double_max 10)) ∧
    (four_candidates.foldl (offer double_max)
      (Collision_information.ctor double_max 10)).times = (2, 4) ∧
    (four_candidates.foldl (offer double_max)
      (Collision_information.ctor double_max 10)).fmc_id = 2 :=
  ⟨((offer_fold_holds_first_least double_max 10).1 four_candidates).2
    ⟨⟨2, 4, 2, some 1⟩, by simp [four_candidates], by norm_num [Candidate.times],
      by decide!⟩, by decide!, by decide!⟩

/-! ## Time monotonicity of a motorcycle -/

theorem insert_target_mem (e : DEC_it) (t : FT) (l : List (DEC_it × FT)) (x : DEC_it × FT)
    (hx : x ∈ Motorcycle.insert_target e t l) : x = (e, t) ∨ x ∈ l := by
  induction l with
  | nil => simp [Motorcycle.insert_target] at hx; exact Or.inl hx
  | cons y rest ih =>
    unfold Motorcycle.insert_target at hx
    split_ifs at hx with h1 h2
    · rcases List.mem_cons.mp hx with h | h
      · exact Or.inl h
      · exact Or.inr h
    · exact Or.inr hx
    · rcases List.mem_cons.mp hx with h | h
      · exact Or.inr (h ▸ List.mem_cons_self _ _)
      · rcases ih h with h | h
        · exact Or.inl h
        · exact Or.inr (List.mem_cons_of_mem _ h)

theorem insert_target_ordered (e : DEC_it) (t : FT) (l : List (DEC_it × FT))
    (hl : l.Pairwise (fun a b => a.2 < b.2)) :
    (Motorcycle.insert_target e t l).Pairwise (fun a b => a.2 < b.2) := by
  induction l with
  | nil => simp [Motorcycle.insert_target]
  | cons y rest ih =>
    unfold Motorcycle.insert_target
    have hy := List.pairwise_cons.mp hl
    split_ifs with h1 h2
    · refine List.pairwise_cons.mpr ⟨?_, hl⟩
      intro z hz
      rcases List.mem_cons.mp hz with h | h
      · rw [h]; exact h1
      · exact lt_trans h1 (hy.1 z h)
    · exact hl
    · refine List.pairwise_cons.mpr ⟨?_, ih hy.2⟩
      intro z hz
      rcases insert_target_mem e t rest z hz with h | h
      · rw [h]
        exact lt_of_le_of_ne (not_lt.mp h1) (fun h' => h2 h'.symm)
      · exact hy.1 z h

/-- Every operation keeps the two conditions on the target queue and does not decrease the
current time. -/
theorem apply_op_invariant (mc mc' : Motorcycle) (op : Motorcycle_op)
    (h1 : mc.targets_not_before_current_time) (h2 : mc.targets_ordered)
    (h : mc.apply_op op = some mc') :
    mc'.targets_not_before_current_time ∧ mc'.targets_ordered ∧
      mc.current_time ≤ mc'.current_time := by
  unfold Motorcycle.targets_not_before_current_time Motorcycle.targets_ordered at *
  cases op with
  | drive =>
    simp only [Motorcycle.apply_op, Motorcycle.drive_to_closest_target] at h
    split_ifs at h with hc
    rcases ht : mc.targets with _ | ⟨x, rest⟩
    · rw [ht] at h; simp at h
    · rw [ht] at h h1 h2
      simp only [Option.some.injEq] at h
      subst h
      have hx := List.pairwise_cons.mp h2
      simp only [Motorcycle.remove_closest_target_from_targets, Motorcycle.track_insert, ht,
        List.tail_cons]
      exact ⟨fun y hy => le_of_lt (hx.1 y hy), hx.2, h1 x (List.mem_cons_self _ _)⟩
  | add_target e t =>
    simp only [Motorcycle.apply_op, Motorcycle.add_target] at h
    split_ifs at h with hc
    simp only [Option.some.injEq] at h
    subst h
    refine ⟨?_, insert_target_ordered e t _ h2, le_refl _⟩
    intro y hy
    rcases insert_target_mem e t _ y hy with h | h
    · rw [h]; exact not_lt.mp hc
    · exact h1 y h
  | clear_targets =>
    simp only [Motorcycle.apply_op, Option.some.injEq] at h
    subst h
    simp [Motorcycle.clear_targets]
  | crash =>
    simp only [Motorcycle.apply_op, Option.some.injEq] at h
    subst h
    exact ⟨h1, h2, le_refl _⟩
  | set_path a b c =>
    simp only [Motorcycle.apply_op, Option.some.injEq] at h
    subst h
    exact ⟨h1, h2, le_refl _⟩
  | track_insert e t =>
    simp only [Motorcycle.apply_op, Option.some.injEq] at h
    subst h
    exact ⟨h1, h2, le_refl _⟩

theorem run_ops_pairwise (ops : List Motorcycle_op) :
    ∀ (mc : Motorcycle) (states : List Motorcycle),
      mc.targets_not_before_current_time → mc.targets_ordered →
      mc.run_ops ops = some states →
      (mc :: states).Pairwise (fun a b => a.current_time ≤ b.current_time) := by
  induction ops with
  | nil =>
    intro mc states _ _ h
    simp [Motorcycle.run_ops] at h
    subst h; simp
  | cons op rest ih =>
    intro mc states h1 h2 h
    simp only [Motorcycle.run_ops, Option.bind_eq_bind, Option.bind_eq_some] at h
    obtain ⟨mc1, hmc1, sts, hsts, hst⟩ := h
    simp only [Option.some.injEq] at hst
    subst hst
    obtain ⟨i1, i2, hle⟩ := apply_op_invariant mc mc1 op h1 h2 hmc1
    have := ih mc1 sts i1 i2 hsts
    refine List.pairwise_cons.mpr ⟨?_, this⟩
    intro b hb
    rcases List.mem_cons.mp hb with h | h
    · rw [h]; exact hle
    · exact le_trans hle ((List.pairwise_cons.mp this).1 b h)

theorem run_ops_length (ops : List Motorcycle_op) :
    ∀ (mc : Motorcycle) (states : List Motorcycle),
      mc.run_ops ops = some states → states.length = ops.length := by
  induction ops with
  | nil => intro mc states h; simp [Motorcycle.run_ops] at h; subst h; rfl
  | cons op rest ih =>
    intro mc states h
    simp only [Motorcycle.run_ops, Option.bind_eq_bind, Option.bind_eq_some] at h
    obtain ⟨mc1, _, sts, hsts, hst⟩ := h
    simp only [Option.some.injEq] at hst
    subst hst
    simp [ih mc1 sts hsts]

theorem zip_pairwise_snd {α β : Type} (R : β → β → Prop) (l : List α) :
    ∀ (m : List β), m.Pairwise R → (l.zip m).Pairwise (fun a b => R a.2 b.2) := by
  induction l with
  | nil => intro m _; simp
  | cons x rest ih =>
    intro m hm
    cases m with
    | nil => simp
    | cons y m' =>
      have hy := List.pairwise_cons.mp hm
      rw [List.zip_cons_cons]
      refine List.pairwise_cons.mpr ⟨?_, ih m' hy.2⟩
      intro z hz
      exact hy.1 z.2 (List.of_mem_zip hz).2

theorem driven_entries_pairwise (ops : List Motorcycle_op) (states : List Motorcycle)
    (h : states.Pairwise (fun a b => a.current_time ≤ b.current_time)) :
    (Motorcycle.driven_entries ops states).Pairwise (fun a b => a.2 ≤ b.2) := by
  unfold Motorcycle.driven_entries
  rw [List.pairwise_filterMap]
  refine (zip_pairwise_snd _ ops states h).imp ?_
  intro a b hab x hx y hy
  split_ifs at hx <;> simp only [Option.mem_def, Option.some.injEq, reduceCtorEq] at hx
  split_ifs at hy <;> simp only [Option.mem_def, Option.some.injEq, reduceCtorEq] at hy
  rw [← hx, ← hy]
  exact hab

theorem driven_entries_in_track (ops : List Motorcycle_op) :
    ∀ (mc : Motorcycle) (states : List Motorcycle), mc.run_ops ops = some states →
      ∀ x ∈ (ops.zip states), x.1 = Motorcycle_op.drive →
        (x.2.current_position, x.2.current_time) ∈ x.2.track := by
  induction ops with
  | nil => intro mc states _ x hx; simp at hx
  | cons op rest ih =>
    intro mc states h x hx hd
    simp only [Motorcycle.run_ops, Option.bind_eq_bind, Option.bind_eq_some] at h
    obtain ⟨mc1, hmc1, sts, hsts, hst⟩ := h
    simp only [Option.some.injEq] at hst
    subst hst
    rw [List.zip_cons_cons] at hx
    rcases List.mem_cons.mp hx with h | h
    · subst h
      simp only at hd
      subst hd
      simp only [Motorcycle.apply_op, Motorcycle.drive_to_closest_target] at hmc1
      split_ifs at hmc1
      rcases ht : mc.targets with _ | ⟨y, rest'⟩
      · rw [ht] at hmc1; simp at hmc1
      · rw [ht] at hmc1
        simp only [Option.some.injEq] at hmc1
        subst hmc1
        simp [Motorcycle.remove_closest_target_from_targets, Motorcycle.track_insert]
    · exact ih mc1 sts hsts x h hd

/-- C3: `drive_to_closest_target` returns on every motorcycle that is not crashed and has a
target; when the queued targets all have a time `≥` the current time, the current time it
yields is `≥` the previous one. Hence over every sequence of the operations by which the driver
mutates a motorcycle (`drive_to_closest_target`, `add_target`, which asserts
`time ≥ current_time`, `clear_targets`, `crash`, the change of path and the track insertion of
`treat_collision`), from a state whose target queue is ordered by time and not before the
current time, the current time never decreases, the times of the entries that
`drive_to_closest_target` appends to the confirmed track are non-decreasing in the order
appended, and each of them is in the track. -/
theorem drive_to_closest_target_time_monotone :
    (∀ mc : Motorcycle, mc.crashed = false → mc.targets ≠ [] →
      ∃ mc', mc.drive_to_closest_target = some mc') ∧
    (∀ mc mc' : Motorcycle, mc.targets_not_before_current_time →
      mc.drive_to_closest_target = some mc' → mc.current_time ≤ mc'.current_time) ∧
    (∀ (mc : Motorcycle) (ops : List Motorcycle_op) (states : List Motorcycle),
      mc.targets_not_before_current_time → mc.targets_ordered →
      mc.run_ops ops = some states →
      (mc :: states).Pairwise (fun a b => a.current_time ≤ b.current_time) ∧
      (Motorcycle.driven_entries ops states).Pairwise (fun a b => a.2 ≤ b.2) ∧
      (∀ x ∈ ops.zip states, x.1 = Motorcycle_op.drive →
        (x.2.current_position, x.2.current_time) ∈ x.2.track)) := by
  refine ⟨?_, ?_, ?_⟩
  · intro mc hc ht
    simp only [Motorcycle.drive_to_closest_target, hc, Bool.false_eq_true, if_false]
    rcases h : mc.targets with _ | ⟨x, rest⟩
    · exact absurd h ht
    · exact ⟨_, rfl⟩
  · intro mc mc' h1 h
    simp only [Motorcycle.drive_to_closest_target] at h
    split_ifs at h with hc
    rcases ht : mc.targets with _ | ⟨x, rest⟩
    · rw [ht] at h; simp at h
    · rw [ht] at h
      simp only [Option.some.injEq] at h
      subst h
      exact h1 x (by rw [ht]; exact List.mem_cons_self _ _)
  · intro mc ops states h1 h2 h
    have hp := run_ops_pairwise ops mc states h1 h2 h
    exact ⟨hp, driven_entries_pairwise ops states (List.pairwise_cons.mp hp).2,
      driven_entries_in_track ops mc states h⟩

/-- C3, witness: `head_on_mc0`, at time `0` with the single target `(some 1, 1)`, is driven to
time `1`. -/
theorem drive_to_closest_target_time_monotone_witness :
    ∃ mc', head_on_mc0.drive_to_closest_target = some mc' ∧
      head_on_mc0.current_time ≤ mc'.current_time ∧ mc'.current_time = 1 :=
  ⟨_, rfl, drive_to_closest_target_time_monotone.2.1 head_on_mc0 _
    (by intro x hx; simp [head_on_mc0] at hx; subst hx; decide!) rfl, rfl⟩

/-! ## Motorcycles with the same source and direction -/

/-- C9, evaluation of the code: the two motorcycles of `opposite_directions_input` leave
`(1/3,1/3,1/3)` in exactly opposite directions (the vector of the second is `-1` times the
vector of the first), and `crash_motorcycles_with_same_source_and_direction` crashes both. -/
theorem opposite_directions_both_crashed :
    initialize_motorcycles exact_services no_tracer opposite_directions_input =
      some opposite_directions_initialized ∧
    Vector_2.of_points (1/3, 1/3) (0, 1/3) = ((-1 : FT) * (Vector_2.of_points (1/3, 1/3) (2/3, 1/3)).1,
      (-1 : FT) * (Vector_2.of_points (1/3, 1/3) (2/3, 1/3)).2) ∧
    (crash_motorcycles_with_same_source_and_direction opposite_directions_initialized).map
      (fun g => g.motorcycles.map (fun m => (m.crashed, m.targets))) =
      some [(true, []), (true, [])] := by
  refine ⟨by decide!, by decide!, by decide!⟩

/-- C4, evaluation of the code: in `crashed_foreign_state` the foreign motorcycle `1` is
crashed, with an empty target queue, at time `2`; `treat_collision` of motorcycle `0` with it
at the entry `some 3`, at time `5` and foreign time `3`, returns a state in which the crashed
motorcycle `1` has two targets. -/
theorem treat_collision_adds_targets_to_crashed_foreign :
    (crashed_foreign_state.motorcycles.map (fun m => (m.crashed, m.targets))) =
      [(false, [(some 1, 10)]), (true, [])] ∧
    crashed_foreign_state.motorcycle_pq = [0] ∧
    (treat_collision exact_services crashed_foreign_state 0 (some 3) 5 1 (some 3) 3).map
      (fun g => g.motorcycles.map (fun m => (m.crashed, m.targets))) =
    some [(false, [(some 4, 5/2), (some 3, 5), (some 1, 10)]),
          (true, [(some 5, 5/2), (some 3, 3)])] ∧
    (treat_collision exact_services crashed_foreign_state 0 (some 3) 5 1 (some 3) 3).map
      (fun g => g.motorcycle_pq) = some [0] := by
  refine ⟨by decide!, by decide!, by decide!, by decide!⟩

/-! ## Collinear tracks -/

/-- C10 (amended): in `find_collision_between_collinear_tracks` with distinct sources and both
tracks moving in the same direction: when the source of the foreign track lies strictly between
the current position of `mc` and its closest target, the candidate offered is the source entry
of the foreign track at the time `current_time + dist(current position, foreign source)/speed`
with the foreign time `time_at_fmc_track_source`; when the source of the foreign track is the
closest target of `mc`, the same entry is offered at the time of the closest target; in every
other case no candidate is offered and the record is returned unchanged. -/
theorem same_direction_collinear_offer (S : Services) (g : Motorcycle_graph) (mc fmc : Motorcycle) (mcs fmcs : Segment_2)
    (fmc_track : Track_segment) (is_fmc_moving_on_track : Bool) (tc : Collision_information)
    (fts ftd pos : Dictionary_entry)
    (h_src : mcs.1 ≠ fmcs.1) (h_nd : mcs.1 ≠ mcs.2)
    (h_dir : (is_degenerate_2 fmcs || decide (angle_2 mcs.1 mcs.2 fmcs.1 fmcs.2 = Angle.ACUTE)) = true)
    (h_fts : Dictionary.deref g.points fmc_track.source = some fts)
    (h_ftd : Dictionary.deref g.points fmc_track.destination = some ftd)
    (h_pos : Dictionary.deref g.points mc.current_position = some pos)
    (h_face : fts.location.1 = ftd.location.1)
    (h_time : fmc_track.time_at_source ≤ fmc_track.time_at_destination)
    (h_edge : pos.location.1 = fts.location.1 ∨
      collinear_tracks_on_common_halfedge S g mc pos.location fts ftd = true) :
    (collinear_are_strictly_ordered_along_line_2 mcs.1 fmcs.1 mcs.2 = true →
      find_collision_between_collinear_tracks S g mc mcs fmc fmc_track fmcs
          is_fmc_moving_on_track tc =
        some (offer_at_foreign_track_end S tc fmc fmc_track.source fmc_track.time_at_source
          fts.location.1 (decide (pos.location.1 = fts.location.1))
          (mc.current_time + S.sqrt (squared_distance pos.point fts.point) / mc.speed))) ∧
    (mcs.2 = fmcs.1 → ∀ closest_target, mc.closest_target = some closest_target →
      find_collision_between_collinear_tracks S g mc mcs fmc fmc_track fmcs
          is_fmc_moving_on_track tc =
        some (offer_at_foreign_track_end S tc fmc fmc_track.source fmc_track.time_at_source
          fts.location.1 (decide (pos.location.1 = fts.location.1)) closest_target.2)) ∧
    (mcs.2 ≠ fmcs.1 → collinear_are_strictly_ordered_along_line_2 mcs.1 fmcs.1 mcs.2 = false →
      find_collision_between_collinear_tracks S g mc mcs fmc fmc_track fmcs
          is_fmc_moving_on_track tc = some tc) := by
  have h_sane : (!decide (pos.location.1 = fts.location.1) &&
      !collinear_tracks_on_common_halfedge S g mc pos.location fts ftd) = false := by
    rcases h_edge with h | h <;> simp [h]
  rw [h_face] at h_sane
  refine ⟨?_, ?_, ?_⟩
  · intro hord
    have hne : mcs.2 ≠ fmcs.1 := by
      intro h
      rw [← h] at hord
      unfold collinear_are_strictly_ordered_along_line_2 at hord
      split_ifs at hord <;> simp_all
    unfold find_collision_between_collinear_tracks
    simp only [h_src, h_nd, if_false, h_fts, h_ftd, h_pos, h_face, ne_eq, not_true_eq_false,
      h_time, h_sane, h_dir, if_true, hne, hord, Bool.false_eq_true]
  · intro heq closest_target hct
    rw [heq] at h_dir
    unfold find_collision_between_collinear_tracks
    simp only [h_src, h_nd, if_false, h_fts, h_ftd, h_pos, h_face, ne_eq, not_true_eq_false,
      h_time, h_sane, h_dir, if_true, heq, hct, Bool.false_eq_true]
  · intro hne hord
    unfold find_collision_between_collinear_tracks
    simp only [h_src, h_nd, if_false, h_fts, h_ftd, h_pos, h_face, ne_eq, not_true_eq_false,
      h_time, h_sane, h_dir, if_true, hne, hord, Bool.false_eq_true]

/-- C10, counterexample: `chase_mc` at `(1,0,0)` has the closest target `(1/2,1/2,0)`, which is
the source of the track of `chase_fmc` towards `(0,1,0)`: the foreign source is not strictly
between the position and the target, and yet the fresh record comes back holding the foreign
source entry `some 1`, at the time `1/2` of the closest target and the foreign time `0`. -/
theorem same_direction_collinear_offer_counterexample :
    (is_degenerate_2 ((1/2, 1/2), (0, 1)) ||
      decide (angle_2 (1, 0) (1/2, 1/2) (1/2, 1/2) (0, 1) = Angle.ACUTE)) = true ∧
    collinear_are_strictly_ordered_along_line_2 (1, 0) (1/2, 1/2) (1/2, 1/2) = false ∧
    (Collision_information.ctor double_max (1/2)).fmc_id = size_t_minus_one ∧
    (find_collision_between_collinear_tracks exact_services chase_state chase_mc
        ((1, 0), (1/2, 1/2)) chase_fmc chase_track ((1/2, 1/2), (0, 1)) true
        (Collision_information.ctor double_max (1/2))).map
      (fun tc => (tc.closest_collision, tc.time_at_closest_collision,
        tc.foreign_time_at_closest_collision, tc.fmc_id)) = some (some 1, 1/2, 0, 0) := by
  refine ⟨by decide!, by decide!, by decide!, by decide!⟩

/-- C10, witness: `long_chase_mc` at `(1,0,0)` heads for `(0,1,0)`, and the source
`(1/2,1/2,0)` of the foreign track lies strictly between them: the record holds the foreign
source entry at the time `0 + (1/2)/1`, with the foreign time `0`. -/
theorem same_direction_collinear_offer_witness :
    (find_collision_between_collinear_tracks exact_services long_chase_state long_chase_mc
        ((1, 0), (0, 1)) chase_fmc chase_track ((1/2, 1/2), (0, 1)) true
        (Collision_information.ctor double_max 1)).map
      (fun tc => (tc.closest_collision, tc.time_at_closest_collision,
        tc.foreign_time_at_closest_collision, tc.fmc_id)) = some (some 1, 1/2, 0, 0) := by
  have h := (same_direction_collinear_offer exact_services long_chase_state long_chase_mc
    chase_fmc ((1, 0), (0, 1)) ((1/2, 1/2), (0, 1)) chase_track true
    (Collision_information.ctor double_max 1)
    (entry_at (1/2, 1/2, 0) [(0, 0)]) (entry_at (0, 1, 0) [(0, 5/4), (1, 1)])
    (entry_at (1, 0, 0) [(1, 0)])
    (by decide!) (by decide!) (by decide!) (by decide!) (by decide!) (by decide!) (by decide!)
    (by decide!) (Or.inl (by decide!))).1 (by decide!)
  rw [h]
  decide!

theorem search_loop_nil {α : Type}
    (f : α → Collision_information → Option Collision_information) (tc : Collision_information) :
    search_loop f [] tc = some tc := rfl

theorem search_loop_one {α : Type}
    (f : α → Collision_information → Option Collision_information) (a : α)
    (tc ta : Collision_information) (ha : f a tc = some ta) :
    search_loop f [a] tc = some ta := by
  simp only [search_loop, ha]
  split_ifs <;> rfl

theorem search_loop_two {α : Type}
    (f : α → Collision_information → Option Collision_information) (a b : α)
    (tc ta tb : Collision_information) (ha : f a tc = some ta)
    (ha' : ta.add_intersection_without_moving_motorcycles = false) (hb : f b ta = some tb) :
    search_loop f [a, b] tc = some tb := by
  simp only [search_loop, ha, ha', hb, Bool.false_eq_true, if_false]
  split_ifs <;> rfl

theorem search_loop_const {α : Type}
    (f : α → Collision_information → Option Collision_information) (l : List α)
    (tc : Collision_information) (h : ∀ a ∈ l, f a tc = some tc) :
    search_loop f l tc = some tc := by
  induction l with
  | nil => rfl
  | cons a rest ih =>
    simp only [search_loop, h a (List.mem_cons_self _ _)]
    split_ifs
    · rfl
    · exact ih (fun b hb => h b (List.mem_cons_of_mem _ hb))

/-- The search of `find_collision`, once the tentative track is known not to be degenerate. -/
theorem find_collision_of (S : Services) (g : Motorcycle_graph) (mc : Motorcycle)
    (ct : DEC_it × FT) (pos cte : Dictionary_entry) (tc1 tc2 tc3 : Collision_information)
    (h_live : mc.crashed = false) (h_ct : mc.closest_target = some ct)
    (h_pos : Dictionary.deref g.points mc.current_position = some pos)
    (h_cte : Dictionary.deref g.points ct.1 = some cte)
    (h_face : pos.location.1 = cte.location.1)
    (h_nd : (pos.location.2.1, pos.location.2.2.1) ≠ (cte.location.2.1, cte.location.2.2.1))
    (h1 : search_loop (fun track tc => find_collision_with_complete_track S g mc
        ((pos.location.2.1, pos.location.2.2.1), (cte.location.2.1, cte.location.2.2.1))
        track tc) (g.tracks_of_face pos.location.1)
        (Collision_information.ctor S.FT_max ct.2) = some tc1)
    (h1' : tc1.add_intersection_without_moving_motorcycles = false)
    (h2 : search_loop (fun fmc tc => find_collision_with_live_motorcycle S g mc
        ((pos.location.2.1, pos.location.2.2.1), (cte.location.2.1, cte.location.2.2.1))
        fmc tc) g.motorcycles tc1 = some tc2)
    (h2' : tc2.add_intersection_without_moving_motorcycles = false)
    (h3 : find_collision_with_foreign_motorcycles S g mc tc2 = some tc3) :
    find_collision S g mc = some tc3 := by
  rw [h_face] at h1
  unfold find_collision
  simp only [h_live, Bool.false_eq_true, if_false, h_ct, h_pos, h_cte, h_face, ne_eq,
    not_true_eq_false, is_degenerate_2, h_nd, decide_False, h1, h1', h2, h2', h3]

/-- The search of `find_collision` on a degenerate tentative track. -/
theorem find_collision_degenerate (S : Services) (g : Motorcycle_graph) (mc : Motorcycle)
    (ct : DEC_it × FT) (pos cte : Dictionary_entry)
    (h_live : mc.crashed = false) (h_ct : mc.closest_target = some ct)
    (h_pos : Dictionary.deref g.points mc.current_position = some pos)
    (h_cte : Dictionary.deref g.points ct.1 = some cte)
    (h_face : pos.location.1 = cte.location.1)
    (h_d : (pos.location.2.1, pos.location.2.2.1) = (cte.location.2.1, cte.location.2.2.1)) :
    find_collision S g mc = some (Collision_information.ctor S.FT_max ct.2) := by
  unfold find_collision
  simp only [h_live, Bool.false_eq_true, if_false, h_ct, h_pos, h_cte, h_face, ne_eq,
    not_true_eq_false, is_degenerate_2, h_d, decide_True, if_true]

/-- A step of the loop that drives a motorcycle to a target that is not its destination and at
which it does not crash: the collision detection runs. -/
theorem trace_graph_step_continue (S : Services) (tracer : Tracer) (g : Motorcycle_graph)
    (k : Nat) (mc0 mc : Motorcycle) (loc : Face_location) (cr : Bool)
    (h_top : g.pq_top = some k) (h_mc : g.motorcycle k = some mc0)
    (h_drive : mc0.drive_to_closest_target = some mc)
    (h_nd : mc.current_position ≠ mc.destination)
    (h_crash : (g.set_motorcycle k mc).has_motorcycle_reached_crashing_point mc = some cr)
    (h_loc : (g.set_motorcycle k mc).current_location mc = some loc)
    (h_no : (cr && decide (mc.current_time ≠ 0)) = false) :
    trace_graph_step S tracer g = trace_graph_continue S (g.set_motorcycle k mc) k mc := by
  unfold trace_graph_step
  simp only [h_top, h_mc, h_drive, h_nd, if_false, h_crash, h_loc, h_no, Bool.false_eq_true]

/-- A step of the loop that drives a motorcycle to a point at which it crashes. -/
theorem trace_graph_step_crash (S : Services) (tracer : Tracer) (g : Motorcycle_graph)
    (k : Nat) (mc0 mc : Motorcycle) (loc : Face_location)
    (h_top : g.pq_top = some k) (h_mc : g.motorcycle k = some mc0)
    (h_drive : mc0.drive_to_closest_target = some mc)
    (h_nd : mc.current_position ≠ mc.destination)
    (h_crash : (g.set_motorcycle k mc).has_motorcycle_reached_crashing_point mc = some true)
    (h_loc : (g.set_motorcycle k mc).current_location mc = some loc)
    (h_time : mc.current_time ≠ 0) :
    trace_graph_step S tracer g =
      ((g.set_motorcycle k mc).add_track_segment_to_map loc.1 mc.id mc.source mc.time_at_source
        mc.current_position mc.current_time).map (fun g2 => g2.crash_motorcycle k) := by
  unfold trace_graph_step
  simp only [h_top, h_mc, h_drive, h_nd, if_false, h_crash, h_loc, h_time, ne_eq,
    not_false_eq_true, decide_True, Bool.and_self, if_true]

/-- A step of the loop that drives a motorcycle to its final destination. -/
theorem trace_graph_step_arrive (S : Services) (tracer : Tracer) (g g1 : Motorcycle_graph)
    (k : Nat) (mc0 mc : Motorcycle) (loc : Face_location)
    (h_top : g.pq_top = some k) (h_mc : g.motorcycle k = some mc0)
    (h_drive : mc0.drive_to_closest_target = some mc)
    (h_d : mc.current_position = mc.destination)
    (h_final : mc.is_destination_final = true)
    (h_loc : (g.set_motorcycle k mc).current_location mc = some loc)
    (h_add : (g.set_motorcycle k mc).add_track_segment_to_map loc.1 mc.id mc.source
      mc.time_at_source mc.destination mc.current_time = some g1) :
    trace_graph_step S tracer g = some (g1.crash_motorcycle k) := by
  unfold trace_graph_step
  simp only [h_top, h_mc, h_drive, h_d, if_true, trace_graph_at_destination]
  simp only [h_loc, h_add, has_motorcycle_reached_final_destination, h_final, if_true]

/-- The collision detection finds nothing, or a collision that `treat_collision` has nothing
to do for: the current position is blocked. -/
theorem trace_graph_continue_of (S : Services) (g g1 : Motorcycle_graph) (k : Nat)
    (mc mc1 : Motorcycle) (res : Collision_information)
    (h_res : find_collision S g mc = some res)
    (h_add : res.add_intersection_without_moving_motorcycles = false)
    (h_treat : (if res.found_collision then treat_collision_info S g k res else some g) =
      some g1)
    (h_mc1 : g1.motorcycle k = some mc1) (h_live : mc1.crashed = false) :
    trace_graph_continue S g k mc =
      some { g1 with points :=
        Dictionary.modify g1.points mc1.current_position (fun e => e.block) } := by
  unfold trace_graph_continue
  simp only [h_res, h_add, Bool.false_eq_true, if_false, h_treat, h_mc1, h_live, pq_update]

/-- A collision at the closest target of `mc`, which the foreign motorcycle is already known
to visit at the foreign time, changes nothing. -/
theorem treat_collision_info_known (S : Services) (g : Motorcycle_graph) (k : Nat)
    (mc fmc : Motorcycle) (res : Collision_information) (ct : DEC_it × FT)
    (pos cte : Dictionary_entry)
    (h_mc : g.motorcycle k = some mc) (h_fmc : g.motorcycle res.fmc_id = some fmc)
    (h_pos : Dictionary.deref g.points mc.current_position = some pos)
    (h_ct : mc.closest_target = some ct)
    (h_cte : Dictionary.deref g.points ct.1 = some cte)
    (h_face : cte.location.1 = pos.location.1) (h_real : pos.location.1 ≠ null_face)
    (h_same : res.is_foreign_motorcycle_in_different_face = false)
    (h_dict : res.is_closest_collision_already_in_dictionary = true)
    (h_cc : res.closest_collision = ct.1)
    (h_time : res.time_at_closest_collision = ct.2)
    (h_id : mc.id ≠ size_t_minus_one) (h_fid : fmc.id ≠ size_t_minus_one)
    (h_ge : mc.current_time ≤ ct.2)
    (h_known : cte.has_motorcycle_at fmc.id res.foreign_time_at_closest_collision = true) :
    treat_collision_info S g k res = some g := by
  unfold treat_collision_info
  simp only [h_mc, h_fmc, current_location, h_pos, Option.map_some', h_same, Bool.false_eq_true,
    if_false, h_real, h_dict, Bool.not_true, h_cc, h_cte, h_face, ne_eq, not_true_eq_false,
    false_and, true_or, not_true, decide_False, Bool.false_and]
  unfold treat_collision
  simp only [h_mc, h_fmc, Option.bind_eq_bind, Option.some_bind, h_id, h_fid, decide_False,
    Bool.or_self, Bool.false_eq_true, if_false, h_cte, current_location, h_pos,
    Option.map_some', h_face, ne_eq, not_true_eq_false, h_time, ge_iff_le, h_ge, h_ct,
    le_refl, decide_True, h_known, Bool.not_true, Bool.or_false, Bool.true_and, not_true]
  simp

/-! ## The branches of `find_collision_between_tracks` -/

/-- Check #1: the current position of `mc` is known to be visited by the foreign motorcycle on
its track: the intersection is ignored. -/
theorem find_collision_between_tracks_at_position (S : Services) (g : Motorcycle_graph)
    (mc : Motorcycle) (mcs : Segment_2) (fmc : Motorcycle) (fmc_track : Track_segment)
    (moving : Bool) (tc : Collision_information) (ct : DEC_it × FT)
    (pos cte fts ftd : Dictionary_entry) (t : FT)
    (h_ct : mc.closest_target = some ct)
    (h_pos : Dictionary.deref g.points mc.current_position = some pos)
    (h_fts : Dictionary.deref g.points fmc_track.source = some fts)
    (h_ftd : Dictionary.deref g.points fmc_track.destination = some ftd)
    (h_cte : Dictionary.deref g.points ct.1 = some cte)
    (h_ne : mc.current_position ≠ ct.1) (h_nd : mcs.1 ≠ mcs.2)
    (h_face : fts.location.1 = ftd.location.1)
    (h_ndf : (fts.location.2.1, fts.location.2.2.1) ≠ (ftd.location.2.1, ftd.location.2.2.1))
    (h_col : collinear_2 mcs.1 mcs.2 (fts.location.2.1, fts.location.2.2.1) = false)
    (h_1 : pos.has_motorcycle_between fmc.id fmc_track.time_at_source
      fmc_track.time_at_destination = some t) :
    find_collision_between_tracks S g mc mcs fmc fmc_track moving tc = some tc := by
  unfold find_collision_between_tracks
  simp only [h_ct, h_pos, h_fts, h_ftd, h_cte, h_ne, if_false, h_nd, h_face, ne_eq,
    not_true_eq_false, is_degenerate_2, h_ndf, decide_False, Bool.false_and, Bool.false_eq_true,
    h_col, find_collision_between_non_collinear_tracks, h_1, Option.isSome_some, if_true]

/-- Check #2: the closest target of `mc` is known to be visited by the foreign motorcycle on
its track. -/
theorem find_collision_between_tracks_at_target (S : Services) (g : Motorcycle_graph)
    (mc : Motorcycle) (mcs : Segment_2) (fmc : Motorcycle) (fmc_track : Track_segment)
    (moving : Bool) (tc : Collision_information) (ct : DEC_it × FT)
    (pos cte fts ftd : Dictionary_entry) (t : FT)
    (h_ct : mc.closest_target = some ct)
    (h_pos : Dictionary.deref g.points mc.current_position = some pos)
    (h_fts : Dictionary.deref g.points fmc_track.source = some fts)
    (h_ftd : Dictionary.deref g.points fmc_track.destination = some ftd)
    (h_cte : Dictionary.deref g.points ct.1 = some cte)
    (h_ne : mc.current_position ≠ ct.1) (h_nd : mcs.1 ≠ mcs.2)
    (h_face : fts.location.1 = ftd.location.1)
    (h_ndf : (fts.location.2.1, fts.location.2.2.1) ≠ (ftd.location.2.1, ftd.location.2.2.1))
    (h_col : collinear_2 mcs.1 mcs.2 (fts.location.2.1, fts.location.2.2.1) = false)
    (h_1 : pos.has_motorcycle_between fmc.id fmc_track.time_at_source
      fmc_track.time_at_destination = none)
    (h_2 : cte.has_motorcycle_between fmc.id fmc_track.time_at_source
      fmc_track.time_at_destination = some t) :
    find_collision_between_tracks S g mc mcs fmc fmc_track moving tc =
      find_collision_at_tentative_track_destination S mc fmc t tc := by
  unfold find_collision_between_tracks
  simp only [h_ct, h_pos, h_fts, h_ftd, h_cte, h_ne, if_false, h_nd, h_face, ne_eq,
    not_true_eq_false, is_degenerate_2, h_ndf, decide_False, Bool.false_and, Bool.false_eq_true,
    h_col, find_collision_between_non_collinear_tracks, h_1, Option.isSome_none, h_2]

/-- The tracks are not collinear, no visit is known and the segments do not intersect. -/
theorem find_collision_between_tracks_apart (S : Services) (g : Motorcycle_graph)
    (mc : Motorcycle) (mcs : Segment_2) (fmc : Motorcycle) (fmc_track : Track_segment)
    (moving : Bool) (tc : Collision_information) (ct : DEC_it × FT)
    (pos cte fts ftd : Dictionary_entry)
    (h_ct : mc.closest_target = some ct)
    (h_pos : Dictionary.deref g.points mc.current_position = some pos)
    (h_fts : Dictionary.deref g.points fmc_track.source = some fts)
    (h_ftd : Dictionary.deref g.points fmc_track.destination = some ftd)
    (h_cte : Dictionary.deref g.points ct.1 = some cte)
    (h_ne : mc.current_position ≠ ct.1) (h_nd : mcs.1 ≠ mcs.2)
    (h_face : fts.location.1 = ftd.location.1)
    (h_ndf : (fts.location.2.1, fts.location.2.2.1) ≠ (ftd.location.2.1, ftd.location.2.2.1))
    (h_col : collinear_2 mcs.1 mcs.2 (fts.location.2.1, fts.location.2.2.1) = false)
    (h_1 : pos.has_motorcycle_between fmc.id fmc_track.time_at_source
      fmc_track.time_at_destination = none)
    (h_2 : cte.has_motorcycle_between fmc.id fmc_track.time_at_source
      fmc_track.time_at_destination = none)
    (h_s_ct : fmc_track.source ≠ ct.1) (h_d_ct : fmc_track.destination ≠ ct.1)
    (h_d_pos : fmc_track.destination ≠ mc.current_position)
    (h_s_pos : fmc_track.source ≠ mc.current_position)
    (h_a3 : S.are_logically_collinear_on_border fts.location cte.location ftd.location = false)
    (h_a4 : S.are_logically_collinear_on_border ftd.location cte.location pos.location = false)
    (h_a5 : S.are_logically_collinear_on_border fts.location cte.location pos.location = false)
    (h_int : do_intersect_2 mcs ((fts.location.2.1, fts.location.2.2.1),
      (ftd.location.2.1, ftd.location.2.2.1)) = false) :
    find_collision_between_tracks S g mc mcs fmc fmc_track moving tc = some tc := by
  unfold find_collision_between_tracks
  simp only [h_ct, h_pos, h_fts, h_ftd, h_cte, h_ne, if_false, h_nd, h_face, ne_eq,
    not_true_eq_false, is_degenerate_2, h_ndf, decide_False, Bool.false_and, Bool.false_eq_true,
    h_col, find_collision_between_non_collinear_tracks, h_1, Option.isSome_none, h_2,
    h_s_ct, h_d_ct, h_d_pos, h_s_pos, h_a3, h_a4, h_a5, find_collision_by_intersection,
    h_int, Bool.not_false, if_true]

/-- The foreign track is degenerate, at a point that is not on the tentative track of `mc`. -/
theorem find_collision_between_tracks_degenerate (S : Services) (g : Motorcycle_graph)
    (mc : Motorcycle) (mcs : Segment_2) (fmc : Motorcycle) (fmc_track : Track_segment)
    (moving : Bool) (tc : Collision_information) (ct : DEC_it × FT)
    (pos cte fts : Dictionary_entry)
    (h_ct : mc.closest_target = some ct)
    (h_pos : Dictionary.deref g.points mc.current_position = some pos)
    (h_fts : Dictionary.deref g.points fmc_track.source = some fts)
    (h_ftd : Dictionary.deref g.points fmc_track.destination = some fts)
    (h_cte : Dictionary.deref g.points ct.1 = some cte)
    (h_ne : mc.current_position ≠ ct.1) (h_nd : mcs.1 ≠ mcs.2)
    (h_src : mcs.1 ≠ (fts.location.2.1, fts.location.2.2.1))
    (h_col : collinear_2 mcs.1 mcs.2 (fts.location.2.1, fts.location.2.2.1) = false)
    (h_1 : pos.has_motorcycle_between fmc.id fmc_track.time_at_source
      fmc_track.time_at_destination = none)
    (h_2 : cte.has_motorcycle_between fmc.id fmc_track.time_at_source
      fmc_track.time_at_destination = none)
    (h_s_ct : fmc_track.source ≠ ct.1) (h_d_ct : fmc_track.destination ≠ ct.1)
    (h_d_pos : fmc_track.destination ≠ mc.current_position)
    (h_s_pos : fmc_track.source ≠ mc.current_position)
    (h_a0 : S.are_logically_collinear_on_border pos.location fts.location cte.location = false)
    (h_a4 : S.are_logically_collinear_on_border fts.location cte.location pos.location = false)
    (h_int : do_intersect_2 mcs ((fts.location.2.1, fts.location.2.2.1),
      (fts.location.2.1, fts.location.2.2.1)) = false) :
    find_collision_between_tracks S g mc mcs fmc fmc_track moving tc = some tc := by
  have h_same : ∀ p q : Point_2, collinear_are_strictly_ordered_along_line_2 p q p = false := by
    intro p q
    unfold collinear_are_strictly_ordered_along_line_2
    split_ifs with h1 h2 h3 h4
    · simpa using le_of_lt h1
    · simpa using le_of_lt h2
    · simpa using le_of_lt h3
    · simpa using le_of_lt h4
    · rfl
  unfold find_collision_between_tracks
  simp only [h_ct, h_pos, h_fts, h_ftd, h_cte, h_ne, if_false, h_nd, ne_eq,
    not_true_eq_false, is_degenerate_2, decide_True, Bool.true_and, h_src, decide_False,
    Bool.false_eq_true, h_a0, h_col, Bool.false_and,
    find_collision_between_non_collinear_tracks, h_1, Option.isSome_none, h_2,
    h_s_ct, h_d_ct, h_d_pos, h_s_pos, h_a4, find_collision_by_intersection,
    h_int, if_true, h_same]
  split_ifs <;> rfl

/-! ## The searches of `find_collision` -/

theorem find_collision_with_live_motorcycle_self (S : Services) (g : Motorcycle_graph)
    (mc : Motorcycle) (mcs : Segment_2) (fmc : Motorcycle) (tc : Collision_information)
    (h : mc.id = fmc.id) : find_collision_with_live_motorcycle S g mc mcs fmc tc = some tc := by
  unfold find_collision_with_live_motorcycle
  simp only [h, if_true]

theorem find_collision_with_live_motorcycle_crashed (S : Services) (g : Motorcycle_graph)
    (mc : Motorcycle) (mcs : Segment_2) (fmc : Motorcycle) (tc : Collision_information)
    (pos fpos : Dictionary_entry)
    (h_pos : Dictionary.deref g.points mc.current_position = some pos)
    (h_fpos : Dictionary.deref g.points fmc.current_position = some fpos)
    (h : fmc.crashed = true) : find_collision_with_live_motorcycle S g mc mcs fmc tc = some tc := by
  unfold find_collision_with_live_motorcycle
  simp only [current_location, h_pos, h_fpos, Option.map_some', h, Bool.or_true, if_true]
  split_ifs <;> rfl

theorem find_collision_with_live_motorcycle_eq (S : Services) (g : Motorcycle_graph)
    (mc : Motorcycle) (mcs : Segment_2) (fmc : Motorcycle) (tc : Collision_information)
    (pos fpos : Dictionary_entry) (fct : DEC_it × FT)
    (h_id : mc.id ≠ fmc.id)
    (h_pos : Dictionary.deref g.points mc.current_position = some pos)
    (h_fpos : Dictionary.deref g.points fmc.current_position = some fpos)
    (h_face : pos.location.1 = fpos.location.1)
    (h_live : fmc.crashed = false) (h_fct : fmc.closest_target = some fct) :
    find_collision_with_live_motorcycle S g mc mcs fmc tc =
      find_collision_between_tracks S g mc mcs fmc
        { id := fmc.id, source := fmc.source, time_at_source := fmc.time_at_source,
          destination := fct.1, time_at_destination := fct.2 } true tc := by
  unfold find_collision_with_live_motorcycle
  simp only [h_id, if_false, current_location, h_pos, h_fpos, Option.map_some', h_face, ne_eq,
    not_true_eq_false, decide_False, h_live, Bool.or_self, Bool.false_eq_true, h_fct]

theorem find_collision_with_complete_track_eq (S : Services) (g : Motorcycle_graph)
    (mc : Motorcycle) (mcs : Segment_2) (fmc_track : Track_segment) (fmc : Motorcycle)
    (tc : Collision_information) (h : g.motorcycle fmc_track.id = some fmc) :
    find_collision_with_complete_track S g mc mcs fmc_track tc =
      find_collision_between_tracks S g mc mcs fmc fmc_track false tc := by
  unfold find_collision_with_complete_track
  simp only [h]

/-! ## The crash tests and the priority queue -/

/-- The motorcycle is at a point that is not blocked and that nobody has visited earlier. -/
theorem has_motorcycle_reached_crashing_point_free (g : Motorcycle_graph) (mc : Motorcycle)
    (e : Dictionary_entry) (t : FT)
    (h_e : Dictionary.deref g.points mc.current_position = some e)
    (h_sim : e.motorcycles.any
      (fun v => decide (v.1 ≠ mc.id) && decide (v.2 = mc.current_time)) = false)
    (h_free : e.blocked = false) (h_early : e.earliest_motorcycle = some t)
    (h_t : ¬ t < mc.current_time) :
    g.has_motorcycle_reached_crashing_point mc = some false := by
  unfold has_motorcycle_reached_crashing_point has_reached_simultaneous_collision_point
    is_motorcycle_position_blocked
  simp only [h_e, Option.map_some', h_sim, h_free, Bool.false_eq_true, if_false, h_early, h_t,
    decide_False]

/-- The motorcycle is at a blocked point. -/
theorem has_motorcycle_reached_crashing_point_blocked (g : Motorcycle_graph) (mc : Motorcycle)
    (e : Dictionary_entry)
    (h_e : Dictionary.deref g.points mc.current_position = some e)
    (h_sim : e.motorcycles.any
      (fun v => decide (v.1 ≠ mc.id) && decide (v.2 = mc.current_time)) = false)
    (h_blocked : e.blocked = true) :
    g.has_motorcycle_reached_crashing_point mc = some true := by
  unfold has_motorcycle_reached_crashing_point has_reached_simultaneous_collision_point
    is_motorcycle_position_blocked
  simp only [h_e, Option.map_some', h_sim, h_blocked, if_true]

/-- The top of a queue of two motorcycles. -/
theorem pq_top_two (g : Motorcycle_graph) (i j : Nat) (a b : Motorcycle) (ta tb : DEC_it × FT)
    (h_pq : g.motorcycle_pq = [i, j])
    (h_a : g.motorcycle i = some a) (h_b : g.motorcycle j = some b)
    (h_ta : a.closest_target = some ta) (h_tb : b.closest_target = some tb) :
    g.pq_top = some (if tb.2 < ta.2 ∨ (tb.2 = ta.2 ∧ j < i) then j else i) := by
  unfold pq_top
  simp only [h_pq, List.foldl, Option.some_bind, pq_better, h_a, h_b, h_ta, h_tb]
  split_ifs <;> rfl

theorem pq_top_one (g : Motorcycle_graph) (i : Nat) (a : Motorcycle) (ta : DEC_it × FT)
    (h_pq : g.motorcycle_pq = [i])
    (h_a : g.motorcycle i = some a) (h_ta : a.closest_target = some ta) :
    g.pq_top = some i := by
  unfold pq_top
  simp only [h_pq, List.foldl, Option.some_bind, pq_better, h_a, h_ta]

/-! ## The collision record -/

theorem is_collision_earlier_than_current_best_ctor (M m t f : FT) (h : t ≤ m) (h' : t < M) :
    (Collision_information.ctor M m).is_collision_earlier_than_current_best t f = true := by
  unfold Collision_information.is_collision_earlier_than_current_best Collision_information.ctor
  simp only [gt_iff_lt, not_lt.mpr h, if_false, h', decide_True, Bool.true_or]

theorem find_collision_at_tentative_track_destination_ctor (S : Services) (mc fmc : Motorcycle)
    (t : FT) (ct : DEC_it × FT) (h_ct : mc.closest_target = some ct) (h : ct.2 < S.FT_max) :
    find_collision_at_tentative_track_destination S mc fmc t
        (Collision_information.ctor S.FT_max ct.2) =
      some (record_at_target ct fmc.id t) := by
  unfold find_collision_at_tentative_track_destination
  simp only [h_ct, Option.bind_eq_bind, Option.some_bind,
    is_collision_earlier_than_current_best_ctor S.FT_max ct.2 ct.2 t le_rfl h, if_true]
  rfl

/-! ## The track map and the loop -/

/-- The first track segment of the map. -/
theorem add_track_segment_to_map_first (g : Motorcycle_graph) (fd : face_descriptor) (id : Nat)
    (s : DEC_it) (time_at_s : FT) (t : DEC_it) (time_at_t : FT) (se te : Dictionary_entry)
    (h_s : Dictionary.deref g.points s = some se) (h_t : Dictionary.deref g.points t = some te)
    (h_sf : se.location.1 = fd) (h_tf : te.location.1 = fd) (h_id : id < g.motorcycles.length)
    (h_le : time_at_s ≤ time_at_t) (h_map : g.track_face_map = []) :
    g.add_track_segment_to_map fd id s time_at_s t time_at_t =
      some { g with track_face_map :=
        [(fd, [{ id := id, source := s, time_at_source := time_at_s, destination := t,
                 time_at_destination := time_at_t }])] } := by
  unfold add_track_segment_to_map
  simp only [h_s, h_t, h_sf, h_tf, ne_eq, not_true_eq_false, if_false, h_id, h_le, h_map,
    List.any_nil, Bool.false_eq_true, List.nil_append]

/-- A further track segment of the only face of the map. -/
theorem add_track_segment_to_map_next (g : Motorcycle_graph) (fd : face_descriptor) (id : Nat)
    (s : DEC_it) (time_at_s : FT) (t : DEC_it) (time_at_t : FT) (se te : Dictionary_entry)
    (l : List Track_segment)
    (h_s : Dictionary.deref g.points s = some se) (h_t : Dictionary.deref g.points t = some te)
    (h_sf : se.location.1 = fd) (h_tf : te.location.1 = fd) (h_id : id < g.motorcycles.length)
    (h_le : time_at_s ≤ time_at_t) (h_map : g.track_face_map = [(fd, l)]) :
    g.add_track_segment_to_map fd id s time_at_s t time_at_t =
      some { g with track_face_map :=
        [(fd, l ++ [{ id := id, source := s, time_at_source := time_at_s, destination := t,
                      time_at_destination := time_at_t }])] } := by
  unfold add_track_segment_to_map
  simp only [h_s, h_t, h_sf, h_tf, ne_eq, not_true_eq_false, if_false, h_id, h_le, h_map,
    List.any_cons, decide_True, List.any_nil, Bool.or_false, if_true, List.map_cons, List.map_nil]

theorem trace_graph_loop_step (S : Services) (tracer : Tracer) (n : Nat)
    (g g1 : Motorcycle_graph) (h_pq : g.motorcycle_pq ≠ [])
    (h_step : trace_graph_step S tracer g = some g1) :
    trace_graph_loop S tracer (n + 1) g = trace_graph_loop S tracer n g1 := by
  simp only [trace_graph_loop, h_pq, if_false, h_step]

theorem trace_graph_loop_done (S : Services) (tracer : Tracer) (n : Nat)
    (g : Motorcycle_graph) (h_pq : g.motorcycle_pq = []) :
    trace_graph_loop S tracer n g = some g := by
  cases n <;> simp only [trace_graph_loop, h_pq, if_true]

/-! ## A collision at a new point -/

/-- The tracks are not collinear, no visit is known, and the segments intersect at a location
that is not in the dictionary and that cannot be snapped to a point of the dictionary. -/
theorem find_collision_between_tracks_new (S : Services) (g : Motorcycle_graph)
    (mc : Motorcycle) (mcs : Segment_2) (fmc : Motorcycle) (fmc_track : Track_segment)
    (moving : Bool) (ct : DEC_it × FT)
    (pos cte fts ftd : Dictionary_entry) (loc : Face_location) (t ft : FT)
    (h_ct : mc.closest_target = some ct)
    (h_pos : Dictionary.deref g.points mc.current_position = some pos)
    (h_fts : Dictionary.deref g.points fmc_track.source = some fts)
    (h_ftd : Dictionary.deref g.points fmc_track.destination = some ftd)
    (h_cte : Dictionary.deref g.points ct.1 = some cte)
    (h_ne : mc.current_position ≠ ct.1) (h_nd : mcs.1 ≠ mcs.2)
    (h_face : fts.location.1 = ftd.location.1)
    (h_ndf : (fts.location.2.1, fts.location.2.2.1) ≠ (ftd.location.2.1, ftd.location.2.2.1))
    (h_col : collinear_2 mcs.1 mcs.2 (fts.location.2.1, fts.location.2.2.1) = false)
    (h_1 : pos.has_motorcycle_between fmc.id fmc_track.time_at_source
      fmc_track.time_at_destination = none)
    (h_2 : cte.has_motorcycle_between fmc.id fmc_track.time_at_source
      fmc_track.time_at_destination = none)
    (h_s_ct : fmc_track.source ≠ ct.1) (h_d_ct : fmc_track.destination ≠ ct.1)
    (h_d_pos : fmc_track.destination ≠ mc.current_position)
    (h_s_pos : fmc_track.source ≠ mc.current_position)
    (h_a3 : S.are_logically_collinear_on_border fts.location cte.location ftd.location = false)
    (h_a4 : S.are_logically_collinear_on_border ftd.location cte.location pos.location = false)
    (h_a5 : S.are_logically_collinear_on_border fts.location cte.location pos.location = false)
    (h_int : do_intersect_2 mcs ((fts.location.2.1, fts.location.2.2.1),
      (ftd.location.2.1, ftd.location.2.2.1)) = true)
    (h_loc : S.snap_location_to_border (pos.location.1,
      ((S.robust_intersection mcs ((fts.location.2.1, fts.location.2.2.1),
          (ftd.location.2.1, ftd.location.2.2.1))).1,
        (S.robust_intersection mcs ((fts.location.2.1, fts.location.2.2.1),
          (ftd.location.2.1, ftd.location.2.2.1))).2,
        1 - (S.robust_intersection mcs ((fts.location.2.1, fts.location.2.2.1),
          (ftd.location.2.1, ftd.location.2.2.1))).1 -
          (S.robust_intersection mcs ((fts.location.2.1, fts.location.2.2.1),
          (ftd.location.2.1, ftd.location.2.2.1))).2)) = loc)
    (h_find : Dictionary.find g.points loc = none)
    (h_t : mc.current_time +
      S.sqrt (squared_distance pos.point (S.location_to_point loc)) / mc.speed = t)
    (h_ft : fmc_track.time_at_source +
      S.sqrt (squared_distance fts.point (S.location_to_point loc)) / fmc.speed = ft)
    (h_t1 : mc.current_time ≤ t) (h_t2 : t ≤ ct.2) (h_t3 : t < S.FT_max)
    (h_ft1 : fmc_track.time_at_source ≤ ft) (h_ft2 : ft ≤ fmc_track.time_at_destination)
    (h_ts1 : mc.has_target_at_time t = none) (h_ts2 : fmc.has_target_at_time ft = none)
    (h_snap : try_to_snap_location_to_existing_point g loc (S.location_to_point loc)
      (2 * S.FT_eps) = (none, false)) :
    find_collision_between_tracks S g mc mcs fmc fmc_track moving
        (Collision_information.ctor S.FT_max ct.2) =
      some (record_at_new_point ct.2 t fmc.id ft loc) := by
  unfold find_collision_between_tracks
  simp only [h_ct, h_pos, h_fts, h_ftd, h_cte, h_ne, if_false, h_nd, h_face, ne_eq,
    not_true_eq_false, is_degenerate_2, h_ndf, decide_False, Bool.false_and, Bool.false_eq_true,
    h_col, find_collision_between_non_collinear_tracks, h_1, Option.isSome_none, h_2,
    h_s_ct, h_d_ct, h_d_pos, h_s_pos, h_a3, h_a4, h_a5, find_collision_by_intersection,
    h_int, Bool.not_true, h_loc, h_find, find_collision_at_new_point, h_t, h_ft, ge_iff_le,
    h_t1, h_t2, h_ft1, h_ft2, not_true, is_collision_earlier_than_current_best_ctor S.FT_max
      ct.2 t ft h_t2 h_t3, if_true, temporal_snapping, h_ts1, h_ts2, h_snap]
  rfl

/-! ## The search in the adjacent faces, for motorcycles that are all in one face -/

theorem in_one_face.no_tracks_in_other_face {g : Motorcycle_graph} {fd : Nat} (h : in_one_face g fd)
    (ffd : face_descriptor) (hne : ffd ≠ some fd) : g.tracks_of_face ffd = [] := by
  unfold Motorcycle_graph.tracks_of_face
  have : g.track_face_map.find? (fun x => decide (x.1 = ffd)) = none := by
    rw [List.find?_eq_none]
    intro x hx
    have := h.tracks x hx
    simp [this]
    exact fun e => hne e.symm
  rw [this]

theorem in_one_face.target_on_border_in_face {g : Motorcycle_graph} {fd : Nat}
    (h : in_one_face g fd) (S : Services) (mc : Motorcycle) (dv : descriptor_variant)
    (ffd : face_descriptor) (tc : Collision_information) (pos : Dictionary_entry)
    (h_pos : Dictionary.deref g.points mc.current_position = some pos)
    (h_face : pos.location.1 = some fd)
    (h_null : ffd ≠ null_face) (hne : ffd ≠ some fd) :
    find_collision_with_tentative_track_target_on_border_in_face S g mc dv ffd tc = some tc := by
  unfold find_collision_with_tentative_track_target_on_border_in_face
  have hne' : ¬ (some fd = ffd) := fun e => hne e.symm
  simp only [current_location, h_pos, Option.map_some', h_null, if_false, h_face, hne',
    h.no_tracks_in_other_face ffd hne, search_loop]
  split_ifs
  · rfl
  · apply search_loop_const
    intro fmc hfmc
    obtain ⟨e, he, hfe⟩ := h.motorcycles fmc hfmc
    unfold find_collision_with_live_motorcycle_on_foreign_face_at_target
    simp only [current_location, h_pos, he, Option.map_some', h_null, if_false, h_face, hne',
      hfe, ne_eq, not_false_eq_true, decide_True, Bool.true_or, if_true]

theorem in_one_face.no_collision_around_target {g : Motorcycle_graph} {fd : Nat}
    (h : in_one_face g fd) (S : Services) (mc : Motorcycle) (dv : descriptor_variant)
    (tc : Collision_information) (pos : Dictionary_entry)
    (h_pos : Dictionary.deref g.points mc.current_position = some pos)
    (h_face : pos.location.1 = some fd) (faces : List face_descriptor) :
    Motorcycle_graph.search_faces_around_target S g mc dv (some fd) faces tc = some tc := by
  induction faces with
  | nil => rfl
  | cons ffd rest ih =>
    unfold Motorcycle_graph.search_faces_around_target
    by_cases h1 : ffd = some fd
    · simp only [h1, decide_True, Bool.true_or, if_true]
      rw [← h1]; rw [h1]; exact ih
    · by_cases h2 : ffd = null_face
      · simp only [h2, decide_True, Bool.or_true, if_true]
        exact ih
      · simp only [h1, h2, decide_False, Bool.or_self, Bool.false_eq_true, if_false,
          h.target_on_border_in_face S mc dv ffd tc pos h_pos h_face h2 h1]
        exact ih

theorem in_one_face.target_on_border {g : Motorcycle_graph} {fd : Nat}
    (h : in_one_face g fd) (S : Services) (mc : Motorcycle) (tc : Collision_information)
    (ct : DEC_it × FT) (pos cte : Dictionary_entry)
    (h_ct : mc.closest_target = some ct)
    (h_pos : Dictionary.deref g.points mc.current_position = some pos)
    (h_cte : Dictionary.deref g.points ct.1 = some cte)
    (h_face : pos.location.1 = some fd)
    (h_which : (S.get_descriptor_from_location cte.location).which ≠ 2)
    (h_edge : ∀ hd, S.is_border_edge hd = false →
      S.face (S.opposite hd) ≠ null_face ∧ S.face (S.opposite hd) ≠ some fd) :
    find_collision_with_tentative_track_target_on_border S g mc
      (S.get_descriptor_from_location cte.location) tc = some tc := by
  unfold find_collision_with_tentative_track_target_on_border
  simp only [h_ct, current_location, h_pos, Option.map_some', h_cte, ne_eq, not_true_eq_false,
    if_false, h_face]
  cases hdv : S.get_descriptor_from_location cte.location with
  | vertex vd =>
    simp only
    exact h.no_collision_around_target S mc _ tc pos h_pos h_face _
  | halfedge hd =>
    simp only
    by_cases hb : S.is_border_edge hd = true
    · simp only [hb, if_true]
    · have hb' : S.is_border_edge hd = false := by simpa using hb
      simp only [hb', Bool.false_eq_true, if_false]
      exact h.target_on_border_in_face S mc _ _ tc pos h_pos h_face (h_edge hd hb').1
        (h_edge hd hb').2
  | face f =>
    rw [hdv] at h_which
    exact absurd rfl h_which

theorem in_one_face.tentative_track_on_border {g : Motorcycle_graph} {fd : Nat}
    (h : in_one_face g fd) (S : Services) (mc : Motorcycle) (hd : Nat)
    (tc : Collision_information) (pos : Dictionary_entry)
    (h_pos : Dictionary.deref g.points mc.current_position = some pos)
    (h_face : pos.location.1 = some fd)
    (h_half : ∀ hd, S.is_border (S.opposite hd) = false →
      S.is_border_edge hd = false ∧ S.face (S.opposite hd) ≠ some fd) :
    find_foreign_collision_with_tentative_track_on_border S g mc hd tc = some tc := by
  unfold find_foreign_collision_with_tentative_track_on_border
  by_cases hb : S.is_border (S.opposite hd) = true
  · simp only [hb, if_true]
  · have hb' : S.is_border (S.opposite hd) = false := by simpa using hb
    have hne := (h_half hd hb').2
    have hne' : ¬ (some fd = S.face (S.opposite hd)) := fun e => hne e.symm
    simp only [hb', Bool.false_eq_true, if_false, h.no_tracks_in_other_face _ hne, search_loop]
    split_ifs
    · rfl
    · apply search_loop_const
      intro fmc hfmc
      obtain ⟨e, he, hfe⟩ := h.motorcycles fmc hfmc
      unfold find_collision_with_live_motorcycle_on_foreign_face
      simp only [current_location, h_pos, he, Option.map_some', (h_half hd hb').1,
        Bool.false_eq_true, if_false, h_face, hne', hfe, ne_eq, not_false_eq_true, decide_True,
        Bool.true_or, if_true]

/-- The search in the adjacent faces finds nothing. -/
theorem in_one_face.no_foreign_collision {g : Motorcycle_graph} {fd : Nat}
    (h : in_one_face g fd) (S : Services) (mc : Motorcycle) (tc : Collision_information)
    (ct : DEC_it × FT) (pos cte : Dictionary_entry)
    (h_ct : mc.closest_target = some ct)
    (h_pos : Dictionary.deref g.points mc.current_position = some pos)
    (h_cte : Dictionary.deref g.points ct.1 = some cte)
    (h_face : pos.location.1 = some fd)
    (h_edge : ∀ hd, S.is_border_edge hd = false →
      S.face (S.opposite hd) ≠ null_face ∧ S.face (S.opposite hd) ≠ some fd)
    (h_half : ∀ hd, S.is_border (S.opposite hd) = false →
      S.is_border_edge hd = false ∧ S.face (S.opposite hd) ≠ some fd) :
    Motorcycle_graph.find_collision_with_foreign_motorcycles S g mc tc = some tc := by
  unfold Motorcycle_graph.find_collision_with_foreign_motorcycles
  simp only [h_ct, h_pos, h_cte]
  by_cases hw : (S.get_descriptor_from_location cte.location).which = 2
  · simp only [hw, if_true]
  · have hb := h.target_on_border S mc tc ct pos cte h_ct h_pos h_cte h_face hw h_edge
    simp only [hw, if_false, hb]
    by_cases hs : (S.get_descriptor_from_location pos.location).which = 2
    · simp only [hs, if_true]
      split_ifs <;> rfl
    · simp only [hs, if_false]
      cases hc : common_halfedge_of_face S pos.location.1 pos.location cte.location with
      | none => rfl
      | some hd =>
        simp only [h.tentative_track_on_border S mc hd tc pos h_pos h_face h_half, hb]
        split_ifs <;> rfl

namespace Crossing

theorem pt_inj (c : Crossing) (hd : c.det ≠ 0) (a b a' b' : FT)
    (h : c.pt a b = c.pt a' b') : a = a' ∧ b = b' := by
  have h1 : c.x.1 + a * c.u0.1 + b * c.u1.1 = c.x.1 + a' * c.u0.1 + b' * c.u1.1 :=
    congrArg Prod.fst h
  have h2 : c.x.2 + a * c.u0.2 + b * c.u1.2 = c.x.2 + a' * c.u0.2 + b' * c.u1.2 :=
    congrArg Prod.snd h
  have ha : (a - a') * c.det = 0 := by unfold det; linear_combination c.u1.2 * h1 - c.u1.1 * h2
  have hb : (b - b') * c.det = 0 := by unfold det; linear_combination c.u0.1 * h2 - c.u0.2 * h1
  rcases mul_eq_zero.mp ha with h | h
  · rcases mul_eq_zero.mp hb with h' | h'
    · exact ⟨by linarith, by linarith⟩
    · exact absurd h' hd
  · exact absurd h hd

theorem pt_ne (c : Crossing) (hd : c.det ≠ 0) (a b a' b' : FT) (h : a ≠ a' ∨ b ≠ b') :
    c.pt a b ≠ c.pt a' b' := by
  intro heq
  obtain ⟨h1, h2⟩ := c.pt_inj hd a b a' b' heq
  rcases h with h | h
  · exact h h1
  · exact h h2

theorem s0_eq (c : Crossing) : c.s0 = c.pt (-1) 0 := by
  unfold s0 S0 pt; ext <;> simp <;> ring

theorem d0_eq (c : Crossing) : c.d0 = c.pt c.k0 0 := by
  unfold d0 D0 pt; ext <;> simp

theorem s1_eq (c : Crossing) : c.s1 = c.pt 0 (-1) := by
  unfold s1 S1 pt; ext <;> simp <;> ring

theorem d1_eq (c : Crossing) : c.d1 = c.pt 0 c.k1 := by
  unfold d1 D1 pt; ext <;> simp

theorem x_eq (c : Crossing) : (c.X.1, c.X.2.1) = c.pt 0 0 := by
  unfold X pt; ext <;> simp

theorem h0_eq (c : Crossing) : (c.H0.1, c.H0.2.1) = c.pt (-1/2) 0 := by
  unfold H0 S0 X pt; ext <;> simp <;> ring

theorem h1_eq (c : Crossing) : (c.H1.1, c.H1.2.1) = c.pt 0 (-1/2) := by
  unfold H1 S1 X pt; ext <;> simp <;> ring

/-- The determinant of three points of the plane. -/
theorem det_pt (c : Crossing) (a1 b1 a2 b2 a3 b3 : FT) :
    ((c.pt a2 b2).1 - (c.pt a1 b1).1) * ((c.pt a3 b3).2 - (c.pt a1 b1).2) -
      ((c.pt a2 b2).2 - (c.pt a1 b1).2) * ((c.pt a3 b3).1 - (c.pt a1 b1).1) =
      ((a2 - a1) * (b3 - b1) - (b2 - b1) * (a3 - a1)) * c.det := by
  unfold pt det; simp only; ring

theorem collinear_2_pt (c : Crossing) (hd : c.det ≠ 0) (a1 b1 a2 b2 a3 b3 : FT)
    (h : (a2 - a1) * (b3 - b1) - (b2 - b1) * (a3 - a1) ≠ 0) :
    collinear_2 (c.pt a1 b1) (c.pt a2 b2) (c.pt a3 b3) = false := by
  unfold collinear_2
  rw [det_pt]
  simp [h, hd]

theorem orientation_2_pt (c : Crossing) (a1 b1 a2 b2 a3 b3 : FT) :
    orientation_2 (c.pt a1 b1) (c.pt a2 b2) (c.pt a3 b3) =
      SignType.sign (((a2 - a1) * (b3 - b1) - (b2 - b1) * (a3 - a1)) * c.det) := by
  unfold orientation_2
  rw [det_pt]

theorem orientation_2_pt_pos (c : Crossing) (a1 b1 a2 b2 a3 b3 : FT)
    (h : 0 < (a2 - a1) * (b3 - b1) - (b2 - b1) * (a3 - a1)) :
    orientation_2 (c.pt a1 b1) (c.pt a2 b2) (c.pt a3 b3) = SignType.sign c.det := by
  rw [orientation_2_pt, sign_mul, sign_pos h, one_mul]

theorem orientation_2_pt_neg (c : Crossing) (a1 b1 a2 b2 a3 b3 : FT)
    (h : (a2 - a1) * (b3 - b1) - (b2 - b1) * (a3 - a1) < 0) :
    orientation_2 (c.pt a1 b1) (c.pt a2 b2) (c.pt a3 b3) = - (SignType.sign c.det : Int) := by
  rw [orientation_2_pt, sign_mul, sign_neg h]
  simp

theorem orientation_2_pt_zero (c : Crossing) (a1 b1 a2 b2 a3 b3 : FT)
    (h : (a2 - a1) * (b3 - b1) - (b2 - b1) * (a3 - a1) = 0) :
    orientation_2 (c.pt a1 b1) (c.pt a2 b2) (c.pt a3 b3) = 0 := by
  rw [orientation_2_pt, h, zero_mul]
  simp

theorem sign_det_ne (c : Crossing) (hd : c.det ≠ 0) : (SignType.sign c.det : Int) ≠ 0 := by
  intro h
  have : SignType.sign c.det = 0 := by
    cases hs : SignType.sign c.det <;> simp_all
  exact hd (sign_eq_zero_iff.mp this)

theorem sign_det_ne_neg (c : Crossing) (hd : c.det ≠ 0) :
    (SignType.sign c.det : Int) ≠ - (SignType.sign c.det : Int) := by
  intro h
  apply c.sign_det_ne hd
  omega

/-- A point of a line that is beyond the two ends of a segment of the line is not on the
segment. -/
theorem not_ordered_beyond (p v : Point_2) (hv : v ≠ (0, 0)) (α β γ : FT)
    (h : (α < γ ∧ β < γ) ∨ (γ < α ∧ γ < β)) :
    collinear_are_ordered_along_line_2 (p.1 + α * v.1, p.2 + α * v.2)
      (p.1 + γ * v.1, p.2 + γ * v.2) (p.1 + β * v.1, p.2 + β * v.2) = false := by
  unfold collinear_are_ordered_along_line_2
  by_contra hc
  simp only [Bool.not_eq_false, Bool.and_eq_true, decide_eq_true_eq, min_le_iff, le_max_iff,
    add_le_add_iff_left] at hc
  obtain ⟨⟨⟨h1, h2⟩, h3⟩, h4⟩ := hc
  have hv1 : v.1 = 0 := by
    by_contra hne
    rcases lt_or_gt_of_ne hne with hlt | hgt
    · rcases h with ⟨ha, hb⟩ | ⟨ha, hb⟩
      · rcases h1 with h1 | h1
        · nlinarith
        · nlinarith
      · rcases h2 with h2 | h2
        · nlinarith
        · nlinarith
    · rcases h with ⟨ha, hb⟩ | ⟨ha, hb⟩
      · rcases h2 with h2 | h2
        · nlinarith
        · nlinarith
      · rcases h1 with h1 | h1
        · nlinarith
        · nlinarith
  have hv2 : v.2 = 0 := by
    by_contra hne
    rcases lt_or_gt_of_ne hne with hlt | hgt
    · rcases h with ⟨ha, hb⟩ | ⟨ha, hb⟩
      · rcases h3 with h3 | h3
        · nlinarith
        · nlinarith
      · rcases h4 with h4 | h4
        · nlinarith
        · nlinarith
    · rcases h with ⟨ha, hb⟩ | ⟨ha, hb⟩
      · rcases h4 with h4 | h4
        · nlinarith
        · nlinarith
      · rcases h3 with h3 | h3
        · nlinarith
        · nlinarith
  exact hv (Prod.ext hv1 hv2)

theorem u0_ne (c : Crossing) (hd : c.det ≠ 0) : c.u0 ≠ (0, 0) := by
  intro h
  apply hd
  unfold det
  rw [h]
  simp

theorem u1_ne (c : Crossing) (hd : c.det ≠ 0) : c.u1 ≠ (0, 0) := by
  intro h
  apply hd
  unfold det
  rw [h]
  simp

/-- On the path of motorcycle `0`: the point of parameter `γ` is not between the points of
parameters `α` and `β` when it is beyond both. -/
theorem not_ordered_0 (c : Crossing) (hd : c.det ≠ 0) (α β γ : FT)
    (h : (α < γ ∧ β < γ) ∨ (γ < α ∧ γ < β)) :
    collinear_are_ordered_along_line_2 (c.pt α 0) (c.pt γ 0) (c.pt β 0) = false := by
  have := not_ordered_beyond c.x c.u0 (c.u0_ne hd) α β γ h
  simpa [pt] using this

theorem not_ordered_1 (c : Crossing) (hd : c.det ≠ 0) (α β γ : FT)
    (h : (α < γ ∧ β < γ) ∨ (γ < α ∧ γ < β)) :
    collinear_are_ordered_along_line_2 (c.pt 0 α) (c.pt 0 γ) (c.pt 0 β) = false := by
  have := not_ordered_beyond c.x c.u1 (c.u1_ne hd) α β γ h
  simpa [pt] using this

/-- A point is on a degenerate segment only if it is the point of the segment. -/
theorem not_ordered_point (p q : Point_2) (h : q ≠ p) :
    collinear_are_ordered_along_line_2 p q p = false := by
  unfold collinear_are_ordered_along_line_2
  by_contra hc
  simp only [Bool.not_eq_false, Bool.and_eq_true, decide_eq_true_eq, min_self, max_self] at hc
  obtain ⟨⟨⟨h1, h2⟩, h3⟩, h4⟩ := hc
  exact h (Prod.ext (le_antisymm h2 h1) (le_antisymm h4 h3))


theorem valid.det_ne {S : Services} {c : Crossing} (h : c.valid S) : c.det ≠ 0 := h.not_parallel

theorem do_intersect_2_of (a b : Segment_2) (o1 o2 o3 o4 : Int)
    (h1 : orientation_2 a.1 a.2 b.1 = o1) (h2 : orientation_2 a.1 a.2 b.2 = o2)
    (h3 : orientation_2 b.1 b.2 a.1 = o3) (h4 : orientation_2 b.1 b.2 a.2 = o4) :
    do_intersect_2 a b =
      ((decide (o1 ≠ o2) && decide (o3 ≠ o4)) ||
      (decide (o1 = 0) && collinear_are_ordered_along_line_2 a.1 b.1 a.2) ||
      (decide (o2 = 0) && collinear_are_ordered_along_line_2 a.1 b.2 a.2) ||
      (decide (o3 = 0) && collinear_are_ordered_along_line_2 b.1 a.1 b.2) ||
      (decide (o4 = 0) && collinear_are_ordered_along_line_2 b.1 a.2 b.2)) := by
  unfold do_intersect_2
  simp only [h1, h2, h3, h4]

/-- The tentative track of motorcycle `0` from its source to its destination does not meet
the source of motorcycle `1`. -/
theorem valid.do_intersect_source (S : Services) (c : Crossing) (h : c.valid S) :
    do_intersect_2 (c.s0, c.d0) (c.s1, c.s1) = false := by
  have hd := h.det_ne
  have hk := h.k0_pos
  have hσ := c.sign_det_ne hd
  rw [do_intersect_2_of _ _ (- (SignType.sign c.det : Int)) (- (SignType.sign c.det : Int)) 0 0
    (by simp only [s0_eq, d0_eq, s1_eq]; exact c.orientation_2_pt_neg _ _ _ _ _ _ (by linarith))
    (by simp only [s0_eq, d0_eq, s1_eq]; exact c.orientation_2_pt_neg _ _ _ _ _ _ (by linarith))
    (by simp only [s0_eq, d0_eq, s1_eq]; exact c.orientation_2_pt_zero _ _ _ _ _ _ (by ring))
    (by simp only [s0_eq, d0_eq, s1_eq]; exact c.orientation_2_pt_zero _ _ _ _ _ _ (by ring))]
  have e1 : collinear_are_ordered_along_line_2 c.s1 c.s0 c.s1 = false := by
    apply not_ordered_point
    rw [s0_eq, s1_eq]
    exact c.pt_ne hd _ _ _ _ (Or.inl (by norm_num))
  have e2 : collinear_are_ordered_along_line_2 c.s1 c.d0 c.s1 = false := by
    apply not_ordered_point
    rw [d0_eq, s1_eq]
    exact c.pt_ne hd _ _ _ _ (Or.inr (by norm_num))
  simp [e1, e2, hσ]

/-- The paths of the two motorcycles intersect. -/
theorem valid.do_intersect_paths (S : Services) (c : Crossing) (h : c.valid S) :
    do_intersect_2 (c.s1, c.d1) (c.s0, c.d0) = true := by
  have hd := h.det_ne
  have hk0 := h.k0_pos
  have hk1 := h.k1_pos
  have hσ := c.sign_det_ne_neg hd
  rw [do_intersect_2_of _ _ (SignType.sign c.det : Int) (- (SignType.sign c.det : Int))
    (- (SignType.sign c.det : Int)) (SignType.sign c.det : Int)
    (by simp only [s0_eq, d0_eq, s1_eq, d1_eq]
        exact c.orientation_2_pt_pos _ _ _ _ _ _ (by nlinarith))
    (by simp only [s0_eq, d0_eq, s1_eq, d1_eq]
        exact c.orientation_2_pt_neg _ _ _ _ _ _ (by nlinarith))
    (by simp only [s0_eq, d0_eq, s1_eq, d1_eq]
        exact c.orientation_2_pt_neg _ _ _ _ _ _ (by nlinarith))
    (by simp only [s0_eq, d0_eq, s1_eq, d1_eq]
        exact c.orientation_2_pt_pos _ _ _ _ _ _ (by nlinarith))]
  simp [hσ, hσ.symm]

/-- The tentative track of motorcycle `0` from its halving point to the crossing does not meet
the tentative track of motorcycle `1` from its source to its halving point. -/
theorem valid.do_intersect_halving_0 (S : Services) (c : Crossing) (h : c.valid S) :
    do_intersect_2 ((c.H0.1, c.H0.2.1), (c.X.1, c.X.2.1)) (c.s1, (c.H1.1, c.H1.2.1)) = false := by
  have hd := h.det_ne
  have hσ := c.sign_det_ne hd
  rw [do_intersect_2_of _ _ (- (SignType.sign c.det : Int)) (- (SignType.sign c.det : Int))
    (SignType.sign c.det : Int) 0
    (by simp only [s1_eq, x_eq, h0_eq, h1_eq]
        exact c.orientation_2_pt_neg _ _ _ _ _ _ (by norm_num))
    (by simp only [s1_eq, x_eq, h0_eq, h1_eq]
        exact c.orientation_2_pt_neg _ _ _ _ _ _ (by norm_num))
    (by simp only [s1_eq, x_eq, h0_eq, h1_eq]
        exact c.orientation_2_pt_pos _ _ _ _ _ _ (by norm_num))
    (by simp only [s1_eq, x_eq, h0_eq, h1_eq]
        exact c.orientation_2_pt_zero _ _ _ _ _ _ (by norm_num))]
  have e : collinear_are_ordered_along_line_2 c.s1 (c.X.1, c.X.2.1) (c.H1.1, c.H1.2.1) =
      false := by
    rw [s1_eq, x_eq, h1_eq]
    exact c.not_ordered_1 hd _ _ _ (Or.inl ⟨by norm_num, by norm_num⟩)
  simp [e, hσ]

theorem valid.do_intersect_halving_1 (S : Services) (c : Crossing) (h : c.valid S) :
    do_intersect_2 ((c.H1.1, c.H1.2.1), (c.X.1, c.X.2.1)) (c.s0, (c.H0.1, c.H0.2.1)) = false := by
  have hd := h.det_ne
  have hσ := c.sign_det_ne hd
  rw [do_intersect_2_of _ _ (SignType.sign c.det : Int) (SignType.sign c.det : Int)
    (- (SignType.sign c.det : Int)) 0
    (by simp only [s0_eq, x_eq, h0_eq, h1_eq]
        exact c.orientation_2_pt_pos _ _ _ _ _ _ (by norm_num))
    (by simp only [s0_eq, x_eq, h0_eq, h1_eq]
        exact c.orientation_2_pt_pos _ _ _ _ _ _ (by norm_num))
    (by simp only [s0_eq, x_eq, h0_eq, h1_eq]
        exact c.orientation_2_pt_neg _ _ _ _ _ _ (by norm_num))
    (by simp only [s0_eq, x_eq, h0_eq, h1_eq]
        exact c.orientation_2_pt_zero _ _ _ _ _ _ (by norm_num))]
  have e : collinear_are_ordered_along_line_2 c.s0 (c.X.1, c.X.2.1) (c.H0.1, c.H0.2.1) =
      false := by
    rw [s0_eq, x_eq, h0_eq]
    exact c.not_ordered_0 hd _ _ _ (Or.inl ⟨by norm_num, by norm_num⟩)
  simp [e, hσ]

/-- The tentative track of motorcycle `0` from the crossing to its destination does not meet
the tentative track of motorcycle `1` from its source to its halving point. -/
theorem valid.do_intersect_crossing_0 (S : Services) (c : Crossing) (h : c.valid S) :
    do_intersect_2 ((c.X.1, c.X.2.1), c.d0) (c.s1, (c.H1.1, c.H1.2.1)) = false := by
  have hd := h.det_ne
  have hk := h.k0_pos
  have hσ := c.sign_det_ne hd
  rw [do_intersect_2_of _ _ (- (SignType.sign c.det : Int)) (- (SignType.sign c.det : Int))
    0 (- (SignType.sign c.det : Int))
    (by simp only [s1_eq, x_eq, d0_eq, h1_eq]
        exact c.orientation_2_pt_neg _ _ _ _ _ _ (by linarith))
    (by simp only [s1_eq, x_eq, d0_eq, h1_eq]
        exact c.orientation_2_pt_neg _ _ _ _ _ _ (by linarith))
    (by simp only [s1_eq, x_eq, d0_eq, h1_eq]
        exact c.orientation_2_pt_zero _ _ _ _ _ _ (by norm_num))
    (by simp only [s1_eq, x_eq, d0_eq, h1_eq]
        exact c.orientation_2_pt_neg _ _ _ _ _ _ (by linarith))]
  have e : collinear_are_ordered_along_line_2 c.s1 (c.X.1, c.X.2.1) (c.H1.1, c.H1.2.1) =
      false := by
    rw [s1_eq, x_eq, h1_eq]
    exact c.not_ordered_1 hd _ _ _ (Or.inl ⟨by norm_num, by norm_num⟩)
  simp [e, hσ]

theorem valid.do_intersect_crossing_1 (S : Services) (c : Crossing) (h : c.valid S) :
    do_intersect_2 ((c.X.1, c.X.2.1), c.d1) (c.s0, (c.H0.1, c.H0.2.1)) = false := by
  have hd := h.det_ne
  have hk := h.k1_pos
  have hσ := c.sign_det_ne hd
  rw [do_intersect_2_of _ _ (SignType.sign c.det : Int) (SignType.sign c.det : Int)
    0 (SignType.sign c.det : Int)
    (by simp only [s0_eq, x_eq, d1_eq, h0_eq]
        exact c.orientation_2_pt_pos _ _ _ _ _ _ (by linarith))
    (by simp only [s0_eq, x_eq, d1_eq, h0_eq]
        exact c.orientation_2_pt_pos _ _ _ _ _ _ (by linarith))
    (by simp only [s0_eq, x_eq, d1_eq, h0_eq]
        exact c.orientation_2_pt_zero _ _ _ _ _ _ (by norm_num))
    (by simp only [s0_eq, x_eq, d1_eq, h0_eq]
        exact c.orientation_2_pt_pos _ _ _ _ _ _ (by linarith))]
  have e : collinear_are_ordered_along_line_2 c.s0 (c.X.1, c.X.2.1) (c.H0.1, c.H0.2.1) =
      false := by
    rw [s0_eq, x_eq, h0_eq]
    exact c.not_ordered_0 hd _ _ _ (Or.inl ⟨by norm_num, by norm_num⟩)
  simp [e, hσ]

/-! ### Three points that are not collinear -/

theorem valid.not_collinear_source_0 (S : Services) (c : Crossing) (h : c.valid S) :
    collinear_2 c.s0 c.d0 c.s1 = false := by
  have hk := h.k0_pos
  rw [s0_eq, d0_eq, s1_eq]
  exact c.collinear_2_pt h.det_ne _ _ _ _ _ _ (by nlinarith)

theorem valid.not_collinear_source_1 (S : Services) (c : Crossing) (h : c.valid S) :
    collinear_2 c.s1 c.d1 c.s0 = false := by
  have hk := h.k1_pos
  rw [s0_eq, d1_eq, s1_eq]
  exact c.collinear_2_pt h.det_ne _ _ _ _ _ _ (by nlinarith)

theorem valid.not_collinear_halving_0 (S : Services) (c : Crossing) (h : c.valid S) :
    collinear_2 (c.H0.1, c.H0.2.1) (c.X.1, c.X.2.1) c.s1 = false := by
  rw [h0_eq, x_eq, s1_eq]
  exact c.collinear_2_pt h.det_ne _ _ _ _ _ _ (by norm_num)

theorem valid.not_collinear_halving_1 (S : Services) (c : Crossing) (h : c.valid S) :
    collinear_2 (c.H1.1, c.H1.2.1) (c.X.1, c.X.2.1) c.s0 = false := by
  rw [h1_eq, x_eq, s0_eq]
  exact c.collinear_2_pt h.det_ne _ _ _ _ _ _ (by norm_num)

theorem valid.not_collinear_crossing_0 (S : Services) (c : Crossing) (h : c.valid S) :
    collinear_2 (c.X.1, c.X.2.1) c.d0 c.s1 = false := by
  have hk := h.k0_pos
  rw [d0_eq, x_eq, s1_eq]
  exact c.collinear_2_pt h.det_ne _ _ _ _ _ _ (by intro h0; nlinarith)

theorem valid.not_collinear_crossing_1 (S : Services) (c : Crossing) (h : c.valid S) :
    collinear_2 (c.X.1, c.X.2.1) c.d1 c.s0 = false := by
  have hk := h.k1_pos
  rw [d1_eq, x_eq, s0_eq]
  exact c.collinear_2_pt h.det_ne _ _ _ _ _ _ (by intro h0; nlinarith)

/-- Three points for the tests of step 1 and step 2 that are not collinear. -/
theorem valid.not_collinear_s0_s1_d0 (S : Services) (c : Crossing) (h : c.valid S) :
    collinear_2 c.s0 c.s1 c.d0 = false := by
  have hk := h.k0_pos
  rw [s0_eq, d0_eq, s1_eq]
  exact c.collinear_2_pt h.det_ne _ _ _ _ _ _ (by intro h0; nlinarith)

theorem valid.not_collinear_s1_d0_s0 (S : Services) (c : Crossing) (h : c.valid S) :
    collinear_2 c.s1 c.d0 c.s0 = false := by
  have hk := h.k0_pos
  rw [s0_eq, d0_eq, s1_eq]
  exact c.collinear_2_pt h.det_ne _ _ _ _ _ _ (by intro h0; nlinarith)

theorem valid.not_collinear_s0_d1_d0 (S : Services) (c : Crossing) (h : c.valid S) :
    collinear_2 c.s0 c.d1 c.d0 = false := by
  have hk := h.k0_pos
  have hk1 := h.k1_pos
  rw [s0_eq, d0_eq, d1_eq]
  exact c.collinear_2_pt h.det_ne _ _ _ _ _ _ (by intro h0; nlinarith)

theorem valid.not_collinear_d0_d1_s1 (S : Services) (c : Crossing) (h : c.valid S) :
    collinear_2 c.d0 c.d1 c.s1 = false := by
  have hk := h.k0_pos
  have hk1 := h.k1_pos
  rw [s1_eq, d0_eq, d1_eq]
  exact c.collinear_2_pt h.det_ne _ _ _ _ _ _ (by intro h0; nlinarith)

theorem valid.not_collinear_s0_d1_s1 (S : Services) (c : Crossing) (h : c.valid S) :
    collinear_2 c.s0 c.d1 c.s1 = false := by
  have hk1 := h.k1_pos
  rw [s0_eq, s1_eq, d1_eq]
  exact c.collinear_2_pt h.det_ne _ _ _ _ _ _ (by intro h0; nlinarith)

/-! ### The mesh services -/

theorem valid.alc_of_not_collinear (S : Services) (c : Crossing) (h : c.valid S)
    (l m n : Face_location) (hc : collinear_2 (bc l) (bc m) (bc n) = false) :
    S.are_logically_collinear_on_border l m n = false := by
  by_contra hne
  have := h.logically_collinear l m n (by simpa using hne)
  rw [hc] at this
  exact absurd this.2.2.2 (by simp)

theorem valid.alc_of_inside (S : Services) (c : Crossing) (h : c.valid S)
    (l m n : Face_location)
    (hc : (S.get_descriptor_from_location l).which = 2 ∨
      (S.get_descriptor_from_location m).which = 2 ∨
      (S.get_descriptor_from_location n).which = 2) :
    S.are_logically_collinear_on_border l m n = false := by
  by_contra hne
  have := h.logically_collinear l m n (by simpa using hne)
  rcases hc with hc | hc | hc
  · exact this.1 hc
  · exact this.2.1 hc
  · exact this.2.2.1 hc

/-! ### The times -/

theorem valid.h0_pos (S : Services) (c : Crossing) (h : c.valid S) : 0 < c.h0 := by
  have := h.t0X_pos
  unfold h0; linarith

theorem valid.h0_lt (S : Services) (c : Crossing) (h : c.valid S) : c.h0 < c.t0X := by
  have := h.t0X_pos
  unfold h0; linarith

theorem valid.h1_pos (S : Services) (c : Crossing) (h : c.valid S) : 0 < c.h1 := by
  have := h.t1X_pos
  unfold h1; linarith

theorem valid.h1_lt (S : Services) (c : Crossing) (h : c.valid S) : c.h1 < c.t1X := by
  have := h.t1X_pos
  unfold h1; linarith

/-! ### Distinct locations -/

theorem valid.bc_ne (S : Services) (c : Crossing) (h : c.valid S) (a b a' b' : FT) (z z' : FT)
    (p q : Point_2) (hp : p = c.pt a b) (hq : q = c.pt a' b') (hne : a ≠ a' ∨ b ≠ b') :
    ((p.1, p.2, z) : Barycentric_coordinates) ≠ (q.1, q.2, z') := by
  intro heq
  apply c.pt_ne h.det_ne a b a' b' hne
  rw [← hp, ← hq]
  have h1 : p.1 = q.1 := (Prod.mk.inj heq).1
  have h2 : p.2 = q.2 := (Prod.mk.inj (Prod.mk.inj heq).2).1
  exact Prod.ext h1 h2


theorem in_one_face_state (S : Services) (c : Crossing) (p0 p1 m0 m1 : Stage)
    (tracks : Track_face_map) (h : ∀ x ∈ tracks, x.1 = some c.fd) :
    in_one_face (c.state S p0 p1 m0 m1 tracks) c.fd := by
  refine ⟨?_, h⟩
  intro m hm
  simp only [state, List.mem_cons, List.mem_singleton, List.not_mem_nil, or_false] at hm
  rcases hm with rfl | rfl
  · cases m0 <;> exact ⟨_, rfl, rfl⟩
  · cases m1 <;> exact ⟨_, rfl, rfl⟩

/-- Motorcycle `0` at its halving point, motorcycle `1` at its source: nothing is found. -/
theorem find_collision_halving_0_source (S : Services) (c : Crossing) (h : c.valid S)
    (p0 p1 : Stage) :
    find_collision S (c.state S p0 p1 .halving .source []) (c.motorcycle0 true .halving) =
      some (Collision_information.ctor S.FT_max c.t0X) := by
  have hd := h.det_ne
  have h_nd : (c.H0.1, c.H0.2.1) ≠ (c.X.1, c.X.2.1) := by
    rw [h0_eq, x_eq]
    exact c.pt_ne hd _ _ _ _ (Or.inl (by norm_num))
  have h_lt : c.t0X < S.FT_max := lt_trans h.t0X_lt h.tD0_lt
  have h_in := c.in_one_face_state S p0 p1 .halving .source [] (by simp)
  refine find_collision_of S (c.state S p0 p1 .halving .source []) (c.motorcycle0 true .halving) (some 4, c.t0X) (c.eH0 S p0.reached_halving)
    (c.eX S (p0.reached_crossing || p1.reached_crossing)) _ _ _ rfl rfl rfl rfl rfl h_nd
    (search_loop_nil _ _) rfl ?_ rfl
    (h_in.no_foreign_collision S _ _ (some 4, c.t0X) _ _ rfl rfl rfl rfl
      h.inner_edge h.inner_halfedge)
  refine search_loop_two _ _ _ _ _ _
    (find_collision_with_live_motorcycle_self S _ _ _ _ _ rfl) rfl ?_
  refine (find_collision_with_live_motorcycle_eq S (c.state S p0 p1 .halving .source [])
    (c.motorcycle0 true .halving) _ (c.motorcycle1 true .source) _
    (c.eH0 S p0.reached_halving) (c.eS1 p1) (some 5, c.h1) (by simp [motorcycle0, motorcycle1])
    rfl rfl rfl rfl rfl).trans ?_
  refine find_collision_between_tracks_apart S (c.state S p0 p1 .halving .source [])
    (c.motorcycle0 true .halving) _ (c.motorcycle1 true .source) _ _ _ (some 4, c.t0X)
    (c.eH0 S p0.reached_halving) (c.eX S (p0.reached_crossing || p1.reached_crossing))
    (c.eS1 p1) (c.eH1 S p1.reached_halving) rfl rfl rfl rfl rfl
    (by simp [motorcycle0, motorcycle1]) h_nd rfl ?_ ?_ ?_ ?_
    (by simp [motorcycle0, motorcycle1]) (by simp [motorcycle0, motorcycle1]) (by simp [motorcycle0, motorcycle1]) (by simp [motorcycle0, motorcycle1])
    ?_ ?_ ?_ ?_
  ·
    show c.s1 ≠ (c.H1.1, c.H1.2.1)
    rw [h1_eq, s1_eq]
    exact c.pt_ne hd _ _ _ _ (Or.inr (by norm_num))
  · exact h.not_collinear_halving_0
  · simp [Dictionary_entry.has_motorcycle_between, eH0, motorcycle1]
  · have := h.h1_lt
    simp [Dictionary_entry.has_motorcycle_between, eX, motorcycle1, this]
  · exact h.alc_of_inside S c _ _ _ (Or.inr (Or.inl h.which_X))
  · exact h.alc_of_inside S c _ _ _ (Or.inr (Or.inl h.which_X))
  · exact h.alc_of_inside S c _ _ _ (Or.inr (Or.inl h.which_X))
  · exact h.do_intersect_halving_0

/-- Motorcycle `0` at its halving point, motorcycle `1` at the stage `halving`: the
crossing, which is the closest target, is found again. -/
theorem find_collision_halving_0_halving (S : Services) (c : Crossing) (h : c.valid S)
    (p0 p1 : Stage) :
    find_collision S (c.state S p0 p1 .halving .halving []) (c.motorcycle0 true .halving) =
      some (record_at_target (some 4, c.t0X) 1 c.t1X) := by
  have hd := h.det_ne
  have h_nd : (c.H0.1, c.H0.2.1) ≠ (c.X.1, c.X.2.1) := by
    rw [h0_eq, x_eq]
    exact c.pt_ne hd _ _ _ _ (Or.inl (by norm_num))
  have h_lt : c.t0X < S.FT_max := lt_trans h.t0X_lt h.tD0_lt
  have h_in := c.in_one_face_state S p0 p1 .halving .halving [] (by simp)
  refine find_collision_of S (c.state S p0 p1 .halving .halving []) (c.motorcycle0 true .halving) (some 4, c.t0X) (c.eH0 S p0.reached_halving)
    (c.eX S (p0.reached_crossing || p1.reached_crossing)) _ _ _ rfl rfl rfl rfl rfl h_nd
    (search_loop_nil _ _) rfl ?_ rfl
    (h_in.no_foreign_collision S _ _ (some 4, c.t0X) _ _ rfl rfl rfl rfl
      h.inner_edge h.inner_halfedge)
  refine search_loop_two _ _ _ _ _ _
    (find_collision_with_live_motorcycle_self S _ _ _ _ _ rfl) rfl ?_
  refine (find_collision_with_live_motorcycle_eq S (c.state S p0 p1 .halving .halving [])
    (c.motorcycle0 true .halving) _ (c.motorcycle1 true .halving) _
    (c.eH0 S p0.reached_halving) _ (some 4, c.t1X) (by simp [motorcycle0, motorcycle1])
    rfl rfl rfl rfl rfl).trans ?_
  refine Eq.trans ?_ (find_collision_at_tentative_track_destination_ctor S (c.motorcycle0 true .halving)
      (c.motorcycle1 true .halving) c.t1X (some 4, c.t0X) rfl h_lt)
  refine find_collision_between_tracks_at_target S (c.state S p0 p1 .halving .halving [])
    (c.motorcycle0 true .halving) _ (c.motorcycle1 true .halving) _ _ _ (some 4, c.t0X)
    (c.eH0 S p0.reached_halving) (c.eX S (p0.reached_crossing || p1.reached_crossing))
    (c.eS1 p1) (c.eX S (p0.reached_crossing || p1.reached_crossing)) c.t1X rfl rfl rfl rfl rfl
    (by simp [motorcycle0, motorcycle1]) h_nd rfl ?_ ?_ ?_ ?_
  ·
    show c.s1 ≠ (c.X.1, c.X.2.1)
    rw [x_eq, s1_eq]
    exact c.pt_ne hd _ _ _ _ (Or.inr (by norm_num))
  · exact h.not_collinear_halving_0
  · simp [Dictionary_entry.has_motorcycle_between, eH0, motorcycle1]
  · have h1 := h.t1X_pos.le
    have h2 : c.t1X ≤ _ := le_refl _
    simp [Dictionary_entry.has_motorcycle_between, eX, motorcycle1, h1, h2, List.find?]

/-- Motorcycle `0` at its halving point, motorcycle `1` at the stage `crossing`: the
crossing, which is the closest target, is found again. -/
theorem find_collision_halving_0_crossing (S : Services) (c : Crossing) (h : c.valid S)
    (p0 p1 : Stage) :
    find_collision S (c.state S p0 p1 .halving .crossing []) (c.motorcycle0 true .halving) =
      some (record_at_target (some 4, c.t0X) 1 c.t1X) := by
  have hd := h.det_ne
  have h_nd : (c.H0.1, c.H0.2.1) ≠ (c.X.1, c.X.2.1) := by
    rw [h0_eq, x_eq]
    exact c.pt_ne hd _ _ _ _ (Or.inl (by norm_num))
  have h_lt : c.t0X < S.FT_max := lt_trans h.t0X_lt h.tD0_lt
  have h_in := c.in_one_face_state S p0 p1 .halving .crossing [] (by simp)
  refine find_collision_of S (c.state S p0 p1 .halving .crossing []) (c.motorcycle0 true .halving) (some 4, c.t0X) (c.eH0 S p0.reached_halving)
    (c.eX S (p0.reached_crossing || p1.reached_crossing)) _ _ _ rfl rfl rfl rfl rfl h_nd
    (search_loop_nil _ _) rfl ?_ rfl
    (h_in.no_foreign_collision S _ _ (some 4, c.t0X) _ _ rfl rfl rfl rfl
      h.inner_edge h.inner_halfedge)
  refine search_loop_two _ _ _ _ _ _
    (find_collision_with_live_motorcycle_self S _ _ _ _ _ rfl) rfl ?_
  refine (find_collision_with_live_motorcycle_eq S (c.state S p0 p1 .halving .crossing [])
    (c.motorcycle0 true .halving) _ (c.motorcycle1 true .crossing) _
    (c.eH0 S p0.reached_halving) _ (some 3, c.tD1) (by simp [motorcycle0, motorcycle1])
    rfl rfl rfl rfl rfl).trans ?_
  refine Eq.trans ?_ (find_collision_at_tentative_track_destination_ctor S (c.motorcycle0 true .halving)
      (c.motorcycle1 true .crossing) c.t1X (some 4, c.t0X) rfl h_lt)
  refine find_collision_between_tracks_at_target S (c.state S p0 p1 .halving .crossing [])
    (c.motorcycle0 true .halving) _ (c.motorcycle1 true .crossing) _ _ _ (some 4, c.t0X)
    (c.eH0 S p0.reached_halving) (c.eX S (p0.reached_crossing || p1.reached_crossing))
    (c.eS1 p1) (c.eD1) c.t1X rfl rfl rfl rfl rfl
    (by simp [motorcycle0, motorcycle1]) h_nd rfl ?_ ?_ ?_ ?_
  ·
    show c.s1 ≠ c.d1
    rw [d1_eq, s1_eq]
    have hko := h.k1_pos
    exact c.pt_ne hd _ _ _ _ (Or.inr (by linarith))
  · exact h.not_collinear_halving_0
  · simp [Dictionary_entry.has_motorcycle_between, eH0, motorcycle1]
  · have h1 := h.t1X_pos.le
    have h2 : c.t1X ≤ _ := h.t1X_lt.le
    simp [Dictionary_entry.has_motorcycle_between, eX, motorcycle1, h1, h2, List.find?]

/-- Motorcycle `0` at its halving point, motorcycle `1` arrived: the crossing is found
again, on the confirmed track of motorcycle `1`. -/
theorem find_collision_halving_0_arrived (S : Services) (c : Crossing) (h : c.valid S)
    (p0 p1 : Stage) :
    find_collision S (c.state S p0 p1 .halving .arrived [(some c.fd, [c.arrived1])]) (c.motorcycle0 true .halving) =
      some (record_at_target (some 4, c.t0X) 1 c.t1X) := by
  have hd := h.det_ne
  have h_nd : (c.H0.1, c.H0.2.1) ≠ (c.X.1, c.X.2.1) := by
    rw [h0_eq, x_eq]
    exact c.pt_ne hd _ _ _ _ (Or.inl (by norm_num))
  have h_lt : c.t0X < S.FT_max := lt_trans h.t0X_lt h.tD0_lt
  have h_in := c.in_one_face_state S p0 p1 .halving .arrived [(some c.fd, [c.arrived1])] (by simp)
  have h_tracks : Motorcycle_graph.tracks_of_face (c.state S p0 p1 .halving .arrived [(some c.fd, [c.arrived1])])
      (c.eH0 S p0.reached_halving).location.1 = [c.arrived1] := by
    simp [Motorcycle_graph.tracks_of_face, state, eH0]
  refine find_collision_of S (c.state S p0 p1 .halving .arrived [(some c.fd, [c.arrived1])]) (c.motorcycle0 true .halving) (some 4, c.t0X) (c.eH0 S p0.reached_halving)
    (c.eX S (p0.reached_crossing || p1.reached_crossing)) (record_at_target (some 4, c.t0X) 1 c.t1X) _ _ rfl rfl rfl rfl rfl h_nd
    ?_ rfl ?_ rfl
    (h_in.no_foreign_collision S _ _ (some 4, c.t0X) _ _ rfl rfl rfl rfl
      h.inner_edge h.inner_halfedge)
  · rw [h_tracks]
    refine search_loop_one _ _ _ _ ?_
    refine (find_collision_with_complete_track_eq S (c.state S p0 p1 .halving .arrived [(some c.fd, [c.arrived1])])
      (c.motorcycle0 true .halving) _ c.arrived1 (c.motorcycle1 true .arrived) _ rfl).trans ?_
    refine Eq.trans ?_ (find_collision_at_tentative_track_destination_ctor S (c.motorcycle0 true .halving)
        (c.motorcycle1 true .arrived) c.t1X (some 4, c.t0X) rfl h_lt)
    refine find_collision_between_tracks_at_target S (c.state S p0 p1 .halving .arrived [(some c.fd, [c.arrived1])])
      (c.motorcycle0 true .halving) _ (c.motorcycle1 true .arrived) _ _ _ (some 4, c.t0X)
      (c.eH0 S p0.reached_halving) (c.eX S (p0.reached_crossing || p1.reached_crossing))
      (c.eS1 p1) (c.eD1) c.t1X rfl rfl rfl rfl rfl
      (by simp [motorcycle0, motorcycle1]) h_nd rfl ?_ ?_ ?_ ?_
    ·
      show c.s1 ≠ c.d1
      rw [d1_eq, s1_eq]
      have hko := h.k1_pos
      exact c.pt_ne hd _ _ _ _ (Or.inr (by linarith))
    · exact h.not_collinear_halving_0
    · simp [Dictionary_entry.has_motorcycle_between, eH0, motorcycle1]
    · have h1 := h.t1X_pos.le
      have h2 := h.t1X_lt.le
      simp [Dictionary_entry.has_motorcycle_between, eX, motorcycle1, arrived1, h1, h2,
        List.find?]
  · refine search_loop_two _ _ _ _ _ _
      (find_collision_with_live_motorcycle_self S _ _ _ _ _ rfl) rfl
      (find_collision_with_live_motorcycle_crashed S _ _ _ _ _ _ _ rfl rfl rfl)

/-- Motorcycle `0` at the crossing, motorcycle `1` at its source: nothing is found. -/
theorem find_collision_crossing_0_source (S : Services) (c : Crossing) (h : c.valid S)
    (p0 p1 : Stage) :
    find_collision S (c.state S p0 p1 .crossing .source []) (c.motorcycle0 true .crossing) =
      some (Collision_information.ctor S.FT_max c.tD0) := by
  have hd := h.det_ne
  have hk := h.k0_pos
  have h_nd : (c.X.1, c.X.2.1) ≠ c.d0 := by
    rw [d0_eq, x_eq]
    exact c.pt_ne hd _ _ _ _ (Or.inl (ne_of_lt hk))
  have h_in := c.in_one_face_state S p0 p1 .crossing .source [] (by simp)
  refine find_collision_of S (c.state S p0 p1 .crossing .source []) (c.motorcycle0 true .crossing) (some 1, c.tD0) (c.eX S (p0.reached_crossing || p1.reached_crossing))
    (c.eD0) _ _ _ rfl rfl rfl rfl rfl h_nd
    (search_loop_nil _ _) rfl ?_ rfl
    (h_in.no_foreign_collision S _ _ (some 1, c.tD0) _ _ rfl rfl
      rfl rfl h.inner_edge h.inner_halfedge)
  refine search_loop_two _ _ _ _ _ _
    (find_collision_with_live_motorcycle_self S _ _ _ _ _ rfl) rfl ?_
  refine (find_collision_with_live_motorcycle_eq S (c.state S p0 p1 .crossing .source [])
    (c.motorcycle0 true .crossing) _ (c.motorcycle1 true .source) _
    (c.eX S (p0.reached_crossing || p1.reached_crossing)) (c.eS1 p1) (some 5, c.h1) (by simp [motorcycle0, motorcycle1])
    rfl rfl rfl rfl rfl).trans ?_
  refine find_collision_between_tracks_apart S (c.state S p0 p1 .crossing .source [])
    (c.motorcycle0 true .crossing) _ (c.motorcycle1 true .source) _ _ _ (some 1, c.tD0)
    (c.eX S (p0.reached_crossing || p1.reached_crossing)) (c.eD0)
    (c.eS1 p1) (c.eH1 S p1.reached_halving) rfl rfl rfl rfl rfl
    (by simp [motorcycle0, motorcycle1]) h_nd rfl ?_ ?_ ?_ ?_
    (by simp [motorcycle0, motorcycle1]) (by simp [motorcycle0, motorcycle1]) (by simp [motorcycle0, motorcycle1]) (by simp [motorcycle0, motorcycle1])
    ?_ ?_ ?_ ?_
  ·
    show c.s1 ≠ (c.H1.1, c.H1.2.1)
    rw [h1_eq, s1_eq]
    exact c.pt_ne hd _ _ _ _ (Or.inr (by norm_num))
  · exact h.not_collinear_crossing_0
  · have := h.h1_lt
    simp [Dictionary_entry.has_motorcycle_between, eX, motorcycle1, this]
  · simp [Dictionary_entry.has_motorcycle_between, eD0, motorcycle1]
  · exact h.alc_of_inside S c _ _ _ (Or.inr (Or.inr h.which_H1))
  · exact h.alc_of_inside S c _ _ _ (Or.inl h.which_H1)
  · exact h.alc_of_inside S c _ _ _ (Or.inr (Or.inr h.which_X))
  · exact h.do_intersect_crossing_0

/-- Motorcycle `0` at the crossing, motorcycle `1` at its halving point: the crossing
is the current position, and nothing is found. -/
theorem find_collision_crossing_0_halving (S : Services) (c : Crossing) (h : c.valid S)
    (p0 p1 : Stage) :
    find_collision S (c.state S p0 p1 .crossing .halving []) (c.motorcycle0 true .crossing) =
      some (Collision_information.ctor S.FT_max c.tD0) := by
  have hd := h.det_ne
  have hk := h.k0_pos
  have h_nd : (c.X.1, c.X.2.1) ≠ c.d0 := by
    rw [d0_eq, x_eq]
    exact c.pt_ne hd _ _ _ _ (Or.inl (ne_of_lt hk))
  have h_in := c.in_one_face_state S p0 p1 .crossing .halving [] (by simp)
  refine find_collision_of S (c.state S p0 p1 .crossing .halving []) (c.motorcycle0 true .crossing) (some 1, c.tD0) (c.eX S (p0.reached_crossing || p1.reached_crossing))
    (c.eD0) _ _ _ rfl rfl rfl rfl rfl h_nd
    (search_loop_nil _ _) rfl ?_ rfl
    (h_in.no_foreign_collision S _ _ (some 1, c.tD0) _ _ rfl rfl
      rfl rfl h.inner_edge h.inner_halfedge)
  refine search_loop_two _ _ _ _ _ _
    (find_collision_with_live_motorcycle_self S _ _ _ _ _ rfl) rfl ?_
  refine (find_collision_with_live_motorcycle_eq S (c.state S p0 p1 .crossing .halving [])
    (c.motorcycle0 true .crossing) _ (c.motorcycle1 true .halving) _
    (c.eX S (p0.reached_crossing || p1.reached_crossing)) _ (some 4, c.t1X) (by simp [motorcycle0, motorcycle1])
    rfl rfl rfl rfl rfl).trans ?_
  refine find_collision_between_tracks_at_position S (c.state S p0 p1 .crossing .halving [])
    (c.motorcycle0 true .crossing) _ (c.motorcycle1 true .halving) _ _ _ (some 1, c.tD0)
    (c.eX S (p0.reached_crossing || p1.reached_crossing)) (c.eD0)
    (c.eS1 p1) (c.eX S (p0.reached_crossing || p1.reached_crossing)) c.t1X rfl rfl rfl rfl rfl
    (by simp [motorcycle0, motorcycle1]) h_nd rfl ?_ ?_ ?_
  ·
    show c.s1 ≠ (c.X.1, c.X.2.1)
    rw [x_eq, s1_eq]
    exact c.pt_ne hd _ _ _ _ (Or.inr (by norm_num))
  · exact h.not_collinear_crossing_0
  · have h1 := h.t1X_pos.le
    simp [Dictionary_entry.has_motorcycle_between, eX, motorcycle1, h1, List.find?]

/-- Motorcycle `1` at its halving point, motorcycle `0` at its source: nothing is found. -/
theorem find_collision_halving_1_source (S : Services) (c : Crossing) (h : c.valid S)
    (p0 p1 : Stage) :
    find_collision S (c.state S p0 p1 .source .halving []) (c.motorcycle1 true .halving) =
      some (Collision_information.ctor S.FT_max c.t1X) := by
  have hd := h.det_ne
  have h_nd : (c.H1.1, c.H1.2.1) ≠ (c.X.1, c.X.2.1) := by
    rw [h1_eq, x_eq]
    exact c.pt_ne hd _ _ _ _ (Or.inr (by norm_num))
  have h_lt : c.t1X < S.FT_max := lt_trans h.t1X_lt h.tD1_lt
  have h_in := c.in_one_face_state S p0 p1 .source .halving [] (by simp)
  refine find_collision_of S (c.state S p0 p1 .source .halving []) (c.motorcycle1 true .halving) (some 4, c.t1X) (c.eH1 S p1.reached_halving)
    (c.eX S (p0.reached_crossing || p1.reached_crossing)) _ _ _ rfl rfl rfl rfl rfl h_nd
    (search_loop_nil _ _) rfl ?_ rfl
    (h_in.no_foreign_collision S _ _ (some 4, c.t1X) _ _ rfl rfl rfl rfl
      h.inner_edge h.inner_halfedge)
  refine search_loop_two _ _ _ _ _ _ ?_ rfl
    (find_collision_with_live_motorcycle_self S _ _ _ _ _ rfl)
  refine (find_collision_with_live_motorcycle_eq S (c.state S p0 p1 .source .halving [])
    (c.motorcycle1 true .halving) _ (c.motorcycle0 true .source) _
    (c.eH1 S p1.reached_halving) (c.eS0 p0) (some 6, c.h0) (by simp [motorcycle0, motorcycle1])
    rfl rfl rfl rfl rfl).trans ?_
  refine find_collision_between_tracks_apart S (c.state S p0 p1 .source .halving [])
    (c.motorcycle1 true .halving) _ (c.motorcycle0 true .source) _ _ _ (some 4, c.t1X)
    (c.eH1 S p1.reached_halving) (c.eX S (p0.reached_crossing || p1.reached_crossing))
    (c.eS0 p0) (c.eH0 S p0.reached_halving) rfl rfl rfl rfl rfl
    (by simp [motorcycle0, motorcycle1]) h_nd rfl ?_ ?_ ?_ ?_
    (by simp [motorcycle0, motorcycle1]) (by simp [motorcycle0, motorcycle1]) (by simp [motorcycle0, motorcycle1]) (by simp [motorcycle0, motorcycle1])
    ?_ ?_ ?_ ?_
  ·
    show c.s0 ≠ (c.H0.1, c.H0.2.1)
    rw [h0_eq, s0_eq]
    exact c.pt_ne hd _ _ _ _ (Or.inl (by norm_num))
  · exact h.not_collinear_halving_1
  · simp [Dictionary_entry.has_motorcycle_between, eH1, motorcycle0]
  · have := h.h0_lt
    simp [Dictionary_entry.has_motorcycle_between, eX, motorcycle0, this]
  · exact h.alc_of_inside S c _ _ _ (Or.inr (Or.inl h.which_X))
  · exact h.alc_of_inside S c _ _ _ (Or.inr (Or.inl h.which_X))
  · exact h.alc_of_inside S c _ _ _ (Or.inr (Or.inl h.which_X))
  · exact h.do_intersect_halving_1

/-- Motorcycle `1` at its halving point, motorcycle `0` at the stage `halving`: the
crossing, which is the closest target, is found again. -/
theorem find_collision_halving_1_halving (S : Services) (c : Crossing) (h : c.valid S)
    (p0 p1 : Stage) :
    find_collision S (c.state S p0 p1 .halving .halving []) (c.motorcycle1 true .halving) =
      some (record_at_target (some 4, c.t1X) 0 c.t0X) := by
  have hd := h.det_ne
  have h_nd : (c.H1.1, c.H1.2.1) ≠ (c.X.1, c.X.2.1) := by
    rw [h1_eq, x_eq]
    exact c.pt_ne hd _ _ _ _ (Or.inr (by norm_num))
  have h_lt : c.t1X < S.FT_max := lt_trans h.t1X_lt h.tD1_lt
  have h_in := c.in_one_face_state S p0 p1 .halving .halving [] (by simp)
  refine find_collision_of S (c.state S p0 p1 .halving .halving []) (c.motorcycle1 true .halving) (some 4, c.t1X) (c.eH1 S p1.reached_halving)
    (c.eX S (p0.reached_crossing || p1.reached_crossing)) _ _ _ rfl rfl rfl rfl rfl h_nd
    (search_loop_nil _ _) rfl ?_ rfl
    (h_in.no_foreign_collision S _ _ (some 4, c.t1X) _ _ rfl rfl rfl rfl
      h.inner_edge h.inner_halfedge)
  refine search_loop_two _ _ _ _ _ _ ?_ rfl
    (find_collision_with_live_motorcycle_self S _ _ _ _ _ rfl)
  refine (find_collision_with_live_motorcycle_eq S (c.state S p0 p1 .halving .halving [])
    (c.motorcycle1 true .halving) _ (c.motorcycle0 true .halving) _
    (c.eH1 S p1.reached_halving) _ (some 4, c.t0X) (by simp [motorcycle0, motorcycle1])
    rfl rfl rfl rfl rfl).trans ?_
  refine Eq.trans ?_ (find_collision_at_tentative_track_destination_ctor S (c.motorcycle1 true .halving)
      (c.motorcycle0 true .halving) c.t0X (some 4, c.t1X) rfl h_lt)
  refine find_collision_between_tracks_at_target S (c.state S p0 p1 .halving .halving [])
    (c.motorcycle1 true .halving) _ (c.motorcycle0 true .halving) _ _ _ (some 4, c.t1X)
    (c.eH1 S p1.reached_halving) (c.eX S (p0.reached_crossing || p1.reached_crossing))
    (c.eS0 p0) (c.eX S (p0.reached_crossing || p1.reached_crossing)) c.t0X rfl rfl rfl rfl rfl
    (by simp [motorcycle0, motorcycle1]) h_nd rfl ?_ ?_ ?_ ?_
  ·
    show c.s0 ≠ (c.X.1, c.X.2.1)
    rw [x_eq, s0_eq]
    exact c.pt_ne hd _ _ _ _ (Or.inl (by norm_num))
  · exact h.not_collinear_halving_1
  · simp [Dictionary_entry.has_motorcycle_between, eH1, motorcycle0]
  · have h1 := h.t0X_pos.le
    have h2 : c.t0X ≤ _ := le_refl _
    simp [Dictionary_entry.has_motorcycle_between, eX, motorcycle0, h1, h2, List.find?]

/-- Motorcycle `1` at its halving point, motorcycle `0` at the stage `crossing`: the
crossing, which is the closest target, is found again. -/
theorem find_collision_halving_1_crossing (S : Services) (c : Crossing) (h : c.valid S)
    (p0 p1 : Stage) :
    find_collision S (c.state S p0 p1 .crossing .halving []) (c.motorcycle1 true .halving) =
      some (record_at_target (some 4, c.t1X) 0 c.t0X) := by
  have hd := h.det_ne
  have h_nd : (c.H1.1, c.H1.2.1) ≠ (c.X.1, c.X.2.1) := by
    rw [h1_eq, x_eq]
    exact c.pt_ne hd _ _ _ _ (Or.inr (by norm_num))
  have h_lt : c.t1X < S.FT_max := lt_trans h.t1X_lt h.tD1_lt
  have h_in := c.in_one_face_state S p0 p1 .crossing .halving [] (by simp)
  refine find_collision_of S (c.state S p0 p1 .crossing .halving []) (c.motorcycle1 true .halving) (some 4, c.t1X) (c.eH1 S p1.reached_halving)
    (c.eX S (p0.reached_crossing || p1.reached_crossing)) _ _ _ rfl rfl rfl rfl rfl h_nd
    (search_loop_nil _ _) rfl ?_ rfl
    (h_in.no_foreign_collision S _ _ (some 4, c.t1X) _ _ rfl rfl rfl rfl
      h.inner_edge h.inner_halfedge)
  refine search_loop_two _ _ _ _ _ _ ?_ rfl
    (find_collision_with_live_motorcycle_self S _ _ _ _ _ rfl)
  refine (find_collision_with_live_motorcycle_eq S (c.state S p0 p1 .crossing .halving [])
    (c.motorcycle1 true .halving) _ (c.motorcycle0 true .crossing) _
    (c.eH1 S p1.reached_halving) _ (some 1, c.tD0) (by simp [motorcycle0, motorcycle1])
    rfl rfl rfl rfl rfl).trans ?_
  refine Eq.trans ?_ (find_collision_at_tentative_track_destination_ctor S (c.motorcycle1 true .halving)
      (c.motorcycle0 true .crossing) c.t0X (some 4, c.t1X) rfl h_lt)
  refine find_collision_between_tracks_at_target S (c.state S p0 p1 .crossing .halving [])
    (c.motorcycle1 true .halving) _ (c.motorcycle0 true .crossing) _ _ _ (some 4, c.t1X)
    (c.eH1 S p1.reached_halving) (c.eX S (p0.reached_crossing || p1.reached_crossing))
    (c.eS0 p0) (c.eD0) c.t0X rfl rfl rfl rfl rfl
    (by simp [motorcycle0, motorcycle1]) h_nd rfl ?_ ?_ ?_ ?_
  ·
    show c.s0 ≠ c.d0
    rw [d0_eq, s0_eq]
    have hko := h.k0_pos
    exact c.pt_ne hd _ _ _ _ (Or.inl (by linarith))
  · exact h.not_collinear_halving_1
  · simp [Dictionary_entry.has_motorcycle_between, eH1, motorcycle0]
  · have h1 := h.t0X_pos.le
    have h2 : c.t0X ≤ _ := h.t0X_lt.le
    simp [Dictionary_entry.has_motorcycle_between, eX, motorcycle0, h1, h2, List.find?]

/-- Motorcycle `1` at its halving point, motorcycle `0` arrived: the crossing is found
again, on the confirmed track of motorcycle `0`. -/
theorem find_collision_halving_1_arrived (S : Services) (c : Crossing) (h : c.valid S)
    (p0 p1 : Stage) :
    find_collision S (c.state S p0 p1 .arrived .halving [(some c.fd, [c.arrived0])]) (c.motorcycle1 true .halving) =
      some (record_at_target (some 4, c.t1X) 0 c.t0X) := by
  have hd := h.det_ne
  have h_nd : (c.H1.1, c.H1.2.1) ≠ (c.X.1, c.X.2.1) := by
    rw [h1_eq, x_eq]
    exact c.pt_ne hd _ _ _ _ (Or.inr (by norm_num))
  have h_lt : c.t1X < S.FT_max := lt_trans h.t1X_lt h.tD1_lt
  have h_in := c.in_one_face_state S p0 p1 .arrived .halving [(some c.fd, [c.arrived0])] (by simp)
  have h_tracks : Motorcycle_graph.tracks_of_face (c.state S p0 p1 .arrived .halving [(some c.fd, [c.arrived0])])
      (c.eH1 S p1.reached_halving).location.1 = [c.arrived0] := by
    simp [Motorcycle_graph.tracks_of_face, state, eH1]
  refine find_collision_of S (c.state S p0 p1 .arrived .halving [(some c.fd, [c.arrived0])]) (c.motorcycle1 true .halving) (some 4, c.t1X) (c.eH1 S p1.reached_halving)
    (c.eX S (p0.reached_crossing || p1.reached_crossing)) (record_at_target (some 4, c.t1X) 0 c.t0X) _ _ rfl rfl rfl rfl rfl h_nd
    ?_ rfl ?_ rfl
    (h_in.no_foreign_collision S _ _ (some 4, c.t1X) _ _ rfl rfl rfl rfl
      h.inner_edge h.inner_halfedge)
  · rw [h_tracks]
    refine search_loop_one _ _ _ _ ?_
    refine (find_collision_with_complete_track_eq S (c.state S p0 p1 .arrived .halving [(some c.fd, [c.arrived0])])
      (c.motorcycle1 true .halving) _ c.arrived0 (c.motorcycle0 true .arrived) _ rfl).trans ?_
    refine Eq.trans ?_ (find_collision_at_tentative_track_destination_ctor S (c.motorcycle1 true .halving)
        (c.motorcycle0 true .arrived) c.t0X (some 4, c.t1X) rfl h_lt)
    refine find_collision_between_tracks_at_target S (c.state S p0 p1 .arrived .halving [(some c.fd, [c.arrived0])])
      (c.motorcycle1 true .halving) _ (c.motorcycle0 true .arrived) _ _ _ (some 4, c.t1X)
      (c.eH1 S p1.reached_halving) (c.eX S (p0.reached_crossing || p1.reached_crossing))
      (c.eS0 p0) (c.eD0) c.t0X rfl rfl rfl rfl rfl
      (by simp [motorcycle0, motorcycle1]) h_nd rfl ?_ ?_ ?_ ?_
    ·
      show c.s0 ≠ c.d0
      rw [d0_eq, s0_eq]
      have hko := h.k0_pos
      exact c.pt_ne hd _ _ _ _ (Or.inl (by linarith))
    · exact h.not_collinear_halving_1
    · simp [Dictionary_entry.has_motorcycle_between, eH1, motorcycle0]
    · have h1 := h.t0X_pos.le
      have h2 := h.t0X_lt.le
      simp [Dictionary_entry.has_motorcycle_between, eX, motorcycle0, arrived0, h1, h2,
        List.find?]
  · refine search_loop_two _ _ _ _ _ _
      (find_collision_with_live_motorcycle_crashed S _ _ _ _ _ _ _ rfl rfl rfl) rfl
      (find_collision_with_live_motorcycle_self S _ _ _ _ _ rfl)

/-- Motorcycle `1` at the crossing, motorcycle `0` at its source: nothing is found. -/
theorem find_collision_crossing_1_source (S : Services) (c : Crossing) (h : c.valid S)
    (p0 p1 : Stage) :
    find_collision S (c.state S p0 p1 .source .crossing []) (c.motorcycle1 true .crossing) =
      some (Collision_information.ctor S.FT_max c.tD1) := by
  have hd := h.det_ne
  have hk := h.k1_pos
  have h_nd : (c.X.1, c.X.2.1) ≠ c.d1 := by
    rw [d1_eq, x_eq]
    exact c.pt_ne hd _ _ _ _ (Or.inr (ne_of_lt hk))
  have h_in := c.in_one_face_state S p0 p1 .source .crossing [] (by simp)
  refine find_collision_of S (c.state S p0 p1 .source .crossing []) (c.motorcycle1 true .crossing) (some 3, c.tD1) (c.eX S (p0.reached_crossing || p1.reached_crossing))
    (c.eD1) _ _ _ rfl rfl rfl rfl rfl h_nd
    (search_loop_nil _ _) rfl ?_ rfl
    (h_in.no_foreign_collision S _ _ (some 3, c.tD1) _ _ rfl rfl
      rfl rfl h.inner_edge h.inner_halfedge)
  refine search_loop_two _ _ _ _ _ _ ?_ rfl
    (find_collision_with_live_motorcycle_self S _ _ _ _ _ rfl)
  refine (find_collision_with_live_motorcycle_eq S (c.state S p0 p1 .source .crossing [])
    (c.motorcycle1 true .crossing) _ (c.motorcycle0 true .source) _
    (c.eX S (p0.reached_crossing || p1.reached_crossing)) (c.eS0 p0) (some 6, c.h0) (by simp [motorcycle0, motorcycle1])
    rfl rfl rfl rfl rfl).trans ?_
  refine find_collision_between_tracks_apart S (c.state S p0 p1 .source .crossing [])
    (c.motorcycle1 true .crossing) _ (c.motorcycle0 true .source) _ _ _ (some 3, c.tD1)
    (c.eX S (p0.reached_crossing || p1.reached_crossing)) (c.eD1)
    (c.eS0 p0) (c.eH0 S p0.reached_halving) rfl rfl rfl rfl rfl
    (by simp [motorcycle0, motorcycle1]) h_nd rfl ?_ ?_ ?_ ?_
    (by simp [motorcycle0, motorcycle1]) (by simp [motorcycle0, motorcycle1]) (by simp [motorcycle0, motorcycle1]) (by simp [motorcycle0, motorcycle1])
    ?_ ?_ ?_ ?_
  ·
    show c.s0 ≠ (c.H0.1, c.H0.2.1)
    rw [h0_eq, s0_eq]
    exact c.pt_ne hd _ _ _ _ (Or.inl (by norm_num))
  · exact h.not_collinear_crossing_1
  · have := h.h0_lt
    simp [Dictionary_entry.has_motorcycle_between, eX, motorcycle0, this]
  · simp [Dictionary_entry.has_motorcycle_between, eD1, motorcycle0]
  · exact h.alc_of_inside S c _ _ _ (Or.inr (Or.inr h.which_H0))
  · exact h.alc_of_inside S c _ _ _ (Or.inl h.which_H0)
  · exact h.alc_of_inside S c _ _ _ (Or.inr (Or.inr h.which_X))
  · exact h.do_intersect_crossing_1

/-- Motorcycle `1` at the crossing, motorcycle `0` at its halving point: the crossing
is the current position, and nothing is found. -/
theorem find_collision_crossing_1_halving (S : Services) (c : Crossing) (h : c.valid S)
    (p0 p1 : Stage) :
    find_collision S (c.state S p0 p1 .halving .crossing []) (c.motorcycle1 true .crossing) =
      some (Collision_information.ctor S.FT_max c.tD1) := by
  have hd := h.det_ne
  have hk := h.k1_pos
  have h_nd : (c.X.1, c.X.2.1) ≠ c.d1 := by
    rw [d1_eq, x_eq]
    exact c.pt_ne hd _ _ _ _ (Or.inr (ne_of_lt hk))
  have h_in := c.in_one_face_state S p0 p1 .halving .crossing [] (by simp)
  refine find_collision_of S (c.state S p0 p1 .halving .crossing []) (c.motorcycle1 true .crossing) (some 3, c.tD1) (c.eX S (p0.reached_crossing || p1.reached_crossing))
    (c.eD1) _ _ _ rfl rfl rfl rfl rfl h_nd
    (search_loop_nil _ _) rfl ?_ rfl
    (h_in.no_foreign_collision S _ _ (some 3, c.tD1) _ _ rfl rfl
      rfl rfl h.inner_edge h.inner_halfedge)
  refine search_loop_two _ _ _ _ _ _ ?_ rfl
    (find_collision_with_live_motorcycle_self S _ _ _ _ _ rfl)
  refine (find_collision_with_live_motorcycle_eq S (c.state S p0 p1 .halving .crossing [])
    (c.motorcycle1 true .crossing) _ (c.motorcycle0 true .halving) _
    (c.eX S (p0.reached_crossing || p1.reached_crossing)) _ (some 4, c.t0X) (by simp [motorcycle0, motorcycle1])
    rfl rfl rfl rfl rfl).trans ?_
  refine find_collision_between_tracks_at_position S (c.state S p0 p1 .halving .crossing [])
    (c.motorcycle1 true .crossing) _ (c.motorcycle0 true .halving) _ _ _ (some 3, c.tD1)
    (c.eX S (p0.reached_crossing || p1.reached_crossing)) (c.eD1)
    (c.eS0 p0) (c.eX S (p0.reached_crossing || p1.reached_crossing)) c.t0X rfl rfl rfl rfl rfl
    (by simp [motorcycle0, motorcycle1]) h_nd rfl ?_ ?_ ?_
  ·
    show c.s0 ≠ (c.X.1, c.X.2.1)
    rw [x_eq, s0_eq]
    exact c.pt_ne hd _ _ _ _ (Or.inl (by norm_num))
  · exact h.not_collinear_crossing_1
  · have h1 := h.t0X_pos.le
    simp [Dictionary_entry.has_motorcycle_between, eX, motorcycle0, h1, List.find?]


/-- Motorcycle `0` is driven from its source to its halving point, motorcycle `1` being at
the stage `source`. -/
theorem step_halving_0_source (S : Services) (c : Crossing) (h : c.valid S) (tracer : Tracer)
    (h_top : (c.state S .source .source .source .source []).pq_top = some 0) :
    trace_graph_step S tracer (c.state S .source .source .source .source []) =
      some (c.state S .halving .source .halving .source []) := by
  rw [trace_graph_step_continue S tracer (c.state S .source .source .source .source []) 0
    (c.motorcycle0 true .source) (c.motorcycle0 true .halving) (some c.fd, c.H0) false h_top
    rfl rfl (by simp [motorcycle0])
    (has_motorcycle_reached_crashing_point_free _ _ (c.eH0 S false) c.h0 rfl
      (by simp [eH0, motorcycle0]) rfl rfl (lt_irrefl _)) rfl rfl]
  exact trace_graph_continue_of S (c.state S .source .source .halving .source [])
    (c.state S .source .source .halving .source []) 0 (c.motorcycle0 true .halving)
    (c.motorcycle0 true .halving) _ (c.find_collision_halving_0_source S h _ _) rfl rfl rfl rfl

/-- Motorcycle `0` is driven from its source to its halving point, motorcycle `1` being at
the stage `halving`. -/
theorem step_halving_0_halving (S : Services) (c : Crossing) (h : c.valid S) (tracer : Tracer)
    (h_top : (c.state S .source .halving .source .halving []).pq_top = some 0) :
    trace_graph_step S tracer (c.state S .source .halving .source .halving []) =
      some (c.state S .halving .halving .halving .halving []) := by
  rw [trace_graph_step_continue S tracer (c.state S .source .halving .source .halving []) 0
    (c.motorcycle0 true .source) (c.motorcycle0 true .halving) (some c.fd, c.H0) false h_top
    rfl rfl (by simp [motorcycle0])
    (has_motorcycle_reached_crashing_point_free _ _ (c.eH0 S false) c.h0 rfl
      (by simp [eH0, motorcycle0]) rfl rfl (lt_irrefl _)) rfl rfl]
  refine trace_graph_continue_of S (c.state S .source .halving .halving .halving [])
    (c.state S .source .halving .halving .halving []) 0 (c.motorcycle0 true .halving)
    (c.motorcycle0 true .halving) _ (c.find_collision_halving_0_halving S h _ _) rfl ?_ rfl rfl
  refine Eq.trans (if_pos rfl) ?_
  refine treat_collision_info_known S _ 0 (c.motorcycle0 true .halving)
    (c.motorcycle1 true .halving) _ (some 4, c.t0X) (c.eH0 S false) (c.eX S false)
    rfl rfl rfl rfl rfl rfl (by simp [eH0, null_face]) rfl rfl rfl rfl
    (by simp [motorcycle0, size_t_minus_one]) (by simp [motorcycle1, size_t_minus_one])
    (h.h0_lt S c).le ?_
  simp [Dictionary_entry.has_motorcycle_at, eX, motorcycle1, record_at_target]

/-- Motorcycle `0` is driven from its source to its halving point, motorcycle `1` being at
the stage `crossing`. -/
theorem step_halving_0_crossing (S : Services) (c : Crossing) (h : c.valid S) (tracer : Tracer)
    (h_top : (c.state S .source .crossing .source .crossing []).pq_top = some 0) :
    trace_graph_step S tracer (c.state S .source .crossing .source .crossing []) =
      some (c.state S .halving .crossing .halving .crossing []) := by
  rw [trace_graph_step_continue S tracer (c.state S .source .crossing .source .crossing []) 0
    (c.motorcycle0 true .source) (c.motorcycle0 true .halving) (some c.fd, c.H0) false h_top
    rfl rfl (by simp [motorcycle0])
    (has_motorcycle_reached_crashing_point_free _ _ (c.eH0 S false) c.h0 rfl
      (by simp [eH0, motorcycle0]) rfl rfl (lt_irrefl _)) rfl rfl]
  refine trace_graph_continue_of S (c.state S .source .crossing .halving .crossing [])
    (c.state S .source .crossing .halving .crossing []) 0 (c.motorcycle0 true .halving)
    (c.motorcycle0 true .halving) _ (c.find_collision_halving_0_crossing S h _ _) rfl ?_ rfl rfl
  refine Eq.trans (if_pos rfl) ?_
  refine treat_collision_info_known S _ 0 (c.motorcycle0 true .halving)
    (c.motorcycle1 true .crossing) _ (some 4, c.t0X) (c.eH0 S false) (c.eX S true)
    rfl rfl rfl rfl rfl rfl (by simp [eH0, null_face]) rfl rfl rfl rfl
    (by simp [motorcycle0, size_t_minus_one]) (by simp [motorcycle1, size_t_minus_one])
    (h.h0_lt S c).le ?_
  simp [Dictionary_entry.has_motorcycle_at, eX, motorcycle1, record_at_target]

/-- Motorcycle `0` is driven from its source to its halving point, motorcycle `1` being at
the stage `arrived`. -/
theorem step_halving_0_arrived (S : Services) (c : Crossing) (h : c.valid S) (tracer : Tracer)
    (h_top : (c.state S .source .arrived .source .arrived [(some c.fd, [c.arrived1])]).pq_top = some 0) :
    trace_graph_step S tracer (c.state S .source .arrived .source .arrived [(some c.fd, [c.arrived1])]) =
      some (c.state S .halving .arrived .halving .arrived [(some c.fd, [c.arrived1])]) := by
  rw [trace_graph_step_continue S tracer (c.state S .source .arrived .source .arrived [(some c.fd, [c.arrived1])]) 0
    (c.motorcycle0 true .source) (c.motorcycle0 true .halving) (some c.fd, c.H0) false h_top
    rfl rfl (by simp [motorcycle0])
    (has_motorcycle_reached_crashing_point_free _ _ (c.eH0 S false) c.h0 rfl
      (by simp [eH0, motorcycle0]) rfl rfl (lt_irrefl _)) rfl rfl]
  refine trace_graph_continue_of S (c.state S .source .arrived .halving .arrived [(some c.fd, [c.arrived1])])
    (c.state S .source .arrived .halving .arrived [(some c.fd, [c.arrived1])]) 0 (c.motorcycle0 true .halving)
    (c.motorcycle0 true .halving) _ (c.find_collision_halving_0_arrived S h _ _) rfl ?_ rfl rfl
  refine Eq.trans (if_pos rfl) ?_
  refine treat_collision_info_known S _ 0 (c.motorcycle0 true .halving)
    (c.motorcycle1 true .arrived) _ (some 4, c.t0X) (c.eH0 S false) (c.eX S true)
    rfl rfl rfl rfl rfl rfl (by simp [eH0, null_face]) rfl rfl rfl rfl
    (by simp [motorcycle0, size_t_minus_one]) (by simp [motorcycle1, size_t_minus_one])
    (h.h0_lt S c).le ?_
  simp [Dictionary_entry.has_motorcycle_at, eX, motorcycle1, record_at_target]

/-- Motorcycle `0` is driven from its halving point to the crossing, which it is the first
to reach, motorcycle `1` being at the stage `source`. -/
theorem step_crossing_0_source (S : Services) (c : Crossing) (h : c.valid S) (tracer : Tracer)
    (h_lt : c.t0X < c.t1X)
    (h_top : (c.state S .halving .source .halving .source []).pq_top = some 0) :
    trace_graph_step S tracer (c.state S .halving .source .halving .source []) =
      some (c.state S .crossing .source .crossing .source []) := by
  rw [trace_graph_step_continue S tracer (c.state S .halving .source .halving .source []) 0
    (c.motorcycle0 true .halving) (c.motorcycle0 true .crossing) (some c.fd, c.X) false h_top
    rfl rfl (by simp [motorcycle0])
    (has_motorcycle_reached_crashing_point_free _ _ (c.eX S false) (min c.t1X c.t0X) rfl
      (by simp [eX, motorcycle0, ne_of_gt h_lt]) rfl rfl
      (not_lt.mpr (le_min h_lt.le (le_refl _)))) rfl rfl]
  exact trace_graph_continue_of S (c.state S .halving .source .crossing .source [])
    (c.state S .halving .source .crossing .source []) 0 (c.motorcycle0 true .crossing)
    (c.motorcycle0 true .crossing) _ (c.find_collision_crossing_0_source S h _ _) rfl rfl rfl rfl

/-- Motorcycle `0` is driven from its halving point to the crossing, which it is the first
to reach, motorcycle `1` being at the stage `halving`. -/
theorem step_crossing_0_halving (S : Services) (c : Crossing) (h : c.valid S) (tracer : Tracer)
    (h_lt : c.t0X < c.t1X)
    (h_top : (c.state S .halving .halving .halving .halving []).pq_top = some 0) :
    trace_graph_step S tracer (c.state S .halving .halving .halving .halving []) =
      some (c.state S .crossing .halving .crossing .halving []) := by
  rw [trace_graph_step_continue S tracer (c.state S .halving .halving .halving .halving []) 0
    (c.motorcycle0 true .halving) (c.motorcycle0 true .crossing) (some c.fd, c.X) false h_top
    rfl rfl (by simp [motorcycle0])
    (has_motorcycle_reached_crashing_point_free _ _ (c.eX S false) (min c.t1X c.t0X) rfl
      (by simp [eX, motorcycle0, ne_of_gt h_lt]) rfl rfl
      (not_lt.mpr (le_min h_lt.le (le_refl _)))) rfl rfl]
  exact trace_graph_continue_of S (c.state S .halving .halving .crossing .halving [])
    (c.state S .halving .halving .crossing .halving []) 0 (c.motorcycle0 true .crossing)
    (c.motorcycle0 true .crossing) _ (c.find_collision_crossing_0_halving S h _ _) rfl rfl rfl rfl

/-- Motorcycle `0` is driven from the crossing to its destination, motorcycle `1` being at
the stage `source`. -/
theorem step_arrived_0_source (S : Services) (c : Crossing) (h : c.valid S) (tracer : Tracer)
    (h_top : (c.state S .crossing .source .crossing .source []).pq_top = some 0) :
    trace_graph_step S tracer (c.state S .crossing .source .crossing .source []) =
      some (c.state S .arrived .source .arrived .source [(some c.fd, [c.arrived0])]) := by
  have h_le : (0 : FT) ≤ c.tD0 := le_trans h.t0X_pos.le h.t0X_lt.le
  rw [trace_graph_step_arrive S tracer (c.state S .crossing .source .crossing .source [])
    { (c.state S .crossing .source .crossing .source []).set_motorcycle 0
        { c.motorcycle0 true .arrived with crashed := false } with
      track_face_map := [(some c.fd, [c.arrived0])] } 0
    (c.motorcycle0 true .crossing)
    { c.motorcycle0 true .arrived with crashed := false } (some c.fd, c.D0) h_top rfl rfl rfl rfl
    rfl
    (add_track_segment_to_map_first
      ((c.state S .crossing .source .crossing .source []).set_motorcycle 0
        { c.motorcycle0 true .arrived with crashed := false })
      (some c.fd) 0 (some 0) 0 (some 1) c.tD0 (c.eS0 .crossing) c.eD0
      rfl rfl rfl rfl (by show 0 < 2; norm_num) h_le rfl)]
  rfl

/-- Motorcycle `0` is driven from the crossing to its destination, motorcycle `1` being at
the stage `halving`. -/
theorem step_arrived_0_halving (S : Services) (c : Crossing) (h : c.valid S) (tracer : Tracer)
    (h_top : (c.state S .crossing .halving .crossing .halving []).pq_top = some 0) :
    trace_graph_step S tracer (c.state S .crossing .halving .crossing .halving []) =
      some (c.state S .arrived .halving .arrived .halving [(some c.fd, [c.arrived0])]) := by
  have h_le : (0 : FT) ≤ c.tD0 := le_trans h.t0X_pos.le h.t0X_lt.le
  rw [trace_graph_step_arrive S tracer (c.state S .crossing .halving .crossing .halving [])
    { (c.state S .crossing .halving .crossing .halving []).set_motorcycle 0
        { c.motorcycle0 true .arrived with crashed := false } with
      track_face_map := [(some c.fd, [c.arrived0])] } 0
    (c.motorcycle0 true .crossing)
    { c.motorcycle0 true .arrived with crashed := false } (some c.fd, c.D0) h_top rfl rfl rfl rfl
    rfl
    (add_track_segment_to_map_first
      ((c.state S .crossing .halving .crossing .halving []).set_motorcycle 0
        { c.motorcycle0 true .arrived with crashed := false })
      (some c.fd) 0 (some 0) 0 (some 1) c.tD0 (c.eS0 .crossing) c.eD0
      rfl rfl rfl rfl (by show 0 < 2; norm_num) h_le rfl)]
  rfl

/-- Motorcycle `0` is driven from the crossing to its destination, motorcycle `1` being at
the stage `crashed`. -/
theorem step_arrived_0_crashed (S : Services) (c : Crossing) (h : c.valid S) (tracer : Tracer)
    (h_top : (c.state S .crossing .crashed .crossing .crashed [(some c.fd, [c.crashed1])]).pq_top = some 0) :
    trace_graph_step S tracer (c.state S .crossing .crashed .crossing .crashed [(some c.fd, [c.crashed1])]) =
      some (c.state S .arrived .crashed .arrived .crashed [(some c.fd, [c.crashed1, c.arrived0])]) := by
  have h_le : (0 : FT) ≤ c.tD0 := le_trans h.t0X_pos.le h.t0X_lt.le
  rw [trace_graph_step_arrive S tracer (c.state S .crossing .crashed .crossing .crashed [(some c.fd, [c.crashed1])])
    { (c.state S .crossing .crashed .crossing .crashed [(some c.fd, [c.crashed1])]).set_motorcycle 0
        { c.motorcycle0 true .arrived with crashed := false } with
      track_face_map := [(some c.fd, [c.crashed1, c.arrived0])] } 0
    (c.motorcycle0 true .crossing)
    { c.motorcycle0 true .arrived with crashed := false } (some c.fd, c.D0) h_top rfl rfl rfl rfl
    rfl
    (add_track_segment_to_map_next
      ((c.state S .crossing .crashed .crossing .crashed [(some c.fd, [c.crashed1])]).set_motorcycle 0
        { c.motorcycle0 true .arrived with crashed := false })
      (some c.fd) 0 (some 0) 0 (some 1) c.tD0 (c.eS0 .crossing) c.eD0 [c.crashed1]
      rfl rfl rfl rfl (by show 0 < 2; norm_num) h_le rfl)]
  rfl

/-- Motorcycle `0` is driven from its halving point to the crossing, which motorcycle `1`
(at the stage `crossing`) has reached before: it crashes. -/
theorem step_crashed_0_crossing (S : Services) (c : Crossing) (h : c.valid S) (tracer : Tracer)
    (h_lt : c.t1X < c.t0X)
    (h_top : (c.state S .halving .crossing .halving .crossing []).pq_top = some 0) :
    trace_graph_step S tracer (c.state S .halving .crossing .halving .crossing []) =
      some (c.state S .crashed .crossing .crashed .crossing [(some c.fd, [c.crashed0])]) := by
  rw [trace_graph_step_crash S tracer (c.state S .halving .crossing .halving .crossing []) 0
    (c.motorcycle0 true .halving) (c.motorcycle0 true .crossing) (some c.fd, c.X) h_top
    rfl rfl (by simp [motorcycle0])
    (has_motorcycle_reached_crashing_point_blocked _ _ (c.eX S true) rfl
      (by simp [eX, motorcycle0, ne_of_lt h_lt]) rfl) rfl (ne_of_gt h.t0X_pos)]
  refine Eq.trans (congrArg _ (add_track_segment_to_map_first
    ((c.state S .halving .crossing .halving .crossing []).set_motorcycle 0
      (c.motorcycle0 true .crossing))
    (some c.fd) 0 (some 0) 0 (some 4) c.t0X (c.eS0 .halving) (c.eX S true)
    rfl rfl rfl rfl (by show 0 < 2; norm_num) h.t0X_pos.le rfl)) ?_
  rfl

/-- Motorcycle `0` is driven from its halving point to the crossing, which motorcycle `1`
(at the stage `arrived`) has reached before: it crashes. -/
theorem step_crashed_0_arrived (S : Services) (c : Crossing) (h : c.valid S) (tracer : Tracer)
    (h_lt : c.t1X < c.t0X)
    (h_top : (c.state S .halving .arrived .halving .arrived [(some c.fd, [c.arrived1])]).pq_top = some 0) :
    trace_graph_step S tracer (c.state S .halving .arrived .halving .arrived [(some c.fd, [c.arrived1])]) =
      some (c.state S .crashed .arrived .crashed .arrived [(some c.fd, [c.arrived1, c.crashed0])]) := by
  rw [trace_graph_step_crash S tracer (c.state S .halving .arrived .halving .arrived [(some c.fd, [c.arrived1])]) 0
    (c.motorcycle0 true .halving) (c.motorcycle0 true .crossing) (some c.fd, c.X) h_top
    rfl rfl (by simp [motorcycle0])
    (has_motorcycle_reached_crashing_point_blocked _ _ (c.eX S true) rfl
      (by simp [eX, motorcycle0, ne_of_lt h_lt]) rfl) rfl (ne_of_gt h.t0X_pos)]
  refine Eq.trans (congrArg _ (add_track_segment_to_map_next
    ((c.state S .halving .arrived .halving .arrived [(some c.fd, [c.arrived1])]).set_motorcycle 0
      (c.motorcycle0 true .crossing))
    (some c.fd) 0 (some 0) 0 (some 4) c.t0X (c.eS0 .halving) (c.eX S true) [c.arrived1]
    rfl rfl rfl rfl (by show 0 < 2; norm_num) h.t0X_pos.le rfl)) ?_
  rfl

/-- Motorcycle `1` is driven from its source to its halving point, motorcycle `0` being at
the stage `source`. -/
theorem step_halving_1_source (S : Services) (c : Crossing) (h : c.valid S) (tracer : Tracer)
    (h_top : (c.state S .source .source .source .source []).pq_top = some 1) :
    trace_graph_step S tracer (c.state S .source .source .source .source []) =
      some (c.state S .source .halving .source .halving []) := by
  rw [trace_graph_step_continue S tracer (c.state S .source .source .source .source []) 1
    (c.motorcycle1 true .source) (c.motorcycle1 true .halving) (some c.fd, c.H1) false h_top
    rfl rfl (by simp [motorcycle1])
    (has_motorcycle_reached_crashing_point_free _ _ (c.eH1 S false) c.h1 rfl
      (by simp [eH1, motorcycle1]) rfl rfl (lt_irrefl _)) rfl rfl]
  exact trace_graph_continue_of S (c.state S .source .source .source .halving [])
    (c.state S .source .source .source .halving []) 1 (c.motorcycle1 true .halving)
    (c.motorcycle1 true .halving) _ (c.find_collision_halving_1_source S h _ _) rfl rfl rfl rfl

/-- Motorcycle `1` is driven from its source to its halving point, motorcycle `0` being at
the stage `halving`. -/
theorem step_halving_1_halving (S : Services) (c : Crossing) (h : c.valid S) (tracer : Tracer)
    (h_top : (c.state S .halving .source .halving .source []).pq_top = some 1) :
    trace_graph_step S tracer (c.state S .halving .source .halving .source []) =
      some (c.state S .halving .halving .halving .halving []) := by
  rw [trace_graph_step_continue S tracer (c.state S .halving .source .halving .source []) 1
    (c.motorcycle1 true .source) (c.motorcycle1 true .halving) (some c.fd, c.H1) false h_top
    rfl rfl (by simp [motorcycle1])
    (has_motorcycle_reached_crashing_point_free _ _ (c.eH1 S false) c.h1 rfl
      (by simp [eH1, motorcycle1]) rfl rfl (lt_irrefl _)) rfl rfl]
  refine trace_graph_continue_of S (c.state S .halving .source .halving .halving [])
    (c.state S .halving .source .halving .halving []) 1 (c.motorcycle1 true .halving)
    (c.motorcycle1 true .halving) _ (c.find_collision_halving_1_halving S h _ _) rfl ?_ rfl rfl
  refine Eq.trans (if_pos rfl) ?_
  refine treat_collision_info_known S _ 1 (c.motorcycle1 true .halving)
    (c.motorcycle0 true .halving) _ (some 4, c.t1X) (c.eH1 S false) (c.eX S false)
    rfl rfl rfl rfl rfl rfl (by simp [eH1, null_face]) rfl rfl rfl rfl
    (by simp [motorcycle1, size_t_minus_one]) (by simp [motorcycle0, size_t_minus_one])
    (h.h1_lt S c).le ?_
  simp [Dictionary_entry.has_motorcycle_at, eX, motorcycle0, record_at_target]

/-- Motorcycle `1` is driven from its source to its halving point, motorcycle `0` being at
the stage `crossing`. -/
theorem step_halving_1_crossing (S : Services) (c : Crossing) (h : c.valid S) (tracer : Tracer)
    (h_top : (c.state S .crossing .source .crossing .source []).pq_top = some 1) :
    trace_graph_step S tracer (c.state S .crossing .source .crossing .source []) =
      some (c.state S .crossing .halving .crossing .halving []) := by
  rw [trace_graph_step_continue S tracer (c.state S .crossing .source .crossing .source []) 1
    (c.motorcycle1 true .source) (c.motorcycle1 true .halving) (some c.fd, c.H1) false h_top
    rfl rfl (by simp [motorcycle1])
    (has_motorcycle_reached_crashing_point_free _ _ (c.eH1 S false) c.h1 rfl
      (by simp [eH1, motorcycle1]) rfl rfl (lt_irrefl _)) rfl rfl]
  refine trace_graph_continue_of S (c.state S .crossing .source .crossing .halving [])
    (c.state S .crossing .source .crossing .halving []) 1 (c.motorcycle1 true .halving)
    (c.motorcycle1 true .halving) _ (c.find_collision_halving_1_crossing S h _ _) rfl ?_ rfl rfl
  refine Eq.trans (if_pos rfl) ?_
  refine treat_collision_info_known S _ 1 (c.motorcycle1 true .halving)
    (c.motorcycle0 true .crossing) _ (some 4, c.t1X) (c.eH1 S false) (c.eX S true)
    rfl rfl rfl rfl rfl rfl (by simp [eH1, null_face]) rfl rfl rfl rfl
    (by simp [motorcycle1, size_t_minus_one]) (by simp [motorcycle0, size_t_minus_one])
    (h.h1_lt S c).le ?_
  simp [Dictionary_entry.has_motorcycle_at, eX, motorcycle0, record_at_target]

/-- Motorcycle `1` is driven from its source to its halving point, motorcycle `0` being at
the stage `arrived`. -/
theorem step_halving_1_arrived (S : Services) (c : Crossing) (h : c.valid S) (tracer : Tracer)
    (h_top : (c.state S .arrived .source .arrived .source [(some c.fd, [c.arrived0])]).pq_top = some 1) :
    trace_graph_step S tracer (c.state S .arrived .source .arrived .source [(some c.fd, [c.arrived0])]) =
      some (c.state S .arrived .halving .arrived .halving [(some c.fd, [c.arrived0])]) := by
  rw [trace_graph_step_continue S tracer (c.state S .arrived .source .arrived .source [(some c.fd, [c.arrived0])]) 1
    (c.motorcycle1 true .source) (c.motorcycle1 true .halving) (some c.fd, c.H1) false h_top
    rfl rfl (by simp [motorcycle1])
    (has_motorcycle_reached_crashing_point_free _ _ (c.eH1 S false) c.h1 rfl
      (by simp [eH1, motorcycle1]) rfl rfl (lt_irrefl _)) rfl rfl]
  refine trace_graph_continue_of S (c.state S .arrived .source .arrived .halving [(some c.fd, [c.arrived0])])
    (c.state S .arrived .source .arrived .halving [(some c.fd, [c.arrived0])]) 1 (c.motorcycle1 true .halving)
    (c.motorcycle1 true .halving) _ (c.find_collision_halving_1_arrived S h _ _) rfl ?_ rfl rfl
  refine Eq.trans (if_pos rfl) ?_
  refine treat_collision_info_known S _ 1 (c.motorcycle1 true .halving)
    (c.motorcycle0 true .arrived) _ (some 4, c.t1X) (c.eH1 S false) (c.eX S true)
    rfl rfl rfl rfl rfl rfl (by simp [eH1, null_face]) rfl rfl rfl rfl
    (by simp [motorcycle1, size_t_minus_one]) (by simp [motorcycle0, size_t_minus_one])
    (h.h1_lt S c).le ?_
  simp [Dictionary_entry.has_motorcycle_at, eX, motorcycle0, record_at_target]

/-- Motorcycle `1` is driven from its halving point to the crossing, which it is the first
to reach, motorcycle `0` being at the stage `source`. -/
theorem step_crossing_1_source (S : Services) (c : Crossing) (h : c.valid S) (tracer : Tracer)
    (h_lt : c.t1X < c.t0X)
    (h_top : (c.state S .source .halving .source .halving []).pq_top = some 1) :
    trace_graph_step S tracer (c.state S .source .halving .source .halving []) =
      some (c.state S .source .crossing .source .crossing []) := by
  rw [trace_graph_step_continue S tracer (c.state S .source .halving .source .halving []) 1
    (c.motorcycle1 true .halving) (c.motorcycle1 true .crossing) (some c.fd, c.X) false h_top
    rfl rfl (by simp [motorcycle1])
    (has_motorcycle_reached_crashing_point_free _ _ (c.eX S false) (min c.t1X c.t0X) rfl
      (by simp [eX, motorcycle1, ne_of_gt h_lt]) rfl rfl
      (not_lt.mpr (le_min (le_refl _) h_lt.le))) rfl rfl]
  exact trace_graph_continue_of S (c.state S .source .halving .source .crossing [])
    (c.state S .source .halving .source .crossing []) 1 (c.motorcycle1 true .crossing)
    (c.motorcycle1 true .crossing) _ (c.find_collision_crossing_1_source S h _ _) rfl rfl rfl rfl

/-- Motorcycle `1` is driven from its halving point to the crossing, which it is the first
to reach, motorcycle `0` being at the stage `halving`. -/
theorem step_crossing_1_halving (S : Services) (c : Crossing) (h : c.valid S) (tracer : Tracer)
    (h_lt : c.t1X < c.t0X)
    (h_top : (c.state S .halving .halving .halving .halving []).pq_top = some 1) :
    trace_graph_step S tracer (c.state S .halving .halving .halving .halving []) =
      some (c.state S .halving .crossing .halving .crossing []) := by
  rw [trace_graph_step_continue S tracer (c.state S .halving .halving .halving .halving []) 1
    (c.motorcycle1 true .halving) (c.motorcycle1 true .crossing) (some c.fd, c.X) false h_top
    rfl rfl (by simp [motorcycle1])
    (has_motorcycle_reached_crashing_point_free _ _ (c.eX S false) (min c.t1X c.t0X) rfl
      (by simp [eX, motorcycle1, ne_of_gt h_lt]) rfl rfl
      (not_lt.mpr (le_min (le_refl _) h_lt.le))) rfl rfl]
  exact trace_graph_continue_of S (c.state S .halving .halving .halving .crossing [])
    (c.state S .halving .halving .halving .crossing []) 1 (c.motorcycle1 true .crossing)
    (c.motorcycle1 true .crossing) _ (c.find_collision_crossing_1_halving S h _ _) rfl rfl rfl rfl

/-- Motorcycle `1` is driven from the crossing to its destination, motorcycle `0` being at
the stage `source`. -/
theorem step_arrived_1_source (S : Services) (c : Crossing) (h : c.valid S) (tracer : Tracer)
    (h_top : (c.state S .source .crossing .source .crossing []).pq_top = some 1) :
    trace_graph_step S tracer (c.state S .source .crossing .source .crossing []) =
      some (c.state S .source .arrived .source .arrived [(some c.fd, [c.arrived1])]) := by
  have h_le : (0 : FT) ≤ c.tD1 := le_trans h.t1X_pos.le h.t1X_lt.le
  rw [trace_graph_step_arrive S tracer (c.state S .source .crossing .source .crossing [])
    { (c.state S .source .crossing .source .crossing []).set_motorcycle 1
        { c.motorcycle1 true .arrived with crashed := false } with
      track_face_map := [(some c.fd, [c.arrived1])] } 1
    (c.motorcycle1 true .crossing)
    { c.motorcycle1 true .arrived with crashed := false } (some c.fd, c.D1) h_top rfl rfl rfl rfl
    rfl
    (add_track_segment_to_map_first
      ((c.state S .source .crossing .source .crossing []).set_motorcycle 1
        { c.motorcycle1 true .arrived with crashed := false })
      (some c.fd) 1 (some 2) 0 (some 3) c.tD1 (c.eS1 .crossing) c.eD1
      rfl rfl rfl rfl (by show 1 < 2; norm_num) h_le rfl)]
  rfl

/-- Motorcycle `1` is driven from the crossing to its destination, motorcycle `0` being at
the stage `halving`. -/
theorem step_arrived_1_halving (S : Services) (c : Crossing) (h : c.valid S) (tracer : Tracer)
    (h_top : (c.state S .halving .crossing .halving .crossing []).pq_top = some 1) :
    trace_graph_step S tracer (c.state S .halving .crossing .halving .crossing []) =
      some (c.state S .halving .arrived .halving .arrived [(some c.fd, [c.arrived1])]) := by
  have h_le : (0 : FT) ≤ c.tD1 := le_trans h.t1X_pos.le h.t1X_lt.le
  rw [trace_graph_step_arrive S tracer (c.state S .halving .crossing .halving .crossing [])
    { (c.state S .halving .crossing .halving .crossing []).set_motorcycle 1
        { c.motorcycle1 true .arrived with crashed := false } with
      track_face_map := [(some c.fd, [c.arrived1])] } 1
    (c.motorcycle1 true .crossing)
    { c.motorcycle1 true .arrived with crashed := false } (some c.fd, c.D1) h_top rfl rfl rfl rfl
    rfl
    (add_track_segment_to_map_first
      ((c.state S .halving .crossing .halving .crossing []).set_motorcycle 1
        { c.motorcycle1 true .arrived with crashed := false })
      (some c.fd) 1 (some 2) 0 (some 3) c.tD1 (c.eS1 .crossing) c.eD1
      rfl rfl rfl rfl (by show 1 < 2; norm_num) h_le rfl)]
  rfl

/-- Motorcycle `1` is driven from the crossing to its destination, motorcycle `0` being at
the stage `crashed`. -/
theorem step_arrived_1_crashed (S : Services) (c : Crossing) (h : c.valid S) (tracer : Tracer)
    (h_top : (c.state S .crashed .crossing .crashed .crossing [(some c.fd, [c.crashed0])]).pq_top = some 1) :
    trace_graph_step S tracer (c.state S .crashed .crossing .crashed .crossing [(some c.fd, [c.crashed0])]) =
      some (c.state S .crashed .arrived .crashed .arrived [(some c.fd, [c.crashed0, c.arrived1])]) := by
  have h_le : (0 : FT) ≤ c.tD1 := le_trans h.t1X_pos.le h.t1X_lt.le
  rw [trace_graph_step_arrive S tracer (c.state S .crashed .crossing .crashed .crossing [(some c.fd, [c.crashed0])])
    { (c.state S .crashed .crossing .crashed .crossing [(some c.fd, [c.crashed0])]).set_motorcycle 1
        { c.motorcycle1 true .arrived with crashed := false } with
      track_face_map := [(some c.fd, [c.crashed0, c.arrived1])] } 1
    (c.motorcycle1 true .crossing)
    { c.motorcycle1 true .arrived with crashed := false } (some c.fd, c.D1) h_top rfl rfl rfl rfl
    rfl
    (add_track_segment_to_map_next
      ((c.state S .crashed .crossing .crashed .crossing [(some c.fd, [c.crashed0])]).set_motorcycle 1
        { c.motorcycle1 true .arrived with crashed := false })
      (some c.fd) 1 (some 2) 0 (some 3) c.tD1 (c.eS1 .crossing) c.eD1 [c.crashed0]
      rfl rfl rfl rfl (by show 1 < 2; norm_num) h_le rfl)]
  rfl

/-- Motorcycle `1` is driven from its halving point to the crossing, which motorcycle `0`
(at the stage `crossing`) has reached before: it crashes. -/
theorem step_crashed_1_crossing (S : Services) (c : Crossing) (h : c.valid S) (tracer : Tracer)
    (h_lt : c.t0X < c.t1X)
    (h_top : (c.state S .crossing .halving .crossing .halving []).pq_top = some 1) :
    trace_graph_step S tracer (c.state S .crossing .halving .crossing .halving []) =
      some (c.state S .crossing .crashed .crossing .crashed [(some c.fd, [c.crashed1])]) := by
  rw [trace_graph_step_crash S tracer (c.state S .crossing .halving .crossing .halving []) 1
    (c.motorcycle1 true .halving) (c.motorcycle1 true .crossing) (some c.fd, c.X) h_top
    rfl rfl (by simp [motorcycle1])
    (has_motorcycle_reached_crashing_point_blocked _ _ (c.eX S true) rfl
      (by simp [eX, motorcycle1, ne_of_lt h_lt]) rfl) rfl (ne_of_gt h.t1X_pos)]
  refine Eq.trans (congrArg _ (add_track_segment_to_map_first
    ((c.state S .crossing .halving .crossing .halving []).set_motorcycle 1
      (c.motorcycle1 true .crossing))
    (some c.fd) 1 (some 2) 0 (some 4) c.t1X (c.eS1 .halving) (c.eX S true)
    rfl rfl rfl rfl (by show 1 < 2; norm_num) h.t1X_pos.le rfl)) ?_
  rfl

/-- Motorcycle `1` is driven from its halving point to the crossing, which motorcycle `0`
(at the stage `arrived`) has reached before: it crashes. -/
theorem step_crashed_1_arrived (S : Services) (c : Crossing) (h : c.valid S) (tracer : Tracer)
    (h_lt : c.t0X < c.t1X)
    (h_top : (c.state S .arrived .halving .arrived .halving [(some c.fd, [c.arrived0])]).pq_top = some 1) :
    trace_graph_step S tracer (c.state S .arrived .halving .arrived .halving [(some c.fd, [c.arrived0])]) =
      some (c.state S .arrived .crashed .arrived .crashed [(some c.fd, [c.arrived0, c.crashed1])]) := by
  rw [trace_graph_step_crash S tracer (c.state S .arrived .halving .arrived .halving [(some c.fd, [c.arrived0])]) 1
    (c.motorcycle1 true .halving) (c.motorcycle1 true .crossing) (some c.fd, c.X) h_top
    rfl rfl (by simp [motorcycle1])
    (has_motorcycle_reached_crashing_point_blocked _ _ (c.eX S true) rfl
      (by simp [eX, motorcycle1, ne_of_lt h_lt]) rfl) rfl (ne_of_gt h.t1X_pos)]
  refine Eq.trans (congrArg _ (add_track_segment_to_map_next
    ((c.state S .arrived .halving .arrived .halving [(some c.fd, [c.arrived0])]).set_motorcycle 1
      (c.motorcycle1 true .crossing))
    (some c.fd) 1 (some 2) 0 (some 4) c.t1X (c.eS1 .halving) (c.eX S true) [c.arrived0]
    rfl rfl rfl rfl (by show 1 < 2; norm_num) h.t1X_pos.le rfl)) ?_
  rfl


/-! ### Distinct locations -/

theorem valid.S0_ne_X (S : Services) (c : Crossing) (h : c.valid S) : c.S0 ≠ c.X :=
  h.bc_ne S c (-1) 0 0 0 c.zS0 _ c.s0 (c.X.1, c.X.2.1) c.s0_eq c.x_eq (Or.inl (by norm_num))

theorem valid.D0_ne_X (S : Services) (c : Crossing) (h : c.valid S) : c.D0 ≠ c.X :=
  h.bc_ne S c c.k0 0 0 0 c.zD0 _ c.d0 (c.X.1, c.X.2.1) c.d0_eq c.x_eq
    (Or.inl (ne_of_gt h.k0_pos))

theorem valid.S1_ne_X (S : Services) (c : Crossing) (h : c.valid S) : c.S1 ≠ c.X :=
  h.bc_ne S c 0 (-1) 0 0 c.zS1 _ c.s1 (c.X.1, c.X.2.1) c.s1_eq c.x_eq (Or.inr (by norm_num))

theorem valid.D1_ne_X (S : Services) (c : Crossing) (h : c.valid S) : c.D1 ≠ c.X :=
  h.bc_ne S c 0 c.k1 0 0 c.zD1 _ c.d1 (c.X.1, c.X.2.1) c.d1_eq c.x_eq
    (Or.inr (ne_of_gt h.k1_pos))

theorem valid.S0_ne_H1 (S : Services) (c : Crossing) (h : c.valid S) : c.S0 ≠ c.H1 :=
  h.bc_ne S c (-1) 0 0 (-1/2) c.zS0 _ c.s0 (c.H1.1, c.H1.2.1) c.s0_eq c.h1_eq
    (Or.inl (by norm_num))

theorem valid.D0_ne_H1 (S : Services) (c : Crossing) (h : c.valid S) : c.D0 ≠ c.H1 :=
  h.bc_ne S c c.k0 0 0 (-1/2) c.zD0 _ c.d0 (c.H1.1, c.H1.2.1) c.d0_eq c.h1_eq
    (Or.inr (by norm_num))

theorem valid.S1_ne_H1 (S : Services) (c : Crossing) (h : c.valid S) : c.S1 ≠ c.H1 :=
  h.bc_ne S c 0 (-1) 0 (-1/2) c.zS1 _ c.s1 (c.H1.1, c.H1.2.1) c.s1_eq c.h1_eq
    (Or.inr (by norm_num))

theorem valid.D1_ne_H1 (S : Services) (c : Crossing) (h : c.valid S) : c.D1 ≠ c.H1 := by
  have hk := h.k1_pos
  exact h.bc_ne S c 0 c.k1 0 (-1/2) c.zD1 _ c.d1 (c.H1.1, c.H1.2.1) c.d1_eq c.h1_eq
    (Or.inr (by linarith))

theorem valid.X_ne_H1 (S : Services) (c : Crossing) (h : c.valid S) : c.X ≠ c.H1 :=
  h.bc_ne S c 0 0 0 (-1/2) _ _ (c.X.1, c.X.2.1) (c.H1.1, c.H1.2.1) c.x_eq c.h1_eq
    (Or.inr (by norm_num))

theorem valid.S0_ne_H0 (S : Services) (c : Crossing) (h : c.valid S) : c.S0 ≠ c.H0 :=
  h.bc_ne S c (-1) 0 (-1/2) 0 c.zS0 _ c.s0 (c.H0.1, c.H0.2.1) c.s0_eq c.h0_eq
    (Or.inl (by norm_num))

theorem valid.D0_ne_H0 (S : Services) (c : Crossing) (h : c.valid S) : c.D0 ≠ c.H0 := by
  have hk := h.k0_pos
  exact h.bc_ne S c c.k0 0 (-1/2) 0 c.zD0 _ c.d0 (c.H0.1, c.H0.2.1) c.d0_eq c.h0_eq
    (Or.inl (by linarith))

theorem valid.S1_ne_H0 (S : Services) (c : Crossing) (h : c.valid S) : c.S1 ≠ c.H0 :=
  h.bc_ne S c 0 (-1) (-1/2) 0 c.zS1 _ c.s1 (c.H0.1, c.H0.2.1) c.s1_eq c.h0_eq
    (Or.inl (by norm_num))

theorem valid.D1_ne_H0 (S : Services) (c : Crossing) (h : c.valid S) : c.D1 ≠ c.H0 :=
  h.bc_ne S c 0 c.k1 (-1/2) 0 c.zD1 _ c.d1 (c.H0.1, c.H0.2.1) c.d1_eq c.h0_eq
    (Or.inl (by norm_num))

theorem valid.X_ne_H0 (S : Services) (c : Crossing) (h : c.valid S) : c.X ≠ c.H0 :=
  h.bc_ne S c 0 0 (-1/2) 0 _ _ (c.X.1, c.X.2.1) (c.H0.1, c.H0.2.1) c.x_eq c.h0_eq
    (Or.inl (by norm_num))

theorem valid.H1_ne_H0 (S : Services) (c : Crossing) (h : c.valid S) : c.H1 ≠ c.H0 :=
  h.bc_ne S c 0 (-1/2) (-1/2) 0 _ _ (c.H1.1, c.H1.2.1) (c.H0.1, c.H0.2.1) c.h1_eq c.h0_eq
    (Or.inl (by norm_num))

/-! ### The first two steps -/

theorem in_one_face_state_before (c : Crossing) (p0 p1 : Stage) (f0 f1 : Bool) :
    in_one_face (c.state_before p0 p1 (if f0 then .source else .initial)
      (if f1 then .source else .initial)) c.fd := by
  refine ⟨?_, by simp [state_before]⟩
  intro m hm
  simp only [state_before, List.mem_cons, List.mem_singleton, List.not_mem_nil, or_false] at hm
  rcases hm with rfl | rfl
  · cases f0 <;> exact ⟨_, rfl, rfl⟩
  · cases f1 <;> exact ⟨_, rfl, rfl⟩

/-- Motorcycle `0` at its source, motorcycle `1` not yet driven: nothing is found. -/
theorem find_collision_source_0 (S : Services) (c : Crossing) (h : c.valid S) (p0 p1 : Stage) :
    find_collision S (c.state_before p0 p1 .source .initial) (c.motorcycle0 false .source) =
      some (Collision_information.ctor S.FT_max c.tD0) := by
  have hd := h.det_ne
  have hk := h.k0_pos
  have h_nd : c.s0 ≠ c.d0 := by
    rw [s0_eq, d0_eq]
    exact c.pt_ne hd _ _ _ _ (Or.inl (by linarith))
  have h_in := c.in_one_face_state_before p0 p1 true false
  refine find_collision_of S (c.state_before p0 p1 .source .initial)
    (c.motorcycle0 false .source) (some 1, c.tD0) (c.eS0 p0) c.eD0 _ _ _ rfl rfl rfl rfl rfl
    h_nd (search_loop_nil _ _) rfl ?_ rfl
    (h_in.no_foreign_collision S _ _ (some 1, c.tD0) _ _ rfl rfl rfl rfl
      h.inner_edge h.inner_halfedge)
  refine search_loop_two _ _ _ _ _ _
    (find_collision_with_live_motorcycle_self S _ _ _ _ _ rfl) rfl ?_
  refine (find_collision_with_live_motorcycle_eq S (c.state_before p0 p1 .source .initial)
    (c.motorcycle0 false .source) _ (c.motorcycle1 false .initial) _
    (c.eS0 p0) (c.eS1 p1) (some 2, 0) (by simp [motorcycle0, motorcycle1])
    rfl rfl rfl rfl rfl).trans ?_
  refine find_collision_between_tracks_degenerate S (c.state_before p0 p1 .source .initial)
    (c.motorcycle0 false .source) _ (c.motorcycle1 false .initial) _ _ _ (some 1, c.tD0)
    (c.eS0 p0) c.eD0 (c.eS1 p1) rfl rfl rfl rfl rfl
    (by simp [motorcycle0]) h_nd ?_ ?_ ?_ ?_
    (by simp [motorcycle1]) (by simp [motorcycle1]) (by simp [motorcycle0, motorcycle1])
    (by simp [motorcycle0, motorcycle1]) ?_ ?_ ?_
  · show c.s0 ≠ c.s1
    rw [s0_eq, s1_eq]
    exact c.pt_ne hd _ _ _ _ (Or.inl (by norm_num))
  · exact h.not_collinear_source_0
  · simp [Dictionary_entry.has_motorcycle_between, eS0, motorcycle1]
  · simp [Dictionary_entry.has_motorcycle_between, eD0, motorcycle1]
  · exact h.alc_of_not_collinear S c _ _ _ h.not_collinear_s0_s1_d0
  · exact h.alc_of_not_collinear S c _ _ _ h.not_collinear_s1_d0_s0
  · exact h.do_intersect_source

/-- Motorcycle `1` at its source, motorcycle `0` at its source: the crossing is found. -/
theorem find_collision_source_1 (S : Services) (c : Crossing) (h : c.valid S) (p0 p1 : Stage) :
    find_collision S (c.state_before p0 p1 .source .source) (c.motorcycle1 false .source) =
      some (record_at_new_point c.tD1 c.t1X 0 c.t0X (some c.fd, c.X)) := by
  have hd := h.det_ne
  have hk := h.k1_pos
  have hk0 := h.k0_pos
  have h_nd : c.s1 ≠ c.d1 := by
    rw [s1_eq, d1_eq]
    exact c.pt_ne hd _ _ _ _ (Or.inr (by linarith))
  have h_in := c.in_one_face_state_before p0 p1 true true
  refine find_collision_of S (c.state_before p0 p1 .source .source)
    (c.motorcycle1 false .source) (some 3, c.tD1) (c.eS1 p1) c.eD1 _ _ _ rfl rfl rfl rfl rfl
    h_nd (search_loop_nil _ _) rfl ?_ rfl
    (h_in.no_foreign_collision S _ _ (some 3, c.tD1) _ _ rfl rfl rfl rfl
      h.inner_edge h.inner_halfedge)
  refine search_loop_two _ _ _ _ _ _ ?_ rfl
    (find_collision_with_live_motorcycle_self S _ _ _ _ _ rfl)
  refine (find_collision_with_live_motorcycle_eq S (c.state_before p0 p1 .source .source)
    (c.motorcycle1 false .source) _ (c.motorcycle0 false .source) _
    (c.eS1 p1) (c.eS0 p0) (some 1, c.tD0) (by simp [motorcycle0, motorcycle1])
    rfl rfl rfl rfl rfl).trans ?_
  have h_x : S.robust_intersection (c.s1, c.d1) (c.s0, c.d0) = c.x := h.intersection
  refine find_collision_between_tracks_new S (c.state_before p0 p1 .source .source)
    (c.motorcycle1 false .source) _ (c.motorcycle0 false .source) _ _ (some 3, c.tD1)
    (c.eS1 p1) c.eD1 (c.eS0 p0) c.eD0 (some c.fd, c.X) c.t1X c.t0X rfl rfl rfl rfl rfl
    (by simp [motorcycle1]) h_nd rfl ?_ ?_ ?_ ?_
    (by simp [motorcycle0]) (by simp [motorcycle0]) (by simp [motorcycle0, motorcycle1])
    (by simp [motorcycle0, motorcycle1]) ?_ ?_ ?_ ?_ ?_ ?_ ?_ ?_ ?_ ?_ ?_ ?_ ?_
    ?_ ?_ ?_
  · show c.s0 ≠ c.d0
    rw [s0_eq, d0_eq]
    exact c.pt_ne hd _ _ _ _ (Or.inl (by linarith))
  · exact h.not_collinear_source_1
  · simp [Dictionary_entry.has_motorcycle_between, eS1, motorcycle0]
  · simp [Dictionary_entry.has_motorcycle_between, eD1, motorcycle0]
  · exact h.alc_of_not_collinear S c _ _ _ h.not_collinear_s0_d1_d0
  · exact h.alc_of_not_collinear S c _ _ _ h.not_collinear_d0_d1_s1
  · exact h.alc_of_not_collinear S c _ _ _ h.not_collinear_s0_d1_s1
  · exact h.do_intersect_paths
  · show S.snap_location_to_border (some c.fd,
      ((S.robust_intersection (c.s1, c.d1) (c.s0, c.d0)).1,
        (S.robust_intersection (c.s1, c.d1) (c.s0, c.d0)).2,
        1 - (S.robust_intersection (c.s1, c.d1) (c.s0, c.d0)).1 -
          (S.robust_intersection (c.s1, c.d1) (c.s0, c.d0)).2)) = (some c.fd, c.X)
    rw [h_x]
    exact h.snap_X
  · have e1 := h.S0_ne_X
    have e2 := h.D0_ne_X
    have e3 := h.S1_ne_X
    have e4 := h.D1_ne_X
    simp [Dictionary.find, Dictionary.index_of_first, state_before, eS0, eD0, eS1, eD1, e1, e2,
      e3, e4]
  · show (0 : FT) + S.sqrt (squared_distance c.pS1 (S.location_to_point (some c.fd, c.X))) /
      c.v1 = c.t1X
    rw [h.time_1, zero_add]
  · show (0 : FT) + S.sqrt (squared_distance c.pS0 (S.location_to_point (some c.fd, c.X))) /
      c.v0 = c.t0X
    rw [h.time_0, zero_add]
  · exact h.t1X_pos.le
  · exact h.t1X_lt.le
  · exact lt_trans h.t1X_lt h.tD1_lt
  · exact h.t0X_pos.le
  · exact h.t0X_lt.le
  · simp [Motorcycle.has_target_at_time, motorcycle1, ne_of_gt h.t1X_lt]
  · simp [Motorcycle.has_target_at_time, motorcycle0, ne_of_gt h.t0X_lt]
  · have f1 := not_le.mpr h.far_S0
    have f2 := not_le.mpr h.far_D0
    have f3 := not_le.mpr h.far_S1
    have f4 := not_le.mpr h.far_D1
    simp [try_to_snap_location_to_existing_point, try_to_snap_loop, state_before, eS0, eD0,
      eS1, eD1, f1, f2, f3, f4]


/-- The treatment of the crossing that motorcycle `1` finds at its source: the crossing and the
two halving points are inserted in the dictionary and become targets of the motorcycles. -/
theorem treat_collision_info_crossing (S : Services) (c : Crossing) (h : c.valid S) :
    treat_collision_info S (c.state_before .source .initial .source .source) 1
        (record_at_new_point c.tD1 c.t1X 0 c.t0X (some c.fd, c.X)) =
      some (c.state S .source .initial .source .source []) := by
  have e1 := h.S0_ne_X
  have e2 := h.D0_ne_X
  have e3 := h.S1_ne_X
  have e4 := h.D1_ne_X
  have e5 := h.S0_ne_H1
  have e6 := h.D0_ne_H1
  have e7 := h.S1_ne_H1
  have e8 := h.D1_ne_H1
  have e9 := h.X_ne_H1
  have e10 := h.S0_ne_H0
  have e11 := h.D0_ne_H0
  have e12 := h.S1_ne_H0
  have e13 := h.D1_ne_H0
  have e14 := h.X_ne_H0
  have e15 := h.H1_ne_H0
  have t1 := h.t1X_pos
  have t2 := h.t1X_lt
  have t3 := h.t0X_pos
  have t4 := h.t0X_lt
  have t5 := h.h0_lt
  have t6 := h.h1_lt
  have t7 := h.h0_pos
  have t8 := h.h1_pos
  have s1 := h.siblings_X
  have s2 := h.siblings_H0
  have s3 := h.siblings_H1
  have hH1 : ((1 / 2 * (c.S1.1 + c.X.1), 1 / 2 * (c.S1.2.1 + c.X.2.1),
      1 / 2 * (c.S1.2.2 + c.X.2.2)) : Barycentric_coordinates) = c.H1 := rfl
  have hH0 : ((1 / 2 * (c.S0.1 + c.X.1), 1 / 2 * (c.S0.2.1 + c.X.2.1),
      1 / 2 * (c.S0.2.2 + c.X.2.2)) : Barycentric_coordinates) = c.H0 := rfl
  have hh1 : 1 / 2 * c.t1X = c.h1 := by unfold h1; ring
  have hh0 : 1 / 2 * c.t0X = c.h0 := by unfold h0; ring
  simp only [treat_collision_info, state_before, Motorcycle_graph.motorcycle, List.get?,
    current_location, Dictionary.deref, Option.bind, motorcycle1, motorcycle0,
    record_at_new_point, eS1, eS0, eD0, eD1, Option.map_some', null_face, Bool.false_eq_true,
    if_false, reduceCtorEq, ne_eq, not_false_eq_true, not_true_eq_false, and_self, or_true,
    Bool.not_false, if_true, Dictionary.insert, Dictionary.insert_with_point, Dictionary.find,
    Dictionary.index_of_first, Prod.mk.injEq, true_and, e1, e2, e3, e4, decide_False, s1,
    List.filter_nil, List.map_nil, List.length_cons, List.length_nil, List.cons_append,
    List.nil_append, Nat.reduceAdd, zero_add]
  simp only [Bool.false_and, Bool.false_eq_true, if_false, treat_collision,
    Motorcycle_graph.motorcycle, List.get?, Option.bind_eq_bind, Option.some_bind,
    size_t_minus_one, Nat.reducePow, Nat.reduceSub, OfNat.zero_ne_ofNat, OfNat.one_ne_ofNat,
    decide_False, Bool.or_self, Dictionary.deref, Option.bind, current_location,
    Option.map_some', ne_eq, not_true_eq_false, ge_iff_le, t1.le, not_true,
    Motorcycle.closest_target, List.head?, t2.le, decide_True, reduceCtorEq,
    not_false_eq_true, Dictionary_entry.has_motorcycle_at, List.any_nil, Bool.not_false,
    Bool.true_or, Bool.and_self, if_true, Stage.is_crashed]
  simp only [Bool.or_true, Bool.and_self, if_true, treat_collision_mc,
    Motorcycle_graph.motorcycle, List.get?, Option.bind_eq_bind, Option.some_bind,
    Dictionary.deref, Option.bind, Dictionary_entry.has_motorcycle_at, List.any_nil,
    Bool.not_false, compute_halving_point, reduceCtorEq, if_false, ne_eq, not_true_eq_false,
    compute_middle_point, hH1, hh1, Dictionary.insert, Dictionary.insert_with_point,
    Dictionary.find, Dictionary.index_of_first, Prod.mk.injEq, true_and, e5, e6, e7, e8, e9,
    decide_False, Bool.false_eq_true, s3, List.filter_nil, List.map_nil, List.length_cons,
    List.length_nil, List.cons_append, List.nil_append, Nat.reduceAdd, zero_add,
    Option.some.injEq, Nat.reduceEqDiff, Bool.or_self,
    Motorcycle.add_target, not_lt.mpr t1.le, not_lt.mpr t8.le, Motorcycle.insert_target, t2, t6,
    Dictionary.modify, List.set, Dictionary_entry.add_motorcycle, Motorcycle.has_target_at,
    List.any_cons, decide_True, Bool.true_or, Bool.or_true,
    Motorcycle_graph.set_motorcycle]
  simp only [treat_collision_fmc, Motorcycle_graph.motorcycle, List.get?,
    Option.bind_eq_bind, Option.some_bind, Dictionary.deref, Option.bind,
    Dictionary_entry.has_motorcycle_at, List.any_cons, List.any_nil, OfNat.one_ne_ofNat,
    decide_False, Bool.false_and, Bool.or_self, Bool.false_eq_true, if_false,
    Motorcycle.closest_target, List.head?, Option.map_some', t4.le, decide_True, Bool.not_true,
    Dictionary.modify, List.set, Dictionary_entry.add_motorcycle, List.cons_append,
    List.nil_append, gt_iff_lt, t3, if_true, compute_halving_point, reduceCtorEq, ne_eq,
    not_true_eq_false, compute_middle_point, hH0, hh0, zero_add, Dictionary.insert,
    Dictionary.insert_with_point, Dictionary.find, Dictionary.index_of_first, Prod.mk.injEq,
    true_and, e10, e11, e12, e13, e14, e15, s2, List.filter_nil, List.map_nil,
    List.length_cons, List.length_nil, Nat.reduceAdd, Option.some.injEq,
    Nat.reduceEqDiff, Motorcycle.add_target, not_lt.mpr t3.le, not_lt.mpr t7.le,
    Motorcycle.insert_target, t4, t5, Motorcycle.has_target_at, Bool.true_or, Bool.or_true,
    Bool.and_self, Motorcycle_graph.set_motorcycle, Motorcycle_graph.pq_update,
    OfNat.zero_ne_ofNat]
  rfl

/-- The first step: motorcycle `0` is driven to its source and finds nothing. -/
theorem step_source_0 (S : Services) (c : Crossing) (h : c.valid S) (tracer : Tracer) :
    trace_graph_step S tracer (c.state_before .initial .initial .initial .initial) =
      some (c.state_before .source .initial .source .initial) := by
  have h_top : (c.state_before .initial .initial .initial .initial).pq_top = some 0 := by
    rw [pq_top_two (c.state_before .initial .initial .initial .initial) 0 1
      (c.motorcycle0 false .initial) (c.motorcycle1 false .initial)
      (some 0, 0) (some 2, 0) rfl rfl rfl rfl rfl]
    simp
  rw [trace_graph_step_continue S tracer (c.state_before .initial .initial .initial .initial) 0
    (c.motorcycle0 false .initial) (c.motorcycle0 false .source) (some c.fd, c.S0) false h_top
    rfl rfl (by simp [motorcycle0])
    (has_motorcycle_reached_crashing_point_free _ _ (c.eS0 .initial) 0 rfl
      (by simp [eS0, motorcycle0]) rfl rfl (lt_irrefl _)) rfl rfl]
  exact trace_graph_continue_of S (c.state_before .initial .initial .source .initial)
    (c.state_before .initial .initial .source .initial) 0 (c.motorcycle0 false .source)
    (c.motorcycle0 false .source) _ (c.find_collision_source_0 S h _ _) rfl rfl rfl rfl

/-- The second step: motorcycle `1` is driven to its source and finds the crossing. -/
theorem step_source_1 (S : Services) (c : Crossing) (h : c.valid S) (tracer : Tracer) :
    trace_graph_step S tracer (c.state_before .source .initial .source .initial) =
      some (c.state S .source .source .source .source []) := by
  have h_pos : (0 : FT) < c.tD0 := lt_trans h.t0X_pos h.t0X_lt
  have h_top : (c.state_before .source .initial .source .initial).pq_top = some 1 := by
    rw [pq_top_two (c.state_before .source .initial .source .initial) 0 1
      (c.motorcycle0 false .source) (c.motorcycle1 false .initial)
      (some 1, c.tD0) (some 2, 0) rfl rfl rfl rfl rfl]
    simp [h_pos]
  rw [trace_graph_step_continue S tracer (c.state_before .source .initial .source .initial) 1
    (c.motorcycle1 false .initial) (c.motorcycle1 false .source) (some c.fd, c.S1) false h_top
    rfl rfl (by simp [motorcycle1])
    (has_motorcycle_reached_crashing_point_free _ _ (c.eS1 .initial) 0 rfl
      (by simp [eS1, motorcycle1]) rfl rfl (lt_irrefl _)) rfl rfl]
  exact trace_graph_continue_of S (c.state_before .source .initial .source .source)
    (c.state S .source .initial .source .source []) 1 (c.motorcycle1 false .source)
    (c.motorcycle1 true .source) _ (c.find_collision_source_1 S h _ _) rfl
    ((if_pos rfl).trans (c.treat_collision_info_crossing S h)) rfl rfl


/-- From the state in which motorcycle `0` is at the crossing and motorcycle `1` has crashed. -/
theorem ends_0_crossing_crashed (S : Services) (c : Crossing) (h : c.valid S) (tracer : Tracer)
    (_h_lt : c.t0X < c.t1X) (n : Nat) :
    ends_0 S c tracer (n + 1) (c.state S .crossing .crashed .crossing .crashed [(some c.fd, [c.crashed1])]) := by
  have h_top : (c.state S .crossing .crashed .crossing .crashed [(some c.fd, [c.crashed1])]).pq_top = some 0 :=
    pq_top_one (c.state S .crossing .crashed .crossing .crashed [(some c.fd, [c.crashed1])]) 0 (c.motorcycle0 true .crossing) (some 1, c.tD0) rfl rfl rfl
  refine ⟨_, (trace_graph_loop_step S tracer n (c.state S .crossing .crashed .crossing .crashed [(some c.fd, [c.crashed1])])
    _ (List.cons_ne_nil _ _) (step_arrived_0_crashed S c h tracer h_top)).trans
    (trace_graph_loop_done S tracer n _ rfl), Or.inl rfl⟩

/-- From the state in which motorcycle `0` has arrived and motorcycle `1` is at its halving point. -/
theorem ends_0_arrived_halving (S : Services) (c : Crossing) (h : c.valid S) (tracer : Tracer)
    (h_lt : c.t0X < c.t1X) (n : Nat) :
    ends_0 S c tracer (n + 1) (c.state S .arrived .halving .arrived .halving [(some c.fd, [c.arrived0])]) := by
  have h_top : (c.state S .arrived .halving .arrived .halving [(some c.fd, [c.arrived0])]).pq_top = some 1 :=
    pq_top_one (c.state S .arrived .halving .arrived .halving [(some c.fd, [c.arrived0])]) 1 (c.motorcycle1 true .halving) (some 4, c.t1X) rfl rfl rfl
  refine ⟨_, (trace_graph_loop_step S tracer n (c.state S .arrived .halving .arrived .halving [(some c.fd, [c.arrived0])])
    _ (List.cons_ne_nil _ _) (step_crashed_1_arrived S c h tracer h_lt h_top)).trans
    (trace_graph_loop_done S tracer n _ rfl), Or.inr rfl⟩

/-- From the state in which motorcycle `0` is at the crossing and motorcycle `1` is at its halving point. -/
theorem ends_0_crossing_halving (S : Services) (c : Crossing) (h : c.valid S) (tracer : Tracer)
    (h_lt : c.t0X < c.t1X) (n : Nat) :
    ends_0 S c tracer (n + 2) (c.state S .crossing .halving .crossing .halving []) := by
  by_cases hc : c.t1X < c.tD0
  · have h_top : (c.state S .crossing .halving .crossing .halving []).pq_top = some 1 := by
      rw [pq_top_two (c.state S .crossing .halving .crossing .halving []) 0 1
        (c.motorcycle0 true .crossing) (c.motorcycle1 true .halving) (some 1, c.tD0) (some 4, c.t1X)
        rfl rfl rfl rfl rfl]
      simp [hc]
    obtain ⟨tr, h_rest, h_tr⟩ := ends_0_crossing_crashed S c h tracer h_lt n
    exact ⟨tr, (trace_graph_loop_step S tracer (n + 1) (c.state S .crossing .halving .crossing .halving [])
      _ (List.cons_ne_nil _ _) (step_crashed_1_crossing S c h tracer h_lt h_top)).trans h_rest, h_tr⟩
  · have h_top : (c.state S .crossing .halving .crossing .halving []).pq_top = some 0 := by
      rw [pq_top_two (c.state S .crossing .halving .crossing .halving []) 0 1
        (c.motorcycle0 true .crossing) (c.motorcycle1 true .halving) (some 1, c.tD0) (some 4, c.t1X)
        rfl rfl rfl rfl rfl]
      simp [hc]
    obtain ⟨tr, h_rest, h_tr⟩ := ends_0_arrived_halving S c h tracer h_lt n
    exact ⟨tr, (trace_graph_loop_step S tracer (n + 1) (c.state S .crossing .halving .crossing .halving [])
      _ (List.cons_ne_nil _ _) (step_arrived_0_halving S c h tracer h_top)).trans h_rest, h_tr⟩

/-- From the state in which motorcycle `0` has arrived and motorcycle `1` is at its source. -/
theorem ends_0_arrived_source (S : Services) (c : Crossing) (h : c.valid S) (tracer : Tracer)
    (h_lt : c.t0X < c.t1X) (n : Nat) :
    ends_0 S c tracer (n + 2) (c.state S .arrived .source .arrived .source [(some c.fd, [c.arrived0])]) := by
  have h_top : (c.state S .arrived .source .arrived .source [(some c.fd, [c.arrived0])]).pq_top = some 1 :=
    pq_top_one (c.state S .arrived .source .arrived .source [(some c.fd, [c.arrived0])]) 1 (c.motorcycle1 true .source) (some 5, c.h1) rfl rfl rfl
  obtain ⟨tr, h_rest, h_tr⟩ := ends_0_arrived_halving S c h tracer h_lt n
  exact ⟨tr, (trace_graph_loop_step S tracer (n + 1) (c.state S .arrived .source .arrived .source [(some c.fd, [c.arrived0])])
    _ (List.cons_ne_nil _ _) (step_halving_1_arrived S c h tracer h_top)).trans h_rest, h_tr⟩

/-- From the state in which motorcycle `0` is at the crossing and motorcycle `1` is at its source. -/
theorem ends_0_crossing_source (S : Services) (c : Crossing) (h : c.valid S) (tracer : Tracer)
    (h_lt : c.t0X < c.t1X) (n : Nat) :
    ends_0 S c tracer (n + 3) (c.state S .crossing .source .crossing .source []) := by
  by_cases hc : c.h1 < c.tD0
  · have h_top : (c.state S .crossing .source .crossing .source []).pq_top = some 1 := by
      rw [pq_top_two (c.state S .crossing .source .crossing .source []) 0 1
        (c.motorcycle0 true .crossing) (c.motorcycle1 true .source) (some 1, c.tD0) (some 5, c.h1)
        rfl rfl rfl rfl rfl]
      simp [hc]
    obtain ⟨tr, h_rest, h_tr⟩ := ends_0_crossing_halving S c h tracer h_lt n
    exact ⟨tr, (trace_graph_loop_step S tracer (n + 2) (c.state S .crossing .source .crossing .source [])
      _ (List.cons_ne_nil _ _) (step_halving_1_crossing S c h tracer h_top)).trans h_rest, h_tr⟩
  · have h_top : (c.state S .crossing .source .crossing .source []).pq_top = some 0 := by
      rw [pq_top_two (c.state S .crossing .source .crossing .source []) 0 1
        (c.motorcycle0 true .crossing) (c.motorcycle1 true .source) (some 1, c.tD0) (some 5, c.h1)
        rfl rfl rfl rfl rfl]
      simp [hc]
    obtain ⟨tr, h_rest, h_tr⟩ := ends_0_arrived_source S c h tracer h_lt n
    exact ⟨tr, (trace_graph_loop_step S tracer (n + 2) (c.state S .crossing .source .crossing .source [])
      _ (List.cons_ne_nil _ _) (step_arrived_0_source S c h tracer h_top)).trans h_rest, h_tr⟩

/-- From the state in which both motorcycles are at their halving points. -/
theorem ends_0_halving_halving (S : Services) (c : Crossing) (h : c.valid S) (tracer : Tracer)
    (h_lt : c.t0X < c.t1X) (n : Nat) :
    ends_0 S c tracer (n + 3) (c.state S .halving .halving .halving .halving []) := by
  have h_top : (c.state S .halving .halving .halving .halving []).pq_top = some 0 := by
    rw [pq_top_two (c.state S .halving .halving .halving .halving []) 0 1
      (c.motorcycle0 true .halving) (c.motorcycle1 true .halving) (some 4, c.t0X) (some 4, c.t1X)
      rfl rfl rfl rfl rfl]
    simp [not_lt.mpr h_lt.le]
  obtain ⟨tr, h_rest, h_tr⟩ := ends_0_crossing_halving S c h tracer h_lt n
  exact ⟨tr, (trace_graph_loop_step S tracer (n + 2) (c.state S .halving .halving .halving .halving [])
    _ (List.cons_ne_nil _ _) (step_crossing_0_halving S c h tracer h_lt h_top)).trans h_rest, h_tr⟩

/-- From the state in which motorcycle `0` is at its halving point and motorcycle `1` is at its source. -/
theorem ends_0_halving_source (S : Services) (c : Crossing) (h : c.valid S) (tracer : Tracer)
    (h_lt : c.t0X < c.t1X) (n : Nat) :
    ends_0 S c tracer (n + 4) (c.state S .halving .source .halving .source []) := by
  by_cases hc : c.h1 < c.t0X
  · have h_top : (c.state S .halving .source .halving .source []).pq_top = some 1 := by
      rw [pq_top_two (c.state S .halving .source .halving .source []) 0 1
        (c.motorcycle0 true .halving) (c.motorcycle1 true .source) (some 4, c.t0X) (some 5, c.h1)
        rfl rfl rfl rfl rfl]
      simp [hc]
    obtain ⟨tr, h_rest, h_tr⟩ := ends_0_halving_halving S c h tracer h_lt n
    exact ⟨tr, (trace_graph_loop_step S tracer (n + 3) (c.state S .halving .source .halving .source [])
      _ (List.cons_ne_nil _ _) (step_halving_1_halving S c h tracer h_top)).trans h_rest, h_tr⟩
  · have h_top : (c.state S .halving .source .halving .source []).pq_top = some 0 := by
      rw [pq_top_two (c.state S .halving .source .halving .source []) 0 1
        (c.motorcycle0 true .halving) (c.motorcycle1 true .source) (some 4, c.t0X) (some 5, c.h1)
        rfl rfl rfl rfl rfl]
      simp [hc]
    obtain ⟨tr, h_rest, h_tr⟩ := ends_0_crossing_source S c h tracer h_lt n
    exact ⟨tr, (trace_graph_loop_step S tracer (n + 3) (c.state S .halving .source .halving .source [])
      _ (List.cons_ne_nil _ _) (step_crossing_0_source S c h tracer h_lt h_top)).trans h_rest, h_tr⟩

/-- From the state in which the crossing has just been found. -/
theorem ends_0_source_source (S : Services) (c : Crossing) (h : c.valid S) (tracer : Tracer)
    (h_lt : c.t0X < c.t1X) (n : Nat) :
    ends_0 S c tracer (n + 5) (c.state S .source .source .source .source []) := by
  have h_h : c.h0 < c.h1 := by unfold h0 h1; linarith
  have h_top : (c.state S .source .source .source .source []).pq_top = some 0 := by
    rw [pq_top_two (c.state S .source .source .source .source []) 0 1
      (c.motorcycle0 true .source) (c.motorcycle1 true .source) (some 6, c.h0) (some 5, c.h1)
      rfl rfl rfl rfl rfl]
    simp [not_lt.mpr h_h.le]
  obtain ⟨tr, h_rest, h_tr⟩ := ends_0_halving_source S c h tracer h_lt n
  exact ⟨tr, (trace_graph_loop_step S tracer (n + 4) (c.state S .source .source .source .source [])
    _ (List.cons_ne_nil _ _) (step_halving_0_source S c h tracer h_top)).trans h_rest, h_tr⟩

/-- From the state in which motorcycle `1` is at the crossing and motorcycle `0` has crashed. -/
theorem ends_1_crossing_crashed (S : Services) (c : Crossing) (h : c.valid S) (tracer : Tracer)
    (_h_lt : c.t1X < c.t0X) (n : Nat) :
    ends_1 S c tracer (n + 1) (c.state S .crashed .crossing .crashed .crossing [(some c.fd, [c.crashed0])]) := by
  have h_top : (c.state S .crashed .crossing .crashed .crossing [(some c.fd, [c.crashed0])]).pq_top = some 1 :=
    pq_top_one (c.state S .crashed .crossing .crashed .crossing [(some c.fd, [c.crashed0])]) 1 (c.motorcycle1 true .crossing) (some 3, c.tD1) rfl rfl rfl
  refine ⟨_, (trace_graph_loop_step S tracer n (c.state S .crashed .crossing .crashed .crossing [(some c.fd, [c.crashed0])])
    _ (List.cons_ne_nil _ _) (step_arrived_1_crashed S c h tracer h_top)).trans
    (trace_graph_loop_done S tracer n _ rfl), Or.inl rfl⟩

/-- From the state in which motorcycle `1` has arrived and motorcycle `0` is at its halving point. -/
theorem ends_1_arrived_halving (S : Services) (c : Crossing) (h : c.valid S) (tracer : Tracer)
    (h_lt : c.t1X < c.t0X) (n : Nat) :
    ends_1 S c tracer (n + 1) (c.state S .halving .arrived .halving .arrived [(some c.fd, [c.arrived1])]) := by
  have h_top : (c.state S .halving .arrived .halving .arrived [(some c.fd, [c.arrived1])]).pq_top = some 0 :=
    pq_top_one (c.state S .halving .arrived .halving .arrived [(some c.fd, [c.arrived1])]) 0 (c.motorcycle0 true .halving) (some 4, c.t0X) rfl rfl rfl
  refine ⟨_, (trace_graph_loop_step S tracer n (c.state S .halving .arrived .halving .arrived [(some c.fd, [c.arrived1])])
    _ (List.cons_ne_nil _ _) (step_crashed_0_arrived S c h tracer h_lt h_top)).trans
    (trace_graph_loop_done S tracer n _ rfl), Or.inr rfl⟩

/-- From the state in which motorcycle `1` is at the crossing and motorcycle `0` is at its halving point. -/
theorem ends_1_crossing_halving (S : Services) (c : Crossing) (h : c.valid S) (tracer : Tracer)
    (h_lt : c.t1X < c.t0X) (n : Nat) :
    ends_1 S c tracer (n + 2) (c.state S .halving .crossing .halving .crossing []) := by
  by_cases hc : c.tD1 < c.t0X
  · have h_top : (c.state S .halving .crossing .halving .crossing []).pq_top = some 1 := by
      rw [pq_top_two (c.state S .halving .crossing .halving .crossing []) 0 1
        (c.motorcycle0 true .halving) (c.motorcycle1 true .crossing) (some 4, c.t0X) (some 3, c.tD1)
        rfl rfl rfl rfl rfl]
      simp [hc]
    obtain ⟨tr, h_rest, h_tr⟩ := ends_1_arrived_halving S c h tracer h_lt n
    exact ⟨tr, (trace_graph_loop_step S tracer (n + 1) (c.state S .halving .crossing .halving .crossing [])
      _ (List.cons_ne_nil _ _) (step_arrived_1_halving S c h tracer h_top)).trans h_rest, h_tr⟩
  · have h_top : (c.state S .halving .crossing .halving .crossing []).pq_top = some 0 := by
      rw [pq_top_two (c.state S .halving .crossing .halving .crossing []) 0 1
        (c.motorcycle0 true .halving) (c.motorcycle1 true .crossing) (some 4, c.t0X) (some 3, c.tD1)
        rfl rfl rfl rfl rfl]
      simp [hc]
    obtain ⟨tr, h_rest, h_tr⟩ := ends_1_crossing_crashed S c h tracer h_lt n
    exact ⟨tr, (trace_graph_loop_step S tracer (n + 1) (c.state S .halving .crossing .halving .crossing [])
      _ (List.cons_ne_nil _ _) (step_crashed_0_crossing S c h tracer h_lt h_top)).trans h_rest, h_tr⟩

/-- From the state in which motorcycle `1` has arrived and motorcycle `0` is at its source. -/
theorem ends_1_arrived_source (S : Services) (c : Crossing) (h : c.valid S) (tracer : Tracer)
    (h_lt : c.t1X < c.t0X) (n : Nat) :
    ends_1 S c tracer (n + 2) (c.state S .source .arrived .source .arrived [(some c.fd, [c.arrived1])]) := by
  have h_top : (c.state S .source .arrived .source .arrived [(some c.fd, [c.arrived1])]).pq_top = some 0 :=
    pq_top_one (c.state S .source .arrived .source .arrived [(some c.fd, [c.arrived1])]) 0 (c.motorcycle0 true .source) (some 6, c.h0) rfl rfl rfl
  obtain ⟨tr, h_rest, h_tr⟩ := ends_1_arrived_halving S c h tracer h_lt n
  exact ⟨tr, (trace_graph_loop_step S tracer (n + 1) (c.state S .source .arrived .source .arrived [(some c.fd, [c.arrived1])])
    _ (List.cons_ne_nil _ _) (step_halving_0_arrived S c h tracer h_top)).trans h_rest, h_tr⟩

/-- From the state in which motorcycle `1` is at the crossing and motorcycle `0` is at its source. -/
theorem ends_1_crossing_source (S : Services) (c : Crossing) (h : c.valid S) (tracer : Tracer)
    (h_lt : c.t1X < c.t0X) (n : Nat) :
    ends_1 S c tracer (n + 3) (c.state S .source .crossing .source .crossing []) := by
  by_cases hc : c.tD1 < c.h0
  · have h_top : (c.state S .source .crossing .source .crossing []).pq_top = some 1 := by
      rw [pq_top_two (c.state S .source .crossing .source .crossing []) 0 1
        (c.motorcycle0 true .source) (c.motorcycle1 true .crossing) (some 6, c.h0) (some 3, c.tD1)
        rfl rfl rfl rfl rfl]
      simp [hc]
    obtain ⟨tr, h_rest, h_tr⟩ := ends_1_arrived_source S c h tracer h_lt n
    exact ⟨tr, (trace_graph_loop_step S tracer (n + 2) (c.state S .source .crossing .source .crossing [])
      _ (List.cons_ne_nil _ _) (step_arrived_1_source S c h tracer h_top)).trans h_rest, h_tr⟩
  · have h_top : (c.state S .source .crossing .source .crossing []).pq_top = some 0 := by
      rw [pq_top_two (c.state S .source .crossing .source .crossing []) 0 1
        (c.motorcycle0 true .source) (c.motorcycle1 true .crossing) (some 6, c.h0) (some 3, c.tD1)
        rfl rfl rfl rfl rfl]
      simp [hc]
    obtain ⟨tr, h_rest, h_tr⟩ := ends_1_crossing_halving S c h tracer h_lt n
    exact ⟨tr, (trace_graph_loop_step S tracer (n + 2) (c.state S .source .crossing .source .crossing [])
      _ (List.cons_ne_nil _ _) (step_halving_0_crossing S c h tracer h_top)).trans h_rest, h_tr⟩

/-- From the state in which both motorcycles are at their halving points. -/
theorem ends_1_halving_halving (S : Services) (c : Crossing) (h : c.valid S) (tracer : Tracer)
    (h_lt : c.t1X < c.t0X) (n : Nat) :
    ends_1 S c tracer (n + 3) (c.state S .halving .halving .halving .halving []) := by
  have h_top : (c.state S .halving .halving .halving .halving []).pq_top = some 1 := by
    rw [pq_top_two (c.state S .halving .halving .halving .halving []) 0 1
      (c.motorcycle0 true .halving) (c.motorcycle1 true .halving) (some 4, c.t0X) (some 4, c.t1X)
      rfl rfl rfl rfl rfl]
    simp [h_lt]
  obtain ⟨tr, h_rest, h_tr⟩ := ends_1_crossing_halving S c h tracer h_lt n
  exact ⟨tr, (trace_graph_loop_step S tracer (n + 2) (c.state S .halving .halving .halving .halving [])
    _ (List.cons_ne_nil _ _) (step_crossing_1_halving S c h tracer h_lt h_top)).trans h_rest, h_tr⟩

/-- From the state in which motorcycle `1` is at its halving point and motorcycle `0` is at its source. -/
theorem ends_1_halving_source (S : Services) (c : Crossing) (h : c.valid S) (tracer : Tracer)
    (h_lt : c.t1X < c.t0X) (n : Nat) :
    ends_1 S c tracer (n + 4) (c.state S .source .halving .source .halving []) := by
  by_cases hc : c.t1X < c.h0
  · have h_top : (c.state S .source .halving .source .halving []).pq_top = some 1 := by
      rw [pq_top_two (c.state S .source .halving .source .halving []) 0 1
        (c.motorcycle0 true .source) (c.motorcycle1 true .halving) (some 6, c.h0) (some 4, c.t1X)
        rfl rfl rfl rfl rfl]
      simp [hc]
    obtain ⟨tr, h_rest, h_tr⟩ := ends_1_crossing_source S c h tracer h_lt n
    exact ⟨tr, (trace_graph_loop_step S tracer (n + 3) (c.state S .source .halving .source .halving [])
      _ (List.cons_ne_nil _ _) (step_crossing_1_source S c h tracer h_lt h_top)).trans h_rest, h_tr⟩
  · have h_top : (c.state S .source .halving .source .halving []).pq_top = some 0 := by
      rw [pq_top_two (c.state S .source .halving .source .halving []) 0 1
        (c.motorcycle0 true .source) (c.motorcycle1 true .halving) (some 6, c.h0) (some 4, c.t1X)
        rfl rfl rfl rfl rfl]
      simp [hc]
    obtain ⟨tr, h_rest, h_tr⟩ := ends_1_halving_halving S c h tracer h_lt n
    exact ⟨tr, (trace_graph_loop_step S tracer (n + 3) (c.state S .source .halving .source .halving [])
      _ (List.cons_ne_nil _ _) (step_halving_0_halving S c h tracer h_top)).trans h_rest, h_tr⟩

/-- From the state in which the crossing has just been found. -/
theorem ends_1_source_source (S : Services) (c : Crossing) (h : c.valid S) (tracer : Tracer)
    (h_lt : c.t1X < c.t0X) (n : Nat) :
    ends_1 S c tracer (n + 5) (c.state S .source .source .source .source []) := by
  have h_h : c.h1 < c.h0 := by unfold h0 h1; linarith
  have h_top : (c.state S .source .source .source .source []).pq_top = some 1 := by
    rw [pq_top_two (c.state S .source .source .source .source []) 0 1
      (c.motorcycle0 true .source) (c.motorcycle1 true .source) (some 6, c.h0) (some 5, c.h1)
      rfl rfl rfl rfl rfl]
    simp [h_h]
  obtain ⟨tr, h_rest, h_tr⟩ := ends_1_halving_source S c h tracer h_lt n
  exact ⟨tr, (trace_graph_loop_step S tracer (n + 4) (c.state S .source .source .source .source [])
    _ (List.cons_ne_nil _ _) (step_halving_1_source S c h tracer h_top)).trans h_rest, h_tr⟩


theorem crossing_example_valid : crossing_example.valid exact_services where
  k0_pos := by decide!
  k1_pos := by decide!
  not_parallel := by decide!
  time_0 := by decide!
  time_1 := by decide!
  t0X_pos := by decide!
  t0X_lt := by decide!
  t1X_pos := by decide!
  t1X_lt := by decide!
  tD0_lt := by decide!
  tD1_lt := by decide!
  intersection := by decide!
  snap_X := rfl
  siblings_X := rfl
  siblings_H0 := rfl
  siblings_H1 := rfl
  which_X := rfl
  which_H0 := rfl
  which_H1 := rfl
  logically_collinear := fun _ _ _ hl => (Bool.false_ne_true hl).elim
  inner_edge := fun _ hl => (Bool.false_ne_true hl.symm).elim
  inner_halfedge := fun _ hl => (Bool.false_ne_true hl.symm).elim
  far_S0 := by decide!
  far_D0 := by decide!
  far_S1 := by decide!
  far_D1 := by decide!

theorem crossing_example_initialized :
    initialize_motorcycles exact_services no_tracer crossing_input =
      some { crossing_example.state_before .initial .initial .initial .initial with
        motorcycle_pq := [] } := by
  decide!

theorem trace_graph_of_initialized (S : Services) (tracer : Tracer) (c : Crossing)
    (g0 : Motorcycle_graph) (fuel : Nat) (pq : List Nat)
    (h_init : initialize_motorcycles S tracer g0 =
      some { c.state_before .initial .initial .initial .initial with motorcycle_pq := pq }) :
    trace_graph S tracer fuel g0 =
      trace_graph_loop S tracer fuel (c.state_before .initial .initial .initial .initial) := by
  unfold trace_graph
  rw [h_init]
  rfl

/-- The run of `trace_graph` on two motorcycles whose paths cross, up to the final state. -/
theorem trace_graph_final_state (S : Services) (tracer : Tracer) (c : Crossing)
    (g0 : Motorcycle_graph) (fuel : Nat) (pq : List Nat) (h : c.valid S)
    (h_init : initialize_motorcycles S tracer g0 =
      some { c.state_before .initial .initial .initial .initial with motorcycle_pq := pq })
    (h_fuel : 7 ≤ fuel) :
    (c.t0X < c.t1X → ends_0 S c tracer (fuel - 2) (c.state S .source .source .source .source [])
      ∧ trace_graph S tracer fuel g0 = trace_graph_loop S tracer (fuel - 2)
        (c.state S .source .source .source .source [])) ∧
    (c.t1X < c.t0X → ends_1 S c tracer (fuel - 2) (c.state S .source .source .source .source [])
      ∧ trace_graph S tracer fuel g0 = trace_graph_loop S tracer (fuel - 2)
        (c.state S .source .source .source .source [])) := by
  obtain ⟨n, rfl⟩ : ∃ n, fuel = n + 7 := ⟨fuel - 7, by omega⟩
  have h_run : trace_graph S tracer (n + 7) g0 = trace_graph_loop S tracer (n + 7 - 2)
      (c.state S .source .source .source .source []) := by
    rw [c.trace_graph_of_initialized S tracer g0 _ pq h_init]
    exact (trace_graph_loop_step S tracer (n + 6) _ _ (List.cons_ne_nil _ _)
      (c.step_source_0 S h tracer)).trans
      (trace_graph_loop_step S tracer (n + 5) _ _ (List.cons_ne_nil _ _)
        (c.step_source_1 S h tracer))
  exact ⟨fun h_lt => ⟨ends_0_source_source S c h tracer h_lt n, h_run⟩,
    fun h_lt => ⟨ends_1_source_source S c h tracer h_lt n, h_run⟩⟩

/-- C5 (amended): two motorcycles on one face whose paths cross at a point strictly inside
the face, away from the sources and destinations by more than the snapping tolerance, and that
reach the crossing at different times: `trace_graph` returns, the later motorcycle is crashed
and its confirmed track ends at the crossing, the confirmed track of the earlier one ends at
its destination, and the crossing is on both tracks, the earlier time first. -/
theorem crossing_motorcycles_later_one_crashes (S : Services) (tracer : Tracer) (c : Crossing)
    (g0 : Motorcycle_graph) (fuel : Nat) (pq : List Nat) (h : c.valid S)
    (h_init : initialize_motorcycles S tracer g0 =
      some { c.state_before .initial .initial .initial .initial with motorcycle_pq := pq })
    (h_ne : c.t0X ≠ c.t1X) (h_fuel : 7 ≤ fuel) :
    ∃ g, trace_graph S tracer fuel g0 = some g ∧
      (Dictionary.deref g.points (some 4)).map (fun e => e.location) =
        some (some c.fd, c.X) ∧
      (if c.t0X < c.t1X then crossed g (some 4) 0 1 c.t0X c.t1X
        else crossed g (some 4) 1 0 c.t1X c.t0X) := by
  have h_run := c.trace_graph_final_state S tracer g0 fuel pq h h_init h_fuel
  rcases lt_or_gt_of_ne h_ne with h_lt | h_lt
  · obtain ⟨⟨tr, h_end, _⟩, h_eq⟩ := h_run.1 h_lt
    refine ⟨_, h_eq.trans h_end, rfl, ?_⟩
    rw [if_pos h_lt]
    exact ⟨c.motorcycle0 true .arrived, c.motorcycle1 true .crashed, rfl, rfl, rfl, rfl,
      ⟨c.tD0, rfl⟩, by simp [motorcycle0], by simp [motorcycle1], h_lt⟩
  · obtain ⟨⟨tr, h_end, _⟩, h_eq⟩ := h_run.2 h_lt
    refine ⟨_, h_eq.trans h_end, rfl, ?_⟩
    rw [if_neg (not_lt.mpr h_lt.le)]
    exact ⟨c.motorcycle1 true .arrived, c.motorcycle0 true .crashed, rfl, rfl, rfl, rfl,
      ⟨c.tD1, rfl⟩, by simp [motorcycle1], by simp [motorcycle0], h_lt⟩

/-- C5 (amended), on the two motorcycles of `crossing_input`: the second one reaches the
crossing at the time `1/4`, the first one at the time `1/3` and crashes there. -/
theorem crossing_motorcycles_later_one_crashes_witness :
    crossing_example.valid exact_services ∧
    initialize_motorcycles exact_services no_tracer crossing_input =
      some { crossing_example.state_before .initial .initial .initial .initial with
        motorcycle_pq := [] } ∧
    ∃ g, trace_graph exact_services no_tracer 9 crossing_input = some g ∧
      (Dictionary.deref g.points (some 4)).map (fun e => e.location) =
        some (some crossing_example.fd, crossing_example.X) ∧
      (if crossing_example.t0X < crossing_example.t1X then
          crossed g (some 4) 0 1 crossing_example.t0X crossing_example.t1X
        else crossed g (some 4) 1 0 crossing_example.t1X crossing_example.t0X) :=
  ⟨crossing_example_valid, crossing_example_initialized,
    crossing_motorcycles_later_one_crashes exact_services no_tracer crossing_example
      crossing_input 9 [] crossing_example_valid crossing_example_initialized (by decide!)
      (by decide)⟩

/-- C5 as stated fails: the paths of the two motorcycles of `near_source_crossing_input` cross
at `(1/4, 1/4, 1/2)` only, which the first one reaches at the time `1/2` and the second one at
the time `1024`; the source of the second one (entry `2`) is at the distance `2^-30` of the
crossing. After `trace_graph` the first motorcycle is crashed, its confirmed track ends at the
source of the second one at the time `1/2` and does not reach its destination (entry `1`). -/
theorem crossing_near_a_source_counterexample :
    line_intersection_2 ((1/4 + 1 / 2 ^ 30, 1/4 - 1 / 2 ^ 30), (0, 1/2))
      ((3/4, 1/4), (0, 1/4)) = (1/4, 1/4) ∧
    do_intersect_2 ((1/4 + 1 / 2 ^ 30, 1/4 - 1 / 2 ^ 30), (0, 1/2))
      ((3/4, 1/4), (0, 1/4)) = true ∧
    collinear_2 (3/4, 1/4) (0, 1/4) (1/4 + 1 / 2 ^ 30, 1/4 - 1 / 2 ^ 30) = false ∧
    rational_sqrt (squared_distance (unit_triangle_point (some 0, (3/4, 1/4, 0)))
      (unit_triangle_point (some 0, (1/4, 1/4, 1/2)))) / 1 = 1/2 ∧
    rational_sqrt (squared_distance
      (unit_triangle_point (some 0, (1/4 + 1 / 2 ^ 30, 1/4 - 1 / 2 ^ 30, 1/2)))
      (unit_triangle_point (some 0, (1/4, 1/4, 1/2)))) / (1 / 2 ^ 40) = 1024 ∧
    (trace_graph exact_services no_tracer 9 near_source_crossing_input).map
      (fun g => g.motorcycles.map (fun m => m.crashed)) = some [true, true] ∧
    (trace_graph exact_services no_tracer 9 near_source_crossing_input).map
      (fun g => g.motorcycles.map (fun m => m.track)) =
      some [[(some 0, 0), (some 0, 0), (some 0, 0), (some 2, 1/2)],
        [(some 2, 0), (some 2, 0), (some 2, 1024)]] ∧
    (trace_graph exact_services no_tracer 9 near_source_crossing_input).map
      (fun g => g.motorcycles.map (fun m => m.destination)) = some [some 1, some 3] ∧
    (trace_graph exact_services no_tracer 9 near_source_crossing_input).map
      (fun g => (g.points.map (fun e => e.location)).take 4) =
      some [(some 0, (3/4, 1/4, 0)), (some 0, (0, 1/4, 3/4)),
        (some 0, (1/4 + 1 / 2 ^ 30, 1/4 - 1 / 2 ^ 30, 1/2)), (some 0, (0, 1/2, 1/2))] := by
  refine ⟨by decide!, by decide!, by decide!, by decide!, by decide!, by decide!, by decide!,
    by decide!, by decide!⟩

end Crossing

/-! ## Halving points -/

theorem index_of_first_spec (p : Dictionary_entry → Bool) (l : List Dictionary_entry)
    (k i : Nat) (h : Dictionary.index_of_first p l k = some i) :
    k ≤ i ∧ ∃ e, l.get? (i - k) = some e ∧ p e = true := by
  induction l generalizing k with
  | nil => simp [Dictionary.index_of_first] at h
  | cons x rest ih =>
    unfold Dictionary.index_of_first at h
    split_ifs at h with hx
    · simp only [Option.some.injEq] at h
      subst h
      exact ⟨le_refl _, x, by simp, hx⟩
    · obtain ⟨hle, e, he, hp⟩ := ih (k + 1) h
      refine ⟨by omega, e, ?_, hp⟩
      have : i - k = (i - (k + 1)) + 1 := by omega
      rw [this]
      simpa using he

/-- The entry that `insert` returns is an entry of the dictionary after the call, and it holds
the inserted location. -/
theorem insert_entry_location (S : Services) (points : Dictionary) (location : Face_location) :
    (Dictionary.deref (Dictionary.insert S points location).1
      (Dictionary.insert S points location).2.1).map (fun e => e.location) = some location := by
  unfold Dictionary.insert Dictionary.insert_with_point
  cases hf : Dictionary.find points location with
  | some i =>
    obtain ⟨_, e, he, hp⟩ := index_of_first_spec _ _ _ _ hf
    simp only [Nat.sub_zero] at he
    simp only [Dictionary.deref, Option.bind, he, Option.map_some']
    simpa using hp
  | none =>
    simp only [Dictionary.deref, Option.bind, List.get?_eq_getElem?,
      List.getElem?_append_right (le_refl _), Nat.sub_self, List.getElem?_cons_zero,
      Option.map_some']

/-- C18: for entries `p` and `q` on the same face `f`, with the barycentric coordinates
`(p0,p1,p2)` and `(q0,q1,q2)`, `compute_middle_point` returns the time `(tp+tq)/2` and the
entry that the insertion of the location `(f, ((p0+q0)/2, (p1+q1)/2, (p2+q2)/2))` in the
dictionary returns, which holds that location; `compute_halving_point` returns the same
whenever `p ≠ q`. -/
theorem compute_middle_point_is_the_mean (S : Services) (g : Motorcycle_graph) (p q : DEC_it)
    (tp tq : FT) (pe qe : Dictionary_entry)
    (h_p : Dictionary.deref g.points p = some pe) (h_q : Dictionary.deref g.points q = some qe)
    (h_face : pe.location.1 = qe.location.1) :
    compute_middle_point S g p tp q tq =
      some ({ g with points := (Dictionary.insert S g.points (pe.location.1,
          ((pe.location.2.1 + qe.location.2.1) / 2, (pe.location.2.2.1 + qe.location.2.2.1) / 2,
            (pe.location.2.2.2 + qe.location.2.2.2) / 2))).1 },
        (Dictionary.insert S g.points (pe.location.1,
          ((pe.location.2.1 + qe.location.2.1) / 2, (pe.location.2.2.1 + qe.location.2.2.1) / 2,
            (pe.location.2.2.2 + qe.location.2.2.2) / 2))).2.1,
        (tp + tq) / 2) ∧
    (Dictionary.deref (Dictionary.insert S g.points (pe.location.1,
          ((pe.location.2.1 + qe.location.2.1) / 2, (pe.location.2.2.1 + qe.location.2.2.1) / 2,
            (pe.location.2.2.2 + qe.location.2.2.2) / 2))).1
        (Dictionary.insert S g.points (pe.location.1,
          ((pe.location.2.1 + qe.location.2.1) / 2, (pe.location.2.2.1 + qe.location.2.2.1) / 2,
            (pe.location.2.2.2 + qe.location.2.2.2) / 2))).2.1).map (fun e => e.location) =
      some (pe.location.1,
          ((pe.location.2.1 + qe.location.2.1) / 2, (pe.location.2.2.1 + qe.location.2.2.1) / 2,
            (pe.location.2.2.2 + qe.location.2.2.2) / 2)) ∧
    (p ≠ q → compute_halving_point S g p tp q tq = compute_middle_point S g p tp q tq) := by
  have e1 : ∀ a b : FT, 1 / 2 * (a + b) = (a + b) / 2 := fun a b => by ring
  refine ⟨?_, insert_entry_location S g.points _, ?_⟩
  · unfold compute_middle_point
    simp only [h_p, h_q, Option.bind_eq_bind, Option.some_bind, h_face, ne_eq,
      not_true_eq_false, if_false, e1]
  · intro hne
    unfold compute_halving_point
    simp only [hne, if_false, h_p, h_q, Option.bind_eq_bind, Option.some_bind, h_face, ne_eq,
      not_true_eq_false]

/-- C18, on the two ends of the edge of `head_on_state`: the halving point of `(1,0,0)` at
time `0` and `(0,1,0)` at time `1` is the new entry `2`, at `(1/2,1/2,0)` and time `1/2`. -/
theorem compute_middle_point_is_the_mean_witness :
    (compute_halving_point exact_services head_on_state (some 0) 0 (some 1) 1).map
        (fun r => (r.2.1, r.2.2)) = some (some 2, 1/2) ∧
    (compute_halving_point exact_services head_on_state (some 0) 0 (some 1) 1).bind
        (fun r => (Dictionary.deref r.1.points r.2.1).map (fun e => e.location)) =
      some (some 0, (1/2, 1/2, 0)) := by
  have h := compute_middle_point_is_the_mean exact_services head_on_state (some 0) (some 1) 0 1
    (entry_at (1, 0, 0) [(0, 0), (1, 1)]) (entry_at (0, 1, 0) [(0, 1), (1, 0)])
    (by decide!) (by decide!) (by decide!)
  rw [h.2.2 (by decide), h.1]
  constructor
  · decide!
  · decide!

/-! ## The track map -/

theorem tracks_of_face_map_append (g : Motorcycle_graph) (m : Track_face_map)
    (fd fd' : face_descriptor) (tr : Track_segment) :
    Motorcycle_graph.tracks_of_face
        { g with track_face_map :=
          (List.map (fun x => if x.1 = fd then (x.1, x.2 ++ [tr]) else x) m) } fd' =
      if fd' = fd ∧ m.any (fun x => decide (x.1 = fd)) = true then
        Motorcycle_graph.tracks_of_face { g with track_face_map := m } fd' ++ [tr]
      else Motorcycle_graph.tracks_of_face { g with track_face_map := m } fd' := by
  unfold Motorcycle_graph.tracks_of_face
  simp only
  induction m with
  | nil => simp
  | cons x rest ih =>
    by_cases h1 : x.1 = fd
    · by_cases h2 : x.1 = fd'
      · have h3 : fd' = fd := h2.symm.trans h1
        simp [List.find?, h1, h2, h3]
      · have h3 : ¬ fd' = fd := fun e => h2 (h1.trans e.symm)
        have h4 : ¬ fd = fd' := fun e => h3 e.symm
        simp only [List.map_cons, h1, if_true, List.find?, h4, decide_False, h3, false_and,
          if_false] at ih ⊢
        exact ih
    · by_cases h2 : x.1 = fd'
      · have h3 : ¬ fd' = fd := fun e => h1 (h2.trans e)
        simp [List.find?, h1, h2, h3]
      · simp only [List.map_cons, h1, if_false, List.find?, h2, decide_False, List.any_cons,
          Bool.false_or] at ih ⊢
        exact ih

/-! ## The confirmation of a track segment -/

/-- C19: when its preconditions hold (`s` and `t` are located on `fd`, `id` is below the number
of motorcycles, `ts ≤ tt`), `add_track_segment_to_map(fd, id, s, ts, t, tt)` returns, the list
stored for `fd` is its previous list (empty if `fd` had none) followed by the record
`(id, s, ts, t, tt)`, the lists stored for the other faces are unchanged, and so are the
dictionary, the motorcycles and the queue. -/
theorem add_track_segment_to_map_appends (g : Motorcycle_graph) (fd : face_descriptor)
    (id : Nat) (s : DEC_it) (ts : FT) (t : DEC_it) (tt : FT) (se te : Dictionary_entry)
    (h_s : Dictionary.deref g.points s = some se) (h_t : Dictionary.deref g.points t = some te)
    (h_sf : se.location.1 = fd) (h_tf : te.location.1 = fd) (h_id : id < g.motorcycles.length)
    (h_le : ts ≤ tt) :
    ∃ g', g.add_track_segment_to_map fd id s ts t tt = some g' ∧
      g'.tracks_of_face fd = g.tracks_of_face fd ++
        [{ id := id, source := s, time_at_source := ts, destination := t,
           time_at_destination := tt }] ∧
      (∀ fd', fd' ≠ fd → g'.tracks_of_face fd' = g.tracks_of_face fd') ∧
      g'.points = g.points ∧ g'.motorcycles = g.motorcycles ∧
      g'.motorcycle_pq = g.motorcycle_pq := by
  unfold add_track_segment_to_map
  simp only [h_s, h_t, h_sf, h_tf, ne_eq, not_true_eq_false, if_false, h_id, h_le]
  by_cases h_any : g.track_face_map.any (fun x => decide (x.1 = fd)) = true
  · simp only [h_any, if_true]
    refine ⟨_, rfl, ?_, ?_, rfl, rfl, rfl⟩
    · rw [tracks_of_face_map_append g g.track_face_map fd fd, if_pos ⟨rfl, h_any⟩]
    · intro fd' hne
      rw [tracks_of_face_map_append g g.track_face_map fd fd', if_neg (fun h => hne h.1)]
  · simp only [h_any, Bool.false_eq_true, if_false]
    have h_none : g.track_face_map.find? (fun x => decide (x.1 = fd)) = none := by
      rw [List.find?_eq_none]
      intro x hx hx'
      exact h_any (List.any_eq_true.mpr ⟨x, hx, hx'⟩)
    refine ⟨_, rfl, ?_, ?_, rfl, rfl, rfl⟩
    · unfold Motorcycle_graph.tracks_of_face
      simp [List.find?_append, h_none]
    · intro fd' hne
      have hne' : ¬ fd = fd' := fun e => hne e.symm
      unfold Motorcycle_graph.tracks_of_face
      simp only [List.find?_append]
      cases hf : g.track_face_map.find? (fun x => decide (x.1 = fd')) with
      | none => simp [hne']
      | some x => simp

/-- C19, on `crashed_foreign_state`, whose track map holds one segment for the face `0`: the
segment of motorcycle `0` from the entry `0` at time `0` to the entry `1` at time `1` is
appended to the list of the face `0`. -/
theorem add_track_segment_to_map_appends_witness :
    ∃ g', crashed_foreign_state.add_track_segment_to_map (some 0) 0 (some 0) 0 (some 1) 1 =
        some g' ∧
      g'.tracks_of_face (some 0) = crashed_foreign_state.tracks_of_face (some 0) ++
        [{ id := 0, source := some 0, time_at_source := 0, destination := some 1,
           time_at_destination := 1 }] ∧
      (∀ fd', fd' ≠ some 0 → g'.tracks_of_face fd' = crashed_foreign_state.tracks_of_face fd') ∧
      g'.points = crashed_foreign_state.points ∧
      g'.motorcycles = crashed_foreign_state.motorcycles ∧
      g'.motorcycle_pq = crashed_foreign_state.motorcycle_pq :=
  add_track_segment_to_map_appends crashed_foreign_state (some 0) 0 (some 0) 0 (some 1) 1
    _ _ rfl rfl rfl rfl (by decide) (by decide)

/-! ## The crash test of a motorcycle that is not at its destination -/

theorem same_crashed_refl (g : Motorcycle_graph) : same_crashed g g := fun _ => rfl

theorem same_crashed_trans {g g' g'' : Motorcycle_graph} (h : same_crashed g g')
    (h' : same_crashed g' g'') : same_crashed g g'' := fun i => (h' i).trans (h i)

theorem same_crashed_set (g : Motorcycle_graph) (i : Nat) (m m' : Motorcycle)
    (h : g.motorcycle i = some m) (hc : m'.crashed = m.crashed) :
    same_crashed g (g.set_motorcycle i m') := by
  intro j
  unfold Motorcycle_graph.motorcycle Motorcycle_graph.set_motorcycle at *
  simp only [List.get?_eq_getElem?] at *
  by_cases hij : i = j
  · subst hij
    have hlt : i < g.motorcycles.length := (List.getElem?_eq_some_iff.mp h).1
    simp [List.getElem?_set_self hlt, h, hc]
  · simp [List.getElem?_set_ne hij]

theorem same_crashed_points (g : Motorcycle_graph) (points : Dictionary) :
    same_crashed g { g with points := points } := fun _ => rfl

theorem add_target_crashed (m m' : Motorcycle) (e : DEC_it) (t : FT)
    (h : m.add_target e t = some m') : m'.crashed = m.crashed := by
  unfold Motorcycle.add_target at h
  split_ifs at h
  simp only [Option.some.injEq] at h
  subst h
  rfl

theorem visit_point_mc_crashed (g g' : Motorcycle_graph) (k : Nat) (c : DEC_it)
    (v : Option FT) (t t1 t2 : FT) (h : visit_point_mc g k c v t t1 t2 = some g') :
    same_crashed g g' := by
  unfold visit_point_mc at h
  cases hm : g.motorcycle k with
  | none => simp [hm] at h
  | some mc =>
    simp only [hm] at h
    cases v with
    | some vt =>
      simp only at h
      split_ifs at h
      · cases ha : mc.add_target c vt with
        | none => simp [ha] at h
        | some m1 =>
          simp only [ha, Option.map_some', Option.some.injEq] at h
          subst h
          exact same_crashed_set g k mc m1 hm (add_target_crashed _ _ _ _ ha)
      · simp only [Option.some.injEq] at h
        subst h
        exact same_crashed_refl g
    | none =>
      simp only at h
      split_ifs at h
      cases ha : mc.add_target c t with
      | none => simp [ha] at h
      | some m1 =>
        simp only [ha, Option.map_some', Option.some.injEq] at h
        subst h
        exact same_crashed_trans (same_crashed_points g _)
          (same_crashed_set _ k mc m1 hm (add_target_crashed _ _ _ _ ha))

theorem visit_point_fmc_crashed (g g' : Motorcycle_graph) (k : Nat) (c : DEC_it)
    (v : Option FT) (t t1 t2 : FT) (h : visit_point_fmc g k c v t t1 t2 = some g') :
    same_crashed g g' := by
  unfold visit_point_fmc at h
  cases hm : g.motorcycle k with
  | none => simp [hm] at h
  | some fmc =>
    simp only [hm] at h
    cases v with
    | some vt =>
      simp only at h
      split_ifs at h
      · cases ha : fmc.add_target c vt with
        | none => simp [ha] at h
        | some m1 =>
          simp only [ha, Option.map_some', Option.some.injEq] at h
          subst h
          exact same_crashed_set g k fmc m1 hm (add_target_crashed _ _ _ _ ha)
      · simp only [Option.some.injEq] at h
        subst h
        exact same_crashed_refl g
    | none =>
      simp only at h
      cases hf : (if (!fmc.crashed && decide (t ≥ fmc.current_time)) = true then
          fmc.add_target c t else some fmc) with
      | none =>
        simp only [hf] at h
        split_ifs at h
      | some m1 =>
        have hc : m1.crashed = fmc.crashed := by
          split_ifs at hf
          · exact add_target_crashed _ _ _ _ hf
          · simp only [Option.some.injEq] at hf
            rw [← hf]
        simp only [hf] at h
        split_ifs at h
        all_goals
          simp only [Option.some.injEq] at h
          subst h
          exact same_crashed_trans (same_crashed_points g _)
            (same_crashed_set _ k fmc m1 hm hc)

theorem visit_point_crashed (g g' : Motorcycle_graph) (a b : Nat) (c : DEC_it)
    (t ft tol : FT) (h : visit_point g a b c t ft tol = some g') : same_crashed g g' := by
  unfold visit_point at h
  cases h1 : g.motorcycle a with
  | none => simp [h1] at h
  | some mc =>
    cases h2 : g.motorcycle b with
    | none => simp [h1, h2] at h
    | some fmc =>
      cases h3 : Dictionary.deref g.points c with
      | none => simp [h1, h2, h3] at h
      | some ce =>
        simp only [h1, h2, h3] at h
        cases h4 : g.current_location mc with
        | none => simp [h4] at h
        | some l1 =>
          cases h5 : g.current_location fmc with
          | none => simp [h4, h5] at h
          | some l2 =>
            simp only [h4, h5] at h
            cases h6 : Dictionary.get_sibling g.points c l1.1 with
            | none => simp [h6] at h
            | some i =>
              cases h7 : Dictionary.get_sibling g.points c l2.1 with
              | none => simp [h6, h7] at h
              | some j =>
                simp only [h6, h7] at h
                split at h
                · exact absurd h (by simp)
                · rename_i g1 hg1
                  split at h
                  · exact absurd h (by simp)
                  · rename_i g2 hg2
                    have e1 := visit_point_mc_crashed _ _ _ _ _ _ _ _ hg1
                    have e2 := visit_point_fmc_crashed _ _ _ _ _ _ _ _ hg2
                    split at h
                    · split_ifs at h
                      all_goals
                        simp only [Option.some.injEq] at h
                        subst h
                        exact same_crashed_trans e1 e2
                    · exact absurd h (by simp)

theorem trace_graph_add_intersection_crashed (S : Services) (g g' : Motorcycle_graph)
    (k : Nat) (res : Collision_information)
    (h : trace_graph_add_intersection S g k res = some g') : same_crashed g g' := by
  unfold trace_graph_add_intersection at h
  simp only at h
  split at h
  · exact absurd h (by simp)
  · rename_i g1 hg1
    have e1 := visit_point_crashed _ _ _ _ _ _ _ _ hg1
    cases hm : g1.motorcycle k with
    | none => simp [hm] at h
    | some mc =>
      simp only [hm] at h
      cases hm1 : (if res.closest_collision ≠ mc.current_position then
          mc.add_target mc.current_position mc.current_time else some mc) with
      | none => simp [hm1] at h
      | some mc1 =>
        have hc : mc1.crashed = mc.crashed := by
          split_ifs at hm1
          · exact add_target_crashed _ _ _ _ hm1
          · simp only [Option.some.injEq] at hm1
            rw [← hm1]
        have e2 : same_crashed g1 ((g1.set_motorcycle k mc1).pq_update k) :=
          same_crashed_set g1 k mc mc1 hm hc
        simp only [hm1] at h
        cases hf : ((g1.set_motorcycle k mc1).pq_update k).motorcycle res.fmc_id with
        | none => simp [hf] at h
        | some fmc =>
          simp only [hf] at h
          by_cases hcr : fmc.crashed = true
          · simp only [hcr, Bool.not_true, Bool.false_eq_true, if_false,
              Option.some.injEq] at h
            subst h
            exact same_crashed_trans e1 e2
          · have hcr' : fmc.crashed = false := by simpa using hcr
            simp only [hcr', Bool.not_false, if_true] at h
            generalize hf1 : (if ((fmc.has_target res.closest_collision).isSome &&
                decide (res.closest_collision ≠ fmc.current_position)) = true then
                fmc.add_target fmc.current_position fmc.current_time else some fmc) = fmc1o at h
            cases fmc1o with
            | none => simp at h
            | some fmc1 =>
              have hc1 : fmc1.crashed = fmc.crashed := by
                split_ifs at hf1
                · exact add_target_crashed _ _ _ _ hf1
                · simp only [Option.some.injEq] at hf1
                  rw [← hf1]
              simp only [Option.map_some', Option.some.injEq] at h
              subst h
              exact same_crashed_trans e1 (same_crashed_trans e2
                (same_crashed_set _ res.fmc_id fmc fmc1 hf hc1))

/-- A motorcycle that `trace_graph_continue` is called for is not crashed afterwards. -/
theorem trace_graph_continue_not_crashed (S : Services) (g g' : Motorcycle_graph) (k : Nat)
    (mc : Motorcycle) (h_mc : g.motorcycle k = some mc) (h_live : mc.crashed = false)
    (h : trace_graph_continue S g k mc = some g') :
    ∃ m, g'.motorcycle k = some m ∧ m.crashed = false := by
  unfold trace_graph_continue at h
  cases hr : find_collision S g mc with
  | none => simp [hr] at h
  | some res =>
    simp only [hr] at h
    by_cases h1 : res.add_intersection_without_moving_motorcycles = true
    · simp only [h1, if_true] at h
      have e := trace_graph_add_intersection_crashed S g g' k res h k
      rw [h_mc] at e
      cases hm : g'.motorcycle k with
      | none => simp [hm] at e
      | some m =>
        simp only [hm, Option.map_some', Option.some.injEq] at e
        exact ⟨m, rfl, e.trans h_live⟩
    · simp only [h1, Bool.false_eq_true, if_false] at h
      generalize (if res.found_collision = true then treat_collision_info S g k res
          else some g) = treated at h
      cases treated with
      | none => simp at h
      | some g1 =>
        simp only at h
        cases hm : g1.motorcycle k with
        | none => simp [hm] at h
        | some mc1 =>
          simp only [hm] at h
          by_cases h2 : mc1.crashed = true
          · simp [h2] at h
          · simp only [h2, Bool.false_eq_true, if_false, Option.some.injEq] at h
            subst h
            exact ⟨mc1, hm, by simpa using h2⟩

theorem drive_to_closest_target_live (mc0 mc : Motorcycle)
    (h : mc0.drive_to_closest_target = some mc) : mc.crashed = false := by
  unfold Motorcycle.drive_to_closest_target at h
  split_ifs at h with hc
  cases ht : mc0.targets with
  | nil => simp [ht] at h
  | cons x rest =>
    simp only [ht, Option.some.injEq] at h
    subst h
    simpa [Motorcycle.remove_closest_target_from_targets, Motorcycle.track_insert] using hc

theorem motorcycle_set_motorcycle (g : Motorcycle_graph) (k : Nat) (mc0 mc : Motorcycle)
    (h : g.motorcycle k = some mc0) : (g.set_motorcycle k mc).motorcycle k = some mc := by
  unfold Motorcycle_graph.motorcycle Motorcycle_graph.set_motorcycle at *
  simp only [List.get?_eq_getElem?] at *
  have hlt : k < g.motorcycles.length := (List.getElem?_eq_some_iff.mp h).1
  simp [List.getElem?_set_self hlt]

/-- The effect of `add_track_segment_to_map` when it returns. -/
theorem add_track_segment_to_map_spec (g g' : Motorcycle_graph) (fd : face_descriptor)
    (id : Nat) (s : DEC_it) (ts : FT) (t : DEC_it) (tt : FT)
    (h : g.add_track_segment_to_map fd id s ts t tt = some g') :
    g'.tracks_of_face fd = g.tracks_of_face fd ++
        [{ id := id, source := s, time_at_source := ts, destination := t,
           time_at_destination := tt }] ∧
      (∀ fd', fd' ≠ fd → g'.tracks_of_face fd' = g.tracks_of_face fd') ∧
      g'.points = g.points ∧ g'.motorcycles = g.motorcycles ∧
      g'.motorcycle_pq = g.motorcycle_pq := by
  unfold add_track_segment_to_map at h
  cases h_s : Dictionary.deref g.points s with
  | none => simp [h_s] at h
  | some se =>
    cases h_t : Dictionary.deref g.points t with
    | none => simp [h_s, h_t] at h
    | some te =>
      simp only [h_s, h_t] at h
      split_ifs at h with h1 h2 h3 h4 h_any
      · simp only [Option.some.injEq] at h
        subst h
        refine ⟨?_, ?_, rfl, rfl, rfl⟩
        · rw [tracks_of_face_map_append g g.track_face_map fd fd, if_pos ⟨rfl, h_any⟩]
        · intro fd' hne
          rw [tracks_of_face_map_append g g.track_face_map fd fd', if_neg (fun h => hne h.1)]
      · simp only [Option.some.injEq] at h
        subst h
        have h_none : g.track_face_map.find? (fun x => decide (x.1 = fd)) = none := by
          rw [List.find?_eq_none]
          intro x hx hx'
          exact h_any (List.any_eq_true.mpr ⟨x, hx, hx'⟩)
        refine ⟨?_, ?_, rfl, rfl, rfl⟩
        · unfold Motorcycle_graph.tracks_of_face
          simp [List.find?_append, h_none]
        · intro fd' hne
          have hne' : ¬ fd = fd' := fun e => hne e.symm
          unfold Motorcycle_graph.tracks_of_face
          simp only [List.find?_append]
          cases hf : g.track_face_map.find? (fun x => decide (x.1 = fd')) with
          | none => simp [hne']
          | some x => simp

theorem crash_motorcycle_live (g : Motorcycle_graph) (k : Nat) (mc : Motorcycle)
    (h : g.motorcycle k = some mc) (h_live : mc.crashed = false) :
    (g.crash_motorcycle k).motorcycle k = some mc.clear_targets.crash ∧
      (g.crash_motorcycle k).motorcycle_pq = g.motorcycle_pq.filter (fun i => decide (i ≠ k)) ∧
      (g.crash_motorcycle k).track_face_map = g.track_face_map ∧
      (g.crash_motorcycle k).points = g.points ∧
      (∀ l, l ≠ k → (g.crash_motorcycle k).motorcycle l = g.motorcycle l) := by
  unfold crash_motorcycle
  simp only [h, h_live, Bool.false_eq_true, if_false]
  refine ⟨motorcycle_set_motorcycle g k mc _ h, rfl, rfl, rfl, ?_⟩
  intro l hl
  unfold Motorcycle_graph.motorcycle Motorcycle_graph.set_motorcycle pq_erase
  simp [List.getElem?_set_ne (Ne.symm hl)]

/-- C17: in a step of `trace_graph` whose driven motorcycle is not at its destination. If
`has_motorcycle_reached_crashing_point` holds and the current time is not `0`, the step
confirms the segment from the source to the current position (it is appended to the list of the
face of the current position) and crashes the motorcycle, which leaves the queue. Otherwise,
and in particular at the current time `0`, the step is the collision detection
(`trace_graph_continue`), after which the motorcycle is not crashed. -/
theorem trace_graph_step_crashes_iff (S : Services) (tracer : Tracer) (g : Motorcycle_graph)
    (k : Nat) (mc0 mc : Motorcycle) (loc : Face_location) (b : Bool)
    (h_top : g.pq_top = some k) (h_mc : g.motorcycle k = some mc0)
    (h_drive : mc0.drive_to_closest_target = some mc)
    (h_nd : mc.current_position ≠ mc.destination)
    (h_crash : (g.set_motorcycle k mc).has_motorcycle_reached_crashing_point mc = some b)
    (h_loc : (g.set_motorcycle k mc).current_location mc = some loc) :
    (b = true ∧ mc.current_time ≠ 0 →
      trace_graph_step S tracer g =
        ((g.set_motorcycle k mc).add_track_segment_to_map loc.1 mc.id mc.source
          mc.time_at_source mc.current_position mc.current_time).map
          (fun g2 => g2.crash_motorcycle k) ∧
      ∀ g', trace_graph_step S tracer g = some g' →
        g'.motorcycle k = some mc.clear_targets.crash ∧
        g'.motorcycle_pq = g.motorcycle_pq.filter (fun i => decide (i ≠ k)) ∧
        g'.tracks_of_face loc.1 = g.tracks_of_face loc.1 ++
          [{ id := mc.id, source := mc.source, time_at_source := mc.time_at_source,
             destination := mc.current_position, time_at_destination := mc.current_time }]) ∧
    (¬ (b = true ∧ mc.current_time ≠ 0) →
      trace_graph_step S tracer g = trace_graph_continue S (g.set_motorcycle k mc) k mc ∧
      ∀ g', trace_graph_step S tracer g = some g' →
        ∃ m, g'.motorcycle k = some m ∧ m.crashed = false) := by
  have h_live := drive_to_closest_target_live mc0 mc h_drive
  have h_set := motorcycle_set_motorcycle g k mc0 mc h_mc
  constructor
  · rintro ⟨hb, ht⟩
    subst hb
    have h_eq := trace_graph_step_crash S tracer g k mc0 mc loc h_top h_mc h_drive h_nd h_crash
      h_loc ht
    refine ⟨h_eq, ?_⟩
    intro g' hg'
    rw [h_eq] at hg'
    cases h_add : (g.set_motorcycle k mc).add_track_segment_to_map loc.1 mc.id mc.source
        mc.time_at_source mc.current_position mc.current_time with
    | none => simp [h_add] at hg'
    | some g2 =>
      simp only [h_add, Option.map_some', Option.some.injEq] at hg'
      subst hg'
      obtain ⟨s1, _, _, s4, s5⟩ := add_track_segment_to_map_spec _ _ _ _ _ _ _ _ h_add
      have h2 : g2.motorcycle k = some mc := by
        unfold Motorcycle_graph.motorcycle at h_set ⊢
        rw [s4]
        exact h_set
      obtain ⟨c1, c2, c3, _, _⟩ := crash_motorcycle_live g2 k mc h2 h_live
      refine ⟨c1, ?_, ?_⟩
      · rw [c2, s5]
        rfl
      · have : (g2.crash_motorcycle k).tracks_of_face loc.1 = g2.tracks_of_face loc.1 := by
          unfold Motorcycle_graph.tracks_of_face
          rw [c3]
        rw [this, s1]
        rfl
  · intro hn
    have h_no : (b && decide (mc.current_time ≠ 0)) = false := by
      cases b
      · rfl
      · simpa using hn
    have h_eq := trace_graph_step_continue S tracer g k mc0 mc loc b h_top h_mc h_drive h_nd
      h_crash h_loc h_no
    refine ⟨h_eq, ?_⟩
    intro g' hg'
    rw [h_eq] at hg'
    exact trace_graph_continue_not_crashed S _ g' k mc h_set h_live hg'

/-- C17, on `blocked_midway_state`: the motorcycle `0` reaches `(1/2,1/2,0)` at time `1/2`,
after the foreign motorcycle (time `1/4`): the step confirms the segment from `(1,0,0)` to
`(1/2,1/2,0)` and crashes the motorcycle. -/
theorem trace_graph_step_crashes_iff_witness :
    trace_graph_step exact_services no_tracer blocked_midway_state =
        ((blocked_midway_state.set_motorcycle 0 blocked_midway_mc).add_track_segment_to_map
          (some 0) 0 (some 0) 0 (some 2) (1/2)).map (fun g2 => g2.crash_motorcycle 0) ∧
      ∀ g', trace_graph_step exact_services no_tracer blocked_midway_state = some g' →
        g'.motorcycle 0 = some blocked_midway_mc.clear_targets.crash ∧
        g'.motorcycle_pq = [] ∧
        g'.tracks_of_face (some 0) =
          [{ id := 0, source := some 0, time_at_source := 0, destination := some 2,
             time_at_destination := 1/2 }] :=
  (trace_graph_step_crashes_iff exact_services no_tracer blocked_midway_state 0 _
    blocked_midway_mc (some 0, (1/2, 1/2, 0)) true (by decide!) rfl (by decide!) (by decide)
    (by decide!) (by decide!)).1 ⟨rfl, by decide!⟩

/-! ## The elementary operations: driving, crashing, and the searches that are skipped -/

/-- C21: for a motorcycle that is not crashed and whose target queue starts with `(e, t)`,
`drive_to_closest_target` returns; afterwards the current position is `e`, the current time is
`t`, `(e, t)` is the last entry of the confirmed track (and so is in it), the target queue is the
previous queue without its first target, and the source, the time at the source, the
destination, the speed, the id and the crashed flag are unchanged. -/
theorem drive_to_closest_target_pops_earliest (mc : Motorcycle) (e : DEC_it) (t : FT)
    (rest : List (DEC_it × FT)) (h_live : mc.crashed = false)
    (h_targets : mc.targets = (e, t) :: rest) :
    ∃ mc', mc.drive_to_closest_target = some mc' ∧
      mc'.current_position = e ∧ mc'.current_time = t ∧
      mc'.track = mc.track ++ [(e, t)] ∧ (e, t) ∈ mc'.track ∧
      mc'.targets = rest ∧
      mc'.source = mc.source ∧ mc'.time_at_source = mc.time_at_source ∧
      mc'.destination = mc.destination ∧
      mc'.is_destination_final = mc.is_destination_final ∧
      mc'.speed = mc.speed ∧ mc'.id = mc.id ∧ mc'.crashed = false := by
  unfold Motorcycle.drive_to_closest_target
  simp only [h_live, Bool.false_eq_true, if_false, h_targets]
  refine ⟨_, rfl, rfl, rfl, rfl, ?_, ?_, rfl, rfl, rfl, rfl, rfl, rfl, rfl⟩
  · simp [Motorcycle.remove_closest_target_from_targets, Motorcycle.track_insert]
  · simp [Motorcycle.remove_closest_target_from_targets, Motorcycle.track_insert, h_targets]

/-- C21, on the first motorcycle of `blocked_midway_state`, whose earliest target is the entry
`2` at time `1/2`. -/
theorem drive_to_closest_target_pops_earliest_witness :
    ∃ mc', Motorcycle.drive_to_closest_target
        { new_motorcycle 0 1 (some 0, (1, 0, 0)) (some 0, (0, 1, 0)) with
          source := some 0, destination := some 1, current_position := some 0,
          targets := [(some 2, 1/2), (some 1, 1)], track := [(some 0, 0), (some 0, 0)] } =
        some mc' ∧
      mc'.current_position = some 2 ∧ mc'.current_time = 1/2 ∧
      mc'.track = [(some 0, 0), (some 0, 0)] ++ [(some 2, 1/2)] ∧
      ((some 2, 1/2) : DEC_it × FT) ∈ mc'.track ∧
      mc'.targets = [(some 1, 1)] ∧
      mc'.source = some 0 ∧ mc'.time_at_source = 0 ∧ mc'.destination = some 1 ∧
      mc'.is_destination_final = true ∧ mc'.speed = 1 ∧ mc'.id = 0 ∧ mc'.crashed = false :=
  drive_to_closest_target_pops_earliest _ (some 2) (1/2) [(some 1, 1)] rfl rfl

theorem get?_set_self (l : List Motorcycle) (k : Nat) (mc m : Motorcycle)
    (h : l.get? k = some mc) : (l.set k m).get? k = some m := by
  have hk : k < l.length := by
    by_contra hn
    rw [List.get?_eq_none.mpr (not_lt.mp hn)] at h
    cases h
  simp [List.get?_eq_getElem?, List.getElem?_set, hk]

/-- C22: `crash_motorcycle` on a live motorcycle empties its target queue, sets its crashed
flag and erases it from the priority queue, leaving its other fields, the other motorcycles,
the points and the tracks as they are; on a crashed motorcycle it changes nothing; and a second
application changes nothing. -/
theorem crash_motorcycle_idempotent (g : Motorcycle_graph) (k : Nat) (mc : Motorcycle)
    (h_mc : g.motorcycle k = some mc) :
    (mc.crashed = false →
      (g.crash_motorcycle k).motorcycle k =
        some { mc with targets := [], crashed := true } ∧
      (g.crash_motorcycle k).motorcycle_pq = g.motorcycle_pq.filter (fun i => decide (i ≠ k)) ∧
      k ∉ (g.crash_motorcycle k).motorcycle_pq ∧
      (∀ j, j ≠ k → (g.crash_motorcycle k).motorcycle j = g.motorcycle j) ∧
      (g.crash_motorcycle k).points = g.points ∧
      (g.crash_motorcycle k).track_face_map = g.track_face_map) ∧
    (mc.crashed = true → g.crash_motorcycle k = g) ∧
    (g.crash_motorcycle k).crash_motorcycle k = g.crash_motorcycle k := by
  have h_crashed : mc.crashed = true → g.crash_motorcycle k = g := by
    intro h
    unfold Motorcycle_graph.crash_motorcycle
    simp only [h_mc, h, if_true]
  have h_live : mc.crashed = false →
      (g.crash_motorcycle k).motorcycle k =
        some { mc with targets := [], crashed := true } := by
    intro h
    unfold Motorcycle_graph.crash_motorcycle
    simp only [h_mc, h, Bool.false_eq_true, if_false]
    unfold Motorcycle_graph.motorcycle at h_mc ⊢
    simp only [pq_erase, set_motorcycle]
    exact get?_set_self _ _ _ _ h_mc
  refine ⟨?_, h_crashed, ?_⟩
  · intro h
    refine ⟨h_live h, ?_, ?_, ?_, ?_, ?_⟩
    · unfold Motorcycle_graph.crash_motorcycle
      simp only [h_mc, h, Bool.false_eq_true, if_false]
      rfl
    · unfold Motorcycle_graph.crash_motorcycle
      simp only [h_mc, h, Bool.false_eq_true, if_false]
      simp [pq_erase, set_motorcycle, List.mem_filter]
    · intro j hj
      unfold Motorcycle_graph.crash_motorcycle
      simp only [h_mc, h, Bool.false_eq_true, if_false]
      unfold Motorcycle_graph.motorcycle
      simp only [pq_erase, set_motorcycle, List.get?_eq_getElem?]
      rw [List.getElem?_set_ne (fun e => hj e.symm)]
    · unfold Motorcycle_graph.crash_motorcycle
      simp only [h_mc, h, Bool.false_eq_true, if_false]
      rfl
    · unfold Motorcycle_graph.crash_motorcycle
      simp only [h_mc, h, Bool.false_eq_true, if_false]
      rfl
  · cases h : mc.crashed with
    | true => rw [h_crashed h, h_crashed h]
    | false =>
      have h2 := h_live h
      generalize g.crash_motorcycle k = g2 at h2 ⊢
      unfold Motorcycle_graph.crash_motorcycle
      simp only [h2, if_true]

/-- C22, on the live motorcycle `0` of `crashed_foreign_state`. -/
theorem crash_motorcycle_idempotent_witness :
    (crashed_foreign_state.crash_motorcycle 0).motorcycle_pq = [] ∧
    (crashed_foreign_state.crash_motorcycle 0).crash_motorcycle 0 =
      crashed_foreign_state.crash_motorcycle 0 :=
  have h := crash_motorcycle_idempotent crashed_foreign_state 0 _ rfl
  ⟨(h.1 rfl).2.1.trans (by decide), h.2.2⟩

/-- C23: when the first two barycentric coordinates of the current location of `mc` equal those
of the location of its closest target, `find_collision` returns the freshly constructed
record, for which `found_collision()` is false, whatever the confirmed tracks and the other
motorcycles are. The hypotheses are the preconditions of the function: `mc` is not crashed,
has a target, and its current position and closest target are entries of one face. -/
theorem find_collision_zero_length (S : Services) (g : Motorcycle_graph) (mc : Motorcycle)
    (ct : DEC_it × FT) (pos cte : Dictionary_entry)
    (h_live : mc.crashed = false) (h_ct : mc.closest_target = some ct)
    (h_pos : Dictionary.deref g.points mc.current_position = some pos)
    (h_cte : Dictionary.deref g.points ct.1 = some cte)
    (h_face : pos.location.1 = cte.location.1)
    (h_0 : pos.location.2.1 = cte.location.2.1)
    (h_1 : pos.location.2.2.1 = cte.location.2.2.1) :
    find_collision S g mc = some (Collision_information.ctor S.FT_max ct.2) ∧
    (find_collision S g mc).map Collision_information.found_collision = some false := by
  have h : find_collision S g mc = some (Collision_information.ctor S.FT_max ct.2) := by
    unfold find_collision
    simp only [h_live, Bool.false_eq_true, if_false, h_ct, h_pos, h_cte, h_face, ne_eq,
      not_true_eq_false, is_degenerate_2, h_0, h_1, decide_True, if_true]
  refine ⟨h, ?_⟩
  rw [h]
  simp [Collision_information.ctor, Collision_information.found_collision]

/-- C23, on the first motorcycle of `same_direction_initialized`, whose closest target is its
own current position although another motorcycle leaves from that position. -/
theorem find_collision_zero_length_witness :
    find_collision exact_services same_direction_initialized same_direction_mc0 =
      some (Collision_information.ctor double_max 0) ∧
    (find_collision exact_services same_direction_initialized same_direction_mc0).map
      Collision_information.found_collision = some false :=
  find_collision_zero_length exact_services same_direction_initialized same_direction_mc0
    (some 0, 0) (entry_at (1/3, 1/3, 1/3) [(0, 0), (1, 0)])
    (entry_at (1/3, 1/3, 1/3) [(0, 0), (1, 0)]) rfl rfl rfl rfl rfl rfl rfl

/-- C24: `find_collision_with_live_motorcycle` returns with the collision record unchanged
when the foreign motorcycle is `mc` itself, and, the two current positions being entries of the
dictionary, when the foreign motorcycle is crashed or is in another face than `mc`. -/
theorem find_collision_with_live_motorcycle_ignores (S : Services) (g : Motorcycle_graph)
    (mc : Motorcycle) (mcs : Segment_2) (fmc : Motorcycle) (tc : Collision_information)
    (pos fpos : Dictionary_entry)
    (h_pos : Dictionary.deref g.points mc.current_position = some pos)
    (h_fpos : Dictionary.deref g.points fmc.current_position = some fpos)
    (h : mc.id = fmc.id ∨ fmc.crashed = true ∨ pos.location.1 ≠ fpos.location.1) :
    find_collision_with_live_motorcycle S g mc mcs fmc tc = some tc := by
  unfold find_collision_with_live_motorcycle
  simp only [current_location, h_pos, h_fpos, Option.map_some']
  by_cases h1 : mc.id = fmc.id
  · simp only [h1, if_true]
  · simp only [h1, if_false]
    rcases h with h | h | h
    · exact absurd h h1
    · simp only [h, Bool.or_true, if_true]
    · simp only [ne_eq, h, not_false_eq_true, decide_True, Bool.true_or, if_true]

/-- C24, on `crashed_foreign_state`: the crashed foreign motorcycle `1` is ignored by the
search of the motorcycle `0`. -/
theorem find_collision_with_live_motorcycle_ignores_witness :
    (crashed_foreign_state.motorcycle 0).bind (fun mc =>
      (crashed_foreign_state.motorcycle 1).bind (fun fmc =>
        find_collision_with_live_motorcycle exact_services crashed_foreign_state mc
          ((1, 0), (0, 1)) fmc (Collision_information.ctor double_max 10))) =
      some (Collision_information.ctor double_max 10) :=
  find_collision_with_live_motorcycle_ignores exact_services crashed_foreign_state
    { new_motorcycle 0 (1/10) (some 0, (1, 0, 0)) (some 0, (0, 1, 0)) with
      source := some 0, destination := some 1, current_position := some 0,
      targets := [(some 1, 10)], track := [(some 0, 0), (some 0, 0)] }
    ((1, 0), (0, 1))
    { new_motorcycle 1 1 (some 0, (0, 0, 1)) (some 0, (0, 0, 1)) with
      crashed := true, source := some 2, time_at_source := 2, destination := some 2,
      current_position := some 2, current_time := 2, targets := [],
      track := [(some 2, 2), (some 2, 2)] }
    (Collision_information.ctor double_max 10)
    (entry_at (1, 0, 0) [(0, 0)]) (entry_at (0, 0, 1) [(1, 2)]) rfl rfl (Or.inr (Or.inl rfl))

/-! ## The validity check of the traced graph -/

theorem for_each_none {α : Type} (body : α → Option Unit) (l : List α) (x : α) (hx : x ∈ l)
    (h : body x = none) : for_each body l = none := by
  induction l with
  | nil => cases hx
  | cons y rest ih =>
    unfold for_each
    rcases List.mem_cons.mp hx with rfl | hx'
    · simp only [h]
    · cases body y with
      | none => rfl
      | some _ => exact ih hx'

/-- The loop over the foreign track fails when the body fails on two consecutive items. -/
theorem is_valid_foreign_loop_none (S : Services) (g : Motorcycle_graph) (current next : DEC_it)
    (ce : Dictionary_entry) (s : Segment_2) (tit : DEC_it × FT) (after : List (DEC_it × FT))
    (fa fb : DEC_it × FT) (fpost : List (DEC_it × FT))
    (h : is_valid_foreign_step S g current next ce s tit after fa.1 fa fb = none) :
    ∀ (fpre : List (DEC_it × FT)) (ftitb : DEC_it × FT) (l : List (DEC_it × FT)),
      ftitb :: l = fpre ++ fa :: fb :: fpost →
      is_valid_foreign_loop S g current next ce s tit after ftitb.1 ftitb l = none := by
  intro fpre
  induction fpre with
  | nil =>
    intro ftitb l hl
    simp only [List.nil_append, List.cons.injEq] at hl
    obtain ⟨rfl, rfl⟩ := hl
    unfold is_valid_foreign_loop
    simp only [h]
  | cons p fpre ih =>
    intro ftitb l hl
    simp only [List.cons_append, List.cons.injEq] at hl
    obtain ⟨rfl, rfl⟩ := hl
    cases fpre with
    | nil =>
      have := ih fa (fb :: fpost) rfl
      simp only [List.nil_append]
      unfold is_valid_foreign_loop
      cases is_valid_foreign_step S g current next ce s tit after ftitb.1 ftitb fa with
      | none => rfl
      | some _ => exact this
    | cons q fpre' =>
      have := ih q (fpre' ++ fa :: fb :: fpost) rfl
      simp only [List.cons_append]
      unfold is_valid_foreign_loop
      cases is_valid_foreign_step S g current next ce s tit after ftitb.1 ftitb q with
      | none => rfl
      | some _ => exact this

theorem is_valid_step_current (S : Services) (g : Motorcycle_graph) (mc_id : Nat)
    (current c : DEC_it) (tit : DEC_it × FT) (after : List (DEC_it × FT))
    (h : is_valid_step S g mc_id current tit after = some c) : c = tit.1 := by
  unfold is_valid_step at h
  cases h1 : Dictionary.deref g.points current with
  | none => simp [h1] at h
  | some ce =>
    cases h2 : Dictionary.deref g.points tit.1 with
    | none => simp [h1, h2] at h
    | some ne =>
      simp only [h1, h2] at h
      by_cases hf : ce.location.1 = ne.location.1
      swap
      · simp only [ne_eq, hf, not_false_eq_true, if_true] at h
        split_ifs at h
        exact (Option.some.inj h).symm
      · simp only [ne_eq, hf, not_true_eq_false, if_false] at h
        by_cases hc : current = tit.1
        · simp only [hc, if_true] at h
          exact (Option.some.inj h).symm
        · simp only [hc, if_false] at h
          cases hfe : for_each (is_valid_foreign_motorcycle S g mc_id current tit.1 ce
              ((ce.location.2.1, ce.location.2.2.1), (ne.location.2.1, ne.location.2.2.1))
              tit after) (List.range g.motorcycles.length) with
          | none => simp [hfe] at h
          | some _ =>
            simp only [hfe] at h
            exact (Option.some.inj h).symm

/-- The loop over the track fails when the body fails on two consecutive items. -/
theorem is_valid_track_loop_none (S : Services) (g : Motorcycle_graph) (mc_id : Nat)
    (a b : DEC_it × FT) (post : List (DEC_it × FT))
    (h : is_valid_step S g mc_id a.1 b post = none) :
    ∀ (pre : List (DEC_it × FT)) (t0 : DEC_it × FT) (l : List (DEC_it × FT)),
      t0 :: l = pre ++ a :: b :: post →
      is_valid_track_loop S g mc_id t0.1 l = none := by
  intro pre
  induction pre with
  | nil =>
    intro t0 l hl
    simp only [List.nil_append, List.cons.injEq] at hl
    obtain ⟨rfl, rfl⟩ := hl
    unfold is_valid_track_loop
    simp only [h]
  | cons p pre ih =>
    intro t0 l hl
    simp only [List.cons_append, List.cons.injEq] at hl
    obtain ⟨rfl, rfl⟩ := hl
    cases pre with
    | nil =>
      have := ih a (b :: post) rfl
      simp only [List.nil_append]
      unfold is_valid_track_loop
      cases hs : is_valid_step S g mc_id t0.1 a (b :: post) with
      | none => rfl
      | some c =>
        rw [is_valid_step_current S g mc_id _ _ _ _ hs]
        exact this
    | cons q pre' =>
      have := ih q (pre' ++ a :: b :: post) rfl
      simp only [List.cons_append]
      unfold is_valid_track_loop
      cases hs : is_valid_step S g mc_id t0.1 q (pre' ++ a :: b :: post) with
      | none => rfl
      | some c =>
        rw [is_valid_step_current S g mc_id _ _ _ _ hs]
        exact this

theorem motorcycle_lt_length (g : Motorcycle_graph) (k : Nat) (mc : Motorcycle)
    (h : g.motorcycle k = some mc) : k < g.motorcycles.length := by
  unfold Motorcycle_graph.motorcycle at h
  by_contra hn
  rw [List.get?_eq_none.mpr (not_lt.mp hn)] at h
  cases h

/-- The check `is_valid` fails when the body of its innermost loop fails for a segment of a
track of more than two items and a segment of the track of another motorcycle. -/
theorem is_valid_none_of_step (S : Services) (g : Motorcycle_graph) (mc_id fmc_id : Nat)
    (mc fmc : Motorcycle) (pre post fpre fpost : List (DEC_it × FT)) (a b fa fb : DEC_it × FT)
    (ea eb : Dictionary_entry)
    (h_mc : g.motorcycle mc_id = some mc) (h_fmc : g.motorcycle fmc_id = some fmc)
    (h_ne : fmc_id ≠ mc_id)
    (h_track : mc.track = pre ++ a :: b :: post) (h_len : 2 < mc.track.length)
    (h_ftrack : fmc.track = fpre ++ fa :: fb :: fpost)
    (h_a : Dictionary.deref g.points a.1 = some ea)
    (h_b : Dictionary.deref g.points b.1 = some eb)
    (h_face : ea.location.1 = eb.location.1) (h_ab : a.1 ≠ b.1)
    (h : is_valid_foreign_step S g a.1 b.1 ea
      ((ea.location.2.1, ea.location.2.2.1), (eb.location.2.1, eb.location.2.2.1)) b post
      fa.1 fa fb = none) :
    is_valid S g = none := by
  have h_for : is_valid_foreign_motorcycle S g mc_id a.1 b.1 ea
      ((ea.location.2.1, ea.location.2.2.1), (eb.location.2.1, eb.location.2.2.1)) b post
      fmc_id = none := by
    unfold is_valid_foreign_motorcycle
    simp only [h_ne, if_false, h_fmc]
    cases hft : fmc.track with
    | nil =>
      rfl
    | cons f0 frest =>
      simp only []
      have hl := is_valid_foreign_loop_none S g a.1 b.1 ea _ b post fa fb fpost h fpre f0 frest
        (hft.symm.trans h_ftrack)
      rw [hl]
      split <;> rfl
  have h_step : is_valid_step S g mc_id a.1 b post = none := by
    unfold is_valid_step
    simp only [h_a, h_b, h_face, ne_eq, not_true_eq_false, if_false, h_ab]
    rw [for_each_none _ _ fmc_id (List.mem_range.mpr (motorcycle_lt_length g _ _ h_fmc)) h_for]
  have h_mcy : is_valid_motorcycle S g mc_id = none := by
    unfold is_valid_motorcycle
    simp only [h_mc]
    cases ht : mc.track with
    | nil =>
      rfl
    | cons t0 rest =>
      rw [ht] at h_len
      simp only [not_le.mpr h_len, if_false]
      exact is_valid_track_loop_none S g mc_id a b post h_step pre t0 rest
        (ht.symm.trans h_track)
  unfold is_valid
  rw [for_each_none _ _ mc_id (List.mem_range.mpr (motorcycle_lt_length g _ _ h_mc)) h_mcy]

/-- C30: the code contradicts the comment of l. 3617. On `crossing_input` the driver leaves the
graph `crossing_traced_state`, in which motorcycle `0` has crashed at the crossing that
motorcycle `1` has reached earlier, and `is_valid()` returns `true` on it. With the crossing
entered twice at the end of the track of motorcycle `0` (an end doublon, the track still stops
at the crossing) `is_valid()` fails its assertion; with the crossing entered twice and the
track continued beyond it to the destination `is_valid()` returns `true`, while the same
continued track with the crossing entered once fails the assertion. -/
theorem is_valid_rejects_end_doublon :
    trace_graph exact_services no_tracer 100 crossing_input = some crossing_traced_state ∧
    is_valid exact_services crossing_traced_state = some true ∧
    is_valid exact_services end_doublon_state = none ∧
    is_valid exact_services passed_doublon_state = some true ∧
    is_valid exact_services passed_crossing_state = none := by
  refine ⟨by decide!, by decide!, by decide!, by decide!, by decide!⟩

/-! ## A motorcycle without a next destination -/

theorem pq_top_nonempty (g : Motorcycle_graph) (k : Nat) (h : g.pq_top = some k) :
    g.motorcycle_pq ≠ [] := by
  intro hn
  unfold pq_top at h
  rw [hn] at h
  simp at h

theorem motorcycle_set_motorcycle_ne (g : Motorcycle_graph) (k j : Nat) (mc : Motorcycle)
    (h : j ≠ k) : (g.set_motorcycle k mc).motorcycle j = g.motorcycle j := by
  unfold Motorcycle_graph.motorcycle Motorcycle_graph.set_motorcycle
  simp [List.getElem?_set_ne (Ne.symm h)]

/-- C16: when the next destination of a motorcycle cannot be computed. At the initialization,
`compute_destination` without an input destination, the tracer finding none, returns the
source and the start time and sets the destination final. In the loop of `trace_graph`, a step
whose motorcycle reaches its destination, which is final (as after that initialization), or
which is not final and not a crashing point while `compute_motorcycle_next_path` finds no path,
returns; it crashes that motorcycle and empties its target queue, leaves every other
motorcycle as it is, removes that motorcycle only from the queue, and the loop goes on from
the state it returns. -/
theorem missing_path_crashes_that_motorcycle_only (S : Services) (tracer : Tracer)
    (g g1 : Motorcycle_graph) (k : Nat) (mc0 mc : Motorcycle) (loc : Face_location)
    (h_top : g.pq_top = some k) (h_mc : g.motorcycle k = some mc0)
    (h_drive : mc0.drive_to_closest_target = some mc)
    (h_d : mc.current_position = mc.destination)
    (h_loc : (g.set_motorcycle k mc).current_location mc = some loc)
    (h_add : (g.set_motorcycle k mc).add_track_segment_to_map loc.1 mc.id mc.source
      mc.time_at_source mc.destination mc.current_time = some g1)
    (h_missing : mc.is_destination_final = true ∨
      (mc.is_destination_final = false ∧
        g1.has_motorcycle_reached_crashing_point mc = some false ∧
        (tracer g1.points mc.clear_targets).2.1 = false)) :
    (∀ (g0 : Motorcycle_graph) (id : Nat) (m : Motorcycle), g0.motorcycle id = some m →
      m.source ≠ none → (tracer g0.points m).2.1 = false →
      compute_destination S tracer g0 id none =
        some (({ g0 with points := (tracer g0.points m).1 }).set_motorcycle id
          { m with is_destination_final := true }, m.source, m.current_time)) ∧
    ∃ g', trace_graph_step S tracer g = some g' ∧
      g'.motorcycle k = some mc.clear_targets.crash ∧
      (∀ j, j ≠ k → g'.motorcycle j = g.motorcycle j) ∧
      g'.motorcycle_pq = g.motorcycle_pq.filter (fun i => decide (i ≠ k)) ∧
      ∀ n, trace_graph_loop S tracer (n + 1) g = trace_graph_loop S tracer n g' := by
  constructor
  · intro g0 id m h_m h_src h_none
    unfold compute_destination
    simp only [h_m, h_src, if_false, compute_destination_from_tracer, h_none, Bool.not_false,
      if_true]
  · have h_live := drive_to_closest_target_live mc0 mc h_drive
    have h_set := motorcycle_set_motorcycle g k mc0 mc h_mc
    obtain ⟨_, _, s3, s4, s5⟩ := add_track_segment_to_map_spec _ _ _ _ _ _ _ _ h_add
    have h1 : g1.motorcycle k = some mc := by
      unfold Motorcycle_graph.motorcycle at h_set ⊢
      rw [s4]
      exact h_set
    have h1' : ∀ j, j ≠ k → g1.motorcycle j = g.motorcycle j := by
      intro j hj
      rw [← motorcycle_set_motorcycle_ne g k j mc hj]
      unfold Motorcycle_graph.motorcycle
      rw [s4]
    have h_pq : g1.motorcycle_pq = g.motorcycle_pq := s5
    rcases h_missing with h_final | ⟨h_nf, h_nc, h_none⟩
    · have h_step := trace_graph_step_arrive S tracer g g1 k mc0 mc loc h_top h_mc h_drive h_d
        h_final h_loc h_add
      obtain ⟨c1, c2, _, _, c5⟩ := crash_motorcycle_live g1 k mc h1 h_live
      refine ⟨_, h_step, c1, ?_, ?_, ?_⟩
      · intro j hj
        rw [c5 j hj, h1' j hj]
      · rw [c2, h_pq]
      · intro n
        exact trace_graph_loop_step S tracer n g _ (pq_top_nonempty g k h_top) h_step
    · have h2 : (g1.set_motorcycle k mc.clear_targets).motorcycle k = some mc.clear_targets :=
        motorcycle_set_motorcycle g1 k mc _ h1
      have h_next : compute_motorcycle_next_path tracer (g1.set_motorcycle k mc.clear_targets) k =
          some ({ g1.set_motorcycle k mc.clear_targets with
            points := (tracer g1.points mc.clear_targets).1 }, false) := by
        unfold compute_motorcycle_next_path
        simp only [h2]
        have e : (g1.set_motorcycle k mc.clear_targets).points = g1.points := rfl
        simp only [e, h_none, Bool.not_false, if_true]
      have h_step : trace_graph_step S tracer g =
          some (Motorcycle_graph.crash_motorcycle
            { g1.set_motorcycle k mc.clear_targets with
              points := (tracer g1.points mc.clear_targets).1 } k) := by
        unfold trace_graph_step
        simp only [h_top, h_mc, h_drive, h_d, if_true, trace_graph_at_destination]
        simp only [h_loc, h_add, has_motorcycle_reached_final_destination, h_nf,
          Bool.false_eq_true, if_false, h_nc, h_next]
      have h3 : Motorcycle_graph.motorcycle
          { g1.set_motorcycle k mc.clear_targets with
            points := (tracer g1.points mc.clear_targets).1 } k = some mc.clear_targets := h2
      obtain ⟨c1, c2, _, _, c5⟩ := crash_motorcycle_live _ k mc.clear_targets h3 h_live
      refine ⟨_, h_step, c1, ?_, ?_, ?_⟩
      · intro j hj
        rw [c5 j hj, ← h1' j hj]
        exact motorcycle_set_motorcycle_ne g1 k j _ hj
      · rw [c2]
        show g1.motorcycle_pq.filter _ = _
        rw [h_pq]
      · intro n
        exact trace_graph_loop_step S tracer n g _ (pq_top_nonempty g k h_top) h_step

/-- C16, on `missing_path_state` with a tracer that finds no destination: the motorcycle `0`
reaches its destination `(0,1,0)` at time `10`, no next path is found, and the step crashes it
and leaves the motorcycle `1` as it is. -/
theorem missing_path_crashes_that_motorcycle_only_witness :
    ∃ g', trace_graph_step exact_services no_tracer missing_path_state = some g' ∧
      g'.motorcycle 0 = some missing_path_mc.clear_targets.crash ∧
      (∀ j, j ≠ 0 → g'.motorcycle j = missing_path_state.motorcycle j) ∧
      g'.motorcycle_pq = missing_path_state.motorcycle_pq.filter (fun i => decide (i ≠ 0)) ∧
      ∀ n, trace_graph_loop exact_services no_tracer (n + 1) missing_path_state =
        trace_graph_loop exact_services no_tracer n g' :=
  (missing_path_crashes_that_motorcycle_only exact_services no_tracer missing_path_state
    { missing_path_state.set_motorcycle 0 missing_path_mc with
      track_face_map := [(some 0, [⟨1, some 2, 2, some 2, 2⟩, ⟨0, some 0, 0, some 1, 10⟩])] }
    0 missing_path_mc0 missing_path_mc (some 0, (0, 1, 0))
    (by decide!) rfl (by decide!) rfl (by decide!) (by decide!)
    (Or.inr ⟨rfl, by decide!, rfl⟩)).2

/-! ## A single motorcycle -/

theorem deref_modify_self (points : Dictionary) (i : Nat) (f : Dictionary_entry → Dictionary_entry)
    (e : Dictionary_entry) (h : Dictionary.deref points (some i) = some e) :
    Dictionary.deref (Dictionary.modify points (some i) f) (some i) = some (f e) := by
  unfold Dictionary.deref Dictionary.modify at *
  simp only [Option.some_bind] at h ⊢
  rw [h]
  simp only [List.get?_eq_getElem?] at h ⊢
  have hlt : i < points.length := (List.getElem?_eq_some_iff.mp h).1
  simp [List.getElem?_set_self hlt]

theorem deref_modify_ne (points : Dictionary) (i j : Nat)
    (f : Dictionary_entry → Dictionary_entry) (h : i ≠ j) :
    Dictionary.deref (Dictionary.modify points (some i) f) (some j) =
      Dictionary.deref points (some j) := by
  unfold Dictionary.deref Dictionary.modify
  simp only [Option.some_bind]
  cases hg : List.get? points i with
  | none => rfl
  | some e => simp [List.get?_eq_getElem?, List.getElem?_set_ne h]

/-- The effect of `drive_to_closest_target` on a live motorcycle with a target. -/
theorem drive_to_closest_target_eq (mc : Motorcycle) (e : DEC_it) (t : FT)
    (rest : List (DEC_it × FT)) (h_live : mc.crashed = false)
    (h_targets : mc.targets = (e, t) :: rest) :
    mc.drive_to_closest_target =
      some { mc with current_position := e, current_time := t, targets := rest,
                     track := mc.track ++ [(e, t)] } := by
  unfold Motorcycle.drive_to_closest_target
  simp only [h_live, Bool.false_eq_true, if_false, h_targets,
    Motorcycle.remove_closest_target_from_targets, Motorcycle.track_insert, List.tail_cons]

/-- A single motorcycle is not crashed by
`crash_motorcycles_with_same_source_and_direction`. -/
theorem crash_motorcycles_with_same_source_and_direction_single (g : Motorcycle_graph)
    (mc : Motorcycle) (h : g.motorcycles = [mc]) :
    crash_motorcycles_with_same_source_and_direction g = some g := by
  have h0 : g.motorcycle 0 = some mc := by
    unfold Motorcycle_graph.motorcycle
    rw [h]
    rfl
  unfold crash_motorcycles_with_same_source_and_direction
  rw [h]
  simp only [List.length_singleton, List.range_succ, List.range_zero, List.nil_append,
    crash_same_source_outer, h0, Option.bind_eq_bind, Option.some_bind]
  split_ifs
  · rfl
  · simp only [crash_same_source_inner, h0, Option.bind_eq_bind, Option.some_bind,
      decide_True, Bool.true_or, if_true]

/-- The crash test of a motorcycle returns when its position records a visit. -/
theorem has_motorcycle_reached_crashing_point_some (g : Motorcycle_graph) (mc : Motorcycle)
    (e : Dictionary_entry) (h : Dictionary.deref g.points mc.current_position = some e)
    (h_visit : e.motorcycles ≠ []) :
    ∃ cr, g.has_motorcycle_reached_crashing_point mc = some cr := by
  unfold has_motorcycle_reached_crashing_point has_reached_simultaneous_collision_point
    is_motorcycle_position_blocked
  simp only [h, Option.map_some']
  cases e.motorcycles.any (fun v => decide (v.1 ≠ mc.id) && decide (v.2 = mc.current_time)) with
  | true => exact ⟨true, rfl⟩
  | false =>
    simp only []
    split_ifs
    · exact ⟨true, rfl⟩
    · unfold Dictionary_entry.earliest_motorcycle
      cases hm : e.motorcycles with
      | nil => exact absurd hm h_visit
      | cons v rest => exact ⟨_, rfl⟩

/-- C15: a single motorcycle with distinct source and destination entries on one face `fd`,
the start time `0`, a final destination and an empty track store (the state after
`initialize_motorcycles` is described by `lone_motorcycle`; the source records a visit; the
halfedges of the mesh lead to other faces than `fd`). With a fuel of two steps or more,
`trace_graph` returns: the motorcycle is crashed at its destination at the time `tD`, the
queue is empty and the track store holds exactly the segment `(0, source, 0, destination, tD)`
under `fd`. The first step is the collision search, in which `find_collision` returns a
record with `found_collision()` false; the second step is the arrival at the destination, in
which `find_collision` is not called. -/
theorem lone_motorcycle_reaches_destination (S : Services) (tracer : Tracer)
    (g0 g1 : Motorcycle_graph) (fuel : Nat) (speed : FT) (input_source : Point_or_location)
    (input_destination : Option Point_or_location) (s d fd : Nat) (tD : FT)
    (es ed : Dictionary_entry)
    (h_init : initialize_motorcycles S tracer g0 = some g1)
    (h_mcs : g1.motorcycles = [lone_motorcycle speed input_source input_destination s d tD])
    (h_tracks : g1.track_face_map = [])
    (h_sd : s ≠ d) (h_tD : 0 ≤ tD)
    (h_es : Dictionary.deref g1.points (some s) = some es)
    (h_ed : Dictionary.deref g1.points (some d) = some ed)
    (h_fs : es.location.1 = some fd) (h_fd : ed.location.1 = some fd)
    (h_visit : es.motorcycles ≠ [])
    (h_edge : ∀ hd, S.is_border_edge hd = false →
      S.face (S.opposite hd) ≠ null_face ∧ S.face (S.opposite hd) ≠ some fd)
    (h_half : ∀ hd, S.is_border (S.opposite hd) = false →
      S.is_border_edge hd = false ∧ S.face (S.opposite hd) ≠ some fd)
    (h_fuel : 2 ≤ fuel) :
    ∃ g', trace_graph S tracer fuel g0 = some g' ∧
      (∃ m, g'.motorcycle 0 = some m ∧ m.crashed = true ∧ m.current_position = some d ∧
        m.current_time = tD ∧ m.targets = []) ∧
      g'.motorcycle_pq = [] ∧
      g'.track_face_map =
        [(some fd, [{ id := 0, source := some s, time_at_source := 0, destination := some d,
                      time_at_destination := tD }])] ∧
      ∃ mcA mcB gB,
        trace_graph_step S tracer { g1 with motorcycle_pq := [0] } =
          trace_graph_continue S (({ g1 with motorcycle_pq := [0] }).set_motorcycle 0 mcA) 0
            mcA ∧
        (find_collision S (({ g1 with motorcycle_pq := [0] }).set_motorcycle 0 mcA) mcA).map
          Collision_information.found_collision = some false ∧
        trace_graph_step S tracer { g1 with motorcycle_pq := [0] } = some gB ∧
        trace_graph_step S tracer gB =
          trace_graph_at_destination tracer (gB.set_motorcycle 0 mcB) 0 mcB ∧
        trace_graph_step S tracer gB = some g' := by
  -- the states of the run
  let mc := lone_motorcycle speed input_source input_destination s d tD
  let mcA : Motorcycle :=
    { mc with current_position := some s, current_time := 0, targets := [(some d, tD)],
              track := mc.track ++ [(some s, 0)] }
  let mcB : Motorcycle :=
    { mcA with current_position := some d, current_time := tD, targets := [],
               track := mcA.track ++ [(some d, tD)] }
  let g2 : Motorcycle_graph := { g1 with motorcycle_pq := [0] }
  let gA : Motorcycle_graph := g2.set_motorcycle 0 mcA
  let gB : Motorcycle_graph :=
    { gA with points := Dictionary.modify gA.points (some s) (fun e => e.block) }
  let gC : Motorcycle_graph := gB.set_motorcycle 0 mcB
  let seg : Track_segment :=
    { id := 0, source := some s, time_at_source := 0, destination := some d,
      time_at_destination := tD }
  let gD : Motorcycle_graph := { gC with track_face_map := [(some fd, [seg])] }
  have h_g2 : g2.motorcycle 0 = some mc := by
    show g1.motorcycles.get? 0 = _
    rw [h_mcs]
    rfl
  have h_gA_mcs : gA.motorcycles = [mcA] := by
    show g1.motorcycles.set 0 mcA = _
    rw [h_mcs]
    rfl
  have h_gA : gA.motorcycle 0 = some mcA := by
    show gA.motorcycles.get? 0 = _
    rw [h_gA_mcs]
    rfl
  have h_gC_mcs : gC.motorcycles = [mcB] := by
    show gA.motorcycles.set 0 mcB = _
    rw [h_gA_mcs]
    rfl
  -- the first step: the collision search
  have h_topA : g2.pq_top = some 0 := pq_top_one g2 0 mc (some s, 0) rfl h_g2 rfl
  have h_driveA : mc.drive_to_closest_target = some mcA :=
    drive_to_closest_target_eq mc (some s) 0 [(some d, tD)] rfl rfl
  have h_ndA : mcA.current_position ≠ mcA.destination := by
    show (some s : DEC_it) ≠ some d
    simpa using h_sd
  obtain ⟨cr, h_cr⟩ := has_motorcycle_reached_crashing_point_some gA mcA es h_es h_visit
  have h_stepA : trace_graph_step S tracer g2 = trace_graph_continue S gA 0 mcA :=
    trace_graph_step_continue S tracer g2 0 mc mcA es.location cr h_topA h_g2 h_driveA h_ndA
      h_cr (by show (Dictionary.deref g1.points (some s)).map _ = _; rw [h_es]; rfl)
      (by show (cr && decide ((0 : FT) ≠ 0)) = false; simp)
  have h_one : in_one_face gA fd := by
    refine ⟨?_, ?_⟩
    · intro m hm
      rw [h_gA_mcs] at hm
      simp only [List.mem_singleton] at hm
      subst hm
      exact ⟨es, h_es, h_fs⟩
    · intro x hx
      have : gA.track_face_map = [] := h_tracks
      rw [this] at hx
      cases hx
  have h_tof : gA.tracks_of_face es.location.1 = [] := by
    unfold Motorcycle_graph.tracks_of_face
    have : gA.track_face_map = [] := h_tracks
    rw [this]
    rfl
  have h_find : find_collision S gA mcA = some (Collision_information.ctor S.FT_max tD) := by
    by_cases h_deg : (es.location.2.1, es.location.2.2.1) = (ed.location.2.1, ed.location.2.2.1)
    · exact find_collision_degenerate S gA mcA (some d, tD) es ed rfl rfl h_es h_ed
        (h_fs.trans h_fd.symm) h_deg
    · refine find_collision_of S gA mcA (some d, tD) es ed
        (Collision_information.ctor S.FT_max tD) (Collision_information.ctor S.FT_max tD)
        (Collision_information.ctor S.FT_max tD) rfl rfl h_es h_ed
        (h_fs.trans h_fd.symm) h_deg ?_ rfl ?_ rfl ?_
      · rw [h_tof]
        rfl
      · rw [h_gA_mcs]
        exact search_loop_one _ _ _ _
          (find_collision_with_live_motorcycle_self S gA mcA _ mcA _ rfl)
      · exact h_one.no_foreign_collision S mcA _ (some d, tD) es ed rfl h_es h_ed h_fs h_edge
          h_half
  have h_contA : trace_graph_continue S gA 0 mcA = some gB :=
    trace_graph_continue_of S gA gA 0 mcA mcA _ h_find rfl
      (by simp [Collision_information.ctor, Collision_information.found_collision]) h_gA rfl
  -- the second step: the arrival
  have h_gB : gB.motorcycle 0 = some mcA := h_gA
  have h_topB : gB.pq_top = some 0 := pq_top_one gB 0 mcA (some d, tD) rfl h_gB rfl
  have h_driveB : mcA.drive_to_closest_target = some mcB :=
    drive_to_closest_target_eq mcA (some d) tD [] rfl rfl
  have h_es' : Dictionary.deref gC.points (some s) = some es.block :=
    deref_modify_self g1.points s _ es h_es
  have h_ed' : Dictionary.deref gC.points (some d) = some ed :=
    (deref_modify_ne g1.points s d _ h_sd).trans h_ed
  have h_add : gC.add_track_segment_to_map ed.location.1 0 (some s) 0 (some d) tD = some gD := by
    rw [h_fd]
    exact add_track_segment_to_map_first gC (some fd) 0 (some s) 0 (some d) tD es.block ed
      h_es' h_ed' h_fs h_fd (by rw [h_gC_mcs]; exact Nat.lt_one_iff.mpr rfl) h_tD h_tracks
  have h_locB : gC.current_location mcB = some ed.location := by
    show (Dictionary.deref gC.points (some d)).map _ = _
    rw [h_ed']
    rfl
  have h_stepB : trace_graph_step S tracer gB = some (gD.crash_motorcycle 0) :=
    trace_graph_step_arrive S tracer gB gD 0 mcA mcB ed.location h_topB h_gB h_driveB rfl rfl
      h_locB h_add
  have h_stepB' : trace_graph_step S tracer gB = trace_graph_at_destination tracer gC 0 mcB := by
    unfold trace_graph_step
    simp only [h_topB, h_gB, h_driveB]
    exact if_pos rfl
  have h_gD : gD.motorcycle 0 = some mcB := by
    show gC.motorcycles.get? 0 = _
    rw [h_gC_mcs]
    rfl
  obtain ⟨c1, c2, c3, _, _⟩ := crash_motorcycle_live gD 0 mcB h_gD rfl
  -- the loop
  have h_loop : trace_graph_loop S tracer fuel g2 = some (gD.crash_motorcycle 0) := by
    obtain ⟨n, rfl⟩ : ∃ n, fuel = n + 1 + 1 := ⟨fuel - 2, by omega⟩
    rw [trace_graph_loop_step S tracer (n + 1) g2 gB (by simp [g2]) (h_stepA.trans h_contA),
      trace_graph_loop_step S tracer n gB _ (by simp [gB, gA, g2, set_motorcycle]) h_stepB]
    exact trace_graph_loop_done S tracer n _ (by rw [c2]; rfl)
  refine ⟨gD.crash_motorcycle 0, ?_, ⟨_, c1, rfl, rfl, rfl, rfl⟩, by rw [c2]; rfl, by rw [c3],
    mcA, mcB, gB, h_stepA, ?_, h_stepA.trans h_contA, h_stepB', h_stepB⟩
  · unfold trace_graph
    simp only [h_init]
    have e : ({ g1 with motorcycle_pq := List.range g1.motorcycles.length } : Motorcycle_graph)
        = g2 := by
      simp only [h_mcs, List.length_singleton, List.range_succ, List.range_zero,
        List.nil_append, g2]
    rw [e, crash_motorcycles_with_same_source_and_direction_single g2 mc h_mcs]
    exact h_loop
  · rw [h_find]
    simp [Collision_information.ctor, Collision_information.found_collision]

/-- C15, on the motorcycle of `lone_input`, which goes from `(1,0,0)` to `(0,1,0)` at the
speed `1` on the one-triangle mesh: it is crashed at its destination at the time `1` and the
track store holds the segment `(0, source, 0, destination, 1)` under the face `0`. -/
theorem lone_motorcycle_reaches_destination_witness :
    initialize_motorcycles exact_services no_tracer lone_input = some lone_initialized ∧
    ∃ g', trace_graph exact_services no_tracer 2 lone_input = some g' ∧
      (∃ m, g'.motorcycle 0 = some m ∧ m.crashed = true ∧ m.current_position = some 1 ∧
        m.current_time = 1 ∧ m.targets = []) ∧
      g'.motorcycle_pq = [] ∧
      g'.track_face_map =
        [(some 0, [{ id := 0, source := some 0, time_at_source := 0, destination := some 1,
                     time_at_destination := 1 }])] :=
  have h_init : initialize_motorcycles exact_services no_tracer lone_input =
      some lone_initialized := by decide!
  have h := lone_motorcycle_reaches_destination exact_services no_tracer lone_input
    lone_initialized 2 1 (.location (some 0, (1, 0, 0))) (some (.location (some 0, (0, 1, 0))))
    0 1 0 1 (entry_at (1, 0, 0) [(0, 0)]) (entry_at (0, 1, 0) [(0, 1)]) h_init rfl rfl
    (by decide) (by decide) rfl rfl rfl rfl (by decide)
    (fun _ hl => (Bool.false_ne_true hl.symm).elim)
    (fun _ hl => (Bool.false_ne_true hl.symm).elim) (le_refl 2)
  ⟨h_init, h.imp (fun _ hg => ⟨hg.1, hg.2.1, hg.2.2.1, hg.2.2.2.1⟩)⟩

/-! ## The times of the confirmed track segments -/

theorem well_timed_set (g : Motorcycle_graph) (i : Nat) (m' : Motorcycle) (h : well_timed g)
    (h' : m'.well_timed) : well_timed (g.set_motorcycle i m') := by
  intro m hm
  rcases List.mem_or_eq_of_mem_set hm with hm | rfl
  · exact h m hm
  · exact h'

theorem well_timed_motorcycle (g : Motorcycle_graph) (i : Nat) (m : Motorcycle)
    (h : well_timed g) (hm : g.motorcycle i = some m) : m.well_timed :=
  h m (List.get?_mem hm)

theorem apply_op_well_timed (mc mc' : Motorcycle) (op : Motorcycle_op) (h : mc.well_timed)
    (happ : mc.apply_op op = some mc') : mc'.well_timed := by
  obtain ⟨h0, h1, h2⟩ := h
  obtain ⟨i1, i2, i3⟩ := apply_op_invariant mc mc' op h1 h2 happ
  refine ⟨?_, i1, i2⟩
  cases op with
  | drive =>
    have e : mc'.time_at_source = mc.time_at_source := by
      simp only [Motorcycle.apply_op, Motorcycle.drive_to_closest_target] at happ
      split_ifs at happ
      cases ht : mc.targets with
      | nil => simp [ht] at happ
      | cons x rest =>
        simp only [ht, Option.some.injEq] at happ
        rw [← happ]
        rfl
    rw [e]
    exact le_trans h0 i3
  | add_target e t =>
    have e : mc'.time_at_source = mc.time_at_source := by
      simp only [Motorcycle.apply_op, Motorcycle.add_target] at happ
      split_ifs at happ
      simp only [Option.some.injEq] at happ
      rw [← happ]
    rw [e]
    exact le_trans h0 i3
  | clear_targets =>
    simp only [Motorcycle.apply_op, Option.some.injEq] at happ
    rw [← happ]
    exact h0
  | crash =>
    simp only [Motorcycle.apply_op, Option.some.injEq] at happ
    rw [← happ]
    exact h0
  | set_path a b c =>
    simp only [Motorcycle.apply_op, Option.some.injEq] at happ
    rw [← happ]
  | track_insert e t =>
    simp only [Motorcycle.apply_op, Option.some.injEq] at happ
    rw [← happ]
    exact h0

theorem add_target_well_timed (mc mc' : Motorcycle) (e : DEC_it) (t : FT) (h : mc.well_timed)
    (h' : mc.add_target e t = some mc') : mc'.well_timed :=
  apply_op_well_timed mc mc' (.add_target e t) h h'

theorem drive_well_timed (mc mc' : Motorcycle) (h : mc.well_timed)
    (h' : mc.drive_to_closest_target = some mc') : mc'.well_timed :=
  apply_op_well_timed mc mc' .drive h h'

theorem clear_targets_well_timed (mc : Motorcycle) (h : mc.well_timed) :
    mc.clear_targets.well_timed :=
  apply_op_well_timed mc _ .clear_targets h rfl

theorem crash_well_timed (mc : Motorcycle) (h : mc.well_timed) : mc.crash.well_timed :=
  apply_op_well_timed mc _ .crash h rfl

theorem track_insert_well_timed (mc : Motorcycle) (e : DEC_it) (t : FT) (h : mc.well_timed) :
    (mc.track_insert e t).well_timed :=
  apply_op_well_timed mc _ (.track_insert e t) h rfl

theorem crash_motorcycle_well_timed (g : Motorcycle_graph) (k : Nat) (h : well_timed g) :
    well_timed (g.crash_motorcycle k) := by
  unfold crash_motorcycle
  cases hm : g.motorcycle k with
  | none => exact h
  | some mc =>
    simp only []
    split_ifs
    · exact h
    · exact well_timed_set g k _ h
        (crash_well_timed _ (clear_targets_well_timed _ (well_timed_motorcycle g k mc h hm)))

theorem add_track_segment_to_map_well_timed (g g' : Motorcycle_graph) (fd : face_descriptor)
    (id : Nat) (s : DEC_it) (ts : FT) (t : DEC_it) (tt : FT) (h : well_timed g)
    (h' : g.add_track_segment_to_map fd id s ts t tt = some g') : well_timed g' := by
  have e := (add_track_segment_to_map_spec g g' fd id s ts t tt h').2.2.2.1
  intro m hm
  rw [e] at hm
  exact h m hm

theorem compute_halving_point_motorcycles (S : Services) (g : Motorcycle_graph) (p q : DEC_it)
    (tp tq : FT) (r : Motorcycle_graph × DEC_it × FT)
    (h : compute_halving_point S g p tp q tq = some r) : r.1.motorcycles = g.motorcycles := by
  unfold compute_halving_point at h
  split_ifs at h
  simp only [Option.bind_eq_bind, Option.bind_eq_some] at h
  obtain ⟨pe, _, qe, _, h⟩ := h
  split_ifs at h
  unfold compute_middle_point at h
  simp only [Option.bind_eq_bind, Option.bind_eq_some] at h
  obtain ⟨pe', _, qe', _, h⟩ := h
  split_ifs at h
  simp only [Option.some.injEq] at h
  rw [← h]

theorem well_timed_points (g : Motorcycle_graph) (points : Dictionary) (h : well_timed g) :
    well_timed { g with points := points } := h

theorem well_timed_of_motorcycles (g g' : Motorcycle_graph) (h : well_timed g)
    (e : g'.motorcycles = g.motorcycles) : well_timed g' := by
  intro m hm
  rw [e] at hm
  exact h m hm

theorem treat_collision_mc_well_timed (S : Services) (g g' : Motorcycle_graph) (k : Nat)
    (c : DEC_it) (t : FT) (h : well_timed g) (h' : treat_collision_mc S g k c t = some g') :
    well_timed g' := by
  unfold treat_collision_mc at h'
  simp only [Option.bind_eq_bind, Option.bind_eq_some] at h'
  obtain ⟨mc, h_mc, ce, h_ce, h'⟩ := h'
  have h_wt := well_timed_motorcycle g k mc h h_mc
  split_ifs at h' with h1 h2
  · simp only [Option.bind_eq_some] at h'
    obtain ⟨⟨g1, hp, thp⟩, h_hp, h'⟩ := h'
    simp only at h'
    split_ifs at h' with h3
    simp only [Option.bind_eq_some] at h'
    obtain ⟨mc1, h_1, mc2, h_2, h'⟩ := h'
    split_ifs at h'
    simp only [Option.some.injEq] at h'
    rw [← h']
    have e := compute_halving_point_motorcycles S g _ _ _ _ _ h_hp
    exact well_timed_set _ k mc2 (well_timed_of_motorcycles g _ h e)
      (add_target_well_timed _ _ _ _ (add_target_well_timed _ _ _ _ h_wt h_1) h_2)
  · simp only [Option.bind_eq_some, Option.some.injEq] at h'
    obtain ⟨mc1, h_1, h'⟩ := h'
    rw [← h']
    exact well_timed_set g k mc1 h (add_target_well_timed _ _ _ _ h_wt h_1)
  · simp only [Option.some.injEq] at h'
    rw [← h']
    exact h

theorem treat_collision_fmc_well_timed (S : Services) (g g' : Motorcycle_graph) (k : Nat)
    (c : DEC_it) (t : FT) (h : well_timed g) (h' : treat_collision_fmc S g k c t = some g') :
    well_timed g' := by
  unfold treat_collision_fmc at h'
  simp only [Option.bind_eq_bind] at h'
  obtain ⟨fmc, h_fmc, h'⟩ := Option.bind_eq_some.mp h'
  obtain ⟨ce, h_ce, h'⟩ := Option.bind_eq_some.mp h'
  have h_wt := well_timed_motorcycle g k fmc h h_fmc
  by_cases h1 : ce.has_motorcycle_at fmc.id t = true
  · rw [if_pos h1] at h'
    cases h'
    exact h
  · rw [if_neg h1] at h'
    by_cases hc : fmc.crashed = true
    · rw [if_pos hc] at h'
      obtain ⟨b, h_b, h'⟩ := Option.bind_eq_some.mp h'
      cases b with
      | false =>
        simp only [Bool.not_false, if_true] at h'
        cases h'
        exact h
      | true =>
        simp only [Bool.not_true, Bool.false_eq_true, if_false] at h'
        by_cases h3 : t > fmc.current_time
        · rw [if_pos h3] at h'
          obtain ⟨r, h_hp, h'⟩ := Option.bind_eq_some.mp h'
          obtain ⟨g2, hp, thp⟩ := r
          simp only at h'
          split_ifs at h' with h4
          obtain ⟨m1, h_1, h'⟩ := Option.bind_eq_some.mp h'
          obtain ⟨m2, h_2, h'⟩ := Option.bind_eq_some.mp h'
          split_ifs at h'
          cases h'
          have e := compute_halving_point_motorcycles S _ _ _ _ _ _ h_hp
          exact well_timed_set _ k m2 (well_timed_of_motorcycles g _ h e)
            (add_target_well_timed _ _ _ _ (add_target_well_timed _ _ _ _ h_wt h_1) h_2)
        · rw [if_neg h3] at h'
          cases h'
          exact well_timed_set _ k _ h (track_insert_well_timed _ _ _ h_wt)
    · rw [if_neg hc] at h'
      obtain ⟨b, h_b, h'⟩ := Option.bind_eq_some.mp h'
      cases b with
      | false =>
        simp only [Bool.not_false, if_true] at h'
        cases h'
        exact h
      | true =>
        simp only [Bool.not_true, Bool.false_eq_true, if_false] at h'
        by_cases h3 : t > fmc.current_time
        · rw [if_pos h3] at h'
          obtain ⟨r, h_hp, h'⟩ := Option.bind_eq_some.mp h'
          obtain ⟨g2, hp, thp⟩ := r
          simp only at h'
          split_ifs at h' with h4
          obtain ⟨m1, h_1, h'⟩ := Option.bind_eq_some.mp h'
          obtain ⟨m2, h_2, h'⟩ := Option.bind_eq_some.mp h'
          split_ifs at h'
          cases h'
          have e := compute_halving_point_motorcycles S _ _ _ _ _ _ h_hp
          exact well_timed_set _ k m2 (well_timed_of_motorcycles g _ h e)
            (add_target_well_timed _ _ _ _ (add_target_well_timed _ _ _ _ h_wt h_1) h_2)
        · rw [if_neg h3] at h'
          cases h'
          exact well_timed_set _ k _ h (track_insert_well_timed _ _ _ h_wt)

theorem treat_collision_well_timed (S : Services) (g g' : Motorcycle_graph) (k : Nat)
    (c : DEC_it) (t : FT) (fk : Nat) (fc : DEC_it) (ft : FT) (h : well_timed g)
    (h' : treat_collision S g k c t fk fc ft = some g') : well_timed g' := by
  unfold treat_collision at h'
  simp only [Option.bind_eq_bind] at h'
  obtain ⟨mc, h_mc, h'⟩ := Option.bind_eq_some.mp h'
  obtain ⟨fmc, h_fmc, h'⟩ := Option.bind_eq_some.mp h'
  by_cases h1 : (decide (mc.id = size_t_minus_one) || decide (fmc.id = size_t_minus_one)) = true
  · rw [if_pos h1] at h'
    cases h'
  · rw [if_neg h1] at h'
    obtain ⟨ce, h_ce, h'⟩ := Option.bind_eq_some.mp h'
    obtain ⟨fce, h_fce, h'⟩ := Option.bind_eq_some.mp h'
    obtain ⟨loc, h_loc, h'⟩ := Option.bind_eq_some.mp h'
    split_ifs at h' with h2 h3 h4
    obtain ⟨ct, h_ct, h'⟩ := Option.bind_eq_some.mp h'
    by_cases h5 : (decide (t ≤ ct.2) &&
        (decide (c ≠ ct.1) || !ce.has_motorcycle_at fmc.id ft)) = true
    · rw [if_pos h5] at h'
      obtain ⟨g1, h_g1, h'⟩ := Option.bind_eq_some.mp h'
      exact treat_collision_fmc_well_timed S g1 g' fk fc ft
        (treat_collision_mc_well_timed S g g1 k c t h h_g1) h'
    · rw [if_neg h5] at h'
      cases h'
      exact h

theorem visit_point_mc_well_timed (g g' : Motorcycle_graph) (k : Nat) (c : DEC_it)
    (v : Option FT) (t t1 t2 : FT) (hw : well_timed g)
    (h : visit_point_mc g k c v t t1 t2 = some g') : well_timed g' := by
  unfold visit_point_mc at h
  cases hm : g.motorcycle k with
  | none => simp [hm] at h
  | some mc =>
    have h_wt := well_timed_motorcycle g k mc hw hm
    simp only [hm] at h
    cases v with
    | some vt =>
      simp only at h
      split_ifs at h
      · cases ha : mc.add_target c vt with
        | none => simp [ha] at h
        | some m1 =>
          simp only [ha, Option.map_some', Option.some.injEq] at h
          subst h
          exact well_timed_set g k m1 hw (add_target_well_timed _ _ _ _ h_wt ha)
      · simp only [Option.some.injEq] at h
        subst h
        exact hw
    | none =>
      simp only at h
      split_ifs at h
      cases ha : mc.add_target c t with
      | none => simp [ha] at h
      | some m1 =>
        simp only [ha, Option.map_some', Option.some.injEq] at h
        subst h
        exact well_timed_set _ k m1 (well_timed_points g _ hw)
          (add_target_well_timed _ _ _ _ h_wt ha)

theorem visit_point_fmc_well_timed (g g' : Motorcycle_graph) (k : Nat) (c : DEC_it)
    (v : Option FT) (t t1 t2 : FT) (hw : well_timed g)
    (h : visit_point_fmc g k c v t t1 t2 = some g') : well_timed g' := by
  unfold visit_point_fmc at h
  cases hm : g.motorcycle k with
  | none => simp [hm] at h
  | some fmc =>
    have h_wt := well_timed_motorcycle g k fmc hw hm
    simp only [hm] at h
    cases v with
    | some vt =>
      simp only at h
      split_ifs at h
      · cases ha : fmc.add_target c vt with
        | none => simp [ha] at h
        | some m1 =>
          simp only [ha, Option.map_some', Option.some.injEq] at h
          subst h
          exact well_timed_set g k m1 hw (add_target_well_timed _ _ _ _ h_wt ha)
      · simp only [Option.some.injEq] at h
        subst h
        exact hw
    | none =>
      simp only at h
      cases hf : (if (!fmc.crashed && decide (t ≥ fmc.current_time)) = true then
          fmc.add_target c t else some fmc) with
      | none =>
        simp only [hf] at h
        split_ifs at h
      | some m1 =>
        have hc : m1.well_timed := by
          split_ifs at hf
          · exact add_target_well_timed _ _ _ _ h_wt hf
          · simp only [Option.some.injEq] at hf
            rw [← hf]
            exact h_wt
        simp only [hf] at h
        split_ifs at h
        all_goals
          simp only [Option.some.injEq] at h
          subst h
          exact well_timed_set _ k m1 (well_timed_points g _ hw) hc

theorem visit_point_well_timed (g g' : Motorcycle_graph) (a b : Nat) (c : DEC_it)
    (t ft tol : FT) (hw : well_timed g) (h : visit_point g a b c t ft tol = some g') :
    well_timed g' := by
  unfold visit_point at h
  cases h1 : g.motorcycle a with
  | none => simp [h1] at h
  | some mc =>
    cases h2 : g.motorcycle b with
    | none => simp [h1, h2] at h
    | some fmc =>
      cases h3 : Dictionary.deref g.points c with
      | none => simp [h1, h2, h3] at h
      | some ce =>
        simp only [h1, h2, h3] at h
        cases h4 : g.current_location mc with
        | none => simp [h4] at h
        | some l1 =>
          cases h5 : g.current_location fmc with
          | none => simp [h4, h5] at h
          | some l2 =>
            simp only [h4, h5] at h
            cases h6 : Dictionary.get_sibling g.points c l1.1 with
            | none => simp [h6] at h
            | some i =>
              cases h7 : Dictionary.get_sibling g.points c l2.1 with
              | none => simp [h6, h7] at h
              | some j =>
                simp only [h6, h7] at h
                split at h
                · exact absurd h (by simp)
                · rename_i g1 hg1
                  split at h
                  · exact absurd h (by simp)
                  · rename_i g2 hg2
                    have e1 := visit_point_mc_well_timed _ _ _ _ _ _ _ _ hw hg1
                    have e2 := visit_point_fmc_well_timed _ _ _ _ _ _ _ _ e1 hg2
                    split at h
                    · split_ifs at h
                      all_goals
                        simp only [Option.some.injEq] at h
                        subst h
                        exact e2
                    · exact absurd h (by simp)

theorem trace_graph_add_intersection_well_timed (S : Services) (g g' : Motorcycle_graph)
    (k : Nat) (res : Collision_information) (hw : well_timed g)
    (h : trace_graph_add_intersection S g k res = some g') : well_timed g' := by
  unfold trace_graph_add_intersection at h
  simp only at h
  split at h
  · exact absurd h (by simp)
  · rename_i g1 hg1
    have e1 := visit_point_well_timed _ _ _ _ _ _ _ _ hw hg1
    cases hm : g1.motorcycle k with
    | none => simp [hm] at h
    | some mc =>
      simp only [hm] at h
      cases hm1 : (if res.closest_collision ≠ mc.current_position then
          mc.add_target mc.current_position mc.current_time else some mc) with
      | none => simp [hm1] at h
      | some mc1 =>
        have hc : mc1.well_timed := by
          split_ifs at hm1
          · exact add_target_well_timed _ _ _ _ (well_timed_motorcycle g1 k mc e1 hm) hm1
          · simp only [Option.some.injEq] at hm1
            rw [← hm1]
            exact well_timed_motorcycle g1 k mc e1 hm
        have e2 : well_timed ((g1.set_motorcycle k mc1).pq_update k) :=
          well_timed_set g1 k mc1 e1 hc
        simp only [hm1] at h
        cases hf : ((g1.set_motorcycle k mc1).pq_update k).motorcycle res.fmc_id with
        | none => simp [hf] at h
        | some fmc =>
          have h_fwt := well_timed_motorcycle _ _ fmc e2 hf
          simp only [hf] at h
          by_cases hcr : fmc.crashed = true
          · simp only [hcr, Bool.not_true, Bool.false_eq_true, if_false,
              Option.some.injEq] at h
            subst h
            exact e2
          · have hcr' : fmc.crashed = false := by simpa using hcr
            simp only [hcr', Bool.not_false, if_true] at h
            generalize hf1 : (if ((fmc.has_target res.closest_collision).isSome &&
                decide (res.closest_collision ≠ fmc.current_position)) = true then
                fmc.add_target fmc.current_position fmc.current_time else some fmc) = fmc1o at h
            cases fmc1o with
            | none => simp at h
            | some fmc1 =>
              have hc1 : fmc1.well_timed := by
                split_ifs at hf1
                · exact add_target_well_timed _ _ _ _ h_fwt hf1
                · simp only [Option.some.injEq] at hf1
                  rw [← hf1]
                  exact h_fwt
              simp only [Option.map_some', Option.some.injEq] at h
              subst h
              exact well_timed_set _ res.fmc_id fmc1 e2 hc1

/-- The end of `treat_collision_info`, from the collision entry on. -/
theorem treat_collision_info_tail (S : Services) (g1 g' : Motorcycle_graph) (k : Nat)
    (res : Collision_information) (collision : DEC_it) (fd ffd : face_descriptor)
    (hw : well_timed g1)
    (h : (match Dictionary.deref g1.points collision with
      | none => none
      | some collision_entry =>
        let collision_in_fd : DEC_it :=
          if collision_entry.location.1 ≠ fd then Dictionary.get_sibling g1.points collision fd
          else collision
        let collision_in_ffd : DEC_it :=
          if collision_entry.location.1 ≠ ffd then
            (collision_entry.sibling ffd).bind (fun l => Dictionary.find g1.points l)
          else collision
        match Dictionary.deref g1.points collision_in_fd,
              Dictionary.deref g1.points collision_in_ffd with
        | some in_fd, some in_ffd =>
          if in_fd.location.1 ≠ fd then none
          else if in_ffd.location.1 ≠ ffd then none
          else if fd ≠ ffd && !(in_ffd.is_sibling in_fd.location &&
              in_fd.is_sibling in_ffd.location) then none
          else
            treat_collision S g1 k collision_in_fd res.time_at_closest_collision
              res.fmc_id collision_in_ffd res.foreign_time_at_closest_collision
        | _, _ => none) = some g') : well_timed g' := by
  cases hd : Dictionary.deref g1.points collision with
  | none => simp [hd] at h
  | some ce =>
    simp only [hd] at h
    split at h
    · split_ifs at h
      all_goals exact treat_collision_well_timed S g1 g' k _ _ _ _ _ hw h
    · cases h

set_option maxHeartbeats 2000000 in
theorem treat_collision_info_well_timed (S : Services) (g g' : Motorcycle_graph) (k : Nat)
    (res : Collision_information) (hw : well_timed g)
    (h : treat_collision_info S g k res = some g') : well_timed g' := by
  unfold treat_collision_info at h
  cases h_mc : g.motorcycle k with
  | none => simp [h_mc] at h
  | some mc =>
    cases h_fmc : g.motorcycle res.fmc_id with
    | none => simp [h_mc, h_fmc] at h
    | some fmc =>
      cases h_loc : g.current_location mc with
      | none => simp [h_mc, h_fmc, h_loc] at h
      | some loc =>
        simp only [h_mc, h_fmc, h_loc] at h
        split_ifs at h
        all_goals
          first
            | exact treat_collision_info_tail S _ g' k res _ _ _ hw h
            | exact treat_collision_info_tail S _ g' k res _ _ _ (well_timed_points g _ hw) h

theorem compute_motorcycle_next_path_well_timed (tracer : Tracer) (g : Motorcycle_graph)
    (k : Nat) (r : Motorcycle_graph × Bool) (hw : well_timed g)
    (h : compute_motorcycle_next_path tracer g k = some r) : well_timed r.1 := by
  unfold compute_motorcycle_next_path at h
  cases h_mc : g.motorcycle k with
  | none => simp [h_mc] at h
  | some mc =>
    have h_wt := well_timed_motorcycle g k mc hw h_mc
    have h_path : Motorcycle.well_timed
        { mc with source := (tracer g.points mc).2.2.1,
                  time_at_source := mc.current_time,
                  current_position := (tracer g.points mc).2.2.1,
                  destination := (tracer g.points mc).2.2.2.1,
                  is_destination_final := (tracer g.points mc).2.2.2.2.2 } :=
      apply_op_well_timed mc _ (.set_path _ _ _) h_wt rfl
    simp only [h_mc] at h
    cases hf : (tracer g.points mc).2.1 with
    | false =>
      simp only [hf, Bool.not_false, if_true, Option.some.injEq] at h
      rw [← h]
      exact hw
    | true =>
      simp only [hf, Bool.not_true, Bool.false_eq_true, if_false] at h
      cases hp : Dictionary.deref (tracer g.points mc).1 mc.current_position with
      | none => simp [hp] at h
      | some pos =>
        cases hn : Dictionary.deref (tracer g.points mc).1 (tracer g.points mc).2.2.1 with
        | none => simp [hp, hn] at h
        | some ns =>
          simp only [hp, hn] at h
          split_ifs at h with h2 h3
          all_goals
            split at h
            · cases h
            · rename_i mc2 points2 h_added
              split at h
              · cases h
              · rename_i mc3 h_3
                simp only [Option.some.injEq] at h
                rw [← h]
                refine well_timed_set _ k mc3 hw ?_
                refine add_target_well_timed _ _ _ _ ?_ h_3
                first
                  | (simp only [Option.map_eq_some', Prod.mk.injEq] at h_added
                     obtain ⟨m, h_m, e, _⟩ := h_added
                     rw [← e]
                     exact add_target_well_timed _ _ _ _ h_path h_m)
                  | (simp only [Option.some.injEq, Prod.mk.injEq] at h_added
                     rw [← h_added.1]
                     exact h_path)

theorem trace_graph_at_destination_well_timed (tracer : Tracer) (g g' : Motorcycle_graph)
    (k : Nat) (mc : Motorcycle) (hw : well_timed g) (h_wt : mc.well_timed)
    (h : trace_graph_at_destination tracer g k mc = some g') : well_timed g' := by
  unfold trace_graph_at_destination at h
  cases h_loc : g.current_location mc with
  | none => simp [h_loc] at h
  | some loc =>
    simp only [h_loc] at h
    cases h_add : g.add_track_segment_to_map loc.1 mc.id mc.source mc.time_at_source
        mc.destination mc.current_time with
    | none => simp [h_add] at h
    | some g1 =>
      have hw1 := add_track_segment_to_map_well_timed _ _ _ _ _ _ _ _ hw h_add
      simp only [h_add] at h
      split at h
      · cases h
      · simp only [Option.some.injEq] at h
        rw [← h]
        exact crash_motorcycle_well_timed g1 k hw1
      · have hw2 : well_timed (g1.set_motorcycle k mc.clear_targets) :=
          well_timed_set g1 k _ hw1 (clear_targets_well_timed mc h_wt)
        split at h
        · cases h
        · rename_i g3 h_next
          simp only [Option.some.injEq] at h
          rw [← h]
          exact compute_motorcycle_next_path_well_timed tracer _ k _ hw2 h_next
        · rename_i g3 h_next
          simp only [Option.some.injEq] at h
          rw [← h]
          exact crash_motorcycle_well_timed g3 k
            (compute_motorcycle_next_path_well_timed tracer _ k _ hw2 h_next)

theorem trace_graph_continue_well_timed (S : Services) (g g' : Motorcycle_graph) (k : Nat)
    (mc : Motorcycle) (hw : well_timed g) (h : trace_graph_continue S g k mc = some g') :
    well_timed g' := by
  unfold trace_graph_continue at h
  cases hr : find_collision S g mc with
  | none => simp [hr] at h
  | some res =>
    simp only [hr] at h
    by_cases h1 : res.add_intersection_without_moving_motorcycles = true
    · simp only [h1, if_true] at h
      exact trace_graph_add_intersection_well_timed S g g' k res hw h
    · simp only [h1, Bool.false_eq_true, if_false] at h
      cases ht : (if res.found_collision = true then treat_collision_info S g k res
          else some g) with
      | none => simp [ht] at h
      | some g1 =>
        have hw1 : well_timed g1 := by
          split_ifs at ht
          · exact treat_collision_info_well_timed S g g1 k res hw ht
          · simp only [Option.some.injEq] at ht
            rw [← ht]
            exact hw
        simp only [ht] at h
        split at h
        · cases h
        · split_ifs at h
          simp only [Option.some.injEq] at h
          rw [← h]
          exact hw1

/-- A step of the loop of `trace_graph` keeps the times of the motorcycles consistent. -/
theorem trace_graph_step_well_timed (S : Services) (tracer : Tracer) (g g' : Motorcycle_graph)
    (hw : well_timed g) (h : trace_graph_step S tracer g = some g') : well_timed g' := by
  unfold trace_graph_step at h
  cases h_top : g.pq_top with
  | none => simp [h_top] at h
  | some k =>
    cases h_mc : g.motorcycle k with
    | none => simp [h_top, h_mc] at h
    | some mc0 =>
      cases h_drive : mc0.drive_to_closest_target with
      | none => simp [h_top, h_mc, h_drive] at h
      | some mc =>
        have h_wt : mc.well_timed :=
          drive_well_timed mc0 mc (well_timed_motorcycle g k mc0 hw h_mc) h_drive
        have hw1 : well_timed (g.set_motorcycle k mc) := well_timed_set g k mc hw h_wt
        simp only [h_top, h_mc, h_drive] at h
        by_cases h_d : mc.current_position = mc.destination
        · simp only [h_d, if_true] at h
          exact trace_graph_at_destination_well_timed tracer _ g' k mc hw1 h_wt h
        · simp only [h_d, if_false] at h
          split at h
          · split_ifs at h
            · simp only [Option.map_eq_some'] at h
              obtain ⟨g2, h_add, h⟩ := h
              rw [← h]
              exact crash_motorcycle_well_timed g2 k
                (add_track_segment_to_map_well_timed _ _ _ _ _ _ _ _ hw1 h_add)
            · exact trace_graph_continue_well_timed S _ g' k mc hw1 h
          · cases h

/-- The loop of `trace_graph` keeps the times of the motorcycles consistent. -/
theorem trace_graph_loop_well_timed (S : Services) (tracer : Tracer) (fuel : Nat) :
    ∀ (g g' : Motorcycle_graph), well_timed g → trace_graph_loop S tracer fuel g = some g' →
      well_timed g' := by
  induction fuel with
  | zero =>
    intro g g' hw h
    unfold trace_graph_loop at h
    split_ifs at h
    cases h
    exact hw
  | succ n ih =>
    intro g g' hw h
    unfold trace_graph_loop at h
    split_ifs at h
    · cases h
      exact hw
    · cases h_step : trace_graph_step S tracer g with
      | none => simp [h_step] at h
      | some g1 =>
        simp only [h_step] at h
        exact ih g1 g' (trace_graph_step_well_timed S tracer g g1 hw h_step) h

theorem add_track_segment_to_map_segments_ordered (g g' : Motorcycle_graph)
    (fd : face_descriptor) (id : Nat) (s : DEC_it) (ts : FT) (t : DEC_it) (tt : FT)
    (h_le : ts ≤ tt) (hs : segments_ordered g)
    (h : g.add_track_segment_to_map fd id s ts t tt = some g') : segments_ordered g' := by
  unfold add_track_segment_to_map at h
  cases h_s : Dictionary.deref g.points s with
  | none => simp [h_s] at h
  | some se =>
    cases h_t : Dictionary.deref g.points t with
    | none => simp [h_s, h_t] at h
    | some te =>
      simp only [h_s, h_t] at h
      split_ifs at h
      all_goals
        simp only [Option.some.injEq] at h
        rw [← h]
        intro x hx tr htr
        simp only [List.mem_map, List.mem_append, List.mem_singleton] at hx
      · obtain ⟨y, hy, rfl⟩ := hx
        split_ifs at htr
        · rcases List.mem_append.mp htr with h1 | h1
          · exact hs y hy tr h1
          · rw [List.mem_singleton.mp h1]
            exact h_le
        · exact hs y hy tr htr
      · rcases hx with hx | rfl
        · exact hs x hx tr htr
        · rw [List.mem_singleton.mp htr]
          exact h_le

/-- C20: in a state in which the times of every motorcycle are consistent (`well_timed`: the
time at the source is not later than the current time, no target is earlier than the current
time, the targets are ordered), for the motorcycle that a step of the loop of `trace_graph`
drives, the time at the source is not later than the current time: these are the times that
both calls of `add_track_segment_to_map` are given (l. 2983-2985, 3037-3039), so its
precondition `time_at_s <= time_at_t` holds and a track store whose segments have ordered times
keeps that property; and the step and the loop keep the times of every motorcycle consistent,
so that this holds at every step of the loop. -/
theorem confirmed_segments_are_time_ordered (S : Services) (tracer : Tracer)
    (g : Motorcycle_graph) (hw : well_timed g) :
    (∀ k mc0 mc, g.pq_top = some k → g.motorcycle k = some mc0 →
      mc0.drive_to_closest_target = some mc →
      mc.time_at_source ≤ mc.current_time ∧
      ∀ fd t g1, (g.set_motorcycle k mc).add_track_segment_to_map fd mc.id mc.source
          mc.time_at_source t mc.current_time = some g1 →
        segments_ordered (g.set_motorcycle k mc) → segments_ordered g1) ∧
    (∀ g', trace_graph_step S tracer g = some g' → well_timed g') ∧
    (∀ fuel g', trace_graph_loop S tracer fuel g = some g' → well_timed g') := by
  refine ⟨?_, ?_, ?_⟩
  · intro k mc0 mc _ h_mc h_drive
    have h_wt := drive_well_timed mc0 mc (well_timed_motorcycle g k mc0 hw h_mc) h_drive
    refine ⟨h_wt.1, ?_⟩
    intro fd t g1 h_add hs
    exact add_track_segment_to_map_segments_ordered _ g1 fd _ _ _ _ _ h_wt.1 hs h_add
  · intro g' h
    exact trace_graph_step_well_timed S tracer g g' hw h
  · intro fuel g' h
    exact trace_graph_loop_well_timed S tracer fuel g g' hw h

theorem head_on_state_well_timed : well_timed head_on_state := by
  intro m hm
  simp only [head_on_state, List.mem_cons, List.mem_singleton, List.not_mem_nil, or_false] at hm
  rcases hm with rfl | rfl
  · refine ⟨by decide!, ?_, ?_⟩
    · intro x hx
      simp only [head_on_mc0, List.mem_singleton] at hx
      rw [hx]
      decide!
    · simp [Motorcycle.targets_ordered, head_on_mc0]
  · refine ⟨by decide!, ?_, ?_⟩
    · intro x hx
      simp only [head_on_mc1, List.mem_singleton] at hx
      rw [hx]
      decide!
    · simp [Motorcycle.targets_ordered, head_on_mc1]

/-- C20, on `head_on_state`: the times of its two motorcycles are consistent, and so are
those of the state after a step of the loop. -/
theorem confirmed_segments_are_time_ordered_witness :
    well_timed head_on_state ∧
    ∃ g', trace_graph_step exact_services no_tracer head_on_state = some g' ∧ well_timed g' :=
  have h_some : (trace_graph_step exact_services no_tracer head_on_state).isSome = true := by
    decide!
  ⟨head_on_state_well_timed,
    (Option.isSome_iff_exists.mp h_some).imp (fun g' hg' =>
      ⟨hg', (confirmed_segments_are_time_ordered exact_services no_tracer head_on_state
        head_on_state_well_timed).2.1 g' hg'⟩)⟩

/-! ## Collinear tracks: a confirmed foreign track in the opposite direction -/

/-- C11 (amended): in `find_collision_between_collinear_tracks` with distinct sources, opposite
directions and a confirmed (not moving) foreign track. When the source of the foreign track is
strictly before the current position of `mc`, or the closest target of `mc` is strictly before
the destination of the foreign track, no candidate is offered. Otherwise the destination entry
of the foreign track is offered, with the foreign time `time_at_fmc_track_destination`: at the
time of the closest target of `mc` when it is that target; at the current time of `mc` when it
is the current position of `mc`; at the time `current_time + dist(current position, foreign
destination)/speed` when it lies strictly inside the tentative segment of `mc`, the call
failing its assertion if `mc` has a target at that time; and in every other case no candidate
is offered. -/
theorem opposite_direction_stationary_offer (S : Services) (g : Motorcycle_graph)
    (mc fmc : Motorcycle) (mcs fmcs : Segment_2) (fmc_track : Track_segment)
    (tc : Collision_information) (fts ftd pos : Dictionary_entry)
    (h_src : mcs.1 ≠ fmcs.1) (h_nd : mcs.1 ≠ mcs.2)
    (h_dir : (is_degenerate_2 fmcs ||
      decide (angle_2 mcs.1 mcs.2 fmcs.1 fmcs.2 = Angle.ACUTE)) = false)
    (h_fts : Dictionary.deref g.points fmc_track.source = some fts)
    (h_ftd : Dictionary.deref g.points fmc_track.destination = some ftd)
    (h_pos : Dictionary.deref g.points mc.current_position = some pos)
    (h_face : fts.location.1 = ftd.location.1)
    (h_time : fmc_track.time_at_source ≤ fmc_track.time_at_destination)
    (h_edge : pos.location.1 = fts.location.1 ∨
      collinear_tracks_on_common_halfedge S g mc pos.location fts ftd = true) :
    (collinear_are_strictly_ordered_along_line_2 fmcs.1 mcs.1 mcs.2 = true ∨
      (mcs.2 ≠ fmcs.2 ∧ collinear_are_strictly_ordered_along_line_2 mcs.2 fmcs.2 fmcs.1 = true) →
      find_collision_between_collinear_tracks S g mc mcs fmc fmc_track fmcs false tc =
        some tc) ∧
    (collinear_are_strictly_ordered_along_line_2 fmcs.1 mcs.1 mcs.2 = false →
      (decide (mcs.2 ≠ fmcs.2) &&
        collinear_are_strictly_ordered_along_line_2 mcs.2 fmcs.2 fmcs.1) = false →
      (mcs.2 = fmcs.2 → ∀ closest_target, mc.closest_target = some closest_target →
        find_collision_between_collinear_tracks S g mc mcs fmc fmc_track fmcs false tc =
          some (offer_at_foreign_track_end S tc fmc fmc_track.destination
            fmc_track.time_at_destination fts.location.1
            (decide (pos.location.1 = fts.location.1)) closest_target.2)) ∧
      (mcs.2 ≠ fmcs.2 → mcs.1 = fmcs.2 →
        find_collision_between_collinear_tracks S g mc mcs fmc fmc_track fmcs false tc =
          some (offer_at_foreign_track_end S tc fmc fmc_track.destination
            fmc_track.time_at_destination fts.location.1
            (decide (pos.location.1 = fts.location.1)) mc.current_time)) ∧
      (mcs.2 ≠ fmcs.2 → mcs.1 ≠ fmcs.2 →
        collinear_are_strictly_ordered_along_line_2 mcs.1 fmcs.2 mcs.2 = true →
        find_collision_between_collinear_tracks S g mc mcs fmc fmc_track fmcs false tc =
          if (mc.has_target_at_time (mc.current_time +
              S.sqrt (squared_distance pos.point ftd.point) / mc.speed)).isSome then none
          else
            some (offer_at_foreign_track_end S tc fmc fmc_track.destination
              fmc_track.time_at_destination fts.location.1
              (decide (pos.location.1 = fts.location.1))
              (mc.current_time + S.sqrt (squared_distance pos.point ftd.point) / mc.speed))) ∧
      (mcs.2 ≠ fmcs.2 → mcs.1 ≠ fmcs.2 →
        collinear_are_strictly_ordered_along_line_2 mcs.1 fmcs.2 mcs.2 = false →
        find_collision_between_collinear_tracks S g mc mcs fmc fmc_track fmcs false tc =
          some tc)) := by
  have h_sane : (!decide (pos.location.1 = fts.location.1) &&
      !collinear_tracks_on_common_halfedge S g mc pos.location fts ftd) = false := by
    rcases h_edge with h | h <;> simp [h]
  rw [h_face] at h_sane
  refine ⟨?_, ?_⟩
  · intro h
    unfold find_collision_between_collinear_tracks
    simp only [h_src, h_nd, if_false, h_fts, h_ftd, h_pos, h_face, ne_eq, not_true_eq_false,
      h_time, h_sane, h_dir, if_true, Bool.false_eq_true]
    rcases h with h | ⟨h1, h2⟩
    · simp only [h, if_true]
    · simp only [h1, h2, not_false_eq_true, decide_True, Bool.and_self, if_true]
      split_ifs <;> rfl
  · intro h_before h_beyond
    refine ⟨?_, ?_, ?_, ?_⟩
    · intro heq closest_target hct
      unfold find_collision_between_collinear_tracks
      simp only [h_src, h_nd, if_false, h_fts, h_ftd, h_pos, h_face, ne_eq, not_true_eq_false,
        h_time, h_sane, h_dir, if_true, h_before, h_beyond, Bool.false_eq_true, Bool.not_false,
        eq_true heq, hct, decide_False, Bool.false_and]
    · intro hne heq
      have hb : collinear_are_strictly_ordered_along_line_2 mcs.2 fmcs.2 fmcs.1 = false := by
        simpa [hne] using h_beyond
      unfold find_collision_between_collinear_tracks
      simp only [h_src, h_nd, if_false, h_fts, h_ftd, h_pos, h_face, ne_eq, not_true_eq_false,
        h_time, h_sane, h_dir, if_true, h_before, h_beyond, Bool.false_eq_true, Bool.not_false,
        eq_false hne, eq_true heq, hb, not_false_eq_true, decide_True, Bool.true_and]
    · intro hne hne' hord
      have hb : collinear_are_strictly_ordered_along_line_2 mcs.2 fmcs.2 fmcs.1 = false := by
        simpa [hne] using h_beyond
      unfold find_collision_between_collinear_tracks
      simp only [h_src, h_nd, if_false, h_fts, h_ftd, h_pos, h_face, ne_eq, not_true_eq_false,
        h_time, h_sane, h_dir, if_true, h_before, h_beyond, Bool.false_eq_true, Bool.not_false,
        eq_false hne, eq_false hne', hord, hb, not_false_eq_true, decide_True, Bool.true_and]
      split_ifs <;> rfl
    · intro hne hne' hord
      have hb : collinear_are_strictly_ordered_along_line_2 mcs.2 fmcs.2 fmcs.1 = false := by
        simpa [hne] using h_beyond
      unfold find_collision_between_collinear_tracks
      simp only [h_src, h_nd, if_false, h_fts, h_ftd, h_pos, h_face, ne_eq, not_true_eq_false,
        h_time, h_sane, h_dir, if_true, h_before, h_beyond, Bool.false_eq_true, Bool.not_false,
        eq_false hne, eq_false hne', hord, hb, not_false_eq_true, decide_True, Bool.true_and]

/-- C11, counterexample: `stopped_ahead_mc` at `(1,0,0)` has the closest target `(1/2,1/2,0)`,
which is the destination of the confirmed track of `stopped_ahead_fmc` from `(0,1,0)`: the
directions are opposite, the foreign destination is not strictly inside the tentative segment,
and yet the fresh record comes back holding the foreign destination entry `some 1`, at the time
`1/2` of the closest target and the foreign time `1/2`. -/
theorem opposite_direction_stationary_offer_counterexample :
    (is_degenerate_2 ((0, 1), (1/2, 1/2)) ||
      decide (angle_2 (1, 0) (1/2, 1/2) (0, 1) (1/2, 1/2) = Angle.ACUTE)) = false ∧
    collinear_are_strictly_ordered_along_line_2 (1, 0) (1/2, 1/2) (1/2, 1/2) = false ∧
    (Collision_information.ctor double_max (1/2)).fmc_id = size_t_minus_one ∧
    (find_collision_between_collinear_tracks exact_services stopped_ahead_state stopped_ahead_mc
        ((1, 0), (1/2, 1/2)) stopped_ahead_fmc stopped_ahead_track ((0, 1), (1/2, 1/2)) false
        (Collision_information.ctor double_max (1/2))).map
      (fun tc => (tc.closest_collision, tc.time_at_closest_collision,
        tc.foreign_time_at_closest_collision, tc.fmc_id)) = some (some 1, 1/2, 1/2, 0) := by
  refine ⟨by decide!, by decide!, by decide!, by decide!⟩

/-- C11, witness: `stopped_inside_mc` at `(1,0,0)` heads for `(0,1,0)`, and the destination
`(1/2,1/2,0)` of the confirmed foreign track lies strictly between them: the record holds the
foreign destination entry at the time `0 + (1/2)/1`, with the foreign time `1/2`. -/
theorem opposite_direction_stationary_offer_witness :
    (find_collision_between_collinear_tracks exact_services stopped_inside_state
        stopped_inside_mc ((1, 0), (0, 1)) stopped_ahead_fmc stopped_ahead_track
        ((0, 1), (1/2, 1/2)) false (Collision_information.ctor double_max 1)).map
      (fun tc => (tc.closest_collision, tc.time_at_closest_collision,
        tc.foreign_time_at_closest_collision, tc.fmc_id)) = some (some 1, 1/2, 1/2, 0) := by
  have h := ((opposite_direction_stationary_offer exact_services stopped_inside_state
    stopped_inside_mc stopped_ahead_fmc ((1, 0), (0, 1)) ((0, 1), (1/2, 1/2))
    stopped_ahead_track (Collision_information.ctor double_max 1)
    (entry_at (0, 1, 0) [(0, 0), (1, 1)]) (entry_at (1/2, 1/2, 0) [(0, 1/2)])
    (entry_at (1, 0, 0) [(1, 0)])
    (by decide!) (by decide!) (by decide!) (by decide!) (by decide!) (by decide!) (by decide!)
    (by decide!) (Or.inl (by decide!))).2 (by decide!) (by decide!)).2.2.1
    (by decide!) (by decide!) (by decide!)
  rw [h]
  decide!

/-! ## The segment tested against a live motorcycle -/

/-- C12 (as stated, refuted). In `passed_state` the foreign motorcycle `0` is live, in the face
of motorcycle `1`, at `(3/8,3/8,1/4)` at time `3/8`, away from its source `(3/4,0,1/4)`.
`find_collision_with_live_motorcycle` reports a collision at `(5/8,1/8,1/4)`, which the foreign
motorcycle passed at time `1/8`, before its current time: the point lies between the source
and the current position of the foreign motorcycle. Against the segment that starts at the
current position at the current time and ends at the closest target, the same test leaves the
record unchanged. -/
theorem live_motorcycle_tested_from_current_position_counterexample :
    passed_fmc.crashed = false ∧
    current_location passed_state passed_mc = some (some 0, (7/8, 1/8, 0)) ∧
    current_location passed_state passed_fmc = some (some 0, (3/8, 3/8, 1/4)) ∧
    passed_fmc.current_time = 3/8 ∧
    passed_fmc.closest_target = some (some 1, 3/4) ∧
    (find_collision_with_live_motorcycle exact_services passed_state passed_mc
        ((7/8, 1/8), (3/8, 1/8)) passed_fmc (Collision_information.ctor double_max (1/2))).map
      (fun tc => (tc.closest_collision_location, tc.time_at_closest_collision, tc.fmc_id,
        tc.foreign_time_at_closest_collision)) =
      some ((some 0, (5/8, 1/8, 1/4)), 1/4, 0, 1/8) ∧
    find_collision_between_tracks exact_services passed_state passed_mc
        ((7/8, 1/8), (3/8, 1/8)) passed_fmc
        { id := passed_fmc.id, source := passed_fmc.current_position,
          time_at_source := passed_fmc.current_time,
          destination := some 1, time_at_destination := 3/4 } true
        (Collision_information.ctor double_max (1/2)) =
      some (Collision_information.ctor double_max (1/2)) := by
  decide!

/-- C12 (amended). For a live foreign motorcycle other than `mc` in the face of `mc`, the
foreign segment that `find_collision_with_live_motorcycle` tests starts at the source of the
foreign motorcycle at its time at the source and ends at its closest queued target at the
time of that target; the segment is tested as a moving one. -/
theorem live_motorcycle_tested_from_source (S : Services) (g : Motorcycle_graph)
    (mc : Motorcycle) (mcs : Segment_2) (fmc : Motorcycle) (tc : Collision_information)
    (pos fpos : Dictionary_entry) (fct : DEC_it × FT)
    (h_id : mc.id ≠ fmc.id)
    (h_pos : Dictionary.deref g.points mc.current_position = some pos)
    (h_fpos : Dictionary.deref g.points fmc.current_position = some fpos)
    (h_face : pos.location.1 = fpos.location.1)
    (h_live : fmc.crashed = false) (h_fct : fmc.closest_target = some fct) :
    find_collision_with_live_motorcycle S g mc mcs fmc tc =
      find_collision_between_tracks S g mc mcs fmc
        { id := fmc.id, source := fmc.source, time_at_source := fmc.time_at_source,
          destination := fct.1, time_at_destination := fct.2 } true tc :=
  find_collision_with_live_motorcycle_eq S g mc mcs fmc tc pos fpos fct h_id h_pos h_fpos
    h_face h_live h_fct

theorem live_motorcycle_tested_from_source_witness :
    find_collision_with_live_motorcycle exact_services passed_state passed_mc
        ((7/8, 1/8), (3/8, 1/8)) passed_fmc (Collision_information.ctor double_max (1/2)) =
      find_collision_between_tracks exact_services passed_state passed_mc
        ((7/8, 1/8), (3/8, 1/8)) passed_fmc
        { id := 0, source := some 0, time_at_source := 0,
          destination := some 1, time_at_destination := 3/4 } true
        (Collision_information.ctor double_max (1/2)) :=
  live_motorcycle_tested_from_source exact_services passed_state passed_mc
    ((7/8, 1/8), (3/8, 1/8)) passed_fmc (Collision_information.ctor double_max (1/2))
    (entry_at (7/8, 1/8, 0) [(1, 0)]) (entry_at (3/8, 3/8, 1/4) [(0, 3/8)]) (some 1, 3/4)
    (by decide) rfl rfl rfl rfl rfl

/-! ## When the adjacent faces are searched -/

/-- C13 (as stated, refuted). In `leaving_border_state` the current position of the motorcycle
`0` lies on the halfedge `0`, whose opposite halfedge belongs to the face `1`, and its closest
target is strictly inside the face `0`. The face `1` holds a confirmed track and a live
motorcycle. `find_collision_with_foreign_motorcycles` returns the record as it was given
(and so does `find_collision`, which finds no collision), although both searches of the face
across the halfedge fail on this input, because they require a closest target on the border:
neither the confirmed nor the live tracks of the face `1` were tested. -/
theorem foreign_search_for_border_source_counterexample :
    (current_location leaving_border_state leaving_border_mc).map
        two_face_services.get_descriptor_from_location = some (.halfedge 0) ∧
    (leaving_border_mc.closest_target.bind
        (fun ct => Dictionary.deref leaving_border_state.points ct.1)).map
        (fun ct => two_face_services.get_descriptor_from_location ct.location) =
      some (.face (some 0)) ∧
    two_face_services.is_border_edge 0 = false ∧
    two_face_services.face (two_face_services.opposite 0) = some 1 ∧
    tracks_of_face leaving_border_state (some 1) =
      [{ id := 2, source := some 4, time_at_source := 0, destination := some 5,
         time_at_destination := 2/5 }] ∧
    leaving_border_live_fmc.crashed = false ∧
    (current_location leaving_border_state leaving_border_live_fmc).map Prod.fst =
      some (some 1) ∧
    find_collision_with_foreign_motorcycles two_face_services leaving_border_state
        leaving_border_mc (Collision_information.ctor double_max (1/2)) =
      some (Collision_information.ctor double_max (1/2)) ∧
    find_collision two_face_services leaving_border_state leaving_border_mc =
      some (Collision_information.ctor double_max (1/2)) ∧
    find_foreign_collision_with_tentative_track_on_border two_face_services
        leaving_border_state leaving_border_mc 0
        (Collision_information.ctor double_max (1/2)) = none ∧
    find_collision_with_tentative_track_target_on_border two_face_services
        leaving_border_state leaving_border_mc (.halfedge 0)
        (Collision_information.ctor double_max (1/2)) = none := by
  decide!

/-- C13 (amended). `find_collision_with_foreign_motorcycles` searches the adjacent faces only
when the closest target of `mc` lies on a face border. When the closest target is strictly
inside its face, the record is returned unchanged, wherever the current position lies. When
the target is on a border and the current position is strictly inside the face, the faces at
the target are searched, unless a collision earlier than the time at the closest target is
already known. When both lie on a border, the face across their common halfedge is searched,
and then the faces around the target if the target is a vertex; without a common halfedge
only the faces at the target are searched. -/
theorem foreign_search_depends_on_target (S : Services) (g : Motorcycle_graph)
    (mc : Motorcycle) (tc : Collision_information) (closest_target : DEC_it × FT)
    (pos ct : Dictionary_entry)
    (h_ct : mc.closest_target = some closest_target)
    (h_pos : Dictionary.deref g.points mc.current_position = some pos)
    (h_deref : Dictionary.deref g.points closest_target.1 = some ct) :
    ((S.get_descriptor_from_location ct.location).which = 2 →
      find_collision_with_foreign_motorcycles S g mc tc = some tc) ∧
    ((S.get_descriptor_from_location ct.location).which ≠ 2 →
      (S.get_descriptor_from_location pos.location).which = 2 →
      tc.time_at_closest_collision < closest_target.2 →
      find_collision_with_foreign_motorcycles S g mc tc = some tc) ∧
    ((S.get_descriptor_from_location ct.location).which ≠ 2 →
      (S.get_descriptor_from_location pos.location).which = 2 →
      ¬ tc.time_at_closest_collision < closest_target.2 →
      find_collision_with_foreign_motorcycles S g mc tc =
        find_collision_with_tentative_track_target_on_border S g mc
          (S.get_descriptor_from_location ct.location) tc) ∧
    ((S.get_descriptor_from_location ct.location).which ≠ 2 →
      (S.get_descriptor_from_location pos.location).which ≠ 2 →
      common_halfedge_of_face S pos.location.1 pos.location ct.location = none →
      find_collision_with_foreign_motorcycles S g mc tc =
        find_collision_with_tentative_track_target_on_border S g mc
          (S.get_descriptor_from_location ct.location) tc) ∧
    ((S.get_descriptor_from_location ct.location).which ≠ 2 →
      (S.get_descriptor_from_location pos.location).which ≠ 2 →
      ∀ hd, common_halfedge_of_face S pos.location.1 pos.location ct.location = some hd →
      find_collision_with_foreign_motorcycles S g mc tc =
        (find_foreign_collision_with_tentative_track_on_border S g mc hd tc).bind
          (fun tc1 =>
            if (S.get_descriptor_from_location ct.location).which = 0 then
              find_collision_with_tentative_track_target_on_border S g mc
                (S.get_descriptor_from_location ct.location) tc1
            else some tc1)) := by
  refine ⟨?_, ?_, ?_, ?_, ?_⟩
  · intro h
    simp only [find_collision_with_foreign_motorcycles, h_ct, h_pos, h_deref, h, if_true]
  · intro h hs ht
    simp only [find_collision_with_foreign_motorcycles, h_ct, h_pos, h_deref, h, hs, ht,
      if_true, if_false]
  · intro h hs ht
    simp only [find_collision_with_foreign_motorcycles, h_ct, h_pos, h_deref, h, hs, ht,
      if_true, if_false]
  · intro h hs hc
    simp only [find_collision_with_foreign_motorcycles, h_ct, h_pos, h_deref, h, hs, hc,
      if_false]
  · intro h hs hd hc
    simp only [find_collision_with_foreign_motorcycles, h_ct, h_pos, h_deref, h, hs, hc,
      if_false]
    cases find_foreign_collision_with_tentative_track_on_border S g mc hd tc <;> rfl

theorem foreign_search_depends_on_target_witness :
    find_collision_with_foreign_motorcycles two_face_services leaving_border_state
        leaving_border_mc (Collision_information.ctor double_max 1) =
      some (Collision_information.ctor double_max 1) :=
  (foreign_search_depends_on_target two_face_services leaving_border_state leaving_border_mc
    (Collision_information.ctor double_max 1) (some 1, 1/2)
    (two_face_entry (some 0, (1/2, 1/2, 0)) [(0, 0)])
    (two_face_entry (some 0, (2/5, 1/5, 2/5)) [(0, 1/2)]) rfl rfl rfl).1 (by decide!)

/-! ## The order of the targets -/

/-- In a list ordered by strictly increasing times, an element with the smaller time comes
before an element with the larger time. -/
theorem ordered_targets_sublist (l : List (DEC_it × FT)) (a b : DEC_it × FT)
    (h : l.Pairwise (fun x y => x.2 < y.2)) (ha : a ∈ l) (hb : b ∈ l) (hab : a.2 < b.2) :
    [a, b].Sublist l := by
  induction l with
  | nil => simp at ha
  | cons x xs ih =>
    rw [List.pairwise_cons] at h
    rcases List.mem_cons.mp ha with rfl | ha'
    · rcases List.mem_cons.mp hb with rfl | hb'
      · exact absurd hab (lt_irrefl _)
      · exact List.Sublist.cons₂ _ (List.singleton_sublist.mpr hb')
    · rcases List.mem_cons.mp hb with rfl | hb'
      · exact absurd (lt_trans (h.1 a ha') hab) (lt_irrefl _)
      · exact List.Sublist.cons _ (ih h.2 ha' hb')

/-! ## Snapping a location to an existing point -/

/-- The loop of `try_to_snap_location_to_existing_point` either finds no entry of the face
within the tolerance, or stops at the first one. -/
theorem try_to_snap_loop_spec (fd : face_descriptor) (p : Point) (tolerance : FT)
    (l : List Dictionary_entry) (i : Nat) :
    (try_to_snap_loop fd p tolerance l i = (none, false) ∧
      ∀ e ∈ l, ¬ (e.location.1 = fd ∧ squared_distance e.point p ≤ tolerance)) ∨
    (∃ k e, l.get? k = some e ∧ e.location.1 = fd ∧ squared_distance e.point p ≤ tolerance ∧
      (∀ j e', j < k → l.get? j = some e' →
        ¬ (e'.location.1 = fd ∧ squared_distance e'.point p ≤ tolerance)) ∧
      try_to_snap_loop fd p tolerance l i = (some (i + k), true)) := by
  induction l generalizing i with
  | nil => exact Or.inl ⟨rfl, fun e he => absurd he (List.not_mem_nil e)⟩
  | cons x xs ih =>
    by_cases hx : x.location.1 = fd ∧ squared_distance x.point p ≤ tolerance
    · refine Or.inr ⟨0, x, rfl, hx.1, hx.2, fun j e' hj => absurd hj (Nat.not_lt_zero j), ?_⟩
      simp only [try_to_snap_loop, ne_eq, hx.1, not_true_eq_false, if_false, hx.2, if_true,
        Nat.add_zero]
    · have hstep : try_to_snap_loop fd p tolerance (x :: xs) i =
          try_to_snap_loop fd p tolerance xs (i + 1) := by
        by_cases hf : x.location.1 = fd
        · have hd : ¬ squared_distance x.point p ≤ tolerance := fun h => hx ⟨hf, h⟩
          simp only [try_to_snap_loop, ne_eq, hf, not_true_eq_false, if_false, hd]
        · simp only [try_to_snap_loop, ne_eq, hf, not_false_eq_true, if_true]
      rcases ih (i + 1) with ⟨h1, h2⟩ | ⟨k, e, hk, hf, hd, hfirst, hres⟩
      · refine Or.inl ⟨hstep.trans h1, fun e he => ?_⟩
        rcases List.mem_cons.mp he with rfl | he'
        · exact hx
        · exact h2 e he'
      · refine Or.inr ⟨k + 1, e, hk, hf, hd, fun j e' hj hj' => ?_, ?_⟩
        · cases j with
          | zero =>
            simp only [List.get?_cons_zero, Option.some.injEq] at hj'
            rw [← hj']; exact hx
          | succ j => exact hfirst j e' (Nat.lt_of_succ_lt_succ hj) hj'
        · rw [hstep, hres, Nat.add_assoc, Nat.add_comm 1 k]

/-- C35. `try_to_snap_location_to_existing_point(location, p, tolerance)` returns
`(e, true)` for the first entry `e` of the dictionary, in creation order, that lies on the face
of `location` and whose squared distance to `p` is at most `tolerance`; it returns the null
entry and `false` exactly when no entry of that face is within that bound; a returned entry is
never an entry of another face. The function is a `const` member: it returns the pair only
and the dictionary is left as it is. -/
theorem try_to_snap_returns_first_near_entry (g : Motorcycle_graph) (location : Face_location)
    (p : Point) (tolerance : FT) :
    (∀ i e, g.points.get? i = some e → e.location.1 = location.1 →
      squared_distance e.point p ≤ tolerance →
      (∀ j e', j < i → g.points.get? j = some e' →
        ¬ (e'.location.1 = location.1 ∧ squared_distance e'.point p ≤ tolerance)) →
      try_to_snap_location_to_existing_point g location p tolerance = (some i, true)) ∧
    (try_to_snap_location_to_existing_point g location p tolerance = (none, false) ↔
      ∀ e ∈ g.points,
        ¬ (e.location.1 = location.1 ∧ squared_distance e.point p ≤ tolerance)) ∧
    (∀ it, try_to_snap_location_to_existing_point g location p tolerance = (it, true) →
      ∃ e, Dictionary.deref g.points it = some e ∧ e.location.1 = location.1 ∧
        squared_distance e.point p ≤ tolerance) ∧
    (∀ it, try_to_snap_location_to_existing_point g location p tolerance = (it, false) →
      it = none) := by
  unfold try_to_snap_location_to_existing_point
  rcases try_to_snap_loop_spec location.1 p tolerance g.points 0 with
    ⟨h1, h2⟩ | ⟨k, e, hk, hf, hd, hfirst, hres⟩
  · refine ⟨fun i e hi hf hd _ => absurd ⟨hf, hd⟩ (h2 e (List.get?_mem hi)),
      ⟨fun _ => h2, fun _ => h1⟩, fun it hit => ?_, fun it hit => ?_⟩
    · rw [h1] at hit
      simp only [Prod.mk.injEq, Bool.false_eq_true, and_false] at hit
    · rw [h1] at hit
      simp only [Prod.mk.injEq, and_true] at hit
      exact hit.symm
  · rw [Nat.zero_add] at hres
    refine ⟨fun i e' hi hf' hd' hfirst' => ?_, ⟨fun h => ?_, fun h => ?_⟩, fun it hit => ?_,
      fun it hit => ?_⟩
    · rcases Nat.lt_trichotomy i k with hlt | heq | hgt
      · exact absurd ⟨hf', hd'⟩ (hfirst i e' hlt hi)
      · rw [heq]; exact hres
      · exact absurd ⟨hf, hd⟩ (hfirst' k e hgt hk)
    · rw [hres] at h
      simp only [Prod.mk.injEq, Bool.true_eq_false, and_false] at h
    · exact absurd ⟨hf, hd⟩ (h e (List.get?_mem hk))
    · rw [hres] at hit
      simp only [Prod.mk.injEq, and_true] at hit
      exact ⟨e, by rw [← hit]; exact hk, hf, hd⟩
    · rw [hres] at hit
      simp only [Prod.mk.injEq, Bool.true_eq_false, and_false] at hit

/-! ## The skip of the search of the adjacent faces -/

/-- A record that `offer_on_foreign_face` changes holds the offered time, and the record it
was offered to did not hold an earlier one. -/
theorem offer_on_foreign_face_time (S : Services) (t : Collision_information) (fmc_id : Nat)
    (cp : DEC_it) (ffd : face_descriptor) (time ftime : FT) :
    offer_on_foreign_face S t fmc_id cp ffd time ftime = t ∨
      ((offer_on_foreign_face S t fmc_id cp ffd time ftime).time_at_closest_collision = time ∧
        ¬ t.time_at_closest_collision < time) := by
  unfold offer_on_foreign_face
  split_ifs with h
  · right
    refine ⟨rfl, ?_⟩
    unfold Collision_information.is_collision_earlier_than_current_best at h
    split_ifs at h with hmax
    simp only [Bool.or_eq_true, decide_eq_true_eq, Bool.and_eq_true] at h
    rcases h with h | h
    · exact not_lt.mpr (le_of_lt h)
    · exact not_lt.mpr (le_of_eq h.1)
  · left; rfl

/-- The property that the search at the closest target keeps: the record is the one the
search started with, or it holds the time at the closest target and the search started with
no earlier time. -/
def offered_at_target (tc : Collision_information) (time : FT) (r : Collision_information) :
    Prop :=
  r = tc ∨ (r.time_at_closest_collision = time ∧ ¬ tc.time_at_closest_collision < time)

theorem offered_at_target_step (tc t r : Collision_information) (time : FT)
    (ht : offered_at_target tc time t)
    (hr : r = t ∨ (r.time_at_closest_collision = time ∧ ¬ t.time_at_closest_collision < time)) :
    offered_at_target tc time r := by
  rcases hr with rfl | ⟨h1, h2⟩
  · exact ht
  · rcases ht with rfl | ⟨h3, h4⟩
    · exact Or.inr ⟨h1, h2⟩
    · exact Or.inr ⟨h1, h4⟩

theorem search_loop_invariant {α : Type}
    (f : α → Collision_information → Option Collision_information)
    (Q : Collision_information → Prop)
    (hf : ∀ x t r, Q t → f x t = some r → Q r) :
    ∀ (l : List α) (t r : Collision_information), Q t → search_loop f l t = some r → Q r := by
  intro l
  induction l with
  | nil =>
    intro t r ht h
    simp only [search_loop, Option.some.injEq] at h
    rw [← h]; exact ht
  | cons x rest ih =>
    intro t r ht h
    unfold search_loop at h
    cases hx : f x t with
    | none => simp [hx] at h
    | some t1 =>
      simp only [hx] at h
      have h1 := hf x t t1 ht hx
      split_ifs at h
      · simp only [Option.some.injEq] at h
        rw [← h]; exact h1
      · exact ih t1 r h1 h

theorem track_on_foreign_face_at_target_offer (S : Services) (g : Motorcycle_graph)
    (mc : Motorcycle) (dv : descriptor_variant) (track : Track_segment)
    (t r : Collision_information) (ct : DEC_it × FT) (h_ct : mc.closest_target = some ct)
    (h : find_collision_with_track_on_foreign_face_at_target S g mc dv track t = some r) :
    r = t ∨ (r.time_at_closest_collision = ct.2 ∧ ¬ t.time_at_closest_collision < ct.2) := by
  unfold find_collision_with_track_on_foreign_face_at_target at h
  rw [h_ct] at h
  cases h1 : g.motorcycle track.id with
  | none => simp [h1] at h
  | some fmc =>
    cases h2 : Dictionary.deref g.points track.source with
    | none => simp [h1, h2] at h
    | some fts =>
      cases h3 : Dictionary.deref g.points track.destination with
      | none => simp [h1, h2, h3] at h
      | some ftd =>
        simp only [h1, h2, h3] at h
        cases h4 : Dictionary.deref g.points ct.1 with
        | none => simp [h4] at h
        | some cte =>
          simp only [h4] at h
          split_ifs at h with hf
          cases h5 : cte.sibling fts.location.1 with
          | none => simp [h5] at h
          | some ct_in_ffd =>
            simp only [h5] at h
            cases h6 : cte.has_motorcycle_between fmc.id track.time_at_source
                track.time_at_destination with
            | some v =>
              simp only [h6, Option.some.injEq] at h
              rw [← h]
              exact offer_on_foreign_face_time S t _ _ _ _ _
            | none =>
              simp only [h6] at h
              cases dv with
              | vertex vd =>
                simp only [Option.some.injEq] at h
                exact Or.inl h.symm
              | face fd => simp at h
              | halfedge hd =>
                simp only at h
                cases h7 : common_halfedge_of_face S fts.location.1 fts.location ftd.location with
                | none =>
                  simp only [h7, Option.some.injEq] at h
                  exact Or.inl h.symm
                | some cfhd =>
                  simp only [h7] at h
                  split_ifs at h
                  · simp only [Option.some.injEq] at h
                    exact Or.inl h.symm
                  · simp only [Option.some.injEq] at h
                    exact Or.inl h.symm
                  · simp only [Option.some.injEq] at h
                    rw [← h]
                    exact offer_on_foreign_face_time S t _ _ _ _ _

theorem live_motorcycle_on_foreign_face_at_target_offer (S : Services) (g : Motorcycle_graph)
    (mc : Motorcycle) (dv : descriptor_variant) (ffd : face_descriptor) (fmc : Motorcycle)
    (t r : Collision_information) (ct : DEC_it × FT) (h_ct : mc.closest_target = some ct)
    (h : find_collision_with_live_motorcycle_on_foreign_face_at_target S g mc dv ffd fmc t =
      some r) :
    r = t ∨ (r.time_at_closest_collision = ct.2 ∧ ¬ t.time_at_closest_collision < ct.2) := by
  unfold find_collision_with_live_motorcycle_on_foreign_face_at_target at h
  cases h1 : g.current_location mc with
  | none => simp [h1] at h
  | some mc_loc =>
    cases h2 : g.current_location fmc with
    | none => simp [h1, h2] at h
    | some fmc_loc =>
      simp only [h1, h2] at h
      split_ifs at h
      · simp only [Option.some.injEq] at h
        exact Or.inl h.symm
      · cases h3 : fmc.closest_target with
        | none => simp [h3] at h
        | some fct =>
          simp only [h3] at h
          exact track_on_foreign_face_at_target_offer S g mc dv _ t r ct h_ct h

theorem target_on_border_in_face_offer (S : Services) (g : Motorcycle_graph)
    (mc : Motorcycle) (dv : descriptor_variant) (ffd : face_descriptor)
    (tc t r : Collision_information) (ct : DEC_it × FT) (h_ct : mc.closest_target = some ct)
    (ht : offered_at_target tc ct.2 t)
    (h : find_collision_with_tentative_track_target_on_border_in_face S g mc dv ffd t =
      some r) :
    offered_at_target tc ct.2 r := by
  unfold find_collision_with_tentative_track_target_on_border_in_face at h
  cases h1 : g.current_location mc with
  | none => simp [h1] at h
  | some mc_loc =>
    simp only [h1] at h
    split_ifs at h
    cases h2 : search_loop (fun track tc =>
        find_collision_with_track_on_foreign_face_at_target S g mc dv track tc)
        (g.tracks_of_face ffd) t with
    | none => simp [h2] at h
    | some t1 =>
      simp only [h2] at h
      have q1 : offered_at_target tc ct.2 t1 :=
        search_loop_invariant _ (offered_at_target tc ct.2)
          (fun x t' r' hq hx => offered_at_target_step tc t' r' ct.2 hq
            (track_on_foreign_face_at_target_offer S g mc dv x t' r' ct h_ct hx))
          _ t t1 ht h2
      split_ifs at h
      · simp only [Option.some.injEq] at h
        rw [← h]; exact q1
      · exact search_loop_invariant _ (offered_at_target tc ct.2)
          (fun x t' r' hq hx => offered_at_target_step tc t' r' ct.2 hq
            (live_motorcycle_on_foreign_face_at_target_offer S g mc dv ffd x t' r' ct h_ct hx))
          _ t1 r q1 h

theorem search_faces_around_target_offer (S : Services) (g : Motorcycle_graph)
    (mc : Motorcycle) (dv : descriptor_variant) (fd : face_descriptor)
    (tc : Collision_information) (ct : DEC_it × FT) (h_ct : mc.closest_target = some ct) :
    ∀ (l : List face_descriptor) (t r : Collision_information),
      offered_at_target tc ct.2 t → search_faces_around_target S g mc dv fd l t = some r →
      offered_at_target tc ct.2 r := by
  intro l
  induction l with
  | nil =>
    intro t r ht h
    simp only [search_faces_around_target, Option.some.injEq] at h
    rw [← h]; exact ht
  | cons ffd rest ih =>
    intro t r ht h
    unfold search_faces_around_target at h
    split_ifs at h
    · exact ih t r ht h
    · cases h1 : find_collision_with_tentative_track_target_on_border_in_face S g mc dv ffd t with
      | none => simp [h1] at h
      | some t1 =>
        simp only [h1] at h
        exact ih t1 r (target_on_border_in_face_offer S g mc dv ffd tc t t1 ct h_ct ht h1) h

/-- Every record that `find_collision_with_tentative_track_target_on_border` returns is the
record it was given, or holds the time at the closest target of `mc`, and then the record
given held no earlier time. -/
theorem target_on_border_offer (S : Services) (g : Motorcycle_graph)
    (mc : Motorcycle) (dv : descriptor_variant) (tc r : Collision_information)
    (ct : DEC_it × FT) (h_ct : mc.closest_target = some ct)
    (h : find_collision_with_tentative_track_target_on_border S g mc dv tc = some r) :
    offered_at_target tc ct.2 r := by
  unfold find_collision_with_tentative_track_target_on_border at h
  rw [h_ct] at h
  cases h1 : g.current_location mc with
  | none => simp [h1] at h
  | some mc_loc =>
    simp only [h1] at h
    cases h2 : Dictionary.deref g.points ct.1 with
    | none => simp [h2] at h
    | some cte =>
      simp only [h2] at h
      split_ifs at h
      cases dv with
      | vertex vd =>
        exact search_faces_around_target_offer S g mc _ _ tc ct h_ct _ tc r (Or.inl rfl) h
      | halfedge hd =>
        simp only at h
        split_ifs at h
        · simp only [Option.some.injEq] at h
          exact Or.inl h.symm
        · exact target_on_border_in_face_offer S g mc _ _ tc tc r ct h_ct (Or.inl rfl) h
      | face fd => simp at h

/-- C34. Let the current position of `mc` be strictly inside its face. Every record that
`find_collision_with_tentative_track_target_on_border` returns is the record it was given or
holds a collision at the time at the closest target of `mc`; when the record given holds an
earlier time, the search returns it unchanged. Therefore the function with the skip returns
the same record as the function without the skip whenever the latter returns a record, and
when the function with the skip returns a record, the function without the skip returns the
same one or fails an assertion in the search that was skipped. -/
theorem skip_of_foreign_search_returns_same_record (S : Services) (g : Motorcycle_graph)
    (mc : Motorcycle) (tc : Collision_information) (closest_target : DEC_it × FT)
    (pos ct : Dictionary_entry)
    (h_ct : mc.closest_target = some closest_target)
    (h_pos : Dictionary.deref g.points mc.current_position = some pos)
    (h_deref : Dictionary.deref g.points closest_target.1 = some ct)
    (h_inside : (S.get_descriptor_from_location pos.location).which = 2) :
    (∀ dv r, find_collision_with_tentative_track_target_on_border S g mc dv tc = some r →
      r = tc ∨ r.time_at_closest_collision = closest_target.2) ∧
    (tc.time_at_closest_collision < closest_target.2 →
      ∀ dv r, find_collision_with_tentative_track_target_on_border S g mc dv tc = some r →
        r = tc) ∧
    (∀ r, find_collision_with_foreign_motorcycles_without_skip S g mc tc = some r →
      find_collision_with_foreign_motorcycles S g mc tc = some r) ∧
    (∀ r, find_collision_with_foreign_motorcycles S g mc tc = some r →
      find_collision_with_foreign_motorcycles_without_skip S g mc tc = some r ∨
      (find_collision_with_foreign_motorcycles_without_skip S g mc tc = none ∧
        tc.time_at_closest_collision < closest_target.2 ∧ r = tc)) := by
  have hskip : tc.time_at_closest_collision < closest_target.2 →
      ∀ dv r, find_collision_with_tentative_track_target_on_border S g mc dv tc = some r →
        r = tc := by
    intro hlt dv r h
    rcases target_on_border_offer S g mc dv tc r closest_target h_ct h with h1 | ⟨_, h2⟩
    · exact h1
    · exact absurd hlt h2
  refine ⟨?_, hskip, ?_, ?_⟩
  · intro dv r h
    rcases target_on_border_offer S g mc dv tc r closest_target h_ct h with h1 | ⟨h1, _⟩
    · exact Or.inl h1
    · exact Or.inr h1
  · intro r h
    unfold find_collision_with_foreign_motorcycles_without_skip at h
    unfold find_collision_with_foreign_motorcycles
    simp only [h_ct, h_pos, h_deref, h_inside, if_true] at h ⊢
    by_cases ht : (S.get_descriptor_from_location ct.location).which = 2
    · simp only [ht, if_true] at h ⊢
      exact h
    · simp only [ht, if_false] at h ⊢
      by_cases hlt : tc.time_at_closest_collision < closest_target.2
      · simp only [hlt, if_true]
        rw [hskip hlt _ r h]
      · simp only [hlt, if_false]
        exact h
  · intro r h
    unfold find_collision_with_foreign_motorcycles at h
    unfold find_collision_with_foreign_motorcycles_without_skip
    simp only [h_ct, h_pos, h_deref, h_inside, if_true] at h ⊢
    by_cases ht : (S.get_descriptor_from_location ct.location).which = 2
    · simp only [ht, if_true] at h ⊢
      exact Or.inl h
    · simp only [ht, if_false] at h ⊢
      by_cases hlt : tc.time_at_closest_collision < closest_target.2
      · simp only [hlt, if_true, Option.some.injEq] at h
        cases hrun : find_collision_with_tentative_track_target_on_border S g mc
            (S.get_descriptor_from_location ct.location) tc with
        | none => exact Or.inr ⟨rfl, hlt, h.symm⟩
        | some r1 =>
          left
          rw [hskip hlt _ r1 hrun, h]
      · simp only [hlt, if_false] at h
        exact Or.inl h

/-- C34 on `shared_edge_state`, with a record that holds a collision at time `1/4`: the
function without the skip searches the face `1` and returns the record unchanged, and so does
the function with the skip. -/
theorem skip_of_foreign_search_returns_same_record_witness :
    find_collision_with_foreign_motorcycles two_face_services shared_edge_state shared_edge_mc
      earlier_collision_record = some earlier_collision_record :=
  (skip_of_foreign_search_returns_same_record two_face_services shared_edge_state
    shared_edge_mc earlier_collision_record (some 1, 1/2)
    (two_face_entry (some 0, (2/5, 1/5, 2/5)) [(0, 0)])
    (two_face_entry (some 0, (1/2, 1/2, 0)) [(0, 1/2), (1, 2/5)]) rfl rfl rfl
    (by decide!)).2.2.1 earlier_collision_record (by decide!)

/-! ## A collision at a closest target on a shared edge -/

/-- C14 (as stated, refuted). In `crowded_edge_state` the current position of the motorcycle
`0` is strictly inside the face `0`, no collision is known, and its closest target, the entry
`1`, lies on the halfedge `0`, shared with the face `1`. The motorcycle `1` is not crashed, is
in the face `1`, and the entry `1` records its visit at time `2/5`, within the time span
`[0, 4/5]` of its track. `find_collision_with_foreign_motorcycles` records the motorcycle `2`
and the foreign time `1/5`, not the motorcycle `1` and the time `2/5`: the motorcycle `2`
fulfils the same conditions with an earlier visit. -/
theorem foreign_collision_at_shared_target_counterexample :
    (current_location crowded_edge_state shared_edge_mc).map
        two_face_services.get_descriptor_from_location = some (.face (some 0)) ∧
    shared_edge_mc.closest_target = some (some 1, 1/2) ∧
    (Dictionary.deref crowded_edge_state.points (some 1)).map
        (fun ct => two_face_services.get_descriptor_from_location ct.location) =
      some (.halfedge 0) ∧
    two_face_services.is_border_edge 0 = false ∧
    two_face_services.face (two_face_services.opposite 0) = some 1 ∧
    shared_edge_fmc.crashed = false ∧
    (current_location crowded_edge_state shared_edge_fmc).map Prod.fst = some (some 1) ∧
    shared_edge_fmc.time_at_source = 0 ∧
    shared_edge_fmc.closest_target = some (some 3, 4/5) ∧
    (Dictionary.deref crowded_edge_state.points (some 1)).bind
        (fun ct => ct.has_motorcycle_between shared_edge_fmc.id 0 (4/5)) = some (2/5) ∧
    (find_collision_with_foreign_motorcycles two_face_services crowded_edge_state
        shared_edge_mc (Collision_information.ctor double_max (1/2))).map
      (fun r => (r.closest_collision, r.time_at_closest_collision, r.fmc_id)) =
      some (some 1, 1/2, 2) ∧
    (find_collision_with_foreign_motorcycles two_face_services crowded_edge_state
        shared_edge_mc (Collision_information.ctor double_max (1/2))).map
      (fun r => (r.is_foreign_motorcycle_in_different_face, r.foreign_motorcycle_face,
        r.foreign_time_at_closest_collision)) =
      some (true, some 1, 1/5) := by
  refine ⟨by decide!, by decide!, by decide!, by decide!, by decide!, by decide!, by decide!,
    by decide!, by decide!, by decide!, by decide!, by decide!⟩

/-- The record that the offer of the visit of the foreign motorcycle leaves. -/
theorem offer_on_foreign_face_accepted (S : Services) (tc : Collision_information)
    (fmc_id : Nat) (cp : DEC_it) (ffd : face_descriptor) (time ftime : FT)
    (h_max : time ≤ tc.maximum_time_at_collision) (h_lt : time < tc.time_at_closest_collision) :
    offer_on_foreign_face S tc fmc_id cp ffd time ftime =
      { tc.reset S.FT_max with
        is_closest_collision_already_in_dictionary := true
        closest_collision := cp
        time_at_closest_collision := time
        fmc_id := fmc_id
        is_foreign_motorcycle_in_different_face := true
        foreign_motorcycle_face := ffd
        foreign_time_at_closest_collision := ftime } := by
  unfold offer_on_foreign_face
  have h : tc.is_collision_earlier_than_current_best time ftime = true := by
    unfold Collision_information.is_collision_earlier_than_current_best
    simp only [gt_iff_lt, not_lt.mpr h_max, if_false, h_lt, decide_True, Bool.true_or]
  rw [if_pos h]

/-- The same offer to the record that already holds it changes nothing. -/
theorem offer_on_foreign_face_again (S : Services) (tc : Collision_information)
    (fmc_id : Nat) (cp : DEC_it) (ffd : face_descriptor) (time ftime : FT)
    (h_max : time ≤ tc.maximum_time_at_collision) (h_lt : time < tc.time_at_closest_collision) :
    offer_on_foreign_face S (offer_on_foreign_face S tc fmc_id cp ffd time ftime) fmc_id cp ffd
      time ftime = offer_on_foreign_face S tc fmc_id cp ffd time ftime := by
  rw [offer_on_foreign_face_accepted S tc fmc_id cp ffd time ftime h_max h_lt]
  unfold offer_on_foreign_face
  have h : Collision_information.is_collision_earlier_than_current_best
      { tc.reset S.FT_max with
        is_closest_collision_already_in_dictionary := true
        closest_collision := cp
        time_at_closest_collision := time
        fmc_id := fmc_id
        is_foreign_motorcycle_in_different_face := true
        foreign_motorcycle_face := ffd
        foreign_time_at_closest_collision := ftime } time ftime = false := by
    unfold Collision_information.is_collision_earlier_than_current_best
    simp only [Collision_information.reset, gt_iff_lt, not_lt.mpr h_max, if_false, lt_irrefl,
      decide_False, Bool.false_or, decide_True, Bool.true_and]
  rw [if_neg (by rw [h]; exact Bool.false_ne_true)]

/-- A track of the foreign face with both ends in that face, on which the closest target of
`mc` is recorded as visited by the motorcycle of the track: the visit is offered. -/
theorem track_at_target_offers_visit (S : Services) (g : Motorcycle_graph) (mc : Motorcycle)
    (dv : descriptor_variant) (track : Track_segment) (t : Collision_information)
    (closest_target : DEC_it × FT) (ct : Dictionary_entry) (B : Motorcycle)
    (fts ftd : Dictionary_entry) (ct_in : Face_location) (tB : FT) (F2 : face_descriptor)
    (h_ct : mc.closest_target = some closest_target)
    (h_deref : Dictionary.deref g.points closest_target.1 = some ct)
    (h_B : g.motorcycle track.id = some B)
    (h_fts : Dictionary.deref g.points track.source = some fts)
    (h_ftd : Dictionary.deref g.points track.destination = some ftd)
    (h_f1 : fts.location.1 = F2) (h_f2 : ftd.location.1 = F2)
    (h_sib : ct.sibling F2 = some ct_in)
    (h_visit : ct.has_motorcycle_between B.id track.time_at_source
      track.time_at_destination = some tB) :
    find_collision_with_track_on_foreign_face_at_target S g mc dv track t =
      some (offer_on_foreign_face S t B.id closest_target.1 F2 closest_target.2 tB) := by
  unfold find_collision_with_track_on_foreign_face_at_target
  simp only [h_B, h_fts, h_ftd, h_ct, h_deref, h_f1, h_f2, ne_eq, not_true_eq_false, if_false,
    h_sib, h_visit]

/-- A motorcycle that is crashed or not in the foreign face is passed over. -/
theorem live_at_target_passes (S : Services) (g : Motorcycle_graph) (mc : Motorcycle)
    (dv : descriptor_variant) (F2 : face_descriptor) (fmc : Motorcycle)
    (t : Collision_information) (mc_loc loc : Face_location)
    (h_mc : g.current_location mc = some mc_loc) (h_fmc : g.current_location fmc = some loc)
    (h_F2 : F2 ≠ null_face) (h_other : mc_loc.1 ≠ F2)
    (h : loc.1 ≠ F2 ∨ fmc.crashed = true) :
    find_collision_with_live_motorcycle_on_foreign_face_at_target S g mc dv F2 fmc t =
      some t := by
  unfold find_collision_with_live_motorcycle_on_foreign_face_at_target
  have hb : (decide (loc.1 ≠ F2) || fmc.crashed) = true := by
    rcases h with h | h
    · simp [h]
    · simp [h]
  simp only [h_mc, h_fmc, h_F2, if_false, h_other, hb, if_true]

theorem search_loop_fixed {α : Type}
    (f : α → Collision_information → Option Collision_information) (R : Collision_information)
    (hR : R.add_intersection_without_moving_motorcycles = false) :
    ∀ l : List α, (∀ x ∈ l, f x R = some R) → search_loop f l R = some R := by
  intro l
  induction l with
  | nil => intro _; rfl
  | cons x rest ih =>
    intro hf
    unfold search_loop
    rw [hf x (List.mem_cons_self x rest)]
    simp only [hR, Bool.false_eq_true, if_false]
    exact ih (fun y hy => hf y (List.mem_cons_of_mem x hy))

theorem search_loop_either {α : Type}
    (f : α → Collision_information → Option Collision_information)
    (tc R : Collision_information)
    (h_tc : tc.add_intersection_without_moving_motorcycles = false)
    (hR : R.add_intersection_without_moving_motorcycles = false) :
    ∀ l : List α, (∀ x ∈ l, (f x tc = some tc ∨ f x tc = some R) ∧ f x R = some R) →
      ∃ t1, search_loop f l tc = some t1 ∧ (t1 = tc ∨ t1 = R) := by
  intro l
  induction l with
  | nil => intro _; exact ⟨tc, rfl, Or.inl rfl⟩
  | cons x rest ih =>
    intro hf
    unfold search_loop
    rcases (hf x (List.mem_cons_self x rest)).1 with h | h
    · rw [h]
      simp only [h_tc, Bool.false_eq_true, if_false]
      exact ih (fun y hy => hf y (List.mem_cons_of_mem x hy))
    · rw [h]
      simp only [hR, Bool.false_eq_true, if_false]
      exact ⟨R, search_loop_fixed f R hR rest
        (fun y hy => (hf y (List.mem_cons_of_mem x hy)).2), Or.inr rfl⟩

theorem search_loop_reaches {α : Type}
    (f : α → Collision_information → Option Collision_information)
    (tc R : Collision_information) (b : α)
    (h_tc : tc.add_intersection_without_moving_motorcycles = false)
    (hR : R.add_intersection_without_moving_motorcycles = false)
    (hfb : f b tc = some R) :
    ∀ l : List α, b ∈ l →
      (∀ x ∈ l, (f x tc = some tc ∨ f x tc = some R) ∧ f x R = some R) →
      search_loop f l tc = some R := by
  intro l
  induction l with
  | nil => intro hb; exact absurd hb (List.not_mem_nil b)
  | cons x rest ih =>
    intro hb hf
    unfold search_loop
    have hrest : ∀ y ∈ rest, (f y tc = some tc ∨ f y tc = some R) ∧ f y R = some R :=
      fun y hy => hf y (List.mem_cons_of_mem x hy)
    by_cases hx : f x tc = some R
    · rw [hx]
      simp only [hR, Bool.false_eq_true, if_false]
      exact search_loop_fixed f R hR rest (fun y hy => (hrest y hy).2)
    · rcases (hf x (List.mem_cons_self x rest)).1 with h | h
      · rw [h]
        simp only [h_tc, Bool.false_eq_true, if_false]
        rcases List.mem_cons.mp hb with rfl | hb'
        · exact absurd hfb hx
        · exact ih hb' hrest
      · exact absurd h hx

/-- C14 (amended). Let the current position of `mc` be strictly inside its face, let the
record hold no collision at or before the time of the closest target `ct` of `mc` (a time
that the record admits) and have the flag `add_intersection_without_moving_motorcycles`
unset, and let `ct` lie on a halfedge `hd` that is not a border edge, the face of the opposite
halfedge being `F2`, a face other than that of `mc`, in which `ct` has a sibling location. Let
`B` be a motorcycle other than `mc`, not crashed, currently in `F2`, whose track from its
source to its closest target has both ends located in `F2`, `tB` being the recorded visit of
`B` at `ct` within the time span of that track. If every confirmed track stored for `F2` is a
track of `B` with both ends in `F2` on which `ct` is recorded as visited at `tB`, and every
other motorcycle is crashed or currently outside `F2`, then
`find_collision_with_foreign_motorcycles` records `closest_collision = ct`,
`time_at_closest_collision = mc.time_at_closest_target()`, `fmc_id = B`,
`is_foreign_motorcycle_in_different_face = true`, `foreign_motorcycle_face = F2` and
`foreign_time_at_closest_collision = tB`. -/
theorem foreign_collision_at_shared_target (S : Services) (g : Motorcycle_graph)
    (mc : Motorcycle) (tc : Collision_information) (closest_target : DEC_it × FT)
    (pos ct : Dictionary_entry) (hd : Nat) (F2 : face_descriptor) (B : Motorcycle)
    (fct : DEC_it × FT) (fts ftd : Dictionary_entry) (ct_in : Face_location)
    (B_loc : Face_location) (tB : FT)
    (h_ct : mc.closest_target = some closest_target)
    (h_pos : Dictionary.deref g.points mc.current_position = some pos)
    (h_deref : Dictionary.deref g.points closest_target.1 = some ct)
    (h_inside : (S.get_descriptor_from_location pos.location).which = 2)
    (h_no_earlier : closest_target.2 < tc.time_at_closest_collision)
    (h_max : closest_target.2 ≤ tc.maximum_time_at_collision)
    (h_flag : tc.add_intersection_without_moving_motorcycles = false)
    (h_edge : S.get_descriptor_from_location ct.location = .halfedge hd)
    (h_shared : S.is_border_edge hd = false)
    (h_F2 : S.face (S.opposite hd) = F2) (h_F2_face : F2 ≠ null_face)
    (h_other : pos.location.1 ≠ F2)
    (h_sib : ct.sibling F2 = some ct_in)
    (h_B_mem : B ∈ g.motorcycles) (h_B : g.motorcycle B.id = some B)
    (h_B_live : B.crashed = false) (h_B_ne : B.id ≠ mc.id)
    (h_B_loc : g.current_location B = some B_loc) (h_B_face : B_loc.1 = F2)
    (h_B_target : B.closest_target = some fct)
    (h_fts : Dictionary.deref g.points B.source = some fts)
    (h_ftd : Dictionary.deref g.points fct.1 = some ftd)
    (h_fts_face : fts.location.1 = F2) (h_ftd_face : ftd.location.1 = F2)
    (h_visit : ct.has_motorcycle_between B.id B.time_at_source fct.2 = some tB)
    (h_tracks : ∀ track ∈ g.tracks_of_face F2, g.motorcycle track.id = some B ∧
      ∃ s d, Dictionary.deref g.points track.source = some s ∧
        Dictionary.deref g.points track.destination = some d ∧
        s.location.1 = F2 ∧ d.location.1 = F2 ∧
        ct.has_motorcycle_between B.id track.time_at_source track.time_at_destination =
          some tB)
    (h_others : ∀ fmc ∈ g.motorcycles, fmc = B ∨
      ∃ loc, g.current_location fmc = some loc ∧ (loc.1 ≠ F2 ∨ fmc.crashed = true)) :
    ∃ r, find_collision_with_foreign_motorcycles S g mc tc = some r ∧
      r.closest_collision = closest_target.1 ∧
      r.time_at_closest_collision = closest_target.2 ∧
      r.fmc_id = B.id ∧
      r.is_foreign_motorcycle_in_different_face = true ∧
      r.foreign_motorcycle_face = F2 ∧
      r.foreign_time_at_closest_collision = tB := by
  have hacc := offer_on_foreign_face_accepted S tc B.id closest_target.1 F2 closest_target.2 tB
    h_max h_no_earlier
  have hagain := offer_on_foreign_face_again S tc B.id closest_target.1 F2 closest_target.2 tB
    h_max h_no_earlier
  have hRflag : (offer_on_foreign_face S tc B.id closest_target.1 F2 closest_target.2
      tB).add_intersection_without_moving_motorcycles = false := by rw [hacc]; rfl
  have h_mc_loc : g.current_location mc = some pos.location := by
    simp only [current_location, h_pos, Option.map_some']
  -- the confirmed tracks of the face
  have h_track : ∀ track ∈ g.tracks_of_face F2, ∀ t,
      find_collision_with_track_on_foreign_face_at_target S g mc (.halfedge hd) track t =
        some (offer_on_foreign_face S t B.id closest_target.1 F2 closest_target.2 tB) := by
    intro track htr t
    obtain ⟨hB, s, d, hs, hd', hs1, hd1, hv⟩ := h_tracks track htr
    exact track_at_target_offers_visit S g mc _ track t closest_target ct B s d ct_in tB F2
      h_ct h_deref hB hs hd' hs1 hd1 h_sib hv
  -- the live motorcycles
  have h_live_B : ∀ t,
      find_collision_with_live_motorcycle_on_foreign_face_at_target S g mc (.halfedge hd) F2 B
        t = some (offer_on_foreign_face S t B.id closest_target.1 F2 closest_target.2 tB) := by
    intro t
    unfold find_collision_with_live_motorcycle_on_foreign_face_at_target
    simp only [h_mc_loc, h_B_loc, h_F2_face, if_false, h_other, h_B_face, ne_eq,
      not_true_eq_false, decide_False, h_B_live, Bool.or_self, Bool.false_eq_true, h_B_ne,
      h_B_target]
    exact track_at_target_offers_visit S g mc _ _ t closest_target ct B fts ftd ct_in tB F2
      h_ct h_deref h_B h_fts h_ftd h_fts_face h_ftd_face h_sib h_visit
  have h_live : ∀ fmc ∈ g.motorcycles,
      (find_collision_with_live_motorcycle_on_foreign_face_at_target S g mc (.halfedge hd) F2
          fmc tc = some tc ∨
        find_collision_with_live_motorcycle_on_foreign_face_at_target S g mc (.halfedge hd) F2
          fmc tc =
          some (offer_on_foreign_face S tc B.id closest_target.1 F2 closest_target.2 tB)) ∧
      find_collision_with_live_motorcycle_on_foreign_face_at_target S g mc (.halfedge hd) F2
          fmc (offer_on_foreign_face S tc B.id closest_target.1 F2 closest_target.2 tB) =
        some (offer_on_foreign_face S tc B.id closest_target.1 F2 closest_target.2 tB) := by
    intro fmc hfmc
    rcases h_others fmc hfmc with rfl | ⟨loc, hloc, hout⟩
    · refine ⟨Or.inr (h_live_B tc), ?_⟩
      rw [h_live_B, hagain]
    · exact ⟨Or.inl (live_at_target_passes S g mc _ F2 fmc tc _ loc h_mc_loc hloc h_F2_face
          h_other hout),
        live_at_target_passes S g mc _ F2 fmc _ _ loc h_mc_loc hloc h_F2_face h_other hout⟩
  -- the search of the face across the halfedge
  have h_face : find_collision_with_tentative_track_target_on_border_in_face S g mc
      (.halfedge hd) F2 tc =
      some (offer_on_foreign_face S tc B.id closest_target.1 F2 closest_target.2 tB) := by
    unfold find_collision_with_tentative_track_target_on_border_in_face
    simp only [h_mc_loc, h_F2_face, if_false, h_other]
    obtain ⟨t1, ht1, hcase⟩ := search_loop_either
      (fun track tc =>
        find_collision_with_track_on_foreign_face_at_target S g mc (.halfedge hd) track tc)
      tc _ h_flag hRflag (g.tracks_of_face F2)
      (fun track htr => ⟨Or.inr (h_track track htr tc), by
        show find_collision_with_track_on_foreign_face_at_target S g mc (.halfedge hd) track _ = _
        rw [h_track track htr, hagain]⟩)
    rw [ht1]
    rcases hcase with rfl | rfl
    · simp only [h_flag, Bool.and_false, Bool.false_eq_true, if_false]
      exact search_loop_reaches _ t1 _ B h_flag hRflag (h_live_B t1) g.motorcycles h_B_mem
        h_live
    · simp only [hRflag, Bool.and_false, Bool.false_eq_true, if_false]
      exact search_loop_fixed _ _ hRflag g.motorcycles (fun fmc hfmc => (h_live fmc hfmc).2)
  refine ⟨offer_on_foreign_face S tc B.id closest_target.1 F2 closest_target.2 tB, ?_, ?_⟩
  · have hw : ¬ (descriptor_variant.halfedge hd).which = 2 := by
      simp [descriptor_variant.which]
    unfold find_collision_with_foreign_motorcycles
    simp only [h_ct, h_pos, h_deref, h_edge, hw, if_false, h_inside, if_true,
      not_lt.mpr (le_of_lt h_no_earlier)]
    unfold find_collision_with_tentative_track_target_on_border
    simp only [h_ct, h_mc_loc, h_deref, h_edge, ne_eq, not_true_eq_false, if_false, h_shared,
      Bool.false_eq_true, h_F2]
    exact h_face
  · rw [hacc]
    exact ⟨rfl, rfl, rfl, rfl, rfl, rfl⟩

/-- C14 (amended) on `shared_edge_state`: the motorcycle `1` is the only motorcycle of the
face `1`, and its visit of the closest target of the motorcycle `0` at time `2/5` is
recorded. -/
theorem foreign_collision_at_shared_target_witness :
    ∃ r, find_collision_with_foreign_motorcycles two_face_services shared_edge_state
        shared_edge_mc (Collision_information.ctor double_max (1/2)) = some r ∧
      r.closest_collision = some 1 ∧
      r.time_at_closest_collision = 1/2 ∧
      r.fmc_id = 1 ∧
      r.is_foreign_motorcycle_in_different_face = true ∧
      r.foreign_motorcycle_face = some 1 ∧
      r.foreign_time_at_closest_collision = 2/5 :=
  foreign_collision_at_shared_target two_face_services shared_edge_state shared_edge_mc
    (Collision_information.ctor double_max (1/2)) (some 1, 1/2)
    (two_face_entry (some 0, (2/5, 1/5, 2/5)) [(0, 0)])
    (two_face_entry (some 0, (1/2, 1/2, 0)) [(0, 1/2), (1, 2/5)]) 0 (some 1) shared_edge_fmc
    (some 3, 4/5) (two_face_entry (some 1, (9/10, 1/10, 0)) [(1, 0)])
    (two_face_entry (some 1, (1/10, 9/10, 0)) [(1, 4/5)]) (some 1, (1/2, 1/2, 0))
    (some 1, (9/10, 1/10, 0)) (2/5)
    rfl rfl rfl (by decide!) (by decide!) (by decide!) rfl (by decide!) (by decide!)
    (by decide!) (by decide!) (by decide!) (by decide!) (by decide!) rfl rfl (by decide!)
    (by decide!) rfl rfl rfl rfl rfl rfl (by decide!)
    (by
      intro track h
      have e : tracks_of_face shared_edge_state (some 1) = [] := rfl
      rw [e] at h
      exact absurd h (List.not_mem_nil track))
    (by
      intro fmc h
      have e : shared_edge_state.motorcycles = [shared_edge_mc, shared_edge_fmc] := rfl
      rw [e] at h
      simp only [List.mem_cons, List.mem_singleton, List.not_mem_nil, or_false] at h
      rcases h with rfl | rfl
      · exact Or.inr ⟨(some 0, (2/5, 1/5, 2/5)), by decide!, Or.inl (by decide!)⟩
      · exact Or.inl rfl)

/-! ## The operations of the number type `double` -/

theorem binade_up_spec (x : FT) (f : Nat) : ∀ e : ℤ, (2:FT) ^ e ≤ x → x < 2 ^ (e + f + 1) →
    (2:FT) ^ (binade_up x f e) ≤ x ∧ x < 2 ^ (binade_up x f e + 1) := by
  induction f with
  | zero =>
    intro e h1 h2
    simp only [binade_up]
    simpa using And.intro h1 h2
  | succ f ih =>
    intro e h1 h2
    simp only [binade_up]
    split_ifs with h
    · exact ⟨h1, h⟩
    · apply ih (e + 1) (not_lt.mp h)
      have : e + 1 + (f:ℤ) + 1 = e + ((f + 1 : Nat) : ℤ) + 1 := by push_cast; ring
      rw [this]; exact h2

theorem binade_down_spec (x : FT) (f : Nat) : ∀ e : ℤ, x < (2:FT) ^ (e + 1) → (2:FT) ^ (e - f) ≤ x →
    (2:FT) ^ (binade_down x f e) ≤ x ∧ x < 2 ^ (binade_down x f e + 1) := by
  induction f with
  | zero =>
    intro e h1 h2
    simp only [binade_down]
    simpa using And.intro h2 h1
  | succ f ih =>
    intro e h1 h2
    simp only [binade_down]
    split_ifs with h
    · exact ⟨h, h1⟩
    · apply ih (e - 1)
      · simpa using not_le.mp h
      · have : e - 1 - (f:ℤ) = e - ((f + 1 : Nat) : ℤ) := by push_cast; ring
        rw [this]; exact h2

theorem binade_spec (x : FT) (hx : 0 < x) :
    (2:FT) ^ (binade x) ≤ x ∧ x < 2 ^ (binade x + 1) := by
  unfold binade
  have hnum : 0 < x.num := Rat.num_pos.mpr hx
  have hden : (0:FT) < x.den := by exact_mod_cast x.den_pos
  have hxe : x = x.num / x.den := (Rat.num_div_den x).symm
  split_ifs with h
  · apply binade_up_spec
    · simpa using h
    · have h1 : x ≤ x.num := by
        have hd : (1:FT) ≤ x.den := by exact_mod_cast x.den_pos
        have hn : (0:FT) < x.num := by exact_mod_cast hnum
        calc x = x.num / x.den := hxe
          _ ≤ x.num / 1 := by gcongr
          _ = x.num := by simp
      have h2 : (x.num : FT) = (x.num.natAbs : FT) := by
        have h0 : (x.num.natAbs : ℤ) = x.num := Int.natAbs_of_nonneg hnum.le
        rw [← Int.cast_natCast, h0]
      have h3 : (x.num.natAbs : FT) < 2 ^ x.num.natAbs := by
        exact_mod_cast Nat.lt_two_pow x.num.natAbs
      have h4 : (2:FT) ^ ((0:ℤ) + (x.num.natAbs : ℤ) + 1) = 2 * 2 ^ x.num.natAbs := by
        rw [zero_add, zpow_add_one₀ (by norm_num), zpow_natCast]; ring
      rw [h4]
      have : (0:FT) < 2 ^ x.num.natAbs := by positivity
      linarith
  · apply binade_down_spec
    · simpa using not_le.mp h
    · have h1 : (1:FT) / x.den ≤ x := by
        have hn : (1:FT) ≤ x.num := by exact_mod_cast hnum
        calc (1:FT) / x.den ≤ x.num / x.den := by gcongr
          _ = x := hxe.symm
      have h3 : (x.den : FT) < 2 ^ x.den := by exact_mod_cast Nat.lt_two_pow x.den
      have h4 : (2:FT) ^ ((-1:ℤ) - (x.den : ℤ)) = 1 / (2 * 2 ^ x.den) := by
        have : ((-1:ℤ) - (x.den : ℤ)) = -((x.den : ℤ) + 1) := by ring
        rw [this, zpow_neg, zpow_add_one₀ (by norm_num), zpow_natCast]
        field_simp
        ring
      rw [h4]
      have h5 : (1:FT) / (2 * 2 ^ x.den) ≤ 1 / x.den := by
        apply one_div_le_one_div_of_le hden
        have : (0:FT) < 2 ^ x.den := by positivity
        linarith
      linarith

theorem binade_unique (x : FT) (e : ℤ) (h1 : (2:FT) ^ e ≤ x) (h2 : x < 2 ^ (e + 1)) :
    binade x = e := by
  have hx : 0 < x := lt_of_lt_of_le (by positivity) h1
  obtain ⟨s1, s2⟩ := binade_spec x hx
  have a : binade x < e + 1 := by
    have := lt_of_le_of_lt s1 h2
    exact (zpow_lt_zpow_iff_right₀ (by norm_num : (1:FT) < 2)).mp this
  have b : e < binade x + 1 := by
    have := lt_of_le_of_lt h1 s2
    exact (zpow_lt_zpow_iff_right₀ (by norm_num : (1:FT) < 2)).mp this
  omega

theorem binade_mono (x y : FT) (hx : 0 < x) (hxy : x ≤ y) : binade x ≤ binade y := by
  obtain ⟨s1, _⟩ := binade_spec x hx
  obtain ⟨_, t2⟩ := binade_spec y (lt_of_lt_of_le hx hxy)
  have := lt_of_le_of_lt (le_trans s1 hxy) t2
  have := (zpow_lt_zpow_iff_right₀ (by norm_num : (1:FT) < 2)).mp this
  omega

theorem binade_two_mul (x : FT) (hx : 0 < x) : binade (2 * x) = binade x + 1 := by
  obtain ⟨s1, s2⟩ := binade_spec x hx
  apply binade_unique
  · rw [zpow_add_one₀ (by norm_num)]; linarith
  · rw [zpow_add_one₀ (by norm_num : (2:FT) ≠ 0) (binade x + 1)]; linarith

theorem round_half_even_bounds (u : FT) :
    ⌊u⌋ ≤ round_half_even u ∧ round_half_even u ≤ ⌊u⌋ + 1 := by
  unfold round_half_even
  split_ifs <;> constructor <;> omega

theorem round_half_even_int (k : ℤ) : round_half_even (k : FT) = k := by
  unfold round_half_even
  simp

theorem le_round_half_even (u : FT) (k : ℤ) (h : (k : FT) ≤ u) : k ≤ round_half_even u :=
  le_trans (Int.le_floor.mpr h) (round_half_even_bounds u).1

theorem round_half_even_le (u : FT) (k : ℤ) (h : u ≤ (k : FT)) : round_half_even u ≤ k := by
  rcases eq_or_lt_of_le h with h | h
  · rw [h, round_half_even_int]
  · have : ⌊u⌋ < k := Int.floor_lt.mpr h
    have := (round_half_even_bounds u).2
    omega

theorem round_half_even_mono (u v : FT) (h : u ≤ v) : round_half_even u ≤ round_half_even v := by
  have hf : ⌊u⌋ ≤ ⌊v⌋ := Int.floor_mono h
  rcases eq_or_lt_of_le hf with he | hl
  · unfold round_half_even
    rw [← he]
    split_ifs <;> first | omega | (exfalso; linarith)
  · have := (round_half_even_bounds u).2
    have := (round_half_even_bounds v).1
    omega

theorem two_zpow_pos (e : ℤ) : (0 : FT) < 2 ^ e := by positivity

theorem double_round_magnitude_zero : double_round_magnitude 0 = 0 := by
  unfold double_round_magnitude
  simp [round_half_even]

theorem double_round_magnitude_nonneg (x : FT) (hx : 0 ≤ x) : 0 ≤ double_round_magnitude x := by
  unfold double_round_magnitude
  have h : (0 : FT) ≤ x / 2 ^ double_last_place x := div_nonneg hx (two_zpow_pos _).le
  have := le_round_half_even _ 0 (by simpa using h)
  have h2 : (0 : FT) ≤ (round_half_even (x / 2 ^ double_last_place x) : FT) := by exact_mod_cast this
  exact mul_nonneg h2 (two_zpow_pos _).le

theorem double_round_magnitude_mono (x y : FT) (hx : 0 < x) (hxy : x ≤ y) :
    double_round_magnitude x ≤ double_round_magnitude y := by
  have hy : 0 < y := lt_of_lt_of_le hx hxy
  have hb := binade_mono x y hx hxy
  obtain ⟨_, sx⟩ := binade_spec x hx
  obtain ⟨sy, _⟩ := binade_spec y hy
  unfold double_round_magnitude
  have hq : double_last_place x ≤ double_last_place y := by
    unfold double_last_place; omega
  rcases eq_or_lt_of_le hq with he | hl
  · rw [← he]
    apply mul_le_mul_of_nonneg_right _ (two_zpow_pos _).le
    have : x / 2 ^ double_last_place x ≤ y / 2 ^ double_last_place x := by gcongr
    exact_mod_cast round_half_even_mono _ _ this
  · have hqy : double_last_place y = binade y - 52 := by
      unfold double_last_place at hl ⊢; omega
    have hbx : binade x + 1 ≤ binade y := by
      unfold double_last_place at hl; omega
    have hqx : double_last_place x < binade y := by omega
    -- the power of two between the two numbers
    have hK : x ≤ (2 : FT) ^ binade y :=
      le_trans sx.le (zpow_le_zpow_right₀ (by norm_num) hbx)
    obtain ⟨n, hn⟩ := Int.eq_ofNat_of_zero_le (by omega : 0 ≤ binade y - double_last_place x)
    have e1 : (2 : FT) ^ binade y = ((2 ^ n : ℤ) : FT) * 2 ^ double_last_place x := by
      have : binade y = (n : ℤ) + double_last_place x := by omega
      rw [this, zpow_add₀ (by norm_num), zpow_natCast]; push_cast; rfl
    have e2 : (2 : FT) ^ binade y = ((2 ^ 52 : ℤ) : FT) * 2 ^ double_last_place y := by
      have : binade y = ((52 : ℕ) : ℤ) + double_last_place y := by omega
      rw [this, zpow_add₀ (by norm_num), zpow_natCast]; push_cast; rfl
    have a1 : round_half_even (x / 2 ^ double_last_place x) ≤ (2 ^ n : ℤ) := by
      apply round_half_even_le
      rw [div_le_iff₀ (two_zpow_pos _), ← e1]; exact hK
    have a2 : (2 ^ 52 : ℤ) ≤ round_half_even (y / 2 ^ double_last_place y) := by
      apply le_round_half_even
      rw [le_div_iff₀ (two_zpow_pos _), ← e2]; exact sy
    calc (round_half_even (x / 2 ^ double_last_place x) : FT) * 2 ^ double_last_place x
        ≤ ((2 ^ n : ℤ) : FT) * 2 ^ double_last_place x :=
          mul_le_mul_of_nonneg_right (by exact_mod_cast a1) (two_zpow_pos _).le
      _ = (2 : FT) ^ binade y := e1.symm
      _ = ((2 ^ 52 : ℤ) : FT) * 2 ^ double_last_place y := e2
      _ ≤ (round_half_even (y / 2 ^ double_last_place y) : FT) * 2 ^ double_last_place y :=
          mul_le_mul_of_nonneg_right (by exact_mod_cast a2) (two_zpow_pos _).le

/-- Rounding to the nearest double is monotone. -/
theorem double_round_mono (x y : FT) (hxy : x ≤ y) : double_round x ≤ double_round y := by
  unfold double_round
  split_ifs with h1 h2 h2
  · rcases eq_or_lt_of_le hxy with h | h
    · rw [h]
    · exact neg_le_neg (double_round_magnitude_mono (-y) (-x) (by linarith) (by linarith))
  · have := double_round_magnitude_nonneg (-x) (by linarith)
    have := double_round_magnitude_nonneg y (by linarith)
    linarith
  · exfalso; linarith
  · rcases eq_or_lt_of_le (not_lt.mp h1) with h | h
    · rw [← h, double_round_magnitude_zero]
      exact double_round_magnitude_nonneg y (not_lt.mp h2)
    · exact double_round_magnitude_mono x y h hxy

theorem double_round_magnitude_two_mul (a : FT) (ha : 0 < a) (h : double_round_magnitude a = a) :
    double_round_magnitude (2 * a) = 2 * a := by
  unfold double_round_magnitude at h ⊢
  have hb := binade_two_mul a ha
  set q := double_last_place a with hq
  have hm : ((round_half_even (a / 2 ^ q) : ℤ) : FT) = a / 2 ^ q := by
    rw [eq_div_iff (two_zpow_pos q).ne']; exact h
  by_cases hc : -1074 ≤ binade a - 52
  · have hq2 : double_last_place (2 * a) = q + 1 := by
      rw [hq]; unfold double_last_place; rw [hb]; omega
    rw [hq2]
    have e : 2 * a / 2 ^ (q + 1) = a / 2 ^ q := by
      rw [zpow_add_one₀ (by norm_num)]
      field_simp
      ring
    rw [e, ← hm, round_half_even_int, hm, zpow_add_one₀ (by norm_num)]
    field_simp
    ring
  · have hq1 : q = -1074 := by rw [hq]; unfold double_last_place; omega
    have hq2 : double_last_place (2 * a) = q := by
      rw [hq1]; unfold double_last_place; rw [hb]; omega
    rw [hq2]
    have e : 2 * a / 2 ^ q = ((2 * round_half_even (a / 2 ^ q) : ℤ) : FT) := by
      push_cast; rw [hm]; ring
    rw [e, round_half_even_int]
    push_cast
    rw [hm]
    field_simp

/-- Doubling is exact on doubles. -/
theorem double_round_two_mul (a : FT) (h : is_double a) : double_round (2 * a) = 2 * a := by
  unfold is_double double_round at *
  rcases lt_trichotomy a 0 with ha | ha | ha
  · have h2 : 2 * a < 0 := by linarith
    rw [if_pos ha] at h
    rw [if_pos h2]
    have h3 : double_round_magnitude (-a) = -a := by linarith
    have := double_round_magnitude_two_mul (-a) (by linarith) h3
    have e : -(2 * a) = 2 * -a := by ring
    rw [e, this]; ring
  · subst ha
    simp [double_round_magnitude_zero]
  · have h2 : ¬ 2 * a < 0 := by linarith
    rw [if_neg (not_lt.mpr ha.le)] at h
    rw [if_neg h2]
    exact double_round_magnitude_two_mul a ha h

/-- The mean of two doubles, computed as `0.5 * (a + b)`, lies between them. -/
theorem double_mean_between (a b : FT) (ha : is_double a) (hb : is_double b) (hab : a ≤ b) :
    a ≤ double_mul (1 / 2) (double_add a b) ∧ double_mul (1 / 2) (double_add a b) ≤ b := by
  unfold double_mul double_add
  have h1 : 2 * a ≤ double_round (a + b) := by
    rw [← double_round_two_mul a ha]; exact double_round_mono _ _ (by linarith)
  have h2 : double_round (a + b) ≤ 2 * b := by
    rw [← double_round_two_mul b hb]; exact double_round_mono _ _ (by linarith)
  constructor
  · have := double_round_mono a (1 / 2 * double_round (a + b)) (by linarith)
    rwa [ha] at this
  · have := double_round_mono (1 / 2 * double_round (a + b)) b (by linarith)
    rwa [hb] at this

/-! ## The time of the halving target, with the operations of `double` -/

/-- The time that `Double.compute_halving_point` returns is `0.5 * (p_time + q_time)`. -/
theorem double_compute_halving_point_time (S : Services) (g g1 : Motorcycle_graph)
    (p q hp : DEC_it) (p_time q_time th : FT)
    (h : Double.compute_halving_point S g p p_time q q_time = some (g1, hp, th)) :
    th = double_mul (1 / 2) (double_add p_time q_time) := by
  unfold Double.compute_halving_point at h
  by_cases hpq : p = q
  · simp [hpq] at h
  · simp only [hpq, if_false, Option.bind_eq_bind] at h
    obtain ⟨pe, _, h⟩ := Option.bind_eq_some.mp h
    obtain ⟨qe, _, h⟩ := Option.bind_eq_some.mp h
    split_ifs at h
    unfold Double.compute_middle_point at h
    simp only [Option.bind_eq_bind] at h
    obtain ⟨pe', _, h⟩ := Option.bind_eq_some.mp h
    obtain ⟨qe', _, h⟩ := Option.bind_eq_some.mp h
    split_ifs at h
    simp only [Option.some.injEq, Prod.mk.injEq] at h
    exact h.2.2.symm

/-- After the insertion of a target at the time `t` the queue holds a target at that time. -/
theorem insert_target_has_time (e : DEC_it) (t : FT) (l : List (DEC_it × FT)) :
    ∃ x ∈ Motorcycle.insert_target e t l, x.2 = t := by
  induction l with
  | nil => exact ⟨(e, t), by simp [Motorcycle.insert_target], rfl⟩
  | cons y rest ih =>
    unfold Motorcycle.insert_target
    split_ifs with h1 h2
    · exact ⟨(e, t), List.mem_cons_self _ _, rfl⟩
    · exact ⟨y, List.mem_cons_self _ _, h2.symm⟩
    · obtain ⟨x, hx, hxt⟩ := ih
      exact ⟨x, List.mem_cons_of_mem _ hx, hxt⟩

/-- The insertion of a target at a time at which an ordered queue holds a target leaves the
queue as it is. -/
theorem insert_target_noop (e : DEC_it) (t : FT) (l : List (DEC_it × FT))
    (hl : l.Pairwise (fun a b => a.2 < b.2)) (hx : ∃ x ∈ l, x.2 = t) :
    Motorcycle.insert_target e t l = l := by
  induction l with
  | nil =>
    obtain ⟨x, hx, _⟩ := hx
    simp at hx
  | cons y rest ih =>
    have hy := List.pairwise_cons.mp hl
    obtain ⟨x, hx, hxt⟩ := hx
    unfold Motorcycle.insert_target
    rcases List.mem_cons.mp hx with rfl | hx'
    · rw [hxt]
      simp
    · have hlt : y.2 < t := hxt ▸ hy.1 x hx'
      rw [if_neg (not_lt.mpr hlt.le), if_neg (ne_of_gt hlt), ih hy.2 ⟨x, hx', hxt⟩]

/-- C31 (amended). Let `treat_collision` be called for the motorcycle `mc` with the collision
time `t`, not earlier than `mc.current_time` (the precondition of l. 3201), both times being
doubles, and let `compute_halving_point` return the halving point `hp` with the time `th` for
the current position of `mc` and the collision point. Then `th` is the double
`0.5 * (mc.current_time + t)` and `mc.current_time <= th <= t`; none of the two `add_target`
calls fails; the targets being ordered by time, the halving target comes before the collision
target in the queue whenever both are in it and `th < t`; and when `th = t` the second
`add_target` leaves the queue as the first one left it. -/
theorem halving_target_time_is_between (S : Services) (g g1 : Motorcycle_graph)
    (mc : Motorcycle) (collision_point : DEC_it) (time_at_collision_point : FT)
    (halving_point : DEC_it) (time_at_halving_point : FT)
    (h_half : Double.compute_halving_point S g mc.current_position mc.current_time
      collision_point time_at_collision_point = some (g1, halving_point, time_at_halving_point))
    (h_ordered : mc.targets.Pairwise (fun a b => a.2 < b.2))
    (h_ct : is_double mc.current_time) (h_t : is_double time_at_collision_point)
    (h_le : mc.current_time ≤ time_at_collision_point) :
    time_at_halving_point =
      double_mul (1 / 2) (double_add mc.current_time time_at_collision_point) ∧
    mc.current_time ≤ time_at_halving_point ∧
    time_at_halving_point ≤ time_at_collision_point ∧
    ∃ mc1 mc2, mc.add_target collision_point time_at_collision_point = some mc1 ∧
      mc1.add_target halving_point time_at_halving_point = some mc2 ∧
      (time_at_halving_point < time_at_collision_point →
        (halving_point, time_at_halving_point) ∈ mc2.targets →
        (collision_point, time_at_collision_point) ∈ mc2.targets →
        [(halving_point, time_at_halving_point),
          (collision_point, time_at_collision_point)].Sublist mc2.targets) ∧
      (time_at_halving_point = time_at_collision_point → mc2 = mc1) := by
  have hth := double_compute_halving_point_time S g g1 _ _ _ _ _ _ h_half
  obtain ⟨h1, h2⟩ := double_mean_between _ _ h_ct h_t h_le
  rw [← hth] at h1 h2
  refine ⟨hth, h1, h2, _, _, if_neg (not_lt.mpr h_le), if_neg (not_lt.mpr h1), ?_, ?_⟩
  · intro hlt hh hc
    exact ordered_targets_sublist _ _ _
      (insert_target_ordered _ _ _ (insert_target_ordered _ _ _ h_ordered)) hh hc hlt
  · intro heq
    rw [heq, insert_target_noop _ _ _ (insert_target_ordered _ _ _ h_ordered)
      (insert_target_has_time _ _ _)]

/-- C31, witness: the motorcycle of `adjacent_times_state` is at time `1 + 2^-52`, the collision
at time `1 + 2^-51`; the time of the halving point is between the two. -/
theorem halving_target_time_is_between_witness :
    (1 + 1 / 2 ^ 52 : FT) ≤ 1 + 1 / 2 ^ 51 ∧
    (1 + 1 / 2 ^ 52 : FT) ≤ double_mul (1 / 2) (double_add (1 + 1 / 2 ^ 52) (1 + 1 / 2 ^ 51)) ∧
    double_mul (1 / 2) (double_add (1 + 1 / 2 ^ 52) (1 + 1 / 2 ^ 51)) ≤ (1 + 1 / 2 ^ 51 : FT) :=
  have h := halving_target_time_is_between double_services
    (adjacent_times_state (1 + 1 / 2 ^ 52) (1 + 3 / 2 ^ 52))
    { adjacent_times_state (1 + 1 / 2 ^ 52) (1 + 3 / 2 ^ 52) with
      points := (Dictionary.insert double_services
        (adjacent_times_state (1 + 1 / 2 ^ 52) (1 + 3 / 2 ^ 52)).points
        (some 0, (3/4, 1/4, 0))).1 }
    (adjacent_times_mc (1 + 1 / 2 ^ 52) (1 + 3 / 2 ^ 52))
    (some 2) (1 + 1 / 2 ^ 51) (some 3)
    (double_mul (1 / 2) (double_add (1 + 1 / 2 ^ 52) (1 + 1 / 2 ^ 51)))
    (by decide!) (by decide!) (by decide!) (by decide!) (by decide!)
  ⟨by decide!, h.2.1, h.2.2.1⟩

/-- C31 (as stated, refuted on doubles). The motorcycle of `adjacent_times_state` is at
`(1,0,0)` and the collision point `(1/2,1/2,0)` is reached `2^-52` later (the time that
l. 2234 computes), the two times being neighbours in the double format. From the time `1` the
collision is at `1 + 2^-52`, and the time of the halving point is `1`, the current time: the
lower bound is not strict. From the time `1 + 2^-52` the collision is at `1 + 2^-51`, and the
time of the halving point is `1 + 2^-51`, the time of the collision: `treat_collision` puts
the collision target alone in the queue, and no halving target before it. -/
theorem halving_target_time_not_strict_counterexample :
    double_add 1 (double_div (double_sqrt (Double.squared_distance (0, 0, 0) (1/2, 0, 0)))
      (2 ^ 51)) = 1 + 1 / 2 ^ 52 ∧
    (1 : FT) < 1 + 1 / 2 ^ 52 ∧
    double_mul (1 / 2) (double_add 1 (1 + 1 / 2 ^ 52)) = 1 ∧
    (Double.treat_collision_mc double_services (adjacent_times_state 1 (1 + 1 / 2 ^ 51)) 0
        (some 2) (1 + 1 / 2 ^ 52)).map (fun g => g.motorcycles.map Motorcycle.targets) =
      some [[(some 3, 1), (some 2, 1 + 1 / 2 ^ 52), (some 1, 1 + 1 / 2 ^ 51)], []] ∧
    double_add (1 + 1 / 2 ^ 52)
      (double_div (double_sqrt (Double.squared_distance (0, 0, 0) (1/2, 0, 0))) (2 ^ 51)) =
      1 + 1 / 2 ^ 51 ∧
    (1 + 1 / 2 ^ 52 : FT) < 1 + 1 / 2 ^ 51 ∧
    double_mul (1 / 2) (double_add (1 + 1 / 2 ^ 52) (1 + 1 / 2 ^ 51)) = 1 + 1 / 2 ^ 51 ∧
    (Double.treat_collision_mc double_services
        (adjacent_times_state (1 + 1 / 2 ^ 52) (1 + 3 / 2 ^ 52)) 0 (some 2)
        (1 + 1 / 2 ^ 51)).map (fun g => g.motorcycles.map Motorcycle.targets) =
      some [[(some 2, 1 + 1 / 2 ^ 51), (some 1, 1 + 3 / 2 ^ 52)], []] := by
  refine ⟨by decide!, by decide!, by decide!, by decide!, by decide!, by decide!, by decide!,
    by decide!⟩

/-! ## The halving point of two neighbouring locations -/

/-- C32: the code fails its own postcondition. The entries `0` and `1` of
`adjacent_points_state` are two distinct locations `(1/2, 1/4, 1/4)` and
`(1/2 - 2^-54, 1/4 + 2^-54, 1/4)` of one face, each a triple of doubles of sum `1`; the
dictionary is exact (none of the two locations is found for the other). In each coordinate the
sum of the two values rounds to twice the first one, so the middle location that
`compute_middle_point` builds is the first location, `compute_halving_point` returns the entry
`0`, and `treat_collision`, called for the motorcycle `0` at the entry `0` with the collision at
the entry `1`, fails the postcondition of l. 3220; with exact operations the middle is a third
location and the call succeeds. -/
theorem halving_point_of_neighbours_is_first_point :
    (adjacent_points_state.points.map (fun e => e.location) =
      [(some 0, (1/2, 1/4, 1/4)), (some 0, (1/2 - 1 / 2 ^ 54, 1/4 + 1 / 2 ^ 54, 1/4)),
       (some 0, (1/4, 1/2, 1/4))]) ∧
    (is_double (1/2 - 1 / 2 ^ 54) ∧ is_double (1/4 + 1 / 2 ^ 54)) ∧
    (1/2 - 1 / 2 ^ 54 + (1/4 + 1 / 2 ^ 54) + 1/4 : FT) = 1 ∧
    Dictionary.find adjacent_points_state.points (some 0, (1/2, 1/4, 1/4)) = some 0 ∧
    Dictionary.find adjacent_points_state.points
      (some 0, (1/2 - 1 / 2 ^ 54, 1/4 + 1 / 2 ^ 54, 1/4)) = some 1 ∧
    Double.middle_coords (1/2, 1/4, 1/4) (1/2 - 1 / 2 ^ 54, 1/4 + 1 / 2 ^ 54, 1/4) =
      (1/2, 1/4, 1/4) ∧
    double_add 0 (double_div (double_sqrt (Double.squared_distance (1/4, 1/4, 0)
      (1/4 + 1 / 2 ^ 54, 1/4, 0))) 1) = 1 / 2 ^ 54 ∧
    (Double.compute_halving_point double_services adjacent_points_state (some 0) 0 (some 1)
        (1 / 2 ^ 54)).map (fun r => (r.2.1, r.2.2)) = some (some 0, 1 / 2 ^ 55) ∧
    Double.treat_collision_mc double_services adjacent_points_state 0 (some 1) (1 / 2 ^ 54) =
      none ∧
    (treat_collision_mc exact_services adjacent_points_state 0 (some 1) (1 / 2 ^ 54)).isSome =
      true := by
  refine ⟨by decide!, ⟨by decide!, by decide!⟩, by decide!, by decide!, by decide!, by decide!,
    by decide!, by decide!, by decide!, by decide!⟩


end Polyline_tracing

/-! # Properties of the rotations by fixed angles -/

namespace Rotated_algebraic_curve_kernel_2

/-! ## The base angle -/

theorem tmod_of_nonneg (a b : Int) (ha : 0 ≤ a) : a.tmod b = a % b := by
  rcases Int.le_total 0 b with hb | hb
  · exact Int.tmod_eq_emod ha hb
  · have h := Int.tmod_eq_emod ha (Int.neg_nonneg.mpr hb)
    rw [Int.tmod_neg, Int.emod_neg] at h
    exact h

/-- The wrapped angle of `Normalized_angle` is the remainder in `[0, 360)`. -/
theorem wrap_eq_emod (a : Int) :
    a.tmod 360 + (if a.tmod 360 < 0 then 360 else 0) = a % 360 := by
  cases a with
  | ofNat m =>
    have e : (Int.ofNat m).tmod 360 = ((m % 360 : Nat) : Int) := rfl
    rw [e]
    simp only [Int.ofNat_eq_coe]
    split_ifs <;> omega
  | negSucc m =>
    have e : (Int.negSucc m).tmod 360 = -(((m + 1) % 360 : Nat) : Int) := rfl
    rw [e, Int.negSucc_eq]
    split_ifs <;> omega

/-- C26: for every integer `BaseAngle`, `Normalized_angle<BaseAngle>::angle` is one of `45`,
`30`, `15`, `18`, `3` and `-1`; it is `-1` exactly when `BaseAngle` is not divisible by `3`;
and when it is not `-1` it divides `BaseAngle`, and it divides every multiple of `BaseAngle`
reduced to `[0, 360)` as `Rotation_traits::operator()` reduces its angle. -/
theorem normalized_angle_divides (BaseAngle : Int) :
    Normalized_angle BaseAngle ∈ ([45, 30, 15, 18, 3, -1] : List Int) ∧
    (Normalized_angle BaseAngle = -1 ↔ ¬ (3 ∣ BaseAngle)) ∧
    (Normalized_angle BaseAngle ≠ -1 →
      Normalized_angle BaseAngle ∣ BaseAngle ∧
      ∀ k : Int, Normalized_angle BaseAngle ∣
        (k * BaseAngle).tmod 360 + (if (k * BaseAngle).tmod 360 < 0 then 360 else 0)) := by
  have hm : 0 ≤ BaseAngle % 360 := Int.emod_nonneg _ (by decide)
  have key : Normalized_angle BaseAngle =
      if BaseAngle % 360 % 45 = 0 then 45
      else if BaseAngle % 360 % 30 = 0 then 30
      else if BaseAngle % 360 % 15 = 0 then 15
      else if BaseAngle % 360 % 18 = 0 then 18
      else if BaseAngle % 360 % 3 = 0 then 3
      else -1 := by
    unfold Normalized_angle
    simp only [wrap_eq_emod, tmod_of_nonneg _ _ hm]
  rw [key]
  refine ⟨?_, ?_, ?_⟩
  · split_ifs <;> simp
  · split_ifs <;> simp <;> omega
  · intro h
    constructor
    · split_ifs at h ⊢ <;> omega
    · intro k
      rw [wrap_eq_emod]
      split_ifs at h ⊢ <;> first
        | exact absurd rfl h
        | (have hx := Dvd.dvd.mul_left (show (45 : Int) ∣ BaseAngle by omega) k
           generalize k * BaseAngle = x at hx ⊢
           omega)
        | (have hx := Dvd.dvd.mul_left (show (30 : Int) ∣ BaseAngle by omega) k
           generalize k * BaseAngle = x at hx ⊢
           omega)
        | (have hx := Dvd.dvd.mul_left (show (15 : Int) ∣ BaseAngle by omega) k
           generalize k * BaseAngle = x at hx ⊢
           omega)
        | (have hx := Dvd.dvd.mul_left (show (18 : Int) ∣ BaseAngle by omega) k
           generalize k * BaseAngle = x at hx ⊢
           omega)
        | (have hx := Dvd.dvd.mul_left (show (3 : Int) ∣ BaseAngle by omega) k
           generalize k * BaseAngle = x at hx ⊢
           omega)

/-! ## The sines and cosines of the multiples of 15 degrees -/

open Real in
theorem sqrt_two_mul_sqrt_three : √2 * √3 = √6 := by
  rw [← Real.sqrt_mul (by norm_num : (0 : ℝ) ≤ 2)]
  norm_num

open Real in
theorem sin_15 : sin (15 * π / 180) = -1/4 * √2 + 1/4 * √6 := by
  have e : (15 : ℝ) * π / 180 = π / 3 - π / 4 := by ring
  rw [e, sin_sub, sin_pi_div_three, cos_pi_div_three, sin_pi_div_four, cos_pi_div_four,
    ← sqrt_two_mul_sqrt_three]
  ring

open Real in
theorem cos_15 : cos (15 * π / 180) = 1/4 * √2 + 1/4 * √6 := by
  have e : (15 : ℝ) * π / 180 = π / 3 - π / 4 := by ring
  rw [e, cos_sub, sin_pi_div_three, cos_pi_div_three, sin_pi_div_four, cos_pi_div_four,
    ← sqrt_two_mul_sqrt_three]
  ring

open Real in
/-- The sine and the cosine of `90 - x`, `90 + x` and `180 - x` degrees. -/
theorem sin_cos_deg (x : ℝ) :
    sin ((90 - x) * π / 180) = cos (x * π / 180) ∧
    cos ((90 - x) * π / 180) = sin (x * π / 180) ∧
    sin ((90 + x) * π / 180) = cos (x * π / 180) ∧
    cos ((90 + x) * π / 180) = -sin (x * π / 180) ∧
    sin ((180 - x) * π / 180) = sin (x * π / 180) ∧
    cos ((180 - x) * π / 180) = -cos (x * π / 180) := by
  have e1 : (90 - x) * π / 180 = π / 2 - x * π / 180 := by ring
  have e2 : (90 + x) * π / 180 = x * π / 180 + π / 2 := by ring
  have e3 : (180 - x) * π / 180 = π - x * π / 180 := by ring
  rw [e1, e2, e3, sin_pi_div_two_sub, cos_pi_div_two_sub, sin_add_pi_div_two,
    cos_add_pi_div_two, sin_pi_sub, cos_pi_sub]
  exact ⟨rfl, rfl, rfl, rfl, rfl, rfl⟩

open Real in
theorem sin_cos_30 : sin (30 * π / 180) = 1/2 ∧ cos (30 * π / 180) = 1/2 * √3 := by
  have e : (30 : ℝ) * π / 180 = π / 6 := by ring
  rw [e, sin_pi_div_six, cos_pi_div_six]
  constructor <;> ring

open Real in
theorem sin_cos_45 : sin (45 * π / 180) = 1/2 * √2 ∧ cos (45 * π / 180) = 1/2 * √2 := by
  have e : (45 : ℝ) * π / 180 = π / 4 := by ring
  rw [e, sin_pi_div_four, cos_pi_div_four]
  constructor <;> ring

open Real in
theorem sin_cos_60 : sin (60 * π / 180) = 1/2 * √3 ∧ cos (60 * π / 180) = 1/2 := by
  have e : (60 : ℝ) * π / 180 = π / 3 := by ring
  rw [e, sin_pi_div_three, cos_pi_div_three]
  constructor <;> ring

open Real in
theorem sin_cos_90 : sin (90 * π / 180) = 1 ∧ cos (90 * π / 180) = 0 := by
  have e : (90 : ℝ) * π / 180 = π / 2 := by ring
  rw [e, sin_pi_div_two, cos_pi_div_two]
  exact ⟨rfl, rfl⟩

open Real in
theorem sin_cos_75 :
    sin (75 * π / 180) = 1/4 * √2 + 1/4 * √6 ∧ cos (75 * π / 180) = -1/4 * √2 + 1/4 * √6 := by
  have h := sin_cos_deg 15
  norm_num at h
  rw [h.1, h.2.1, sin_15, cos_15]
  exact ⟨rfl, rfl⟩

open Real in
theorem sin_cos_105 :
    sin (105 * π / 180) = 1/4 * √2 + 1/4 * √6 ∧ cos (105 * π / 180) = 1/4 * √2 - 1/4 * √6 := by
  have h := sin_cos_deg 15
  norm_num at h
  rw [h.2.2.1, h.2.2.2.1, sin_15, cos_15]
  constructor <;> ring

open Real in
theorem sin_cos_120 : sin (120 * π / 180) = 1/2 * √3 ∧ cos (120 * π / 180) = -1/2 := by
  have h := sin_cos_deg 60
  norm_num at h
  rw [h.2.2.2.2.1, h.2.2.2.2.2, sin_cos_60.1, sin_cos_60.2]
  constructor <;> ring

open Real in
theorem sin_cos_135 :
    sin (135 * π / 180) = 1/2 * √2 ∧ cos (135 * π / 180) = -1/2 * √2 := by
  have h := sin_cos_deg 45
  norm_num at h
  rw [h.2.2.2.2.1, h.2.2.2.2.2, sin_cos_45.1, sin_cos_45.2]
  constructor <;> ring

open Real in
theorem sin_cos_150 : sin (150 * π / 180) = 1/2 ∧ cos (150 * π / 180) = -1/2 * √3 := by
  have h := sin_cos_deg 30
  norm_num at h
  rw [h.2.2.2.2.1, h.2.2.2.2.2, sin_cos_30.1, sin_cos_30.2]
  constructor <;> ring

open Real in
theorem sin_cos_165 :
    sin (165 * π / 180) = -1/4 * √2 + 1/4 * √6 ∧
    cos (165 * π / 180) = -1/4 * √2 - 1/4 * √6 := by
  have h := sin_cos_deg 15
  norm_num at h
  rw [h.2.2.2.2.1, h.2.2.2.2.2, sin_15, cos_15]
  constructor <;> ring

open Real in
/-- C27: for every angle `a` of `0, 15, ..., 165`, `_15_degree_selector` on a fresh `_Packed`
selects coefficients with `a1_sine + b1_sine*sqrt(2) + a2_sine*sqrt(3) + b2_sine*sqrt(6) =
sin(a degrees)` and `a1_cosine + b1_cosine*sqrt(2) + a2_cosine*sqrt(3) + b2_cosine*sqrt(6) =
cos(a degrees)`; on every other angle it raises the error "The angle must be multiple of 15
degrees". -/
theorem selector_15_degree_sine_cosine (a : Int) :
    (a ∈ ([0, 15, 30, 45, 60, 75, 90, 105, 120, 135, 150, 165] : List Int) →
      ∃ t, _15_degree_selector _Packed.ctor a = .ok t ∧
        (t.a1_sine : ℝ) + t.b1_sine * √2 + t.a2_sine * √3 + t.b2_sine * √6 =
          sin (a * π / 180) ∧
        (t.a1_cosine : ℝ) + t.b1_cosine * √2 + t.a2_cosine * √3 + t.b2_cosine * √6 =
          cos (a * π / 180)) ∧
    (a ∉ ([0, 15, 30, 45, 60, 75, 90, 105, 120, 135, 150, 165] : List Int) →
      _15_degree_selector _Packed.ctor a =
        .error "The angle must be multiple of 15 degrees !!\n") := by
  constructor
  · intro h
    simp only [List.mem_cons, List.mem_singleton, List.not_mem_nil, or_false] at h
    rcases h with rfl | rfl | rfl | rfl | rfl | rfl | rfl | rfl | rfl | rfl | rfl | rfl
    · exact ⟨_, rfl, by simp [_Packed.ctor], by simp [_Packed.ctor]⟩
    · refine ⟨_, rfl, ?_, ?_⟩
      · rw [Int.cast_ofNat, sin_15]
        norm_num [_Packed.ctor]
      · rw [Int.cast_ofNat, cos_15]
        norm_num [_Packed.ctor]
    · refine ⟨_, rfl, ?_, ?_⟩
      · rw [Int.cast_ofNat, sin_cos_30.1]
        norm_num [_Packed.ctor]
      · rw [Int.cast_ofNat, sin_cos_30.2]
        norm_num [_Packed.ctor]
    · refine ⟨_, rfl, ?_, ?_⟩
      · rw [Int.cast_ofNat, sin_cos_45.1]
        norm_num [_Packed.ctor]
      · rw [Int.cast_ofNat, sin_cos_45.2]
        norm_num [_Packed.ctor]
    · refine ⟨_, rfl, ?_, ?_⟩
      · rw [Int.cast_ofNat, sin_cos_60.1]
        norm_num [_Packed.ctor]
      · rw [Int.cast_ofNat, sin_cos_60.2]
        norm_num [_Packed.ctor]
    · refine ⟨_, rfl, ?_, ?_⟩
      · rw [Int.cast_ofNat, sin_cos_75.1]
        norm_num [_Packed.ctor]
      · rw [Int.cast_ofNat, sin_cos_75.2]
        norm_num [_Packed.ctor]
    · refine ⟨_, rfl, ?_, ?_⟩
      · rw [Int.cast_ofNat, sin_cos_90.1]
        norm_num [_Packed.ctor]
      · rw [Int.cast_ofNat, sin_cos_90.2]
        norm_num [_Packed.ctor]
    · refine ⟨_, rfl, ?_, ?_⟩
      · rw [Int.cast_ofNat, sin_cos_105.1]
        norm_num [_Packed.ctor]
      · rw [Int.cast_ofNat, sin_cos_105.2]
        norm_num [_Packed.ctor]
        ring
    · refine ⟨_, rfl, ?_, ?_⟩
      · rw [Int.cast_ofNat, sin_cos_120.1]
        norm_num [_Packed.ctor]
      · rw [Int.cast_ofNat, sin_cos_120.2]
        norm_num [_Packed.ctor]
    · refine ⟨_, rfl, ?_, ?_⟩
      · rw [Int.cast_ofNat, sin_cos_135.1]
        norm_num [_Packed.ctor]
      · rw [Int.cast_ofNat, sin_cos_135.2]
        norm_num [_Packed.ctor]
    · refine ⟨_, rfl, ?_, ?_⟩
      · rw [Int.cast_ofNat, sin_cos_150.1]
        norm_num [_Packed.ctor]
      · rw [Int.cast_ofNat, sin_cos_150.2]
        norm_num [_Packed.ctor]
    · refine ⟨_, rfl, ?_, ?_⟩
      · rw [Int.cast_ofNat, sin_cos_165.1]
        norm_num [_Packed.ctor]
      · rw [Int.cast_ofNat, sin_cos_165.2]
        norm_num [_Packed.ctor]
        ring
  · intro h
    simp only [List.mem_cons, List.mem_singleton, List.not_mem_nil, or_false, not_or] at h
    obtain ⟨h0, h1, h2, h3, h4, h5, h6, h7, h8, h9, h10, h11⟩ := h
    simp only [_15_degree_selector, h0, h1, h2, h3, h4, h5, h6, h7, h8, h9, h10, h11, if_false]

/-! ## The sines and cosines of the multiples of 18 degrees -/

open Real in
theorem sqrt_five_sq : √5 * √5 = 5 := Real.mul_self_sqrt (by norm_num)

open Real in
theorem cos_36 : cos (36 * π / 180) = 1/4 + 1/4 * √5 := by
  have e : (36 : ℝ) * π / 180 = π / 5 := by ring
  rw [e, cos_pi_div_five]
  ring

open Real in
theorem cos_72 : cos (72 * π / 180) = -1/4 + 1/4 * √5 := by
  have e : (72 : ℝ) * π / 180 = 2 * (36 * π / 180) := by ring
  rw [e, cos_two_mul, cos_36]
  nlinarith [sqrt_five_sq]

open Real in
theorem sin_18 : sin (18 * π / 180) = -1/4 + 1/4 * √5 := by
  have h := (sin_cos_deg 72).1
  norm_num at h
  rw [h, cos_72]

open Real in
theorem cos_18 : cos (18 * π / 180) = 1/4 * √(10 + 2 * √5) := by
  have h_pos : 0 ≤ cos (18 * π / 180) := by
    apply cos_nonneg_of_mem_Icc
    constructor <;> nlinarith [pi_pos]
  have h_sq : (4 * cos (18 * π / 180)) ^ 2 = 10 + 2 * √5 := by
    have h := cos_sq_add_sin_sq (18 * π / 180)
    rw [sin_18] at h
    nlinarith [sqrt_five_sq]
  have h_r : √(10 + 2 * √5) = 4 * cos (18 * π / 180) := by
    rw [← h_sq]
    exact Real.sqrt_sq (by linarith)
  rw [h_r]
  ring

open Real in
theorem sin_36 : sin (36 * π / 180) = (-1/8 + 1/8 * √5) * √(10 + 2 * √5) := by
  have e : (36 : ℝ) * π / 180 = 2 * (18 * π / 180) := by ring
  rw [e, sin_two_mul, sin_18, cos_18]
  ring

open Real in
theorem sin_cos_54 :
    sin (54 * π / 180) = 1/4 + 1/4 * √5 ∧
    cos (54 * π / 180) = (-1/8 + 1/8 * √5) * √(10 + 2 * √5) := by
  have h := sin_cos_deg 36
  norm_num at h
  rw [h.1, h.2.1, sin_36, cos_36]
  exact ⟨rfl, rfl⟩

open Real in
theorem sin_cos_72 :
    sin (72 * π / 180) = 1/4 * √(10 + 2 * √5) ∧ cos (72 * π / 180) = -1/4 + 1/4 * √5 := by
  have h := sin_cos_deg 18
  norm_num at h
  rw [h.1, h.2.1, sin_18, cos_18]
  exact ⟨rfl, rfl⟩

open Real in
theorem sin_cos_108 :
    sin (108 * π / 180) = 1/4 * √(10 + 2 * √5) ∧ cos (108 * π / 180) = 1/4 + -1/4 * √5 := by
  have h := sin_cos_deg 18
  norm_num at h
  rw [h.2.2.1, h.2.2.2.1, sin_18, cos_18]
  constructor <;> ring

open Real in
theorem sin_cos_126 :
    sin (126 * π / 180) = 1/4 + 1/4 * √5 ∧
    cos (126 * π / 180) = (1/8 + -1/8 * √5) * √(10 + 2 * √5) := by
  have h := sin_cos_deg 36
  norm_num at h
  rw [h.2.2.1, h.2.2.2.1, sin_36, cos_36]
  constructor <;> ring

open Real in
theorem sin_cos_144 :
    sin (144 * π / 180) = (-1/8 + 1/8 * √5) * √(10 + 2 * √5) ∧
    cos (144 * π / 180) = -1/4 + -1/4 * √5 := by
  have h := sin_cos_deg 36
  norm_num at h
  rw [h.2.2.2.2.1, h.2.2.2.2.2, sin_36, cos_36]
  constructor <;> ring

open Real in
theorem sin_cos_162 :
    sin (162 * π / 180) = -1/4 + 1/4 * √5 ∧
    cos (162 * π / 180) = -1/4 * √(10 + 2 * √5) := by
  have h := sin_cos_deg 18
  norm_num at h
  rw [h.2.2.2.2.1, h.2.2.2.2.2, sin_18, cos_18]
  constructor <;> ring

open Real in
/-- C28: for every angle `a` of `0, 18, ..., 162`, with `r = sqrt(10 + 2*sqrt(5))`,
`_18_degree_selector` on a fresh `_Packed` selects coefficients with `(a1_sine +
b1_sine*sqrt(5)) + (a2_sine + b2_sine*sqrt(5))*r = sin(a degrees)` and `(a1_cosine +
b1_cosine*sqrt(5)) + (a2_cosine + b2_cosine*sqrt(5))*r = cos(a degrees)`. -/
theorem selector_18_degree_sine_cosine (a : Int)
    (h : a ∈ ([0, 18, 36, 54, 72, 90, 108, 126, 144, 162] : List Int)) :
    ∃ t, _18_degree_selector _Packed.ctor a = .ok t ∧
      ((t.a1_sine : ℝ) + t.b1_sine * √5) + (t.a2_sine + t.b2_sine * √5) * √(10 + 2 * √5) =
        sin (a * π / 180) ∧
      ((t.a1_cosine : ℝ) + t.b1_cosine * √5) + (t.a2_cosine + t.b2_cosine * √5) *
        √(10 + 2 * √5) = cos (a * π / 180) := by
  simp only [List.mem_cons, List.mem_singleton, List.not_mem_nil, or_false] at h
  rcases h with rfl | rfl | rfl | rfl | rfl | rfl | rfl | rfl | rfl | rfl
  · exact ⟨_, rfl, by simp [_Packed.ctor], by simp [_Packed.ctor]⟩
  · refine ⟨_, rfl, ?_, ?_⟩
    · rw [Int.cast_ofNat, sin_18]
      norm_num [_Packed.ctor]
    · rw [Int.cast_ofNat, cos_18]
      norm_num [_Packed.ctor]
  · refine ⟨_, rfl, ?_, ?_⟩
    · rw [Int.cast_ofNat, sin_36]
      norm_num [_Packed.ctor]
    · rw [Int.cast_ofNat, cos_36]
      norm_num [_Packed.ctor]
  · refine ⟨_, rfl, ?_, ?_⟩
    · rw [Int.cast_ofNat, sin_cos_54.1]
      norm_num [_Packed.ctor]
    · rw [Int.cast_ofNat, sin_cos_54.2]
      norm_num [_Packed.ctor]
  · refine ⟨_, rfl, ?_, ?_⟩
    · rw [Int.cast_ofNat, sin_cos_72.1]
      norm_num [_Packed.ctor]
    · rw [Int.cast_ofNat, sin_cos_72.2]
      norm_num [_Packed.ctor]
  · refine ⟨_, rfl, ?_, ?_⟩
    · rw [Int.cast_ofNat, sin_cos_90.1]
      norm_num [_Packed.ctor]
    · rw [Int.cast_ofNat, sin_cos_90.2]
      norm_num [_Packed.ctor]
  · refine ⟨_, rfl, ?_, ?_⟩
    · rw [Int.cast_ofNat, sin_cos_108.1]
      norm_num [_Packed.ctor]
    · rw [Int.cast_ofNat, sin_cos_108.2]
      norm_num [_Packed.ctor]
  · refine ⟨_, rfl, ?_, ?_⟩
    · rw [Int.cast_ofNat, sin_cos_126.1]
      norm_num [_Packed.ctor]
    · rw [Int.cast_ofNat, sin_cos_126.2]
      norm_num [_Packed.ctor]
  · refine ⟨_, rfl, ?_, ?_⟩
    · rw [Int.cast_ofNat, sin_cos_144.1]
      norm_num [_Packed.ctor]
    · rw [Int.cast_ofNat, sin_cos_144.2]
      norm_num [_Packed.ctor]
  · refine ⟨_, rfl, ?_, ?_⟩
    · rw [Int.cast_ofNat, sin_cos_162.1]
      norm_num [_Packed.ctor]
    · rw [Int.cast_ofNat, sin_cos_162.2]
      norm_num [_Packed.ctor]

open Real in
/-- C28, at 36 degrees. -/
theorem selector_18_degree_sine_cosine_witness :
    ∃ t, _18_degree_selector _Packed.ctor 36 = .ok t ∧
      ((t.a1_sine : ℝ) + t.b1_sine * √5) + (t.a2_sine + t.b2_sine * √5) * √(10 + 2 * √5) =
        sin ((36 : Int) * π / 180) ∧
      ((t.a1_cosine : ℝ) + t.b1_cosine * √5) + (t.a2_cosine + t.b2_cosine * √5) *
        √(10 + 2 * √5) = cos ((36 : Int) * π / 180) :=
  selector_18_degree_sine_cosine 36 (by decide)

/-! ## Angles that are not multiples of the base angle -/

/-- The engine of the base angle 15 on an angle that is not a multiple of 15. -/
theorem rotation_traits_base_15_error (angle : Int) (h : angle.tmod 15 ≠ 0) :
    Rotation_traits_base_15 angle = .error "angle is not a multiple of 15" := by
  unfold Rotation_traits_base_15
  simp only [h, ne_eq, not_false_eq_true, if_true]

/-- C25: `Rotation_traits<K, 15>::operator()` on the angle 20 and `Rotation_traits<K, 45>::
operator()` on the angle 50 do not clamp the angle to the nearest multiple of the base angle:
the engine raises the error "angle is not a multiple of 15" (of 45); the angle 380 is reduced
to 20 and fails in the same way, the angle -345 is reduced to 15 and is accepted. -/
theorem rotation_traits_rejects_other_angles :
    Rotation_traits Rotation_traits_base_15 20 = .error "angle is not a multiple of 15" ∧
    Rotation_traits Rotation_traits_base_45 50 = .error "angle is not a multiple of 45" ∧
    Rotation_traits Rotation_traits_base_15 380 = .error "angle is not a multiple of 15" ∧
    Rotation_traits Rotation_traits_base_15 (-345) =
      .ok (⟨⟨0, -1/4, 2⟩, ⟨0, 1/4, 2⟩, 3⟩, ⟨⟨0, 1/4, 2⟩, ⟨0, 1/4, 2⟩, 3⟩,
        ⟨⟨0, 0, 2⟩, ⟨0, 0, 2⟩, 3⟩, 15) :=
  ⟨rfl, rfl, rfl, rfl⟩

/-! ## The signs of the approximate rotation -/

open Real in
/-- C29: on the angle 400 the flag `greater_180` is set before the angle is reduced to 40, so
the rational sine used in the substitution is negative (`-4/5` for `t = 2`) although
`sin(400 degrees)` is positive; on the angle -30 no flag is set and the angle is reduced to 30,
so the rational sine is positive although `sin(-30 degrees)` is negative. -/
theorem reduce_angle_flags_before_reduction :
    reduce_angle 400 = (true, false, 40) ∧
    signed_sine_cosine 2 true false = (-4/5, 3/5) ∧
    0 < sin ((400 : Int) * π / 180) ∧
    reduce_angle (-30) = (false, false, 30) ∧
    signed_sine_cosine 2 false false = (4/5, 3/5) ∧
    sin ((-30 : Int) * π / 180) < 0 := by
  refine ⟨rfl, ?_, ?_, rfl, ?_, ?_⟩
  · norm_num [signed_sine_cosine, abs_of_nonneg]
  · have e : ((400 : Int) : ℝ) * π / 180 = 2 * π / 9 + 2 * π := by push_cast; ring
    rw [e, sin_add_two_pi]
    apply sin_pos_of_pos_of_lt_pi <;> nlinarith [pi_pos]
  · norm_num [signed_sine_cosine, abs_of_nonneg]
  · have e : ((-30 : Int) : ℝ) * π / 180 = -(π / 6) := by push_cast; ring
    rw [e, sin_neg, sin_pi_div_six]
    norm_num

/-! ## The rational rotation of the approximate kernel -/

/-- The squares of `2/(t+1/t)` and of `(t-1/t)/(t+1/t)` add up to `1`. -/
theorem rational_point_on_circle (t : ℚ) (ht : t ≠ 0) :
    (2 / (t + 1 / t)) ^ 2 + ((t - 1 / t) / (t + 1 / t)) ^ 2 = 1 := by
  have h1 : t ^ 2 + 1 ≠ 0 := by positivity
  have e1 : 2 / (t + 1 / t) = 2 * t / (t ^ 2 + 1) := by
    have : t + 1 / t = (t ^ 2 + 1) / t := by field_simp; ring
    rw [this, div_div_eq_mul_div]
  have e2 : (t - 1 / t) / (t + 1 / t) = (t ^ 2 - 1) / (t ^ 2 + 1) := by
    have : t + 1 / t = (t ^ 2 + 1) / t := by field_simp; ring
    have h3 : t - 1 / t = (t ^ 2 - 1) / t := by field_simp; ring
    rw [this, h3, div_div_div_cancel_right₀ ht]
  rw [e1, e2, div_pow, div_pow, ← add_div, div_eq_one_iff_eq (pow_ne_zero 2 h1)]
  ring

/-- C38. For every non-zero rational `t` and every value of the two flags, the pair
`(sine, cosine)` that `signed_sine_cosine` returns satisfies `sine^2 + cosine^2 = 1` exactly,
and the substituted linear map `(x, y) -> (cosine*x + sine*y, -sine*x + cosine*y)` is an exact
rotation: it has determinant `1`, keeps the squared length of every point and the scalar
product of every two points. -/
theorem approximate_rotation_is_exact (t : ℚ) (ht : t ≠ 0)
    (greater_180 between_90_and_270 : Bool) :
    (signed_sine_cosine t greater_180 between_90_and_270).1 ^ 2 +
      (signed_sine_cosine t greater_180 between_90_and_270).2 ^ 2 = 1 ∧
    (substituted_map (signed_sine_cosine t greater_180 between_90_and_270) (1, 0)).1 *
        (substituted_map (signed_sine_cosine t greater_180 between_90_and_270) (0, 1)).2 -
      (substituted_map (signed_sine_cosine t greater_180 between_90_and_270) (0, 1)).1 *
        (substituted_map (signed_sine_cosine t greater_180 between_90_and_270) (1, 0)).2 = 1 ∧
    (∀ p : ℚ × ℚ,
      (substituted_map (signed_sine_cosine t greater_180 between_90_and_270) p).1 ^ 2 +
        (substituted_map (signed_sine_cosine t greater_180 between_90_and_270) p).2 ^ 2 =
      p.1 ^ 2 + p.2 ^ 2) ∧
    (∀ p q : ℚ × ℚ,
      (substituted_map (signed_sine_cosine t greater_180 between_90_and_270) p).1 *
          (substituted_map (signed_sine_cosine t greater_180 between_90_and_270) q).1 +
        (substituted_map (signed_sine_cosine t greater_180 between_90_and_270) p).2 *
          (substituted_map (signed_sine_cosine t greater_180 between_90_and_270) q).2 =
      p.1 * q.1 + p.2 * q.2) := by
  have h := rational_point_on_circle t ht
  have hsc : (signed_sine_cosine t greater_180 between_90_and_270).1 ^ 2 +
      (signed_sine_cosine t greater_180 between_90_and_270).2 ^ 2 = 1 := by
    cases greater_180 <;> cases between_90_and_270 <;>
      simp only [signed_sine_cosine, if_true, if_false, Bool.false_eq_true, neg_sq, sq_abs] <;>
      exact h
  generalize signed_sine_cosine t greater_180 between_90_and_270 = sc at hsc
  obtain ⟨s, c⟩ := sc
  simp only at hsc
  refine ⟨hsc, ?_, ?_, ?_⟩
  · simp only [substituted_map]
    linear_combination hsc
  · intro p
    simp only [substituted_map]
    linear_combination (p.1 ^ 2 + p.2 ^ 2) * hsc
  · intro p q
    simp only [substituted_map]
    linear_combination (p.1 * q.1 + p.2 * q.2) * hsc

theorem approximate_rotation_is_exact_witness :
    (signed_sine_cosine 2 true true).1 ^ 2 + (signed_sine_cosine 2 true true).2 ^ 2 = 1 :=
  (approximate_rotation_is_exact 2 (by norm_num) true true).1

/-! ## The sine and the cosine of 3 degrees -/

open Real in
theorem sqrt_ten_add : √(10 + 2 * √5) = √2 * √(5 + √5) := by
  rw [← Real.sqrt_mul (by norm_num : (0 : ℝ) ≤ 2)]
  congr 1
  ring

open Real in
theorem sin_3 : sin (3 * π / 180) =
    -1/16 * √2 - 1/16 * √2 * √3 + 1/16 * √2 * √5 + 1/16 * √2 * √3 * √5 +
      (1/8 - 1/8 * √3) * √(5 + √5) := by
  have e : (3 : ℝ) * π / 180 = 18 * π / 180 - 15 * π / 180 := by ring
  have ha : √2 * √2 = 2 := Real.mul_self_sqrt (by norm_num)
  rw [e, sin_sub, sin_18, cos_18, sin_15, cos_15, sqrt_ten_add, ← sqrt_two_mul_sqrt_three]
  linear_combination (-(√(5 + √5) * (√3 - 1)) / 16) * ha

open Real in
theorem cos_3 : cos (3 * π / 180) =
    1/16 * √2 - 1/16 * √2 * √3 - 1/16 * √2 * √5 + 1/16 * √2 * √3 * √5 +
      (1/8 + 1/8 * √3) * √(5 + √5) := by
  have e : (3 : ℝ) * π / 180 = 18 * π / 180 - 15 * π / 180 := by ring
  have ha : √2 * √2 = 2 := Real.mul_self_sqrt (by norm_num)
  rw [e, cos_sub, sin_18, cos_18, sin_15, cos_15, sqrt_ten_add, ← sqrt_two_mul_sqrt_three]
  linear_combination ((√(5 + √5) * (√3 + 1)) / 16) * ha

open Real Rotation_traits_base_3 in
theorem value_esine3 : value_EXT5 Real.sqrt esine3 = sin (3 * π / 180) := by
  rw [sin_3]
  simp only [value_EXT5, value_EXT4, value_EXT3, value_EXT2, value_EXT4_int, value_EXT3_int,
    value_EXT2_int, esine3, root_5_plus_sqrt_5]
  push_cast
  ring_nf

open Real Rotation_traits_base_3 in
theorem value_ecosine3 : value_EXT5 Real.sqrt ecosine3 = cos (3 * π / 180) := by
  rw [cos_3]
  simp only [value_EXT5, value_EXT4, value_EXT3, value_EXT2, value_EXT4_int, value_EXT3_int,
    value_EXT2_int, ecosine3, root_5_plus_sqrt_5]
  push_cast
  ring_nf

open Real Rotation_traits_base_3 in
/-- C37. With the value `a0 + a1 * sqrt(root)` of a `Sqrt_extension` and `r = sqrt(5 +
sqrt(5))`, the constants `esine3` and `ecosine3` of the engine of the base angle 3 are exactly
`sin(3 degrees)` and `cos(3 degrees)`: `esine3 = (-sqrt(2) - sqrt(6) + sqrt(10) + sqrt(30))/16
+ ((1 - sqrt(3))/8)*r` and `ecosine3 = (sqrt(2) - sqrt(6) - sqrt(10) + sqrt(30))/16 + ((1 +
sqrt(3))/8)*r`, and `esine3^2 + ecosine3^2 = 1`. Hence a step of the addition loop rotates by
exactly 3 degrees: it takes the sine and the cosine of `x` to those of `x + 3 degrees`, and to
those of `x - 3 degrees` when `esine3` has been negated. -/
theorem esine3_ecosine3_are_exact :
    value_EXT5 Real.sqrt esine3 = sin (3 * π / 180) ∧
    value_EXT5 Real.sqrt ecosine3 = cos (3 * π / 180) ∧
    value_EXT5 Real.sqrt esine3 =
      (-√2 - √6 + √10 + √30) / 16 + ((1 - √3) / 8) * √(5 + √5) ∧
    value_EXT5 Real.sqrt ecosine3 =
      (√2 - √6 - √10 + √30) / 16 + ((1 + √3) / 8) * √(5 + √5) ∧
    value_EXT5 Real.sqrt esine3 ^ 2 + value_EXT5 Real.sqrt ecosine3 ^ 2 = 1 ∧
    (∀ x : ℝ, addition_step (value_EXT5 Real.sqrt esine3) (value_EXT5 Real.sqrt ecosine3)
      (sin x, cos x) = (sin (x + 3 * π / 180), cos (x + 3 * π / 180))) ∧
    (∀ x : ℝ, addition_step (-value_EXT5 Real.sqrt esine3) (value_EXT5 Real.sqrt ecosine3)
      (sin x, cos x) = (sin (x - 3 * π / 180), cos (x - 3 * π / 180))) := by
  have h6 : (√6 : ℝ) = √2 * √3 := sqrt_two_mul_sqrt_three.symm
  have h10 : (√10 : ℝ) = √2 * √5 := by
    rw [← Real.sqrt_mul (by norm_num : (0 : ℝ) ≤ 2)]; norm_num
  have h30 : (√30 : ℝ) = √2 * √3 * √5 := by
    rw [← Real.sqrt_mul (by norm_num : (0 : ℝ) ≤ 2), ← Real.sqrt_mul (by norm_num : (0 : ℝ) ≤ 2 * 3)]
    norm_num
  refine ⟨value_esine3, value_ecosine3, ?_, ?_, ?_, ?_, ?_⟩
  · rw [value_esine3, sin_3, h6, h10, h30]; ring
  · rw [value_ecosine3, cos_3, h6, h10, h30]; ring
  · rw [value_esine3, value_ecosine3]; exact sin_sq_add_cos_sq _
  · intro x
    rw [value_esine3, value_ecosine3, sin_add, cos_add]
    simp only [addition_step, Prod.mk.injEq]
    constructor <;> ring_nf
  · intro x
    rw [value_esine3, value_ecosine3, sin_sub, cos_sub]
    simp only [addition_step, Prod.mk.injEq]
    constructor <;> ring

/-! ## The addition loop of the engine of the base angle 3 -/

open Rotation_traits_base_3 in
/-- Entered at `start` with `angle = start + inc * n` and `inc ≠ 0`, the addition loop stops
after exactly `n` runs of its body, with `angle_help = angle`. -/
theorem addition_loop_exact {E : Type} [Mul E] [Add E] [Sub E] (angle inc : Int)
    (esine3 ecosine3 : E) (hinc : inc ≠ 0) (n : Nat) :
    ∀ (s0 : E × E) (start : Int), angle = start + inc * n →
      (∃ s1, addition_loop angle inc esine3 ecosine3 n (s0, start) = some (s1, angle)) ∧
      ∀ m, m < n → addition_loop angle inc esine3 ecosine3 m (s0, start) = none := by
  induction n with
  | zero =>
    intro s0 start h
    have h0 : angle - start = 0 := by rw [h]; simp
    refine ⟨⟨s0, ?_⟩, fun m hm => absurd hm (Nat.not_lt_zero m)⟩
    have : start = angle := by omega
    simp only [addition_loop, this, sub_self, ne_eq, not_true_eq_false, if_false]
  | succ n ih =>
    intro s0 start h
    have hne : angle - start ≠ 0 := by
      rw [h]
      simp only [add_sub_cancel_left, ne_eq, mul_eq_zero, hinc, false_or]
      exact_mod_cast Nat.succ_ne_zero n
    have h' : angle = (start + inc) + inc * n := by rw [h]; push_cast; ring
    obtain ⟨⟨s1, h1⟩, h2⟩ := ih (addition_step esine3 ecosine3 s0) (start + inc) h'
    refine ⟨⟨s1, ?_⟩, fun m hm => ?_⟩
    · simp only [addition_loop, hne, ne_eq, not_false_eq_true, if_true]
      exact h1
    · cases m with
      | zero => simp only [addition_loop, hne, ne_eq, not_false_eq_true, if_true]
      | succ m =>
        simp only [addition_loop, hne, ne_eq, not_false_eq_true, if_true]
        exact h2 m (Nat.lt_of_succ_lt_succ hm)

open Rotation_traits_base_3 in
/-- More fuel than needed does not change the result of the addition loop. -/
theorem addition_loop_enough {E : Type} [Mul E] [Add E] [Sub E] (angle inc : Int)
    (esine3 ecosine3 : E) (n : Nat) :
    ∀ (s r : (E × E) × Int), addition_loop angle inc esine3 ecosine3 n s = some r →
      ∀ k, addition_loop angle inc esine3 ecosine3 (n + k) s = some r := by
  induction n with
  | zero =>
    intro s r h k
    by_cases hc : angle - s.2 ≠ 0
    · simp only [addition_loop, hc, ne_eq, not_false_eq_true, if_true] at h
      exact absurd h (by simp)
    · simp only [addition_loop, hc, if_false] at h
      cases k with
      | zero => simp only [addition_loop, hc, if_false]; exact h
      | succ k => simp only [Nat.zero_add, addition_loop, hc, if_false]; exact h
  | succ n ih =>
    intro s r h k
    rw [Nat.succ_add]
    by_cases hc : angle - s.2 ≠ 0
    · simp only [addition_loop, hc, ne_eq, not_false_eq_true, if_true] at h ⊢
      exact ih _ r h k
    · simp only [addition_loop, hc, if_false] at h ⊢
      exact h

open Rotation_traits_base_3 in
/-- The start of the addition for the multiples of 3 in `[0, 360)`, checked angle by angle. -/
theorem start_point_facts : ∀ k : Fin 120,
    (loop_start (nearest_multiple_of_15 (3 * (k : Int)))).tmod 15 = 0 ∧
    (3 * (k : Int) - loop_start (nearest_multiple_of_15 (3 * (k : Int)))).natAbs ≤ 6 ∧
    selector_angle (nearest_multiple_of_15 (3 * (k : Int))) ∈
      ([0, 15, 30, 45, 60, 75, 90, 105, 120, 135, 150, 165] : List Int) ∧
    (3 * (k : Int) - loop_start (nearest_multiple_of_15 (3 * (k : Int)))).natAbs / 3 ≤ 2 ∧
    3 * (k : Int) = loop_start (nearest_multiple_of_15 (3 * (k : Int))) +
      inc (nearest_multiple_of_15 (3 * (k : Int))) *
        (((3 * (k : Int) - loop_start (nearest_multiple_of_15 (3 * (k : Int)))).natAbs / 3 :
          Nat) : Int) ∧
    ((nearest_multiple_of_15 (3 * (k : Int))).use_addition = true ∨
      (3 * (k : Int) - loop_start (nearest_multiple_of_15 (3 * (k : Int)))).natAbs / 3 = 0) := by
  decide

/-- On the angles `0, 15, ..., 165` the selector returns coefficients. -/
theorem selector_15_degree_ok (a : Int)
    (h : a ∈ ([0, 15, 30, 45, 60, 75, 90, 105, 120, 135, 150, 165] : List Int)) :
    ∃ t, _15_degree_selector _Packed.ctor a = .ok t := by
  simp only [List.mem_cons, List.mem_singleton, List.not_mem_nil, or_false] at h
  rcases h with rfl | rfl | rfl | rfl | rfl | rfl | rfl | rfl | rfl | rfl | rfl | rfl <;>
    exact ⟨_, rfl⟩

theorem inc_ne_zero (s : Rotation_traits_base_3.Start_point) :
    Rotation_traits_base_3.inc s ≠ 0 := by
  unfold Rotation_traits_base_3.inc
  split_ifs <;> decide

open Rotation_traits_base_3 in
/-- C36. For every angle in `[0, 360)` that is a multiple of 3, the engine of the base angle 3
starts from a multiple of 15 at distance at most 6 from the angle (`360` for the angles
above `352`), calls `_15_degree_selector` with a value of `0, 15, ..., 165`, and its addition
loop, entered at that start, runs its body exactly `|angle - start| / 3 <= 2` times and stops
with `angle_help` equal to the angle. The operator returns its result as soon as the fuel
covers these runs, and not with less. -/
theorem addition_loop_of_base_angle_3_terminates (angle : Int) (h0 : 0 ≤ angle)
    (h1 : angle < 360) (h3 : angle.tmod 3 = 0) :
    (loop_start (nearest_multiple_of_15 angle)).tmod 15 = 0 ∧
    (angle - loop_start (nearest_multiple_of_15 angle)).natAbs ≤ 6 ∧
    selector_angle (nearest_multiple_of_15 angle) ∈
      ([0, 15, 30, 45, 60, 75, 90, 105, 120, 135, 150, 165] : List Int) ∧
    (angle - loop_start (nearest_multiple_of_15 angle)).natAbs / 3 ≤ 2 ∧
    (∀ (E : Type) [Mul E] [Add E] [Sub E] (e3 c3 : E) (s0 : E × E),
      (∃ s1, addition_loop angle (inc (nearest_multiple_of_15 angle)) e3 c3
          ((angle - loop_start (nearest_multiple_of_15 angle)).natAbs / 3)
          (s0, loop_start (nearest_multiple_of_15 angle)) = some (s1, angle)) ∧
      ∀ m, m < (angle - loop_start (nearest_multiple_of_15 angle)).natAbs / 3 →
        addition_loop angle (inc (nearest_multiple_of_15 angle)) e3 c3 m
          (s0, loop_start (nearest_multiple_of_15 angle)) = none) ∧
    (∀ (E : Type) [Mul E] [Add E] [Sub E] [Neg E] (of_EXT5 : EXT5 → E) (fuel : Nat),
      ((angle - loop_start (nearest_multiple_of_15 angle)).natAbs / 3 ≤ fuel →
        ∃ es ec, Rotation_traits_base_3 of_EXT5 fuel angle =
          some (.ok (es, ec, of_EXT5 ezero, angle))) ∧
      (fuel < (angle - loop_start (nearest_multiple_of_15 angle)).natAbs / 3 →
        Rotation_traits_base_3 of_EXT5 fuel angle = none)) := by
  have hmod : angle % 3 = 0 := by rw [← tmod_of_nonneg angle 3 h0]; exact h3
  obtain ⟨k, hk, hangle⟩ : ∃ k : Nat, k < 120 ∧ angle = 3 * (k : Int) :=
    ⟨(angle / 3).toNat, by omega, by omega⟩
  have hf := start_point_facts ⟨k, hk⟩
  simp only [← hangle] at hf
  obtain ⟨f1, f2, f3, f4, f5, f6⟩ := hf
  refine ⟨f1, f2, f3, f4, ?_, ?_⟩
  · intro E _ _ _ e3 c3 s0
    exact addition_loop_exact angle _ e3 c3 (inc_ne_zero _) _ s0 _ f5
  · intro E _ _ _ _ of_EXT5 fuel
    obtain ⟨t, ht⟩ := selector_15_degree_ok _ f3
    constructor
    · intro hle
      unfold Rotation_traits_base_3
      simp only [h3, ne_eq, not_true_eq_false, if_false, ht]
      cases hu : (nearest_multiple_of_15 angle).use_addition
      · exact ⟨_, _, rfl⟩
      · simp only [if_true]
        obtain ⟨⟨s1, hs1⟩, _⟩ := addition_loop_exact angle _
          (if (nearest_multiple_of_15 angle).new_start_point = true then -of_EXT5 esine3
            else of_EXT5 esine3) (of_EXT5 ecosine3) (inc_ne_zero _) _
          (if sign (nearest_multiple_of_15 angle) = -1 then
              -of_EXT5 (extended t.a1_sine t.b1_sine t.a2_sine t.b2_sine)
            else of_EXT5 (extended t.a1_sine t.b1_sine t.a2_sine t.b2_sine),
           if sign (nearest_multiple_of_15 angle) = -1 then
              -of_EXT5 (extended t.a1_cosine t.b1_cosine t.a2_cosine t.b2_cosine)
            else of_EXT5 (extended t.a1_cosine t.b1_cosine t.a2_cosine t.b2_cosine)) _ f5
        obtain ⟨d, hd⟩ := Nat.exists_eq_add_of_le hle
        have := addition_loop_enough angle _ _ _ _ _ _ hs1 d
        rw [← hd] at this
        rw [this]
        exact ⟨_, _, rfl⟩
    · intro hlt
      rcases f6 with hu | hz
      · unfold Rotation_traits_base_3
        simp only [h3, ne_eq, not_true_eq_false, if_false, ht, hu, if_true]
        obtain ⟨_, hnone⟩ := addition_loop_exact angle _
          (if (nearest_multiple_of_15 angle).new_start_point = true then -of_EXT5 esine3
            else of_EXT5 esine3) (of_EXT5 ecosine3) (inc_ne_zero _) _
          (if sign (nearest_multiple_of_15 angle) = -1 then
              -of_EXT5 (extended t.a1_sine t.b1_sine t.a2_sine t.b2_sine)
            else of_EXT5 (extended t.a1_sine t.b1_sine t.a2_sine t.b2_sine),
           if sign (nearest_multiple_of_15 angle) = -1 then
              -of_EXT5 (extended t.a1_cosine t.b1_cosine t.a2_cosine t.b2_cosine)
            else of_EXT5 (extended t.a1_cosine t.b1_cosine t.a2_cosine t.b2_cosine)) _ f5
        rw [hnone fuel hlt]
      · rw [hz] at hlt
        exact absurd hlt (Nat.not_lt_zero fuel)

open Rotation_traits_base_3 in
/-- C36 at 357 degrees: the start is 360, the selector is called with 0, and the loop runs
once. -/
theorem addition_loop_of_base_angle_3_terminates_witness :
    loop_start (nearest_multiple_of_15 357) = 360 ∧
    selector_angle (nearest_multiple_of_15 357) = 0 ∧
    (357 - loop_start (nearest_multiple_of_15 357)).natAbs / 3 = 1 ∧
    (loop_start (nearest_multiple_of_15 357)).tmod 15 = 0 ∧
    (357 - loop_start (nearest_multiple_of_15 357)).natAbs ≤ 6 :=
  have h := addition_loop_of_base_angle_3_terminates 357 (by decide) (by decide) (by decide)
  ⟨by decide, by decide, by decide, h.1, h.2.1⟩

end Rotated_algebraic_curve_kernel_2
